import Mathlib

/-!
# GLOVE (OpenGL ES 2.0 over Vulkan): verification development

A shallow embedding of the context operations of GLOVE
(`GLES/source/context/*.cpp`, `GLES/source/vulkan/pipeline.h`,
`GLES/source/resources/framebuffer.h`) and theorems about them.

Conventions of the embedding.

* `GLenum`, `GLuint` are natural numbers; `GLsizeiptr`, `GLint` are integers,
  a narrowing cast is written out as a reduction modulo `2^32`.
* A pointer to an object owned by one of the resource manager's arrays is the
  index the object is stored at; `none` is the null pointer.
* An operation that dereferences a pointer returns `Option Context`; `none`
  means that a null or dangling pointer was dereferenced (no defined result).
* `Context.mErrors` is the sequence of `RecordError` calls, `Context.mTrace`
  the sequence of the state-changing calls the theorems speak about, both in
  call order.
-/

namespace GLOVE

/-! ## OpenGL ES / Vulkan constants -/

abbrev GLenum := Nat
abbrev GLuint := Nat
abbrev GLint := Int
abbrev GLsizeiptr := Int
/-- A `float`, kept as its bit pattern: the code below only copies floats. -/
abbrev GLfloat := Nat

def GL_NONE : GLenum := 0
def GL_INVALID_ENUM : GLenum := 0x0500
def GL_INVALID_VALUE : GLenum := 0x0501
def GL_INVALID_OPERATION : GLenum := 0x0502
def GL_OUT_OF_MEMORY : GLenum := 0x0505
def GL_CW : GLenum := 0x0900
def GL_CCW : GLenum := 0x0901
def GL_TEXTURE_2D : GLenum := 0x0DE1
def GL_TEXTURE : GLenum := 0x1702
def GL_TEXTURE_CUBE_MAP : GLenum := 0x8513
def GL_TEXTURE_CUBE_MAP_POSITIVE_X : GLenum := 0x8515
def GL_TEXTURE_CUBE_MAP_NEGATIVE_Z : GLenum := 0x851A
def GL_BUFFER_SIZE : GLenum := 0x8764
def GL_BUFFER_USAGE : GLenum := 0x8765
def GL_ARRAY_BUFFER : GLenum := 0x8892
def GL_ELEMENT_ARRAY_BUFFER : GLenum := 0x8893
def GL_STREAM_DRAW : GLenum := 0x88E0
def GL_STATIC_DRAW : GLenum := 0x88E4
def GL_DYNAMIC_DRAW : GLenum := 0x88E8
def GL_COLOR_ATTACHMENT0 : GLenum := 0x8CE0
def GL_DEPTH_ATTACHMENT : GLenum := 0x8D00
def GL_STENCIL_ATTACHMENT : GLenum := 0x8D20
def GL_FRAMEBUFFER : GLenum := 0x8D40
def GL_FLOAT : GLenum := 0x1406
def GL_BOOL : GLenum := 0x8B56
def GL_FLOAT_MAT2 : GLenum := 0x8B5A
def GL_FLOAT_MAT3 : GLenum := 0x8B5B
def GL_FRAMEBUFFER_COMPLETE : GLenum := 0x8CD5
def GL_FRAMEBUFFER_INCOMPLETE_MISSING_ATTACHMENT : GLenum := 0x8CD7
def GL_RENDERBUFFER : GLenum := 0x8D41

def VK_FRONT_FACE_COUNTER_CLOCKWISE : Nat := 0
def VK_FRONT_FACE_CLOCKWISE : Nat := 1
def VK_IMAGE_USAGE_COLOR_ATTACHMENT_BIT : Nat := 0x10
def VK_IMAGE_LAYOUT_COLOR_ATTACHMENT_OPTIMAL : Nat := 2

/-- The value of `static_cast<GLint>(x)` for an unsigned `x`: the low 32 bits
read as a two's complement number. -/
def toGLint (x : Nat) : GLint :=
  if x % 2 ^ 32 < 2 ^ 31 then (x % 2 ^ 32 : Nat) else (x % 2 ^ 32 : Nat) - 2 ^ 32

/-! ## `vulkanAPI::Pipeline` (pipeline.h) -/

/-- The anonymous struct `mUpdateState` of `vulkanAPI::Pipeline`. -/
structure UpdateState where
  Pipeline : Bool
  VertexAttribVBOs : Bool
  IndexBuffer : Bool
  Viewport : Bool
deriving DecidableEq, Repr

/-- The fields of `VkPipelineColorBlendAttachmentState` the setters write. -/
structure VkPipelineColorBlendAttachmentState where
  blendEnable : Nat
  srcColorBlendFactor : Nat
  dstColorBlendFactor : Nat
  colorBlendOp : Nat
  srcAlphaBlendFactor : Nat
  dstAlphaBlendFactor : Nat
  alphaBlendOp : Nat
  colorWriteMask : Nat
deriving DecidableEq, Repr

/-- The data members of `vulkanAPI::Pipeline` written by the setters embedded
below; `blendConstants` is `mVkPipelineColorBlendState.blendConstants`,
`depthWriteEnable` is `mVkPipelineDepthStencilState.depthWriteEnable`,
`frontFace` is `mVkPipelineRasterizationState.frontFace`. -/
structure Pipeline where
  mVkPipelineColorBlendAttachmentState : VkPipelineColorBlendAttachmentState
  blendConstants : Fin 4 → GLfloat
  depthWriteEnable : Nat
  frontFace : Nat
  mYInverted : Bool
  mUpdateState : UpdateState

namespace Pipeline

def GetUpdatePipelineState (p : Pipeline) : Bool := p.mUpdateState.Pipeline
def GetUpdateViewportState (p : Pipeline) : Bool := p.mUpdateState.Viewport
def GetUpdateVertexAttribVBOs (p : Pipeline) : Bool := p.mUpdateState.VertexAttribVBOs
def GetUpdateIndexBuffer (p : Pipeline) : Bool := p.mUpdateState.IndexBuffer

def SetUpdateIndexBuffer (p : Pipeline) (enable : Bool) : Pipeline :=
  { p with mUpdateState := { p.mUpdateState with IndexBuffer := enable } }

def SetUpdateVertexAttribVBOs (p : Pipeline) (enable : Bool) : Pipeline :=
  { p with mUpdateState := { p.mUpdateState with VertexAttribVBOs := enable } }

def SetUpdateViewportState (p : Pipeline) (enable : Bool) : Pipeline :=
  { p with mUpdateState := { p.mUpdateState with Viewport := enable } }

def SetUpdatePipeline (p : Pipeline) (enable : Bool) : Pipeline :=
  { p with mUpdateState := { p.mUpdateState with Pipeline := enable } }

/-- The setter first computes `face = !mYInverted ? face : (face == CLOCKWISE ? COUNTER_CLOCKWISE : CLOCKWISE)`. -/
def SetRasterizationFrontFace (p : Pipeline) (face : Nat) : Pipeline :=
  let face1 := if !p.mYInverted then face
    else (if face = VK_FRONT_FACE_CLOCKWISE then VK_FRONT_FACE_COUNTER_CLOCKWISE
          else VK_FRONT_FACE_CLOCKWISE)
  { p with frontFace := face1, mUpdateState := { p.mUpdateState with Pipeline := true } }

def SetColorBlendAttachmentEnable (p : Pipeline) (enable : Nat) : Pipeline :=
  { p with
    mVkPipelineColorBlendAttachmentState :=
      { p.mVkPipelineColorBlendAttachmentState with blendEnable := enable },
    mUpdateState := { p.mUpdateState with Pipeline := true } }

/-- The argument `float *color` is read at the indices 0 to 3. -/
def SetColorBlendConstants (p : Pipeline) (color : Nat → GLfloat) : Pipeline :=
  { p with
    blendConstants := fun i => color i.val,
    mUpdateState := { p.mUpdateState with Pipeline := true } }

def SetColorBlendAttachmentWriteMask (p : Pipeline) (mask : Nat) : Pipeline :=
  { p with
    mVkPipelineColorBlendAttachmentState :=
      { p.mVkPipelineColorBlendAttachmentState with colorWriteMask := mask },
    mUpdateState := { p.mUpdateState with Pipeline := true } }

def SetColorBlendAttachmentSrcColorFactor (p : Pipeline) (factor : Nat) : Pipeline :=
  { p with
    mVkPipelineColorBlendAttachmentState :=
      { p.mVkPipelineColorBlendAttachmentState with srcColorBlendFactor := factor },
    mUpdateState := { p.mUpdateState with Pipeline := true } }

def SetColorBlendAttachmentDstColorFactor (p : Pipeline) (factor : Nat) : Pipeline :=
  { p with
    mVkPipelineColorBlendAttachmentState :=
      { p.mVkPipelineColorBlendAttachmentState with dstColorBlendFactor := factor },
    mUpdateState := { p.mUpdateState with Pipeline := true } }

def SetColorBlendAttachmentSrcAlphaFactor (p : Pipeline) (factor : Nat) : Pipeline :=
  { p with
    mVkPipelineColorBlendAttachmentState :=
      { p.mVkPipelineColorBlendAttachmentState with srcAlphaBlendFactor := factor },
    mUpdateState := { p.mUpdateState with Pipeline := true } }

def SetColorBlendAttachmentDstAlphaFactor (p : Pipeline) (factor : Nat) : Pipeline :=
  { p with
    mVkPipelineColorBlendAttachmentState :=
      { p.mVkPipelineColorBlendAttachmentState with dstAlphaBlendFactor := factor },
    mUpdateState := { p.mUpdateState with Pipeline := true } }

def SetColorBlendAttachmentColorOp (p : Pipeline) (op : Nat) : Pipeline :=
  { p with
    mVkPipelineColorBlendAttachmentState :=
      { p.mVkPipelineColorBlendAttachmentState with colorBlendOp := op },
    mUpdateState := { p.mUpdateState with Pipeline := true } }

def SetColorBlendAttachmentAlphaOp (p : Pipeline) (op : Nat) : Pipeline :=
  { p with
    mVkPipelineColorBlendAttachmentState :=
      { p.mVkPipelineColorBlendAttachmentState with alphaBlendOp := op },
    mUpdateState := { p.mUpdateState with Pipeline := true } }

def SetDepthWriteEnable (p : Pipeline) (enable : Nat) : Pipeline :=
  { p with depthWriteEnable := enable,
           mUpdateState := { p.mUpdateState with Pipeline := true } }

def SetYInverted (p : Pipeline) (yInverted : Bool) : Pipeline :=
  { p with mYInverted := yInverted }

end Pipeline

/-! ## Resource objects

The classes `BufferObject`, `ShaderProgram`, `Texture`, `Renderbuffer`,
`Attachment` and the container `ObjectArray` are declared in headers that are
not among the sources; they are modelled by the members the context functions
read and write. -/

/-- Modelled from the spec: `BufferObject` (resources/bufferObject.h is missing).
A buffer has a target, a usage, and a data store of `mSize` bytes that exists
when `mAllocated` holds; `mData` is the memory the store was initialised from
(byte `i` of it is `mData i`), `none` for an uninitialised store. -/
structure BufferObject where
  mTarget : GLenum
  mUsage : GLenum
  mAllocated : Bool
  mSize : Nat
  mData : Option (Nat → Nat)

namespace BufferObject

def SetTarget (b : BufferObject) (target : GLenum) : BufferObject := { b with mTarget := target }
def GetTarget (b : BufferObject) : GLenum := b.mTarget
def SetUsage (b : BufferObject) (usage : GLenum) : BufferObject := { b with mUsage := usage }
def GetUsage (b : BufferObject) : GLenum := b.mUsage
def GetSize (b : BufferObject) : Nat := b.mSize
def HasData (b : BufferObject) : Bool := b.mAllocated
def IsIndexBuffer (b : BufferObject) : Bool := b.mTarget == GL_ELEMENT_ARRAY_BUFFER

/-- Modelled from the spec: `BufferObject::Release` frees the data store. -/
def Release (b : BufferObject) : BufferObject :=
  { b with mAllocated := false, mSize := 0, mData := none }

/-- Modelled from the spec: `BufferObject::Allocate(size, data)`. The result of
the native allocation is the argument `ok`; on success the buffer owns a data
store of `size` bytes initialised from `data`, on failure ("resource
exhaustion") it owns none. -/
def Allocate (b : BufferObject) (ok : Bool) (size : Nat) (data : Option (Nat → Nat)) :
    Bool × BufferObject :=
  if ok then (true, { b with mAllocated := true, mSize := size, mData := data })
  else (false, { b with mAllocated := false, mSize := 0, mData := none })

end BufferObject

/-- The members of `ShaderResourceInterface::uniform` the context functions
read (its header is missing): the name, the location of element 0 (a
`uint32_t`), the number of elements and the type. -/
structure ShaderResourceInterface.uniform where
  reflectionName : List Char
  location : Nat
  arraySize : Int
  glType : GLenum
deriving DecidableEq, Repr

/-- Modelled from the spec: `ShaderProgram` (resources/shaderProgram.h is
missing): the link status, the deletion mark, the attached vertex and fragment
shader (pointers into the shader array), the stage ids, the flag raised by
`EnableUpdateOfDescriptorSets` and the active uniforms. -/
structure ShaderProgram where
  mLinked : Bool
  mMarkForDeletion : Bool
  mVertexShader : Option Nat
  mFragmentShader : Option Nat
  mStagesIDs : Int × Int
  mUpdateDescriptorSets : Bool
  mUniforms : List ShaderResourceInterface.uniform := []
deriving DecidableEq, Repr

namespace ShaderProgram

def IsLinked (p : ShaderProgram) : Bool := p.mLinked
def GetMarkForDeletion (p : ShaderProgram) : Bool := p.mMarkForDeletion
def MarkForDeletion (p : ShaderProgram) : ShaderProgram := { p with mMarkForDeletion := true }
def HasVertexShader (p : ShaderProgram) : Bool := p.mVertexShader.isSome
def HasFragmentShader (p : ShaderProgram) : Bool := p.mFragmentShader.isSome

/-- Modelled from the spec: `DetachAndDeleteShaders` leaves the program with no
attached shader. -/
def DetachAndDeleteShaders (p : ShaderProgram) : ShaderProgram :=
  { p with mVertexShader := none, mFragmentShader := none }

def EnableUpdateOfDescriptorSets (p : ShaderProgram) : ShaderProgram :=
  { p with mUpdateDescriptorSets := true }

end ShaderProgram

/-- The values of the shader type used by the context functions, and a value
for a shader of neither type. -/
inductive shaderType_t where
  | SHADER_TYPE_INVALID
  | SHADER_TYPE_VERTEX
  | SHADER_TYPE_FRAGMENT
deriving DecidableEq, Repr

/-- Modelled from the spec: `Shader` (resources/shader.h is missing): the type
of the shader, the number of programs it is attached to and the deletion mark. -/
structure Shader where
  mShaderType : shaderType_t
  mRefCount : Nat
  mMarkForDeletion : Bool
deriving DecidableEq, Repr

namespace Shader

def GetShaderType (sh : Shader) : shaderType_t := sh.mShaderType
def GetRefCount (sh : Shader) : Nat := sh.mRefCount
def GetMarkForDeletion (sh : Shader) : Bool := sh.mMarkForDeletion

end Shader

namespace ShaderProgram

def GetVertexShader (p : ShaderProgram) : Option Nat := p.mVertexShader
def GetFragmentShader (p : ShaderProgram) : Option Nat := p.mFragmentShader

/-- Modelled from the spec: the shader is one of the (at most two) attached ones. -/
def IsShaderAttached (p : ShaderProgram) (shaderPtr : Nat) : Bool :=
  p.mVertexShader == some shaderPtr || p.mFragmentShader == some shaderPtr

/-- Modelled from the spec: `ShaderProgram::AttachShader(shaderPtr)` for a shader
of type `type`: "owns 0-2 attached Shader objects (vertex/fragment)", a vertex
shader takes the vertex slot and a fragment shader the fragment slot. -/
def AttachShader (p : ShaderProgram) (shaderPtr : Nat) (type : shaderType_t) : ShaderProgram :=
  match type with
  | .SHADER_TYPE_VERTEX => { p with mVertexShader := some shaderPtr }
  | .SHADER_TYPE_FRAGMENT => { p with mFragmentShader := some shaderPtr }
  | .SHADER_TYPE_INVALID => p

/-- Modelled from the spec: `SetStagesIDs(index, id)` stores `id` in slot
`index` (0 or 1) of the stage ids. -/
def SetStagesIDs (p : ShaderProgram) (index : Nat) (id : GLuint) : ShaderProgram :=
  if index = 0 then { p with mStagesIDs := ((id : Int), p.mStagesIDs.2) }
  else { p with mStagesIDs := (p.mStagesIDs.1, (id : Int)) }

end ShaderProgram

/-- Modelled from the spec: `Texture` (resources/texture.h is missing): target,
image-usage flags, image layout and size. -/
structure Texture where
  mTarget : GLenum
  mVkImageUsage : Nat
  mVkImageLayout : Nat
  mWidth : Int
  mHeight : Int
deriving DecidableEq, Repr

namespace Texture

def GetTarget (t : Texture) : GLenum := t.mTarget
def GetVkImageUsage (t : Texture) : Nat := t.mVkImageUsage
def SetVkImageUsage (t : Texture) (usage : Nat) : Texture := { t with mVkImageUsage := usage }
def PrepareVkImageLayout (t : Texture) (layout : Nat) : Texture := { t with mVkImageLayout := layout }
def GetWidth (t : Texture) : Int := t.mWidth
def GetHeight (t : Texture) : Int := t.mHeight
def IsCubeMap (t : Texture) : Bool := t.mTarget == GL_TEXTURE_CUBE_MAP

end Texture

/-- Modelled from the spec: `Renderbuffer` (resources/renderbuffer.h is
missing): the texture that backs it, `none` when `GetTexture()` is null. -/
structure Renderbuffer where
  mTexture : Option Texture
deriving DecidableEq, Repr

/-- Modelled from the spec: `Attachment` (resources/attachment.h is missing):
"each Attachment references either a Texture or Renderbuffer by id". -/
structure Attachment where
  mType : GLenum
  mName : Nat
  mLevel : Int
  mLayer : GLenum
deriving DecidableEq, Repr

/-! ## `Framebuffer` (framebuffer.h) -/

/-- The enum `Framebuffer::State`. -/
inductive FramebufferState where
  | IDLE
  | CLEAR
  | CLEAR_DRAW
  | DRAW
  | DELETE
deriving DecidableEq, Repr

/-- The data members of `Framebuffer` that are not Vulkan handles.
`mAttachmentDepth` and `mAttachmentStencil` are the pointed-to objects. -/
structure Framebuffer where
  mDimsWidth : Int
  mDimsHeight : Int
  mTarget : GLenum
  mState : FramebufferState
  mUpdated : Bool
  mSizeUpdated : Bool
  mAttachmentColors : List Attachment
  mAttachmentDepth : Attachment
  mAttachmentStencil : Attachment
  mBindToTexture : Bool
  mSurfaceType : GLenum
  mIsSystem : Bool
deriving DecidableEq, Repr

namespace Framebuffer

def GetState (f : Framebuffer) : FramebufferState := f.mState
def GetWidth (f : Framebuffer) : Int := f.mDimsWidth
def GetHeight (f : Framebuffer) : Int := f.mDimsHeight
def GetTarget (f : Framebuffer) : GLenum := f.mTarget

def GetColorAttachmentType (f : Framebuffer) : GLenum :=
  match f.mAttachmentColors with
  | [] => GL_NONE
  | a :: _ => a.mType

def GetColorAttachmentName (f : Framebuffer) : Nat :=
  match f.mAttachmentColors with
  | [] => 0
  | a :: _ => a.mName

def GetDepthAttachmentType (f : Framebuffer) : GLenum := f.mAttachmentDepth.mType
def GetDepthAttachmentName (f : Framebuffer) : Nat := f.mAttachmentDepth.mName
def GetStencilAttachmentType (f : Framebuffer) : GLenum := f.mAttachmentStencil.mType
def GetStencilAttachmentName (f : Framebuffer) : Nat := f.mAttachmentStencil.mName

def GetAttachmentName (f : Framebuffer) (type : GLenum) : Nat :=
  if type = GL_COLOR_ATTACHMENT0 then f.GetColorAttachmentName
  else if type = GL_DEPTH_ATTACHMENT then f.GetDepthAttachmentName
  else if type = GL_STENCIL_ATTACHMENT then f.GetStencilAttachmentName
  else 0

def SetUpdated (f : Framebuffer) : Framebuffer := { f with mUpdated := true }
def SetIsSystem (f : Framebuffer) : Framebuffer := { f with mIsSystem := true }
def SetStateIdle (f : Framebuffer) : Framebuffer := { f with mState := .IDLE }
def SetStateClear (f : Framebuffer) : Framebuffer := { f with mState := .CLEAR }
def SetStateClearDraw (f : Framebuffer) : Framebuffer := { f with mState := .CLEAR_DRAW }
def SetStateDraw (f : Framebuffer) : Framebuffer := { f with mState := .DRAW }
def SetStateDelete (f : Framebuffer) : Framebuffer := { f with mState := .DELETE }
def SetTarget (f : Framebuffer) (target : GLenum) : Framebuffer := { f with mTarget := target }
def SetWidth (f : Framebuffer) (width : Int) : Framebuffer := { f with mDimsWidth := width }
def SetHeight (f : Framebuffer) (height : Int) : Framebuffer := { f with mDimsHeight := height }

/-- The write `mAttachmentColors[0]->...`: with an empty vector there is no
element 0 and the result is `none`. -/
def modifyColor0 (f : Framebuffer) (g : Attachment → Attachment) : Option Framebuffer :=
  match f.mAttachmentColors with
  | [] => none
  | a :: rest => some { f with mAttachmentColors := g a :: rest }

def SetColorAttachmentType (f : Framebuffer) (type : GLenum) : Option Framebuffer :=
  f.modifyColor0 fun a => { a with mType := type }
def SetColorAttachmentName (f : Framebuffer) (name : Nat) : Option Framebuffer :=
  f.modifyColor0 fun a => { a with mName := name }
def SetColorAttachmentLevel (f : Framebuffer) (level : Int) : Option Framebuffer :=
  f.modifyColor0 fun a => { a with mLevel := level }
def SetColorAttachmentLayer (f : Framebuffer) (layer : GLenum) : Option Framebuffer :=
  f.modifyColor0 fun a => { a with mLayer := layer }

def SetDepthAttachmentName (f : Framebuffer) (name : Nat) : Framebuffer :=
  { f with mAttachmentDepth := { f.mAttachmentDepth with mName := name }, mUpdated := true }
def SetDepthAttachmentType (f : Framebuffer) (type : GLenum) : Framebuffer :=
  { f with mAttachmentDepth := { f.mAttachmentDepth with mType := type } }
def SetDepthAttachmentLevel (f : Framebuffer) (level : Int) : Framebuffer :=
  { f with mAttachmentDepth := { f.mAttachmentDepth with mLevel := level } }
def SetDepthAttachmentLayer (f : Framebuffer) (layer : GLenum) : Framebuffer :=
  { f with mAttachmentDepth := { f.mAttachmentDepth with mLayer := layer } }

def SetStencilAttachmentName (f : Framebuffer) (name : Nat) : Framebuffer :=
  { f with mAttachmentStencil := { f.mAttachmentStencil with mName := name }, mUpdated := true }
def SetStencilAttachmentType (f : Framebuffer) (type : GLenum) : Framebuffer :=
  { f with mAttachmentStencil := { f.mAttachmentStencil with mType := type } }
def SetStencilAttachmentLevel (f : Framebuffer) (level : Int) : Framebuffer :=
  { f with mAttachmentStencil := { f.mAttachmentStencil with mLevel := level } }
def SetStencilAttachmentLayer (f : Framebuffer) (layer : GLenum) : Framebuffer :=
  { f with mAttachmentStencil := { f.mAttachmentStencil with mLayer := layer } }

def IsInIdleState (f : Framebuffer) : Bool := f.mState == .IDLE
def IsInClearState (f : Framebuffer) : Bool := f.mState == .CLEAR
def IsInClearDrawState (f : Framebuffer) : Bool := f.mState == .CLEAR_DRAW
def IsInDeleteState (f : Framebuffer) : Bool := f.mState == .DELETE
def IsInDrawState (f : Framebuffer) : Bool := !f.IsInIdleState

end Framebuffer

/-! ## Resource manager, state manager, context -/

/-- Modelled from the spec: `ObjectArray<T>` (utils/arrays.hpp is missing), the
"id -> object table" of the resource manager: `mObjects index` is the object
stored at `index`, `none` when there is none. -/
structure ObjectArray (α : Type) where
  mObjects : Nat → Option α

namespace ObjectArray

variable {α : Type}

def ObjectExists (a : ObjectArray α) (index : Nat) : Bool := (a.mObjects index).isSome

/-- The object a pointer refers to; `none` for a dangling pointer. -/
def read (a : ObjectArray α) (ptr : Nat) : Option α := a.mObjects ptr

def write (a : ObjectArray α) (ptr : Nat) (v : α) : ObjectArray α :=
  { a with mObjects := Function.update a.mObjects ptr (some v) }

/-- The lookup `ObjectArray::GetObject(index)`: a pointer to the object at `index`. What
the lookup yields where no object is stored is the parameter `fresh`: `none`
for a null pointer (spec: "Get<T>(id) -> pointer-or-null"), `some o` when the
lookup stores a new object `o` at the index and returns a pointer to it. -/
def GetObject (fresh : Option α) (a : ObjectArray α) (index : Nat) : Option Nat × ObjectArray α :=
  match a.mObjects index with
  | some _ => (some index, a)
  | none =>
    match fresh with
    | none => (none, a)
    | some o => (some index, a.write index o)

/-- Modelled from the spec: `Deallocate<T>(id)` frees the slot. -/
def Deallocate (a : ObjectArray α) (index : Nat) : ObjectArray α :=
  { a with mObjects := Function.update a.mObjects index none }

end ObjectArray

inductive shadingNamespaceType_t where
  | INVALID_ID
  | SHADER_ID
  | SHADER_PROGRAM_ID
deriving DecidableEq, Repr

structure ShadingNamespace_t where
  type : shadingNamespaceType_t
  arrayIndex : Nat
deriving DecidableEq, Repr

/-- Modelled from the spec: `ResourceManager` (resources/resourceManager.h is
missing): the table of shading objects (shaders and programs share one id
space) and one object array per kind of object. -/
structure ResourceManager where
  mShadingObjectCount : Nat
  mShadingObjectPool : Nat → Option ShadingNamespace_t
  mShaderPrograms : ObjectArray ShaderProgram
  mBuffers : ObjectArray BufferObject
  mFramebuffers : ObjectArray Framebuffer
  mTextures : ObjectArray Texture
  mRenderbuffers : ObjectArray Renderbuffer
  mShaders : ObjectArray Shader

namespace ResourceManager

def GetShadingObjectCount (rm : ResourceManager) : Nat := rm.mShadingObjectCount
def ShadingObjectExists (rm : ResourceManager) (id : Nat) : Bool := (rm.mShadingObjectPool id).isSome
def GetShadingObject (rm : ResourceManager) (id : Nat) : ShadingNamespace_t :=
  (rm.mShadingObjectPool id).getD { type := .INVALID_ID, arrayIndex := 0 }
def EraseShadingObject (rm : ResourceManager) (id : Nat) : ResourceManager :=
  { rm with mShadingObjectPool := Function.update rm.mShadingObjectPool id none }

/-- Modelled from the spec: the id under which a program is registered in the
table of shading objects (the first one below the count), 0 when there is none. -/
def FindShaderProgramID (rm : ResourceManager) (progPtr : Nat) : Nat :=
  ((List.range rm.mShadingObjectCount).find? fun id =>
    decide (rm.mShadingObjectPool id = some { type := .SHADER_PROGRAM_ID, arrayIndex := progPtr })).getD 0

/-- Modelled from the spec: the id under which a shader is registered in the
table of shading objects (the first one below the count), 0 when there is none. -/
def FindShaderID (rm : ResourceManager) (shaderPtr : Nat) : Nat :=
  ((List.range rm.mShadingObjectCount).find? fun id =>
    decide (rm.mShadingObjectPool id = some { type := .SHADER_ID, arrayIndex := shaderPtr })).getD 0

def BufferExists (rm : ResourceManager) (id : Nat) : Bool := rm.mBuffers.ObjectExists id
def FramebufferExists (rm : ResourceManager) (id : Nat) : Bool := rm.mFramebuffers.ObjectExists id
def TextureExists (rm : ResourceManager) (id : Nat) : Bool := rm.mTextures.ObjectExists id
def RenderbufferExists (rm : ResourceManager) (id : Nat) : Bool := rm.mRenderbuffers.ObjectExists id

def DeallocateBuffer (rm : ResourceManager) (id : Nat) : ResourceManager :=
  { rm with mBuffers := rm.mBuffers.Deallocate id }
def DeallocateShaderProgram (rm : ResourceManager) (progPtr : Nat) : ResourceManager :=
  { rm with mShaderPrograms := rm.mShaderPrograms.Deallocate progPtr }
def DeallocateFramebuffer (rm : ResourceManager) (id : Nat) : ResourceManager :=
  { rm with mFramebuffers := rm.mFramebuffers.Deallocate id }

end ResourceManager

/-- Modelled from the spec: `StateActiveObjects` (the "Active Objects State",
its header is missing): one bound object or none per binding point. -/
structure StateActiveObjects where
  mActiveShaderProgram : Option Nat
  mActiveFramebufferObjectID : Nat
  mActiveArrayBuffer : Option Nat
  mActiveElementArrayBuffer : Option Nat
deriving DecidableEq, Repr

namespace StateActiveObjects

def GetActiveBufferObject (a : StateActiveObjects) (target : GLenum) : Option Nat :=
  if target = GL_ARRAY_BUFFER then a.mActiveArrayBuffer else a.mActiveElementArrayBuffer

def SetActiveBufferObject (a : StateActiveObjects) (target : GLenum) (bo : Option Nat) :
    StateActiveObjects :=
  if target = GL_ARRAY_BUFFER then { a with mActiveArrayBuffer := bo }
  else { a with mActiveElementArrayBuffer := bo }

/-- Modelled from the spec: `bo` is the object bound to one of the two buffer
binding points. -/
def EqualsActiveBufferObject (a : StateActiveObjects) (bo : Nat) : Bool :=
  a.mActiveArrayBuffer == some bo || a.mActiveElementArrayBuffer == some bo

def ResetActiveBufferObject (a : StateActiveObjects) (target : GLenum) : StateActiveObjects :=
  a.SetActiveBufferObject target none

def IsDefaultFramebufferObjectActive (a : StateActiveObjects) : Bool :=
  a.mActiveFramebufferObjectID == 0

def SetActiveFramebufferObjectID (a : StateActiveObjects) (id : Nat) : StateActiveObjects :=
  { a with mActiveFramebufferObjectID := id }

def SetActiveShaderProgram (a : StateActiveObjects) (progPtr : Option Nat) : StateActiveObjects :=
  { a with mActiveShaderProgram := progPtr }

end StateActiveObjects

/-- A `GLboolean` (an `unsigned char`). -/
abbrev GLboolean := Nat

/-- Modelled from the spec: `StateFramebufferOperations` (its header is
missing), the colour mask and the depth mask of the framebuffer operations;
"each setter returns whether the value actually changed". -/
structure StateFramebufferOperations where
  mColorMask : GLboolean × GLboolean × GLboolean × GLboolean
  mDepthMask : GLboolean
deriving DecidableEq, Repr

namespace StateFramebufferOperations

def GetColorMask (st : StateFramebufferOperations) :
    GLboolean × GLboolean × GLboolean × GLboolean := st.mColorMask
def GetDepthMask (st : StateFramebufferOperations) : GLboolean := st.mDepthMask

/-- Modelled from the spec: "UpdateX(value) -> bool changed" for the colour mask. -/
def UpdateColorMask (st : StateFramebufferOperations) (red green blue alpha : GLboolean) :
    Bool × StateFramebufferOperations :=
  (decide (st.mColorMask ≠ (red, green, blue, alpha)),
   { st with mColorMask := (red, green, blue, alpha) })

/-- Modelled from the spec: "UpdateX(value) -> bool changed" for the depth mask. -/
def UpdateDepthMask (st : StateFramebufferOperations) (flag : GLboolean) :
    Bool × StateFramebufferOperations :=
  (decide (st.mDepthMask ≠ flag), { st with mDepthMask := flag })

end StateFramebufferOperations

/-- The part of `StateManager` the embedded functions use: the active objects,
the front face of the rasterization state and the framebuffer operations. -/
structure StateManager where
  mActiveObjectsState : StateActiveObjects
  mFrontFace : GLenum
  mFramebufferOperationsState : StateFramebufferOperations :=
    { mColorMask := (1, 1, 1, 1), mDepthMask := 1 }
deriving DecidableEq, Repr

/-- A `Framebuffer *`: the system framebuffer (`mSystemFBO`) or the object at an
index of the resource manager's framebuffer array. -/
inductive FboPtr where
  | system
  | user (index : Nat)
deriving DecidableEq, Repr

/-- A `Texture *`: an object of the texture array or the texture that backs a
renderbuffer. -/
inductive TexPtr where
  | texture (index : Nat)
  | renderbuffer (index : Nat)
deriving DecidableEq, Repr

/-- The calls recorded in `Context.mTrace`. -/
inductive Event where
  | Finish
  | SetWriteFBO (fbo : FboPtr)
  | SetStateIdle (fbo : FboPtr)
  | SetActiveFramebufferObjectID (id : Nat)
  | SetAttachmentType (attachment : GLenum) (type : GLenum)
  | SetAttachmentName (attachment : GLenum) (name : Nat)
  | MarkForDeletion (progPtr : Nat)
  | DetachAndDeleteShaders (progPtr : Nat)
  | EraseShadingObject (id : Nat)
  | DeallocateShaderProgram (progPtr : Nat)
  | SetActiveShaderProgram (progPtr : Option Nat)
  | TextureAllocate (tex : TexPtr)
deriving DecidableEq, Repr

/-- What the embedded functions take from code that is not among the sources:
the outcome of an `ObjectArray` lookup at an index that holds no object (one
field per array, see `ObjectArray.GetObject`), the state `Context::Finish`
leaves the write framebuffer in, the outcome of the native buffer allocation
for a size, `GlFrontFaceToXFrontFace`, the two overloads of
`Framebuffer::SetColorAttachment`, and the conversions
`GLColorMaskToVkColorComponentFlags` and `GlBooleanToVkBool`. -/
structure Env where
  newShaderProgram : Option ShaderProgram
  newBufferObject : Option BufferObject
  newFramebuffer : Option Framebuffer
  newTexture : Option Texture
  newRenderbuffer : Option Renderbuffer
  finishState : FramebufferState → FramebufferState
  allocateBuffer : Nat → Bool
  GlFrontFaceToXFrontFace : GLenum → Nat
  SetColorAttachment : Framebuffer → Int → Int → Framebuffer
  SetColorAttachmentTexture : Framebuffer → Int → Int → Option Texture → Framebuffer
  GLColorMaskToVkColorComponentFlags : GLboolean × GLboolean × GLboolean × GLboolean → Nat
  GlBooleanToVkBool : GLboolean → Nat
  newShader : Option Shader
  CheckStatusOfAttachments : Framebuffer → GLenum := fun _ => GL_FRAMEBUFFER_COMPLETE
  LinkProgram : ShaderProgram → ShaderProgram := fun p => { p with mLinked := true }
  HasStages : ShaderProgram → Bool := fun _ => false
  HasStagesUpdated : ShaderProgram → Bool := fun _ => false
  SetPipelineShaderStage : ShaderProgram → Bool := fun p => p.mLinked
  PipelineCreate : Pipeline → Pipeline := fun p => p
  sizeof_glsl_bool_t : Nat := 4

/-- The members of `Context` the embedded functions use. `mSystemFBO` is the
system framebuffer object itself, `mWriteFBO` a pointer. -/
structure Context where
  mResourceManager : ResourceManager
  mStateManager : StateManager
  mPipeline : Pipeline
  mWriteFBO : FboPtr
  mSystemFBO : Framebuffer
  mIsMaintenanceExtSupported : Bool
  mErrors : List GLenum
  mTrace : List Event

namespace Context

/-- Modelled from the spec: `RecordError` appends to the per-context "sticky
error flag/queue". -/
def RecordError (s : Context) (e : GLenum) : Context := { s with mErrors := s.mErrors ++ [e] }

def log (s : Context) (e : Event) : Context := { s with mTrace := s.mTrace ++ [e] }

def GetActiveObjectsState (s : Context) : StateActiveObjects := s.mStateManager.mActiveObjectsState

def setActiveObjectsState (s : Context) (a : StateActiveObjects) : Context :=
  { s with mStateManager := { s.mStateManager with mActiveObjectsState := a } }

def GetActiveShaderProgram (s : Context) : Option Nat :=
  s.GetActiveObjectsState.mActiveShaderProgram

/-- The framebuffer object `*fbo`. -/
def framebufferAt (s : Context) : FboPtr → Option Framebuffer
  | .system => some s.mSystemFBO
  | .user i => s.mResourceManager.mFramebuffers.read i

/-- The assignment `*fbo = f`. -/
def setFramebufferAt (s : Context) (fbo : FboPtr) (f : Framebuffer) : Context :=
  match fbo with
  | .system => { s with mSystemFBO := f }
  | .user i =>
    { s with mResourceManager :=
        { s.mResourceManager with mFramebuffers := s.mResourceManager.mFramebuffers.write i f } }

/-- Modelled from the spec: `Context::Finish()` ("flush + wait"). The call is
recorded in the trace; the state it leaves the write framebuffer in is
`env.finishState`. -/
def Finish (env : Env) (s : Context) : Context :=
  let s1 := match s.framebufferAt s.mWriteFBO with
    | some fb => s.setFramebufferAt s.mWriteFBO { fb with mState := env.finishState fb.mState }
    | none => s
  s1.log .Finish

/-- The statement `if(mWriteFBO->IsInDrawState()) { Finish(); }`. -/
def finishIfInDrawState (env : Env) (s : Context) : Option Context :=
  match s.framebufferAt s.mWriteFBO with
  | none => none
  | some fb => if fb.IsInDrawState then some (s.Finish env) else some s

def setBuffers (s : Context) (a : ObjectArray BufferObject) : Context :=
  { s with mResourceManager := { s.mResourceManager with mBuffers := a } }

def setShaderPrograms (s : Context) (a : ObjectArray ShaderProgram) : Context :=
  { s with mResourceManager := { s.mResourceManager with mShaderPrograms := a } }

def setPipeline (s : Context) (p : Pipeline) : Context := { s with mPipeline := p }

end Context

/-! ## Buffer objects (contextBufferObject.cpp) -/

namespace Context

/-- The statement `if(target == GL_ELEMENT_ARRAY_BUFFER || isIndex) mPipeline->SetUpdateIndexBuffer(true)`. -/
def updateIndexBufferIf (s : Context) (target : GLenum) (isIndex : Bool) : Context :=
  if target = GL_ELEMENT_ARRAY_BUFFER ∨ isIndex = true then
    s.setPipeline (s.mPipeline.SetUpdateIndexBuffer true)
  else s

/-- The function `Context::BindBuffer(target, buffer)`. -/
def BindBuffer (env : Env) (s : Context) (target : GLenum) (buffer : GLuint) : Option Context :=
  if target ≠ GL_ARRAY_BUFFER ∧ target ≠ GL_ELEMENT_ARRAY_BUFFER then
    some (s.RecordError GL_INVALID_ENUM)
  else if buffer ≠ 0 then
    match s.mResourceManager.mBuffers.GetObject env.newBufferObject buffer with
    | (none, _) => none
    | (some bo, arr) =>
      match arr.read bo with
      | none => none
      | some obj =>
        let obj1 := obj.SetTarget target
        let s1 := s.setBuffers (arr.write bo obj1)
        let s2 := s1.setActiveObjectsState (s1.GetActiveObjectsState.SetActiveBufferObject target (some bo))
        some (s2.updateIndexBufferIf target obj1.IsIndexBuffer)
  else
    let s2 := s.setActiveObjectsState (s.GetActiveObjectsState.SetActiveBufferObject target none)
    some (s2.updateIndexBufferIf target false)

/-- The function `Context::BufferData(target, size, data, usage)`; `data` is `none` for a
null pointer, otherwise the memory it points to. -/
def BufferData (env : Env) (s : Context) (target : GLenum) (size : GLsizeiptr)
    (data : Option (Nat → Nat)) (usage : GLenum) : Option Context :=
  if target ≠ GL_ARRAY_BUFFER ∧ target ≠ GL_ELEMENT_ARRAY_BUFFER then
    some (s.RecordError GL_INVALID_ENUM)
  else if usage ≠ GL_STREAM_DRAW ∧ usage ≠ GL_STATIC_DRAW ∧ usage ≠ GL_DYNAMIC_DRAW then
    some (s.RecordError GL_INVALID_ENUM)
  else if size < 0 then
    some (s.RecordError GL_INVALID_VALUE)
  else
    match s.GetActiveObjectsState.GetActiveBufferObject target with
    | none => some (s.RecordError GL_INVALID_OPERATION)
    | some bo =>
      match s.mResourceManager.mBuffers.read bo with
      | none => none
      | some obj =>
        let obj1 := obj.SetUsage usage
        let obj2 :=
          if (data.isSome ∧ obj1.HasData = true) ∨
             (data.isSome = false ∧ obj1.GetSize ≠ 0 ∧ size.toNat ≠ obj1.GetSize) then obj1.Release
          else obj1
        let r := obj2.Allocate (env.allocateBuffer size.toNat) size.toNat data
        let s1 := s.setBuffers (s.mResourceManager.mBuffers.write bo r.2)
        if r.1 = false then some (s1.RecordError GL_OUT_OF_MEMORY)
        else some (s1.updateIndexBufferIf target r.2.IsIndexBuffer)

/-- The function `Context::GetBufferParameteriv(target, pname, params)`: the context after
the call and the value written to `*params`, `none` when nothing is written. -/
def GetBufferParameteriv (s : Context) (target : GLenum) (pname : GLenum) :
    Option (Context × Option GLint) :=
  if target ≠ GL_ARRAY_BUFFER ∧ target ≠ GL_ELEMENT_ARRAY_BUFFER then
    some (s.RecordError GL_INVALID_ENUM, none)
  else if pname ≠ GL_BUFFER_SIZE ∧ pname ≠ GL_BUFFER_USAGE then
    some (s.RecordError GL_INVALID_ENUM, none)
  else
    match s.GetActiveObjectsState.GetActiveBufferObject target with
    | none => some (s.RecordError GL_INVALID_OPERATION, none)
    | some bo =>
      match s.mResourceManager.mBuffers.read bo with
      | none => none
      | some obj =>
        if pname = GL_BUFFER_SIZE then some (s, some (toGLint obj.GetSize))
        else some (s, some (toGLint obj.GetUsage))

/-- One pass of the loop body of `Context::DeleteBuffers` for `buffer = *buffers++`. -/
def DeleteBuffers.body (env : Env) (s : Context) (buffer : GLuint) : Option Context :=
  if buffer ≠ 0 ∧ s.mResourceManager.BufferExists buffer = true then
    match s.mResourceManager.mBuffers.GetObject env.newBufferObject buffer with
    | (none, _) => none
    | (some buf, arr) =>
      let s1 := s.setBuffers arr
      match arr.read buf with
      | none => none
      | some obj =>
        let s2 :=
          if s1.GetActiveObjectsState.EqualsActiveBufferObject buf = true then
            s1.setActiveObjectsState (s1.GetActiveObjectsState.ResetActiveBufferObject obj.GetTarget)
          else s1
        some { s2 with mResourceManager := s2.mResourceManager.DeallocateBuffer buffer }
  else some s

/-- The loop `while(n-- != 0)` of `Context::DeleteBuffers` over the entries it reads. -/
def DeleteBuffers.loop (env : Env) (s : Context) : List GLuint → Option Context
  | [] => some s
  | buffer :: rest =>
    match DeleteBuffers.body env s buffer with
    | none => none
    | some s1 => DeleteBuffers.loop env s1 rest

/-- The function `Context::DeleteBuffers(n, buffers)`; `buffers` is `none` for a null
pointer, otherwise the array it points to. Reading past the end of the array
has no defined result. -/
def DeleteBuffers (env : Env) (s : Context) (n : Int) (buffers : Option (List GLuint)) :
    Option Context :=
  if n < 0 then some (s.RecordError GL_INVALID_VALUE)
  else
    match buffers with
    | none => some s
    | some ids =>
      match s.finishIfInDrawState env with
      | none => none
      | some s1 =>
        if ids.length < n.toNat then none
        else DeleteBuffers.loop env s1 (ids.take n.toNat)

end Context

/-! ## Shader programs (contextShaderProgram.cpp) -/

namespace Context

/-- The function `Context::GetProgramPtr(program)`: the pointer returned and the context
after the call. -/
def GetProgramPtr (env : Env) (s : Context) (program : GLuint) : Option Nat × Context :=
  if program = 0 ∨ program ≥ s.mResourceManager.GetShadingObjectCount ∨
      s.mResourceManager.ShadingObjectExists program = false then
    (none, s.RecordError GL_INVALID_VALUE)
  else if (s.mResourceManager.GetShadingObject program).arrayIndex = 0 ∨
      (s.mResourceManager.GetShadingObject program).type ≠ .SHADER_PROGRAM_ID then
    (none, s.RecordError GL_INVALID_OPERATION)
  else
    ((s.mResourceManager.mShaderPrograms.GetObject env.newShaderProgram
        (s.mResourceManager.GetShadingObject program).arrayIndex).1,
     s.setShaderPrograms
       (s.mResourceManager.mShaderPrograms.GetObject env.newShaderProgram
        (s.mResourceManager.GetShadingObject program).arrayIndex).2)

/-- Modelled from the spec: `Context::GetProgramId(progPtr)` (not among the
sources), the id the program is registered under. -/
def GetProgramId (s : Context) (progPtr : Nat) : GLuint :=
  s.mResourceManager.FindShaderProgramID progPtr

/-- A call `progPtr->f()` of a member function that updates the program. -/
def modifyShaderProgram (s : Context) (progPtr : Nat) (f : ShaderProgram → ShaderProgram) :
    Option Context :=
  match s.mResourceManager.mShaderPrograms.read progPtr with
  | none => none
  | some prog =>
    some (s.setShaderPrograms (s.mResourceManager.mShaderPrograms.write progPtr (f prog)))

def EraseShadingObject (s : Context) (id : GLuint) : Context :=
  { s with mResourceManager := s.mResourceManager.EraseShadingObject id,
           mTrace := s.mTrace ++ [.EraseShadingObject id] }

def DeallocateShaderProgram (s : Context) (progPtr : Nat) : Context :=
  { s with mResourceManager := s.mResourceManager.DeallocateShaderProgram progPtr,
           mTrace := s.mTrace ++ [.DeallocateShaderProgram progPtr] }

def DetachAndDeleteShaders (s : Context) (progPtr : Nat) : Option Context :=
  (s.modifyShaderProgram progPtr ShaderProgram.DetachAndDeleteShaders).map
    fun s1 => s1.log (.DetachAndDeleteShaders progPtr)

def MarkForDeletion (s : Context) (progPtr : Nat) : Option Context :=
  (s.modifyShaderProgram progPtr ShaderProgram.MarkForDeletion).map
    fun s1 => s1.log (.MarkForDeletion progPtr)

def SetActiveShaderProgram (s : Context) (progPtr : Option Nat) : Context :=
  (s.setActiveObjectsState (s.GetActiveObjectsState.SetActiveShaderProgram progPtr)).log
    (.SetActiveShaderProgram progPtr)

/-- The function `Context::DeleteProgram(program)`. -/
def DeleteProgram (env : Env) (s : Context) (program : GLuint) : Option Context :=
  if program = 0 then some s
  else
    match s.GetProgramPtr env program with
    | (none, s1) => some s1
    | (some progPtr, s1) =>
      if some progPtr ≠ s1.GetActiveShaderProgram then
        match s1.finishIfInDrawState env with
        | none => none
        | some s2 =>
          match s2.DetachAndDeleteShaders progPtr with
          | none => none
          | some s3 => some ((s3.EraseShadingObject program).DeallocateShaderProgram progPtr)
      else s1.MarkForDeletion progPtr

/-- The block of `Context::UseProgram` guarded by
`GetActiveShaderProgram() && GetActiveShaderProgram()->GetMarkForDeletion()`. -/
def UseProgram.collect (env : Env) (s : Context) : Option Context :=
  match s.GetActiveShaderProgram with
  | none => some s
  | some active =>
    match s.mResourceManager.mShaderPrograms.read active with
    | none => none
    | some prog =>
      if prog.GetMarkForDeletion = true then
        match s.finishIfInDrawState env with
        | none => none
        | some s1 =>
          match s1.DetachAndDeleteShaders active with
          | none => none
          | some s2 =>
            some ((s2.EraseShadingObject (s2.GetProgramId active)).DeallocateShaderProgram active)
      else some s

/-- The part of `Context::UseProgram` that follows the validation of `program`,
from the test of the deletion mark on; `progPtr` is null for `program == 0`. -/
def UseProgram.activate (env : Env) (s : Context) (progPtr : Option Nat) : Option Context :=
  match UseProgram.collect env s with
  | none => none
  | some s1 =>
    let s2 := s1.SetActiveShaderProgram progPtr
    let s3 := s2.setPipeline (s2.mPipeline.SetUpdatePipeline true)
    match progPtr with
    | none => some s3
    | some p => s3.modifyShaderProgram p ShaderProgram.EnableUpdateOfDescriptorSets

/-- The function `Context::UseProgram(program)`. -/
def UseProgram (env : Env) (s : Context) (program : GLuint) : Option Context :=
  if program ≠ 0 then
    match s.GetProgramPtr env program with
    | (none, s1) => some s1
    | (some progPtr, s1) =>
      if s1.GetActiveShaderProgram = some progPtr then some s1
      else
        match s1.mResourceManager.mShaderPrograms.read progPtr with
        | none => none
        | some prog =>
          if prog.IsLinked = false then some (s1.RecordError GL_INVALID_OPERATION)
          else UseProgram.activate env s1 (some progPtr)
  else UseProgram.activate env s none

end Context

/-! ## Attached shaders (contextShaderProgram.cpp) -/

namespace Context

def setShaders (s : Context) (a : ObjectArray Shader) : Context :=
  { s with mResourceManager := { s.mResourceManager with mShaders := a } }

/-- Modelled from the spec: `Context::GetShaderPtr(shader)` (not among the
sources) resolves a shader id the way `GetProgramPtr` resolves a program id. -/
def GetShaderPtr (env : Env) (s : Context) (shader : GLuint) : Option Nat × Context :=
  if shader = 0 ∨ shader ≥ s.mResourceManager.GetShadingObjectCount ∨
      s.mResourceManager.ShadingObjectExists shader = false then
    (none, s.RecordError GL_INVALID_VALUE)
  else if (s.mResourceManager.GetShadingObject shader).arrayIndex = 0 ∨
      (s.mResourceManager.GetShadingObject shader).type ≠ .SHADER_ID then
    (none, s.RecordError GL_INVALID_OPERATION)
  else
    ((s.mResourceManager.mShaders.GetObject env.newShader
        (s.mResourceManager.GetShadingObject shader).arrayIndex).1,
     s.setShaders
       (s.mResourceManager.mShaders.GetObject env.newShader
        (s.mResourceManager.GetShadingObject shader).arrayIndex).2)

/-- Modelled from the spec: `Context::GetShaderId(shaderPtr)` (not among the
sources), the id the shader is registered under. -/
def GetShaderId (s : Context) (shaderPtr : Nat) : GLuint :=
  s.mResourceManager.FindShaderID shaderPtr

/-- The function `Context::AttachShader(program, shader)`. -/
def AttachShader (env : Env) (s : Context) (program shader : GLuint) : Option Context :=
  match s.GetProgramPtr env program with
  | (none, s1) => some s1
  | (some progPtr, s1) =>
    match s1.GetShaderPtr env shader with
    | (none, s2) => some s2
    | (some shaderPtr, s2) =>
      match s2.mResourceManager.mShaderPrograms.read progPtr,
          s2.mResourceManager.mShaders.read shaderPtr with
      | some prog, some sh =>
        if (prog.HasFragmentShader = true ∧ sh.GetShaderType = .SHADER_TYPE_FRAGMENT) ∨
            (prog.HasVertexShader = true ∧ sh.GetShaderType = .SHADER_TYPE_VERTEX) then
          some (s2.RecordError GL_INVALID_OPERATION)
        else if prog.IsShaderAttached shaderPtr = true then
          some (s2.RecordError GL_INVALID_OPERATION)
        else
          some (s2.setShaderPrograms (s2.mResourceManager.mShaderPrograms.write progPtr
            ((prog.AttachShader shaderPtr sh.GetShaderType).SetStagesIDs
              (if sh.GetShaderType = .SHADER_TYPE_VERTEX then 0 else 1) shader)))
      | _, _ => none

/-- What `GetAttachedShaders` writes: the value stored in `*count` (`none` when
nothing is stored), the ids stored in `shaders[0]`, `shaders[1]`, and whether
the `NOT_REACHED()` branch was executed. -/
structure AttachedShaders where
  count : Option Int
  shaders : List GLuint
  notReached : Bool
deriving DecidableEq, Repr

/-- The argument `GetVertexShader() ? GetVertexShader() : GetFragmentShader()`. -/
def vertexOrFragmentShader (prog : ShaderProgram) : Option Nat :=
  match prog.GetVertexShader with
  | some v => some v
  | none => prog.GetFragmentShader

/-- The function `Context::GetAttachedShaders(program, maxcount, count, shaders)`
for a non-null `count`: the context afterwards and what was written. -/
def GetAttachedShaders (env : Env) (s : Context) (program : GLuint) (maxcount : Int) :
    Option (Context × AttachedShaders) :=
  if maxcount < 0 then
    some (s.RecordError GL_INVALID_VALUE, { count := none, shaders := [], notReached := false })
  else
    match s.GetProgramPtr env program with
    | (none, s1) => some (s1, { count := none, shaders := [], notReached := false })
    | (some progPtr, s1) =>
      match s1.mResourceManager.mShaderPrograms.read progPtr with
      | none => none
      | some prog =>
        let shaderCount : Nat := prog.HasVertexShader.toNat + prog.HasFragmentShader.toNat
        if shaderCount = 0 then
          some (s1, { count := some 0, shaders := [], notReached := false })
        else if maxcount = 1 ∧ shaderCount ≠ 0 then
          match vertexOrFragmentShader prog with
          | none => none
          | some sh =>
            some (s1, { count := some 1, shaders := [s1.GetShaderId sh], notReached := false })
        else if maxcount ≥ 2 ∧ shaderCount = 1 then
          match vertexOrFragmentShader prog with
          | none => none
          | some sh =>
            some (s1, { count := some 1, shaders := [s1.GetShaderId sh], notReached := false })
        else if maxcount ≥ 2 ∧ shaderCount = 2 then
          match prog.GetVertexShader, prog.GetFragmentShader with
          | some v, some f =>
            some (s1, { count := some 2, shaders := [s1.GetShaderId v, s1.GetShaderId f],
                        notReached := false })
          | _, _ => none
        else some (s1, { count := none, shaders := [], notReached := true })

end Context

/-! ## Framebuffers (contextFrameBuffer.cpp) -/

namespace Context

def setFramebuffers (s : Context) (a : ObjectArray Framebuffer) : Context :=
  { s with mResourceManager := { s.mResourceManager with mFramebuffers := a } }

def setTextures (s : Context) (a : ObjectArray Texture) : Context :=
  { s with mResourceManager := { s.mResourceManager with mTextures := a } }

def setRenderbuffers (s : Context) (a : ObjectArray Renderbuffer) : Context :=
  { s with mResourceManager := { s.mResourceManager with mRenderbuffers := a } }

/-- The lines `Framebuffer *fbo = mSystemFBO; if(framebuffer) { fbo = GetFramebuffer(framebuffer); ... }`
of `Context::BindFramebuffer`: the pointer `fbo` and the context afterwards. A
framebuffer whose target is still `GL_INVALID_VALUE` is initialised. -/
def BindFramebuffer.lookup (env : Env) (s : Context) (target : GLenum) (framebuffer : GLuint) :
    Option (FboPtr × Context) :=
  if framebuffer ≠ 0 then
    match s.mResourceManager.mFramebuffers.GetObject env.newFramebuffer framebuffer with
    | (none, _) => none
    | (some i, arr) =>
      match arr.read i with
      | none => none
      | some f =>
        if f.GetTarget = GL_INVALID_VALUE then
          some (.user i, s.setFramebuffers (arr.write i
            (((f.SetTarget target).SetWidth s.mSystemFBO.GetWidth).SetHeight s.mSystemFBO.GetHeight)))
        else some (.user i, s.setFramebuffers arr)
  else some (.system, s)

/-- The lines of `Context::BindFramebuffer` from `mWriteFBO = fbo` to the end. -/
def BindFramebuffer.switch (env : Env) (s : Context) (fbo : FboPtr) (framebuffer : GLuint) :
    Option Context :=
  let s1 := ({ s with mWriteFBO := fbo } : Context).log (.SetWriteFBO fbo)
  match s1.framebufferAt fbo with
  | none => none
  | some f =>
    let s2 := (s1.setFramebufferAt fbo f.SetStateIdle).log (.SetStateIdle fbo)
    let s3 := (s2.setActiveObjectsState
      (s2.GetActiveObjectsState.SetActiveFramebufferObjectID framebuffer)).log
      (.SetActiveFramebufferObjectID framebuffer)
    let p1 :=
      if s3.mIsMaintenanceExtSupported = true then
        (s3.mPipeline.SetYInverted (decide (s3.mWriteFBO ≠ .system))).SetRasterizationFrontFace
          (env.GlFrontFaceToXFrontFace s3.mStateManager.mFrontFace)
      else s3.mPipeline
    some (s3.setPipeline ((p1.SetUpdatePipeline true).SetUpdateViewportState true))

/-- The function `Context::BindFramebuffer(target, framebuffer)`. -/
def BindFramebuffer (env : Env) (s : Context) (target : GLenum) (framebuffer : GLuint) :
    Option Context :=
  if target ≠ GL_FRAMEBUFFER then some (s.RecordError GL_INVALID_ENUM)
  else
    match BindFramebuffer.lookup env s target framebuffer with
    | none => none
    | some (fbo, s1) =>
      if s1.mWriteFBO = fbo then some s1
      else
        match s1.finishIfInDrawState env with
        | none => none
        | some s2 => BindFramebuffer.switch env s2 fbo framebuffer

/-- A call `mWriteFBO->f(...)` of a member function that updates the framebuffer. -/
def modifyWriteFBO (s : Context) (g : Framebuffer → Option Framebuffer) : Option Context :=
  match s.framebufferAt s.mWriteFBO with
  | none => none
  | some f =>
    match g f with
    | none => none
    | some f1 => some (s.setFramebufferAt s.mWriteFBO f1)

/-- The statement `if(name != mWriteFBO->GetAttachmentName(attachment) && mWriteFBO->IsInDrawState()) Finish()`,
with `guard` for a further leading conjunct of the condition. -/
def finishIfAttachmentChanges (env : Env) (s : Context) (guard : Bool) (attachment : GLenum)
    (name : GLuint) : Option Context :=
  match s.framebufferAt s.mWriteFBO with
  | none => none
  | some f =>
    if guard = true ∧ name ≠ f.GetAttachmentName attachment ∧ f.IsInDrawState = true then
      some (s.Finish env)
    else some s

/-- The lines `if (!(tex->GetVkImageUsage() & VK_IMAGE_USAGE_COLOR_ATTACHMENT_BIT)) { tex->SetVkImageUsage(...); tex->Allocate(); }
tex->PrepareVkImageLayout(VK_IMAGE_LAYOUT_COLOR_ATTACHMENT_OPTIMAL)`: the texture
afterwards and whether `Allocate()` was called. -/
def prepareColorAttachment (tex : Texture) : Texture × Bool :=
  if tex.GetVkImageUsage &&& VK_IMAGE_USAGE_COLOR_ATTACHMENT_BIT = 0 then
    ((tex.SetVkImageUsage (tex.GetVkImageUsage ||| VK_IMAGE_USAGE_COLOR_ATTACHMENT_BIT)).PrepareVkImageLayout
      VK_IMAGE_LAYOUT_COLOR_ATTACHMENT_OPTIMAL, true)
  else (tex.PrepareVkImageLayout VK_IMAGE_LAYOUT_COLOR_ATTACHMENT_OPTIMAL, false)

def logAllocate (s : Context) (called : Bool) (tex : TexPtr) : Context :=
  if called = true then s.log (.TextureAllocate tex) else s

/-- The depth and stencil cases of the `switch` of `FramebufferRenderbuffer`
and `FramebufferTexture2D` set the type, then the name of the attachment. -/
def setAttachmentTypeName (s : Context) (attachment : GLenum) (type : GLenum) (name : GLuint)
    (setType : Framebuffer → GLenum → Option Framebuffer)
    (setName : Framebuffer → Nat → Option Framebuffer) : Option Context :=
  match s.modifyWriteFBO fun f => setType f type with
  | none => none
  | some s1 =>
    match (s1.log (.SetAttachmentType attachment type)).modifyWriteFBO fun f => setName f name with
    | none => none
    | some s2 => some (s2.log (.SetAttachmentName attachment name))

/-- The `switch(attachment)` of `Context::FramebufferRenderbuffer`. -/
def FramebufferRenderbuffer.attach (env : Env) (s : Context) (attachment : GLenum)
    (renderbuffer : GLuint) : Option Context :=
  if attachment = GL_COLOR_ATTACHMENT0 then
    if renderbuffer ≠ 0 then
      match s.mResourceManager.mRenderbuffers.GetObject env.newRenderbuffer renderbuffer with
      | (none, _) => none
      | (some r, arr) =>
        match arr.read r with
        | none => none
        | some rb =>
          match rb.mTexture with
          | none => none
          | some tex =>
            let t := prepareColorAttachment tex
            let s1 := (s.setRenderbuffers (arr.write r { rb with mTexture := some t.1 })).logAllocate
              t.2 (.renderbuffer r)
            match s1.modifyWriteFBO fun f =>
                some (env.SetColorAttachmentTexture f t.1.GetWidth t.1.GetHeight (some t.1)) with
            | none => none
            | some s2 =>
              match s2.setAttachmentTypeName attachment GL_RENDERBUFFER renderbuffer
                  Framebuffer.SetColorAttachmentType Framebuffer.SetColorAttachmentName with
              | none => none
              | some s3 => some (s3.setPipeline (s3.mPipeline.SetUpdateViewportState true))
    else
      match s.modifyWriteFBO fun f => some (env.SetColorAttachmentTexture f (-1) (-1) none) with
      | none => none
      | some s2 =>
        match s2.setAttachmentTypeName attachment GL_NONE renderbuffer
            Framebuffer.SetColorAttachmentType Framebuffer.SetColorAttachmentName with
        | none => none
        | some s3 => some (s3.setPipeline (s3.mPipeline.SetUpdateViewportState true))
  else if attachment = GL_DEPTH_ATTACHMENT then
    s.setAttachmentTypeName attachment (if renderbuffer ≠ 0 then GL_RENDERBUFFER else GL_NONE)
      renderbuffer (fun f t => some (f.SetDepthAttachmentType t))
      (fun f n => some (f.SetDepthAttachmentName n))
  else if attachment = GL_STENCIL_ATTACHMENT then
    s.setAttachmentTypeName attachment (if renderbuffer ≠ 0 then GL_RENDERBUFFER else GL_NONE)
      renderbuffer (fun f t => some (f.SetStencilAttachmentType t))
      (fun f n => some (f.SetStencilAttachmentName n))
  else some s

/-- The function `Context::FramebufferRenderbuffer(target, attachment, renderbuffertarget, renderbuffer)`. -/
def FramebufferRenderbuffer (env : Env) (s : Context) (target attachment renderbuffertarget : GLenum)
    (renderbuffer : GLuint) : Option Context :=
  if target ≠ GL_FRAMEBUFFER then some (s.RecordError GL_INVALID_ENUM)
  else if renderbuffertarget ≠ GL_RENDERBUFFER ∧ renderbuffer ≠ 0 then
    some (s.RecordError GL_INVALID_ENUM)
  else if attachment ≠ GL_COLOR_ATTACHMENT0 ∧ attachment ≠ GL_DEPTH_ATTACHMENT ∧
      attachment ≠ GL_STENCIL_ATTACHMENT then
    some (s.RecordError GL_INVALID_ENUM)
  else if s.GetActiveObjectsState.IsDefaultFramebufferObjectActive = true ∨
      (renderbuffer ≠ 0 ∧ s.mResourceManager.RenderbufferExists renderbuffer = false) then
    some (s.RecordError GL_INVALID_OPERATION)
  else
    match s.finishIfAttachmentChanges env true attachment renderbuffer with
    | none => none
    | some s1 => FramebufferRenderbuffer.attach env s1 attachment renderbuffer

/-- The layer argument `texture && GetTexture(texture)->IsCubeMap() ? textarget : 0`. -/
def attachmentLayer (tex : Option Texture) (textarget : GLenum) : GLenum :=
  match tex with
  | some t => if t.IsCubeMap = true then textarget else 0
  | none => 0

/-- The `switch(attachment)` of `Context::FramebufferTexture2D`; `tex` is the
object `GetTexture(texture)` when `texture` is not 0. -/
def FramebufferTexture2D.attach (env : Env) (s : Context) (attachment textarget : GLenum)
    (texture : GLuint) (tex : Option Texture) : Option Context :=
  if attachment = GL_COLOR_ATTACHMENT0 then
    let t := tex.map prepareColorAttachment
    let s1 :=
      match t with
      | some t1 =>
        (s.setTextures (s.mResourceManager.mTextures.write texture t1.1)).logAllocate t1.2
          (.texture texture)
      | none => s
    let width : Int := match t with
      | some t1 => t1.1.GetWidth
      | none => -1
    let height : Int := match t with
      | some t1 => t1.1.GetHeight
      | none => -1
    match s1.modifyWriteFBO fun f => some (env.SetColorAttachment f width height) with
    | none => none
    | some s2 =>
      match s2.setAttachmentTypeName attachment (if texture ≠ 0 then GL_TEXTURE else GL_NONE)
          texture Framebuffer.SetColorAttachmentType Framebuffer.SetColorAttachmentName with
      | none => none
      | some s3 =>
        match s3.modifyWriteFBO fun f =>
            (f.SetColorAttachmentLayer (attachmentLayer (t.map Prod.fst) textarget)).bind
              fun f1 => f1.SetColorAttachmentLevel 0 with
        | none => none
        | some s4 => some (s4.setPipeline (s4.mPipeline.SetUpdateViewportState true))
  else if attachment = GL_DEPTH_ATTACHMENT then
    match s.setAttachmentTypeName attachment (if texture ≠ 0 then GL_TEXTURE else GL_NONE)
        texture (fun f t => some (f.SetDepthAttachmentType t))
        (fun f n => some (f.SetDepthAttachmentName n)) with
    | none => none
    | some s1 =>
      s1.modifyWriteFBO fun f =>
        some ((f.SetDepthAttachmentLayer (attachmentLayer tex textarget)).SetDepthAttachmentLevel 0)
  else if attachment = GL_STENCIL_ATTACHMENT then
    match s.setAttachmentTypeName attachment (if texture ≠ 0 then GL_TEXTURE else GL_NONE)
        texture (fun f t => some (f.SetStencilAttachmentType t))
        (fun f n => some (f.SetStencilAttachmentName n)) with
    | none => none
    | some s1 =>
      s1.modifyWriteFBO fun f =>
        some ((f.SetStencilAttachmentLayer (attachmentLayer tex textarget)).SetStencilAttachmentLevel 0)
  else some s

/-- The function `Context::FramebufferTexture2D(target, attachment, textarget, texture, level)`. -/
def FramebufferTexture2D (env : Env) (s : Context) (target attachment textarget : GLenum)
    (texture : GLuint) (level : GLint) : Option Context :=
  if target ≠ GL_FRAMEBUFFER then some (s.RecordError GL_INVALID_ENUM)
  else if texture ≠ 0 ∧ (textarget ≠ GL_TEXTURE_2D ∧
      (textarget < GL_TEXTURE_CUBE_MAP_POSITIVE_X ∨ textarget > GL_TEXTURE_CUBE_MAP_NEGATIVE_Z)) then
    some (s.RecordError GL_INVALID_ENUM)
  else if texture ≠ 0 ∧ level ≠ 0 then some (s.RecordError GL_INVALID_VALUE)
  else if s.GetActiveObjectsState.IsDefaultFramebufferObjectActive = true then
    some (s.RecordError GL_INVALID_OPERATION)
  else if texture ≠ 0 ∧ s.mResourceManager.TextureExists texture = false then
    some (s.RecordError GL_INVALID_OPERATION)
  else
    match s.mResourceManager.mTextures.GetObject env.newTexture texture with
    | (none, _) => none
    | (some t, arr) =>
      match arr.read t with
      | none => none
      | some tex =>
        let s1 := s.setTextures arr
        if (tex.GetTarget = GL_TEXTURE_2D ∧ textarget ≠ GL_TEXTURE_2D) ∨
            (tex.GetTarget = GL_TEXTURE_CUBE_MAP ∧ textarget = GL_TEXTURE_2D) then
          some (s1.RecordError GL_INVALID_OPERATION)
        else if attachment ≠ GL_COLOR_ATTACHMENT0 ∧ attachment ≠ GL_DEPTH_ATTACHMENT ∧
            attachment ≠ GL_STENCIL_ATTACHMENT then
          some (s1.RecordError GL_INVALID_ENUM)
        else
          match s1.finishIfAttachmentChanges env (decide (texture ≠ 0)) attachment texture with
          | none => none
          | some s2 =>
            FramebufferTexture2D.attach env s2 attachment textarget texture
              (if texture ≠ 0 then some tex else none)

end Context

/-! ## Framebuffer operations (contextStateFramebufferOperations.cpp) -/

namespace Context

def setFramebufferOperationsState (s : Context) (st : StateFramebufferOperations) : Context :=
  { s with mStateManager := { s.mStateManager with mFramebufferOperationsState := st } }

/-- The function `Context::ColorMask(red, green, blue, alpha)`. -/
def ColorMask (env : Env) (s : Context) (red green blue alpha : GLboolean) : Context :=
  let r := s.mStateManager.mFramebufferOperationsState.UpdateColorMask red green blue alpha
  let s1 := s.setFramebufferOperationsState r.2
  if r.1 = true then
    s1.setPipeline (s1.mPipeline.SetColorBlendAttachmentWriteMask
      (env.GLColorMaskToVkColorComponentFlags
        s1.mStateManager.mFramebufferOperationsState.GetColorMask))
  else s1

/-- The function `Context::DepthMask(flag)`. -/
def DepthMask (env : Env) (s : Context) (flag : GLboolean) : Context :=
  let r := s.mStateManager.mFramebufferOperationsState.UpdateDepthMask flag
  let s1 := s.setFramebufferOperationsState r.2
  if r.1 = true then
    s1.setPipeline (s1.mPipeline.SetDepthWriteEnable
      (env.GlBooleanToVkBool s1.mStateManager.mFramebufferOperationsState.GetDepthMask))
  else s1

end Context

/-! ## The EGL window interface (vulkanWindowInterface.cpp) and the Vulkan
context (vulkan/context.cpp) -/

abbrev VkResult := Int
abbrev VkSemaphore := Nat
abbrev EGLBoolean := Nat

def EGL_FALSE : EGLBoolean := 0
def EGL_TRUE : EGLBoolean := 1

def VK_SUCCESS : VkResult := 0
def VK_ERROR_DEVICE_LOST : VkResult := -4
def VK_ERROR_SURFACE_LOST_KHR : VkResult := -1000000000
def VK_SUBOPTIMAL_KHR : VkResult := 1000001003
def VK_ERROR_OUT_OF_DATE_KHR : VkResult := -1000001004

def VK_PRESENT_MODE_IMMEDIATE_KHR : Nat := 0
def VK_PRESENT_MODE_MAILBOX_KHR : Nat := 1
def VK_PRESENT_MODE_FIFO_KHR : Nat := 2
def VK_PRESENT_MODE_FIFO_RELAXED_KHR : Nat := 3

/-- The struct `vkSyncItems_t` the two functions below read and write. -/
structure vkSyncItems_t where
  vkDrawSemaphore : VkSemaphore
  vkAcquireSemaphore : VkSemaphore
  acquireSemaphoreFlag : Bool
  drawSemaphoreFlag : Bool
deriving DecidableEq, Repr

/-- The members of `EGLSurface_t` the window interface uses;
`mVulkanResources` tells whether
`dynamic_cast<VulkanResources *>(surface->GetPlatformResources())` is non-null. -/
structure EGLSurface_t where
  mCurrentImageIndex : Nat
  mSwapInterval : Int
  mVulkanResources : Bool
deriving DecidableEq, Repr

namespace VulkanWindowInterface

/-- What `AcquireNextImage` leaves behind: the value returned, the surface, the
value of `*imageIndex` and whether `DeviceWaitIdle()` was called. -/
structure AcquireResult where
  ret : EGLBoolean
  surface : EGLSurface_t
  imageIndex : Nat
  deviceWaitIdle : Bool
deriving DecidableEq, Repr

/-- The function `VulkanWindowInterface::AcquireNextImage(surface, imageIndex)`.
The native call `mVkAPI->AcquireNextImage` is a parameter: `res` is the
`VkResult` it returns and `acquired` the value of `*imageIndex` when it returns. -/
def AcquireNextImage (res : VkResult) (acquired : Nat) (surface : EGLSurface_t)
    (imageIndex : Nat) : AcquireResult :=
  if surface.mVulkanResources = false then
    { ret := EGL_FALSE, surface := surface, imageIndex := imageIndex, deviceWaitIdle := false }
  else if res = VK_ERROR_OUT_OF_DATE_KHR ∨ res = VK_SUBOPTIMAL_KHR then
    { ret := EGL_FALSE, surface := surface, imageIndex := acquired, deviceWaitIdle := true }
  else
    { ret := EGL_TRUE, surface := { surface with mCurrentImageIndex := acquired },
      imageIndex := acquired, deviceWaitIdle := false }

/-- What `PresentImage` leaves behind: the value returned, the sync items, the
semaphores and the image index passed to the native present call, and whether
`DeviceWaitIdle()` was called. -/
structure PresentResult where
  ret : EGLBoolean
  syncItems : vkSyncItems_t
  pSems : List VkSemaphore
  imageIndex : Nat
  deviceWaitIdle : Bool
deriving DecidableEq, Repr

/-- The function `VulkanWindowInterface::PresentImage(surface)`. The native call
`mVkAPI->PresentImage` is the parameter `present`, from the image index and the
wait semaphores to the `VkResult`. -/
def PresentImage (present : Nat → List VkSemaphore → VkResult) (sync : vkSyncItems_t)
    (surface : EGLSurface_t) : PresentResult :=
  let pSems : List VkSemaphore :=
    if sync.drawSemaphoreFlag = true then [] ++ [sync.vkDrawSemaphore]
    else [] ++ [sync.vkAcquireSemaphore]
  let sync1 := { sync with acquireSemaphoreFlag := true, drawSemaphoreFlag := false }
  let imageIndex := surface.mCurrentImageIndex
  let res := present imageIndex pSems
  if res = VK_ERROR_OUT_OF_DATE_KHR ∨ res = VK_SUBOPTIMAL_KHR then
    { ret := EGL_FALSE, syncItems := sync1, pSems := pSems, imageIndex := imageIndex,
      deviceWaitIdle := true }
  else
    { ret := EGL_TRUE, syncItems := sync1, pSems := pSems, imageIndex := imageIndex,
      deviceWaitIdle := false }

/-- The loop of `SetSwapchainPresentMode` over `presentModes[i]`, from the
current value of `swapchainPresentMode`. -/
def SetSwapchainPresentMode.loop (swapchainPresentMode : Nat) : List Nat → Nat
  | [] => swapchainPresentMode
  | mode :: rest =>
    if mode = VK_PRESENT_MODE_MAILBOX_KHR then VK_PRESENT_MODE_MAILBOX_KHR
    else if mode = VK_PRESENT_MODE_IMMEDIATE_KHR ∧
        swapchainPresentMode ≠ VK_PRESENT_MODE_MAILBOX_KHR then
      SetSwapchainPresentMode.loop VK_PRESENT_MODE_IMMEDIATE_KHR rest
    else SetSwapchainPresentMode.loop swapchainPresentMode rest

/-- The function `VulkanWindowInterface::SetSwapchainPresentMode(surface)`. The
native queries are parameters: `presentModes` is the array
`GetPhysicalDevPresentModes` fills (its length is the count
`GetPhysicalDevPresentModesCount` returns) and `queried` the value it returns.
A failing `assert` gives `none`. -/
def SetSwapchainPresentMode (presentModes : List Nat) (queried : EGLBoolean)
    (surface : EGLSurface_t) : Option Nat :=
  if surface.mVulkanResources = false then none
  else if presentModes.length = 0 then none
  else if queried ≠ EGL_TRUE then none
  else if surface.mSwapInterval = 0 then
    some (SetSwapchainPresentMode.loop VK_PRESENT_MODE_FIFO_KHR presentModes)
  else some VK_PRESENT_MODE_FIFO_KHR

end VulkanWindowInterface

/-- The function `CreateVkSemaphores()` of vulkan/context.cpp. Parameters:
`asserts` tells whether `assert` is compiled in (a failing `assert` gives
`none`), `fresh` is the content of the `new vkSyncItems_t`, `draw` and
`acquire` are the result and the handle written by the two `vkCreateSemaphore`
calls. The result is the value returned and `*GloveVkContext.vkSyncItems`. -/
def CreateVkSemaphores (asserts : Bool) (fresh : vkSyncItems_t) (draw acquire : VkResult × VkSemaphore) :
    Option (Bool × vkSyncItems_t) :=
  if asserts = true ∧ draw.1 ≠ 0 then none
  else if draw.1 ≠ VK_SUCCESS then some (false, { fresh with vkDrawSemaphore := draw.2 })
  else if asserts = true ∧ acquire.1 ≠ 0 then none
  else if acquire.1 ≠ VK_SUCCESS then
    some (false, { fresh with vkDrawSemaphore := draw.2, vkAcquireSemaphore := acquire.2 })
  else
    some (true, { vkDrawSemaphore := draw.2, vkAcquireSemaphore := acquire.2,
                  acquireSemaphoreFlag := true, drawSemaphoreFlag := false })

/-- The present mode the spec gives for a swap interval and the supported
present modes: FIFO unless the swap interval is 0, then MAILBOX if supported,
otherwise IMMEDIATE if supported, otherwise FIFO. -/
def presentModeSpec (swapInterval : Int) (presentModes : List Nat) : Nat :=
  if swapInterval ≠ 0 then VK_PRESENT_MODE_FIFO_KHR
  else if VK_PRESENT_MODE_MAILBOX_KHR ∈ presentModes then VK_PRESENT_MODE_MAILBOX_KHR
  else if VK_PRESENT_MODE_IMMEDIATE_KHR ∈ presentModes then VK_PRESENT_MODE_IMMEDIATE_KHR
  else VK_PRESENT_MODE_FIFO_KHR

/-- A window surface with Vulkan resources, swap interval 0 and current image 0. -/
def windowSurface : EGLSurface_t :=
  { mCurrentImageIndex := 0, mSwapInterval := 0, mVulkanResources := true }

/-! ## Deletion of framebuffers (contextFrameBuffer.cpp) -/

namespace Context

/-- The block of `Context::DeleteFramebuffers` guarded by `mWriteFBO == fbo`. -/
def DeleteFramebuffers.unbind (env : Env) (s : Context) : Option Context :=
  match s.finishIfInDrawState env with
  | none => none
  | some s1 =>
    let s2 := ({ s1 with mWriteFBO := .system } : Context).log (.SetWriteFBO .system)
    match s2.framebufferAt s2.mWriteFBO with
    | none => none
    | some f =>
      let s3 := (s2.setFramebufferAt s2.mWriteFBO f.SetStateIdle).log (.SetStateIdle .system)
      let s4 := (s3.setActiveObjectsState
        (s3.GetActiveObjectsState.SetActiveFramebufferObjectID 0)).log
        (.SetActiveFramebufferObjectID 0)
      some (s4.setPipeline ((s4.mPipeline.SetUpdatePipeline true).SetUpdateViewportState true))

/-- One pass of the loop body of `Context::DeleteFramebuffers` for
`fboindex = *framebuffers++`. -/
def DeleteFramebuffers.body (env : Env) (s : Context) (fboindex : GLuint) : Option Context :=
  if fboindex ≠ 0 ∧ s.mResourceManager.FramebufferExists fboindex = true then
    match s.mResourceManager.mFramebuffers.GetObject env.newFramebuffer fboindex with
    | (none, _) => none
    | (some fbo, arr) =>
      let s1 := s.setFramebuffers arr
      let r := if s1.mWriteFBO = .user fbo then DeleteFramebuffers.unbind env s1 else some s1
      match r with
      | none => none
      | some s2 =>
        some { s2 with mResourceManager := s2.mResourceManager.DeallocateFramebuffer fboindex }
  else some s

/-- The loop `while(n-- != 0)` of `Context::DeleteFramebuffers` over the entries
it reads. -/
def DeleteFramebuffers.loop (env : Env) (s : Context) : List GLuint → Option Context
  | [] => some s
  | fboindex :: rest =>
    match DeleteFramebuffers.body env s fboindex with
    | none => none
    | some s1 => DeleteFramebuffers.loop env s1 rest

/-- The function `Context::DeleteFramebuffers(n, framebuffers)`; `framebuffers`
is `none` for a null pointer, otherwise the array it points to. Reading past
the end of the array has no defined result. -/
def DeleteFramebuffers (env : Env) (s : Context) (n : Int) (framebuffers : Option (List GLuint)) :
    Option Context :=
  if n < 0 then some (s.RecordError GL_INVALID_VALUE)
  else
    match framebuffers with
    | none => some s
    | some ids =>
      if ids.length < n.toNat then none
      else DeleteFramebuffers.loop env s (ids.take n.toNat)

end Context

/-! ## Referenced resources (vulkan/cbManager.h) -/

inductive resourceType_t where
  | RESOURCE_TYPE_SHADER
  | RESOURCE_TYPE_PIPELINE_LAYOUT
  | RESOURCE_TYPE_DESC_POOL
  | RESOURCE_TYPE_DESC_SET_LAYOUT
  | RESOURCE_TYPE_DESC_SET
  | RESOURCE_TYPE_LAST
deriving DecidableEq, Repr

/-- The class `referencedResource_t<T>` with the members of its base
`resourceBase_t`. A resource handle is its value, 0 for a null handle;
`mRefCount` is a `uint32_t`. -/
structure referencedResource_t where
  mRefCount : Nat
  mType : resourceType_t
  mResourcePtr : Nat
deriving DecidableEq, Repr

namespace CommandBufferManager

/-- The loop `for(uint32_t i = 0; i < mReferencedResources.size(); ++i)` of
`LocateResource` from index `i` on, over the elements from `i` on. The result is
the `int` the function returns. A counter that reaches 2^32 wraps to 0 and the
loop does not end: there is no result. -/
def LocateResource.loop (resource : Nat) : List referencedResource_t → Nat → Option Int
  | [], i => if 2 ^ 32 ≤ i then none else some (-1)
  | res :: rest, i =>
    if 2 ^ 32 ≤ i then none
    else if res.mResourcePtr = resource then some (toGLint i)
    else LocateResource.loop resource rest (i + 1)

/-- The function `CommandBufferManager::LocateResource(resource)`; a failing
`assert(resource)` has no result. -/
def LocateResource (mReferencedResources : List referencedResource_t) (resource : Nat) :
    Option Int :=
  if resource = 0 then none
  else LocateResource.loop resource mReferencedResources 0

/-- The element `mReferencedResources[index]` for an `int` index: a negative
index converts to an unsigned value past the end. -/
def getAt (mReferencedResources : List referencedResource_t) (index : Int) :
    Option referencedResource_t :=
  if 0 ≤ index then mReferencedResources[index.toNat]? else none

/-- The function `CommandBufferManager::RefResource(resource, type)`: the vector
`mReferencedResources` afterwards. -/
def RefResource (mReferencedResources : List referencedResource_t) (resource : Nat)
    (type : resourceType_t) : Option (List referencedResource_t) :=
  match LocateResource mReferencedResources resource with
  | none => none
  | some index =>
    if index = -1 then
      some (mReferencedResources ++ [{ mRefCount := 1, mType := type, mResourcePtr := resource }])
    else
      match getAt mReferencedResources index with
      | none => none
      | some res =>
        some (mReferencedResources.set index.toNat
          { res with mRefCount := (res.mRefCount + 1) % 2 ^ 32 })

/-- The function `CommandBufferManager::UnrefResouce(resource)`; a failing
`assert(mReferencedResources[index]->mRefCount)` has no result. -/
def UnrefResouce (mReferencedResources : List referencedResource_t) (resource : Nat) :
    Option (List referencedResource_t) :=
  match LocateResource mReferencedResources resource with
  | none => none
  | some index =>
    if index ≠ -1 then
      match getAt mReferencedResources index with
      | none => none
      | some res =>
        if res.mRefCount = 0 then none
        else
          some (mReferencedResources.set index.toNat
            { res with mRefCount := (res.mRefCount + 2 ^ 32 - 1) % 2 ^ 32 })
    else some mReferencedResources

end CommandBufferManager

/-- A call of `RefResource` or of `UnrefResouce`. -/
inductive ResourceCall where
  | RefResource (resource : Nat) (type : resourceType_t)
  | UnrefResouce (resource : Nat)
deriving DecidableEq, Repr

namespace ResourceCall

def resource : ResourceCall → Nat
  | .RefResource r _ => r
  | .UnrefResouce r => r

def isRefOf (r : Nat) : ResourceCall → Bool
  | .RefResource x _ => x == r
  | .UnrefResouce _ => false

def isUnrefOf (r : Nat) : ResourceCall → Bool
  | .RefResource _ _ => false
  | .UnrefResouce x => x == r

end ResourceCall

namespace CommandBufferManager

def call (m : List referencedResource_t) : ResourceCall → Option (List referencedResource_t)
  | .RefResource r type => RefResource m r type
  | .UnrefResouce r => UnrefResouce m r

/-- The calls of a sequence, one after the other. -/
def run (m : List referencedResource_t) : List ResourceCall → Option (List referencedResource_t)
  | [] => some m
  | c :: rest =>
    match call m c with
    | none => none
    | some m1 => run m1 rest

/-- The stored count of the resource `r`, `none` when the vector has no entry
for it. -/
def refCountOf (m : List referencedResource_t) (r : Nat) : Option Nat :=
  (m.find? fun res => res.mResourcePtr == r).map fun res => res.mRefCount

end CommandBufferManager

/-- The number of `RefResource` calls on `r` among `calls`. -/
def refCalls (calls : List ResourceCall) (r : Nat) : Nat := calls.countP (ResourceCall.isRefOf r)

/-- The number of `UnrefResouce` calls on `r` among `calls`. -/
def unrefCalls (calls : List ResourceCall) (r : Nat) : Nat :=
  calls.countP (ResourceCall.isUnrefOf r)

/-- The number of distinct resources the calls name. -/
def distinctResources (calls : List ResourceCall) : Nat :=
  ((calls.map ResourceCall.resource).dedup).length

/-- What the claim states of the vector `m` after the calls `p`: no resource has
two entries, the resources with an entry are those `RefResource` was called on,
and each stored count is the number of `RefResource` calls minus the number of
`UnrefResouce` calls on the resource. -/
def CommandBufferManager.Consistent (p : List ResourceCall) (m : List referencedResource_t) :
    Prop :=
  (m.map fun res => res.mResourcePtr).Nodup ∧
  (∀ r, r ∈ (m.map fun res => res.mResourcePtr) ↔ 0 < refCalls p r) ∧
  ∀ res ∈ m, res.mRefCount + unrefCalls p res.mResourcePtr = refCalls p res.mResourcePtr

/-! ## Generation of buffers (contextBufferObject.cpp) -/

def GL_FALSE : GLboolean := 0
def GL_TRUE : GLboolean := 1

namespace ObjectArray

variable {α : Type}

/-- Modelled from the spec: `Allocate<T>() -> id` "returns a fresh non-zero id"
(utils/arrays.hpp is missing). The ids an allocation may return are the
non-zero ids whose slot is free. -/
def IsFresh (a : ObjectArray α) (id : Nat) : Bool := id != 0 && !a.ObjectExists id

/-- Modelled from the spec: the array after `Allocate<T>()` returned `id`, the
slot being taken by the new object `o`; `none` when `id` is not an id the
allocation may return. -/
def Allocate (a : ObjectArray α) (o : α) (id : Nat) : Option (ObjectArray α) :=
  if a.IsFresh id = true then some (a.write id o) else none

end ObjectArray

namespace Context

/-- The loop `while(n != 0) { *buffers++ = mResourceManager->AllocateBuffer(); --n; }`
of `Context::GenBuffers`; the list holds the ids the allocations return, one
after the other, and `o` is a newly created buffer object. -/
def GenBuffers.loop (o : BufferObject) (s : Context) : List GLuint → Option Context
  | [] => some s
  | id :: rest =>
    match s.mResourceManager.mBuffers.Allocate o id with
    | none => none
    | some arr => GenBuffers.loop o (s.setBuffers arr) rest

/-- The function `Context::GenBuffers(n, buffers)`: the context afterwards and
the ids written to `buffers`. `buffers` tells whether the pointer is non-null,
`ids` are the ids the `n` allocations return. -/
def GenBuffers (o : BufferObject) (s : Context) (n : Int) (buffers : Bool) (ids : List GLuint) :
    Option (Context × List GLuint) :=
  if n < 0 then some (s.RecordError GL_INVALID_VALUE, [])
  else if buffers = false then some (s, [])
  else if (ids.length : Int) ≠ n then none
  else (GenBuffers.loop o s ids).map fun s1 => (s1, ids)

/-- The function `Context::IsBuffer(buffer)`. -/
def IsBuffer (s : Context) (buffer : GLuint) : GLboolean :=
  if buffer ≠ 0 ∧ s.mResourceManager.BufferExists buffer = true then GL_TRUE else GL_FALSE

end Context

/-! ## Framebuffer status and attachment queries (contextFrameBuffer.cpp) -/

/-- No attachment was ever set: the three attachment types are `GL_NONE`. -/
def Framebuffer.HasNoAttachment (f : Framebuffer) : Bool :=
  f.GetColorAttachmentType == GL_NONE && f.GetDepthAttachmentType == GL_NONE &&
    f.GetStencilAttachmentType == GL_NONE

/-- Modelled from the spec: `Framebuffer::CheckStatus()` (framebuffer.cpp is
missing): "INCOMPLETE (no attachments present), not COMPLETE" for a framebuffer
without attachments; what it returns for a framebuffer with attachments is the
parameter `env.CheckStatusOfAttachments`. -/
def Framebuffer.CheckStatus (env : Env) (f : Framebuffer) : GLenum :=
  if f.HasNoAttachment = true then GL_FRAMEBUFFER_INCOMPLETE_MISSING_ATTACHMENT
  else env.CheckStatusOfAttachments f

namespace Context

/-- The function `Context::CheckFramebufferStatus(target)`: the context
afterwards and the value returned. -/
def CheckFramebufferStatus (env : Env) (s : Context) (target : GLenum) :
    Option (Context × GLenum) :=
  if target ≠ GL_FRAMEBUFFER then some (s.RecordError GL_INVALID_ENUM, 0)
  else if s.GetActiveObjectsState.IsDefaultFramebufferObjectActive = true then
    some (s, GL_FRAMEBUFFER_COMPLETE)
  else
    match s.mResourceManager.mFramebuffers.GetObject env.newFramebuffer
        s.GetActiveObjectsState.mActiveFramebufferObjectID with
    | (none, _) => none
    | (some i, arr) =>
      match arr.read i with
      | none => none
      | some f => some (s.setFramebuffers arr, f.CheckStatus env)

end Context

/-! ## Sub-data of buffers (contextBufferObject.cpp) -/

abbrev GLintptr := Int

namespace Context

/-- The function `Context::BufferSubData(target, offset, size, data)`: the
context afterwards and the arguments `(size, offset)` of the call
`bo->UpdateData(size, offset, data)`, `none` when the call is not made. The
casts `(uint32_t)` reduce modulo 2^32, and so does the sum of two `uint32_t`. -/
def BufferSubData (s : Context) (target : GLenum) (offset : GLintptr) (size : GLsizeiptr) :
    Option (Context × Option (GLsizeiptr × GLintptr)) :=
  if target ≠ GL_ARRAY_BUFFER ∧ target ≠ GL_ELEMENT_ARRAY_BUFFER then
    some (s.RecordError GL_INVALID_ENUM, none)
  else
    match s.GetActiveObjectsState.GetActiveBufferObject target with
    | none => some (s.RecordError GL_INVALID_OPERATION, none)
    | some bo =>
      match s.mResourceManager.mBuffers.read bo with
      | none => none
      | some obj =>
        if size < 0 ∨ offset < 0 ∨
            (size.toNat % 2 ^ 32 + offset.toNat % 2 ^ 32) % 2 ^ 32 > obj.GetSize % 2 ^ 32 then
          some (s.RecordError GL_INVALID_VALUE, none)
        else some (s.updateIndexBufferIf target obj.IsIndexBuffer, some (size, offset))

end Context

/-! ## Linking of programs (contextShaderProgram.cpp) -/

namespace Context

/-- The function `Context::SetPipelineProgramShaderStages(progPtr)`: the value
returned. `HasStages`, `HasStagesUpdated` and `SetPipelineShaderStage` are not
among the sources and come from `env`; the stage arrays and the members written
by `SetCache`, `SetLayout` and `SetVertexInputState` are not dirty bits. -/
def SetPipelineProgramShaderStages (env : Env) (prog : ShaderProgram) : Bool :=
  if env.HasStages prog = false ∨ env.HasStagesUpdated prog = true then
    if env.SetPipelineShaderStage prog = false then false else true
  else true

/-- The function `Context::LinkProgram(program)`. `progPtr->LinkProgram()` with
`SetShaderModules()` is `env.LinkProgram`, `mPipeline->Create(..)` is
`env.PipelineCreate`; `PrepareVertexAttribBufferObjects` gets no reference to
the pipeline. -/
def LinkProgram (env : Env) (s : Context) (program : GLuint) : Option Context :=
  match s.GetProgramPtr env program with
  | (none, s1) => some s1
  | (some progPtr, s1) =>
    match s1.finishIfInDrawState env with
    | none => none
    | some s2 =>
      match s2.modifyShaderProgram progPtr env.LinkProgram with
      | none => none
      | some s3 =>
        match s3.mResourceManager.mShaderPrograms.read progPtr with
        | none => none
        | some prog =>
          let s4 := s3.setPipeline (s3.mPipeline.SetUpdatePipeline prog.IsLinked)
          if SetPipelineProgramShaderStages env prog = true then
            some (s4.setPipeline ((env.PipelineCreate s4.mPipeline).SetUpdatePipeline true))
          else some s4

end Context

/-! ## Uniforms (contextShaderProgram.cpp) -/

namespace ShaderProgram

def GetNumberOfActiveUniforms (p : ShaderProgram) : Nat := p.mUniforms.length

def GetUniform (p : ShaderProgram) (index : Nat) : Option ShaderResourceInterface.uniform :=
  p.mUniforms[index]?

/-- The lookup `GetUniformAtLocation(location)` (shaderProgram.h is missing): the
uniform one of whose elements has the location, the elements of a uniform
having the locations `location` to `location + arraySize - 1`; `none` is the
null pointer. -/
def GetUniformAtLocation (p : ShaderProgram) (location : GLint) :
    Option ShaderResourceInterface.uniform :=
  p.mUniforms.find? fun u =>
    decide ((u.location : Int) ≤ location ∧ location < (u.location : Int) + u.arraySize)

end ShaderProgram

/-- What `GetActiveUniform` writes: the characters stored from `name[0]` on, and
the values stored in `*length`, `*size` and `*type`. -/
structure ActiveUniform where
  name : List Char
  length : GLint
  size : GLint
  type : GLenum
deriving DecidableEq, Repr

/-- A call `SetUniformData(location, size, ptr)`: the location, the size in
bytes and the floats (or `glsl_bool_t` values) the block at `ptr` starts with. -/
structure SetUniformData where
  location : GLint
  size : Int
  data : List GLfloat
deriving DecidableEq, Repr

def sizeof_float : Nat := 4

/-- The conversion `(bool)x` of a float given by its bit pattern: false for
`+0.0f` and `-0.0f` only. -/
def floatToBool (x : GLfloat) : Nat := if x % 2 ^ 31 = 0 then 0 else 1

namespace Context

/-- The function `Context::GetActiveUniform(program, index, bufsize, length, size, type, name)`
with non-null `length`, `size`, `type`: the context afterwards and what is
written, `none` when nothing is. The source of the `memcpy` is the C string of
`reflectionName + index0Str`, with its terminating null. -/
def GetActiveUniform (env : Env) (s : Context) (program index : GLuint) (bufsize : Int) :
    Option (Context × Option ActiveUniform) :=
  match s.GetProgramPtr env program with
  | (none, s1) => some (s1.RecordError GL_INVALID_OPERATION, none)
  | (some progPtr, s1) =>
    match s1.mResourceManager.mShaderPrograms.read progPtr with
    | none => none
    | some prog =>
      if index ≥ prog.GetNumberOfActiveUniforms ∨ bufsize < 0 then
        some (s1.RecordError GL_INVALID_VALUE, none)
      else
        match prog.GetUniform index with
        | none => none
        | some u =>
          let len0 : Int := max (min (toGLint u.reflectionName.length) (bufsize - 1)) 0
          let len : Int := if u.arraySize > 1 then len0 + 3 else len0
          let index0Str : List Char := if u.arraySize > 1 then ['[', '0', ']'] else []
          let name : List Char :=
            if len ≠ 0 then
              (u.reflectionName ++ index0Str ++ [Char.ofNat 0]).take len.toNat ++ [Char.ofNat 0]
            else []
          some (s1, some { name := name, length := len,
                           size := if u.arraySize > 1 then u.arraySize else 1,
                           type := u.glType })

/-- The lines `if(count > uniform->arraySize) { assert((GLint)uniform->location <= location);
count = uniform->arraySize - (location - (GLint)uniform->location); }`: the
count afterwards; a failing assertion has no result. -/
def clampCount (u : ShaderResourceInterface.uniform) (location : GLint) (count : Int) :
    Option Int :=
  if count > u.arraySize then
    if toGLint u.location ≤ location then some (u.arraySize - (location - toGLint u.location))
    else none
  else some count

/-- The loop `for(int i = 0; i < count; ++i) bv[i] = (bool)v[i]`; reading past
the end of `v` has no defined result. -/
def boolValues : Nat → List GLfloat → Option (List GLfloat)
  | 0, _ => some []
  | _ + 1, [] => none
  | n + 1, x :: rest => (boolValues n rest).map fun r => floatToBool x :: r

/-- The function `Context::Uniform1fv(location, count, v)`: the context
afterwards and the call of `SetUniformData` it makes, if any. -/
def Uniform1fv (env : Env) (s : Context) (location : GLint) (count : Int) (v : List GLfloat) :
    Option (Context × Option SetUniformData) :=
  if count < 0 then some (s.RecordError GL_INVALID_VALUE, none)
  else
    match s.GetActiveShaderProgram with
    | none => some (s.RecordError GL_INVALID_OPERATION, none)
    | some act =>
      if location = -1 then some (s, none)
      else
        match s.mResourceManager.mShaderPrograms.read act with
        | none => none
        | some prog =>
          match prog.GetUniformAtLocation location with
          | none => some (s.RecordError GL_INVALID_OPERATION, none)
          | some u =>
            if (u.glType ≠ GL_FLOAT ∧ u.glType ≠ GL_BOOL) ∨ (u.arraySize = 1 ∧ count > 1) then
              some (s.RecordError GL_INVALID_OPERATION, none)
            else
              match clampCount u location count with
              | none => none
              | some c =>
                if u.glType = GL_FLOAT then
                  some (s, some { location := location, size := c * sizeof_float, data := v })
                else if c < 0 then none
                else
                  match boolValues c.toNat v with
                  | none => none
                  | some bv =>
                    some (s, some { location := location, size := c * env.sizeof_glsl_bool_t,
                                    data := bv })

/-- The number of array elements a call of `SetUniformData` made by
`Uniform1fv` on a `GL_FLOAT` uniform hands over. -/
def SetUniformData.floats (d : SetUniformData) : Int := d.size / sizeof_float

end Context

/-! ## Matrix uniforms (contextShaderProgram.cpp) -/

namespace Context

/-- The reads `(*value++)` of `n` floats: the floats read and the rest of the
array. Reading past the end of the array has no defined result. -/
def UniformMatrix.read : Nat → List GLfloat → Option (List GLfloat × List GLfloat)
  | 0, value => some ([], value)
  | _ + 1, [] => none
  | n + 1, x :: rest => (UniformMatrix.read n rest).map fun r => (x :: r.1, r.2)

/-- One pass of the loop over `i` in `UniformMatrix2fv` (`n = 2`) and
`UniformMatrix3fv` (`n = 3`): the four floats of the column `v[k].fm[i]`, `n`
of them read from `value` and the others set to `0.0f`. -/
def UniformMatrix.column (n : Nat) (value : List GLfloat) :
    Option (List GLfloat × List GLfloat) :=
  (UniformMatrix.read n value).map fun r => (r.1 ++ List.replicate (4 - n) 0, r.2)

/-- The first `i` passes of the loop over the columns of one matrix. -/
def UniformMatrix.columns (n : Nat) : Nat → List GLfloat → Option (List GLfloat × List GLfloat)
  | 0, value => some ([], value)
  | i + 1, value =>
    match UniformMatrix.column n value with
    | none => none
    | some (col, rest) => (UniformMatrix.columns n i rest).map fun r => (col ++ r.1, r.2)

/-- The loop `for (int k = 0; k < count; k++)` that fills `v`: the floats of
`count` matrices of `n` columns. -/
def UniformMatrix.matrices (n : Nat) : Nat → List GLfloat → Option (List GLfloat)
  | 0, _ => some []
  | k + 1, value =>
    match UniformMatrix.columns n n value with
    | none => none
    | some (m, rest) => (UniformMatrix.matrices n k rest).map fun r => m ++ r

/-- The function `Context::UniformMatrix2fv(location, count, transpose, value)`. -/
def UniformMatrix2fv (s : Context) (location : GLint) (count : Int) (transpose : GLboolean)
    (value : List GLfloat) : Option (Context × Option SetUniformData) :=
  if count < 0 then some (s.RecordError GL_INVALID_VALUE, none)
  else if transpose ≠ GL_FALSE then some (s.RecordError GL_INVALID_VALUE, none)
  else
    match s.GetActiveShaderProgram with
    | none => some (s.RecordError GL_INVALID_OPERATION, none)
    | some act =>
      if location = -1 then some (s, none)
      else
        match s.mResourceManager.mShaderPrograms.read act with
        | none => none
        | some prog =>
          match prog.GetUniformAtLocation location with
          | none => some (s.RecordError GL_INVALID_OPERATION, none)
          | some u =>
            if u.glType ≠ GL_FLOAT_MAT2 ∨ (u.arraySize = 1 ∧ count > 1) then
              some (s.RecordError GL_INVALID_OPERATION, none)
            else
              match clampCount u location count with
              | none => none
              | some c =>
                if c < 0 then none
                else
                  match UniformMatrix.matrices 2 c.toNat value with
                  | none => none
                  | some v =>
                    some (s, some { location := location, size := 2 * 4 * c * sizeof_float,
                                    data := v })

/-- The function `Context::UniformMatrix3fv(location, count, transpose, value)`. -/
def UniformMatrix3fv (s : Context) (location : GLint) (count : Int) (transpose : GLboolean)
    (value : List GLfloat) : Option (Context × Option SetUniformData) :=
  if count < 0 then some (s.RecordError GL_INVALID_VALUE, none)
  else if transpose ≠ GL_FALSE then some (s.RecordError GL_INVALID_VALUE, none)
  else
    match s.GetActiveShaderProgram with
    | none => some (s.RecordError GL_INVALID_OPERATION, none)
    | some act =>
      if location = -1 then some (s, none)
      else
        match s.mResourceManager.mShaderPrograms.read act with
        | none => none
        | some prog =>
          match prog.GetUniformAtLocation location with
          | none => some (s.RecordError GL_INVALID_OPERATION, none)
          | some u =>
            if u.glType ≠ GL_FLOAT_MAT3 ∨ (u.arraySize = 1 ∧ count > 1) then
              some (s.RecordError GL_INVALID_OPERATION, none)
            else
              match clampCount u location count with
              | none => none
              | some c =>
                if c < 0 then none
                else
                  match UniformMatrix.matrices 3 c.toNat value with
                  | none => none
                  | some v =>
                    some (s, some { location := location, size := 3 * 4 * c * sizeof_float,
                                    data := v })

end Context

/-! ## Attachment queries (contextFrameBuffer.cpp) -/

def GL_FRAMEBUFFER_ATTACHMENT_OBJECT_TYPE : GLenum := 0x8CD0
def GL_FRAMEBUFFER_ATTACHMENT_OBJECT_NAME : GLenum := 0x8CD1
def GL_FRAMEBUFFER_ATTACHMENT_TEXTURE_LEVEL : GLenum := 0x8CD2
def GL_FRAMEBUFFER_ATTACHMENT_TEXTURE_CUBE_MAP_FACE : GLenum := 0x8CD3

namespace Framebuffer

def GetColorAttachmentLevel (f : Framebuffer) : GLint :=
  match f.mAttachmentColors with
  | [] => 0
  | a :: _ => a.mLevel

def GetColorAttachmentLayer (f : Framebuffer) : GLenum :=
  match f.mAttachmentColors with
  | [] => GL_TEXTURE_CUBE_MAP_POSITIVE_X
  | a :: _ => a.mLayer

def GetDepthAttachmentLevel (f : Framebuffer) : GLint := f.mAttachmentDepth.mLevel
def GetDepthAttachmentLayer (f : Framebuffer) : GLenum := f.mAttachmentDepth.mLayer
def GetStencilAttachmentLevel (f : Framebuffer) : GLint := f.mAttachmentStencil.mLevel
def GetStencilAttachmentLayer (f : Framebuffer) : GLenum := f.mAttachmentStencil.mLayer

end Framebuffer

namespace Context

/-- The `switch(attachment)` of `GetFramebufferAttachmentParameteriv`: the
values of `type`, `name`, `level` and `layer` after it, `none` for the default
case. -/
def GetFramebufferAttachmentParameteriv.attachment (fbo : Framebuffer) (attachment : GLenum) :
    Option (GLenum × GLenum × GLint × GLenum) :=
  if attachment = GL_COLOR_ATTACHMENT0 then
    if fbo.GetColorAttachmentType = GL_TEXTURE then
      some (fbo.GetColorAttachmentType, fbo.GetColorAttachmentName, fbo.GetColorAttachmentLevel,
        fbo.GetColorAttachmentLayer)
    else
      some (fbo.GetColorAttachmentType, fbo.GetColorAttachmentName, 0,
        GL_TEXTURE_CUBE_MAP_POSITIVE_X)
  else if attachment = GL_DEPTH_ATTACHMENT then
    if fbo.GetDepthAttachmentType = GL_TEXTURE then
      some (fbo.GetDepthAttachmentType, fbo.GetDepthAttachmentName, fbo.GetDepthAttachmentLevel,
        fbo.GetDepthAttachmentLayer)
    else
      some (fbo.GetDepthAttachmentType, fbo.GetDepthAttachmentName, 0,
        GL_TEXTURE_CUBE_MAP_POSITIVE_X)
  else if attachment = GL_STENCIL_ATTACHMENT then
    if fbo.GetStencilAttachmentType = GL_TEXTURE then
      some (fbo.GetStencilAttachmentType, fbo.GetStencilAttachmentName,
        fbo.GetStencilAttachmentLevel, fbo.GetStencilAttachmentLayer)
    else
      some (fbo.GetStencilAttachmentType, fbo.GetStencilAttachmentName, 0,
        GL_TEXTURE_CUBE_MAP_POSITIVE_X)
  else none

/-- The function `Context::GetFramebufferAttachmentParameteriv(target, attachment, pname, params)`:
the context afterwards and the value written to `*params`, `none` when nothing
is written. -/
def GetFramebufferAttachmentParameteriv (env : Env) (s : Context)
    (target attachment pname : GLenum) : Option (Context × Option GLint) :=
  if target ≠ GL_FRAMEBUFFER then some (s.RecordError GL_INVALID_ENUM, none)
  else if s.GetActiveObjectsState.IsDefaultFramebufferObjectActive = true then
    some (s.RecordError GL_INVALID_OPERATION, none)
  else
    match s.mResourceManager.mFramebuffers.GetObject env.newFramebuffer
        s.GetActiveObjectsState.mActiveFramebufferObjectID with
    | (none, _) => none
    | (some i, arr) =>
      match arr.read i with
      | none => none
      | some fbo =>
        let s1 := s.setFramebuffers arr
        match GetFramebufferAttachmentParameteriv.attachment fbo attachment with
        | none => some (s1.RecordError GL_INVALID_ENUM, none)
        | some (type, name, level, layer) =>
          if type = GL_NONE ∧ pname ≠ GL_FRAMEBUFFER_ATTACHMENT_OBJECT_TYPE then
            some (s1.RecordError GL_INVALID_ENUM, none)
          else if type = GL_RENDERBUFFER ∧
              (pname ≠ GL_FRAMEBUFFER_ATTACHMENT_OBJECT_TYPE ∧
               pname ≠ GL_FRAMEBUFFER_ATTACHMENT_OBJECT_NAME) then
            some (s1.RecordError GL_INVALID_ENUM, none)
          else if type = GL_TEXTURE ∧
              (pname ≠ GL_FRAMEBUFFER_ATTACHMENT_OBJECT_TYPE ∧
               pname ≠ GL_FRAMEBUFFER_ATTACHMENT_OBJECT_NAME ∧
               pname ≠ GL_FRAMEBUFFER_ATTACHMENT_TEXTURE_LEVEL ∧
               pname ≠ GL_FRAMEBUFFER_ATTACHMENT_TEXTURE_CUBE_MAP_FACE) then
            some (s1.RecordError GL_INVALID_ENUM, none)
          else if pname = GL_FRAMEBUFFER_ATTACHMENT_OBJECT_TYPE then some (s1, some (toGLint type))
          else if pname = GL_FRAMEBUFFER_ATTACHMENT_OBJECT_NAME then some (s1, some (toGLint name))
          else if pname = GL_FRAMEBUFFER_ATTACHMENT_TEXTURE_LEVEL then some (s1, some level)
          else if pname = GL_FRAMEBUFFER_ATTACHMENT_TEXTURE_CUBE_MAP_FACE then
            some (s1, some (toGLint layer))
          else some (s1, none)

end Context

/-! ## `MVKVectorImpl` (External/MoltenVK/.../Utility/MVKVector.h) -/

/-- The allocator `alc` of an `MVKVectorImpl`: `ptr` is the reserved storage,
one entry per slot (its length is the capacity), `none` for a slot that holds
no element; `num_elements_used` is the size of the vector. -/
structure MVKVectorImpl (α : Type) where
  ptr : List (Option α)
  num_elements_used : Nat

/-- An iterator of the vector at hand: its index. -/
structure MVKVectorImpl.iterator where
  index : Nat

namespace MVKVectorImpl

variable {α : Type}

def size (v : MVKVectorImpl α) : Nat := v.num_elements_used
def capacity (v : MVKVectorImpl α) : Nat := v.ptr.length

def iterator.is_valid (it : iterator) (v : MVKVectorImpl α) : Bool := it.index < v.size
def iterator.get_position (it : iterator) : Nat := it.index

/-- The value read from `alc.ptr[i]`: `none` outside the storage and for a slot
that holds no element. -/
def get (v : MVKVectorImpl α) (i : Nat) : Option α := (v.ptr[i]?).join

/-- The assignment `alc.ptr[i] = x` and the call `alc.construct(&alc.ptr[i], x)`;
a slot outside the storage has no defined result. -/
def put (v : MVKVectorImpl α) (i : Nat) (x : α) : Option (MVKVectorImpl α) :=
  if i < v.ptr.length then some { v with ptr := v.ptr.set i (some x) } else none

/-- The call `alc.destruct(&alc.ptr[i])`. -/
def destruct (v : MVKVectorImpl α) (i : Nat) : MVKVectorImpl α :=
  { v with ptr := v.ptr.set i none }

/-- The operand `alc.ptr[i]` of an assignment of the pointer specialisation: the
value of the slot, which is copied. -/
def copyFrom (v : MVKVectorImpl α) (i : Nat) : Option (α × MVKVectorImpl α) :=
  match v.get i with
  | none => none
  | some x => some (x, v)

/-- The operand `std::move( alc.ptr[i] )` of an assignment or a construction of
the generic implementation: the value of the slot, which is left holding
`movedFrom x`, the state in which the move of `Type` leaves its source. -/
def moveFrom (movedFrom : α → α) (v : MVKVectorImpl α) (i : Nat) :
    Option (α × MVKVectorImpl α) :=
  match v.get i with
  | none => none
  | some x => some (x, { v with ptr := v.ptr.set i (some (movedFrom x)) })

/-- The function `vector_GetNextCapacity()`, in `size_t` arithmetic;
`sizeofType` is `sizeof( Type )`. -/
def vector_GetNextCapacity (sizeofType : Nat) (v : MVKVectorImpl α) : Nat :=
  ((if 64 / sizeofType > 4 then 64 / sizeofType else 4) + ((3 * v.capacity) % 2 ^ 64) / 2) % 2 ^ 64

/-- The function `vector_ReAllocate(s)`, that is `alc.re_allocate(s)` (the
allocators are not among the sources): a storage of `s` slots whose front holds
the elements in use. -/
def vector_ReAllocate (v : MVKVectorImpl α) (s : Nat) : MVKVectorImpl α :=
  { v with ptr := v.ptr.take v.num_elements_used ++ List.replicate (s - v.num_elements_used) none }

/-- The lines `if( alc.num_elements_used == capacity() ) vector_ReAllocate( vector_GetNextCapacity() )`. -/
def growIfFull (sizeofType : Nat) (v : MVKVectorImpl α) : MVKVectorImpl α :=
  if v.num_elements_used = v.capacity then v.vector_ReAllocate (v.vector_GetNextCapacity sizeofType)
  else v

/-- The function `push_back(t)` of both implementations. -/
def push_back (sizeofType : Nat) (v : MVKVectorImpl α) (t : α) : Option (MVKVectorImpl α) :=
  let v1 := v.growIfFull sizeofType
  match v1.put v1.num_elements_used t with
  | none => none
  | some v2 => some { v2 with num_elements_used := v2.num_elements_used + 1 }

/-- The loop `for( size_t i = start; i > it_position; --i ) alc.ptr[i] = alc.ptr[i - 1]`
of `insert`, from `i` down; `rd` reads the right-hand side (`moveFrom` in the
generic implementation, `copyFrom` in the pointer specialisation). -/
def insert.shift (rd : MVKVectorImpl α → Nat → Option (α × MVKVectorImpl α)) (it_position : Nat) :
    Nat → MVKVectorImpl α → Option (MVKVectorImpl α)
  | 0, v => some v
  | i + 1, v =>
    if i + 1 > it_position then
      match rd v i with
      | none => none
      | some (x, v1) =>
        match v1.put (i + 1) x with
        | none => none
        | some v2 => insert.shift rd it_position i v2
    else some v

/-- The function `MVKVectorImpl<Type>::insert(it, t)` of the generic
implementation. -/
def insert (sizeofType : Nat) (movedFrom : α → α) (v : MVKVectorImpl α) (it : iterator) (t : α) :
    Option (MVKVectorImpl α) :=
  if it.is_valid v = false ∨ v.num_elements_used = 0 then v.push_back sizeofType t
  else
    let v1 := v.growIfFull sizeofType
    match moveFrom movedFrom v1 (v1.num_elements_used - 1) with
    | none => none
    | some (last, v2) =>
      match v2.put v2.num_elements_used last with
      | none => none
      | some v3 =>
        match insert.shift (moveFrom movedFrom) it.get_position (v3.num_elements_used - 1) v3 with
        | none => none
        | some v4 =>
          match v4.put it.get_position t with
          | none => none
          | some v5 => some { v5 with num_elements_used := v5.num_elements_used + 1 }

/-- The loop `for( size_t i = it.get_position(); i < alc.num_elements_used; ++i ) alc.ptr[i] = alc.ptr[i + 1]`
of `erase`, from `i` on, with `count` passes left. -/
def erase.shift (rd : MVKVectorImpl α → Nat → Option (α × MVKVectorImpl α)) :
    Nat → Nat → MVKVectorImpl α → Option (MVKVectorImpl α)
  | 0, _, v => some v
  | count + 1, i, v =>
    match rd v (i + 1) with
    | none => none
    | some (x, v1) =>
      match v1.put i x with
      | none => none
      | some v2 => erase.shift rd count (i + 1) v2

/-- The function `MVKVectorImpl<Type>::erase(it)` of the generic implementation. -/
def erase (movedFrom : α → α) (v : MVKVectorImpl α) (it : iterator) : Option (MVKVectorImpl α) :=
  if it.is_valid v = true then
    let v1 := { v with num_elements_used := v.num_elements_used - 1 }
    match erase.shift (moveFrom movedFrom) (v1.num_elements_used - it.get_position)
        it.get_position v1 with
    | none => none
    | some v2 => some (v2.destruct v2.num_elements_used)
  else some v

/-- The function `MVKVectorImpl<Type*>::insert(it, t)` of the specialisation for
pointer types. -/
def insertPointer (sizeofType : Nat) (v : MVKVectorImpl α) (it : iterator) (t : α) :
    Option (MVKVectorImpl α) :=
  if it.is_valid v = false ∨ v.num_elements_used = 0 then v.push_back sizeofType t
  else
    let v1 := v.growIfFull sizeofType
    match insert.shift copyFrom it.get_position v1.num_elements_used v1 with
    | none => none
    | some v3 =>
      match v3.put it.get_position t with
      | none => none
      | some v4 => some { v4 with num_elements_used := v4.num_elements_used + 1 }

/-- The function `MVKVectorImpl<Type*>::erase(it)` of the specialisation for
pointer types. -/
def erasePointer (v : MVKVectorImpl α) (it : iterator) : Option (MVKVectorImpl α) :=
  if it.is_valid v = true then
    let v1 := { v with num_elements_used := v.num_elements_used - 1 }
    erase.shift copyFrom (v1.num_elements_used - it.get_position) it.get_position v1
  else some v

/-- The vector holds the elements `es`, in this order: they are its size and
the front of its storage. -/
def Holds (v : MVKVectorImpl α) (es : List α) : Prop :=
  v.num_elements_used = es.length ∧ v.ptr.take es.length = es.map some

/-- What the loops ask of the read of a slot: a slot that holds `x` reads as `x`,
and the read leaves the size, the capacity and the other slots as they are. -/
def Reads (rd : MVKVectorImpl α → Nat → Option (α × MVKVectorImpl α)) : Prop :=
  ∀ (v : MVKVectorImpl α) (i : Nat) (x : α), v.ptr[i]? = some (some x) →
    ∃ v1, rd v i = some (x, v1) ∧ v1.num_elements_used = v.num_elements_used ∧
      v1.ptr.length = v.ptr.length ∧ ∀ j, j ≠ i → v1.ptr[j]? = v.ptr[j]?

end MVKVectorImpl

/-! ## Concrete environments and contexts used as inputs -/

def defaultAttachment : Attachment := { mType := GL_NONE, mName := 0, mLevel := 0, mLayer := 0 }

/-- A framebuffer that was never bound: target `GL_INVALID_VALUE`, state IDLE,
one colour attachment slot holding nothing. -/
def defaultFramebuffer : Framebuffer :=
  { mDimsWidth := 0, mDimsHeight := 0, mTarget := GL_INVALID_VALUE, mState := .IDLE,
    mUpdated := false, mSizeUpdated := false, mAttachmentColors := [defaultAttachment],
    mAttachmentDepth := defaultAttachment, mAttachmentStencil := defaultAttachment,
    mBindToTexture := false, mSurfaceType := 0, mIsSystem := false }

def defaultBufferObject : BufferObject :=
  { mTarget := GL_INVALID_VALUE, mUsage := GL_STATIC_DRAW, mAllocated := false, mSize := 0,
    mData := none }

def defaultShaderProgram : ShaderProgram :=
  { mLinked := false, mMarkForDeletion := false, mVertexShader := none, mFragmentShader := none,
    mStagesIDs := (-1, -1), mUpdateDescriptorSets := false }

def defaultTexture : Texture :=
  { mTarget := GL_INVALID_VALUE, mVkImageUsage := 0, mVkImageLayout := 0, mWidth := 0, mHeight := 0 }

/-- An environment in which a lookup at a free index stores a default object
there, `Finish()` leaves the write framebuffer idle and every native
allocation succeeds. -/
def envCreate : Env :=
  { newShaderProgram := some defaultShaderProgram,
    newBufferObject := some defaultBufferObject,
    newFramebuffer := some defaultFramebuffer,
    newTexture := some defaultTexture,
    newRenderbuffer := some { mTexture := some defaultTexture },
    finishState := fun _ => .IDLE,
    allocateBuffer := fun _ => true,
    GlFrontFaceToXFrontFace := fun f =>
      if f = GL_CW then VK_FRONT_FACE_CLOCKWISE else VK_FRONT_FACE_COUNTER_CLOCKWISE,
    SetColorAttachment := fun f w h => { f with mDimsWidth := w, mDimsHeight := h, mUpdated := true },
    SetColorAttachmentTexture := fun f w h _ =>
      { f with mDimsWidth := w, mDimsHeight := h, mUpdated := true },
    GLColorMaskToVkColorComponentFlags := fun m =>
      (if m.1 ≠ 0 then 1 else 0) + (if m.2.1 ≠ 0 then 2 else 0) +
      (if m.2.2.1 ≠ 0 then 4 else 0) + (if m.2.2.2 ≠ 0 then 8 else 0),
    GlBooleanToVkBool := fun b => if b ≠ 0 then 1 else 0,
    newShader := some { mShaderType := .SHADER_TYPE_INVALID, mRefCount := 0,
                        mMarkForDeletion := false } }

/-- As `envCreate`, but a lookup at a free index yields a null pointer. -/
def envNull : Env :=
  { envCreate with
    newShaderProgram := none, newBufferObject := none, newFramebuffer := none,
    newTexture := none, newRenderbuffer := none, newShader := none }

def emptyArray (α : Type) : ObjectArray α := { mObjects := fun _ => none }

def initialPipeline : Pipeline :=
  { mVkPipelineColorBlendAttachmentState :=
      { blendEnable := 0, srcColorBlendFactor := 0, dstColorBlendFactor := 0, colorBlendOp := 0,
        srcAlphaBlendFactor := 0, dstAlphaBlendFactor := 0, alphaBlendOp := 0, colorWriteMask := 15 },
    blendConstants := fun _ => 0, depthWriteEnable := 1, frontFace := 0, mYInverted := false,
    mUpdateState := { Pipeline := false, VertexAttribVBOs := false, IndexBuffer := false,
                      Viewport := false } }

/-- A context with no object at all: the system framebuffer is bound and idle,
nothing else is bound, no error is recorded. -/
def emptyContext : Context :=
  { mResourceManager :=
      { mShadingObjectCount := 1, mShadingObjectPool := fun _ => none,
        mShaderPrograms := emptyArray ShaderProgram, mBuffers := emptyArray BufferObject,
        mFramebuffers := emptyArray Framebuffer, mTextures := emptyArray Texture,
        mRenderbuffers := emptyArray Renderbuffer, mShaders := emptyArray Shader },
    mStateManager :=
      { mActiveObjectsState :=
          { mActiveShaderProgram := none, mActiveFramebufferObjectID := 0,
            mActiveArrayBuffer := none, mActiveElementArrayBuffer := none },
        mFrontFace := GL_CCW },
    mPipeline := initialPipeline,
    mWriteFBO := .system,
    mSystemFBO := { defaultFramebuffer with mTarget := GL_FRAMEBUFFER, mIsSystem := true,
                                            mDimsWidth := 640, mDimsHeight := 480 },
    mIsMaintenanceExtSupported := false,
    mErrors := [],
    mTrace := [] }

/-- The empty context after buffer 1 was generated. -/
def contextWithBuffer1 : Context :=
  emptyContext.setBuffers ((emptyArray BufferObject).write 1 defaultBufferObject)

/-- The call returned having recorded the one error `e`, with the buffer
objects, the buffer bindings and the dirty bits as they were in `s`. -/
def recordsOnly (r : Option Context) (s : Context) (e : GLenum) : Prop :=
  ∃ s1, r = some s1 ∧ s1.mErrors = s.mErrors ++ [e] ∧
    s1.mResourceManager.mBuffers.mObjects = s.mResourceManager.mBuffers.mObjects ∧
    s1.GetActiveObjectsState = s.GetActiveObjectsState ∧
    s1.mPipeline.mUpdateState = s.mPipeline.mUpdateState

/-- The empty context after buffer 1 was generated and bound to `GL_ARRAY_BUFFER`. -/
def contextBuffer1Bound : Context :=
  (contextWithBuffer1.setBuffers
    (contextWithBuffer1.mResourceManager.mBuffers.write 1
      (defaultBufferObject.SetTarget GL_ARRAY_BUFFER))).setActiveObjectsState
    (contextWithBuffer1.GetActiveObjectsState.SetActiveBufferObject GL_ARRAY_BUFFER (some 1))

/-- The empty context after `CreateProgram` returned id 1 (program object 1)
and id 2 (program object 2); program 2 is linked, program 1 is not. -/
def contextTwoPrograms : Context :=
  { emptyContext with
    mResourceManager :=
      { emptyContext.mResourceManager with
        mShadingObjectCount := 3,
        mShadingObjectPool := fun id =>
          if id = 1 then some { type := .SHADER_PROGRAM_ID, arrayIndex := 1 }
          else if id = 2 then some { type := .SHADER_PROGRAM_ID, arrayIndex := 2 }
          else none,
        mShaderPrograms :=
          ((emptyArray ShaderProgram).write 1 defaultShaderProgram).write 2
            { defaultShaderProgram with mLinked := true } } }

/-- The id `program` resolves to the program object `prog` stored at
`progPtr`: `GetProgramPtr(program)` returns `progPtr` and the object exists. -/
def Context.ResolvesTo (env : Env) (s : Context) (program : GLuint) (progPtr : Nat)
    (prog : ShaderProgram) : Prop :=
  (s.GetProgramPtr env program).1 = some progPtr ∧
  s.mResourceManager.mShaderPrograms.read progPtr = some prog

/-- Everything `Finish()` leaves alone: the shading-object table, the program
objects, the active objects, the recorded errors and the pipeline. -/
def Context.sameExceptFramebuffers (s s1 : Context) : Prop :=
  s1.mResourceManager.mShadingObjectCount = s.mResourceManager.mShadingObjectCount ∧
  s1.mResourceManager.mShadingObjectPool = s.mResourceManager.mShadingObjectPool ∧
  s1.mResourceManager.mShaderPrograms = s.mResourceManager.mShaderPrograms ∧
  s1.mStateManager = s.mStateManager ∧
  s1.mErrors = s.mErrors ∧
  s1.mPipeline = s.mPipeline

/-- The events `if(mWriteFBO->IsInDrawState()) { Finish(); }` adds to the trace. -/
def finishEvents (fb : Framebuffer) : List Event :=
  if fb.IsInDrawState then [.Finish] else []

/-- The empty context after `CreateProgram` returned 1 and 2, program 2 was
linked and made active by `UseProgram(2)`. -/
def contextProgram2Active : Context :=
  (contextTwoPrograms.SetActiveShaderProgram (some 2)).setPipeline
    (contextTwoPrograms.mPipeline.SetUpdatePipeline true)

/-- As `contextProgram2Active`, after `DeleteProgram(2)` marked the active
program for deletion. -/
def contextProgram2Marked : Context :=
  (contextProgram2Active.setShaderPrograms
    (contextProgram2Active.mResourceManager.mShaderPrograms.write 2
      (ShaderProgram.MarkForDeletion { defaultShaderProgram with mLinked := true }))).log
    (.MarkForDeletion 2)

/-- The call of `UseProgram` destroyed the program `act` registered under `id` and then
made `new` the active program: the trace gained, in this order, `Finish()` when
the write framebuffer `fb` was in a draw state, the detachment of the shaders,
the erasure of `id`, the deallocation of `act` and the activation of `new`. -/
def Context.destroyedThenActivated (s s1 : Context) (act : Nat) (id : GLuint) (fb : Framebuffer)
    (new : Option Nat) : Prop :=
  s1.mTrace = s.mTrace ++ finishEvents fb ++
    [.DetachAndDeleteShaders act, .EraseShadingObject id, .DeallocateShaderProgram act,
     .SetActiveShaderProgram new] ∧
  s1.mResourceManager.ShadingObjectExists id = false ∧
  s1.mResourceManager.mShaderPrograms.read act = none ∧
  s1.GetActiveShaderProgram = new

/-- The call left the program `act` alone: it is still allocated, registered and
active, and no call was added to the trace. -/
def Context.notDestroyed (s s1 : Context) (act : Nat) : Prop :=
  s1.mResourceManager.mShaderPrograms.read act = s.mResourceManager.mShaderPrograms.read act ∧
  s1.mResourceManager.mShadingObjectPool = s.mResourceManager.mShadingObjectPool ∧
  s1.GetActiveShaderProgram = some act ∧
  s1.mTrace = s.mTrace

/-- The empty context after texture 7 (a 2D texture of 64 x 64) was created,
framebuffer 1 was bound, texture 7 was attached to its colour attachment and a
draw call put the framebuffer in state DRAW. -/
def contextDrawingToTexture7 : Context :=
  { emptyContext with
    mResourceManager :=
      { emptyContext.mResourceManager with
        mTextures := (emptyArray Texture).write 7
          { mTarget := GL_TEXTURE_2D, mVkImageUsage := VK_IMAGE_USAGE_COLOR_ATTACHMENT_BIT,
            mVkImageLayout := VK_IMAGE_LAYOUT_COLOR_ATTACHMENT_OPTIMAL, mWidth := 64, mHeight := 64 },
        mFramebuffers := (emptyArray Framebuffer).write 1
          { defaultFramebuffer with
            mTarget := GL_FRAMEBUFFER, mState := .DRAW, mDimsWidth := 64, mDimsHeight := 64,
            mAttachmentColors := [{ mType := GL_TEXTURE, mName := 7, mLevel := 0, mLayer := 0 }] } },
    mStateManager :=
      { emptyContext.mStateManager with
        mActiveObjectsState :=
          { emptyContext.mStateManager.mActiveObjectsState with mActiveFramebufferObjectID := 1 } },
    mWriteFBO := .user 1 }

/-- The framebuffer an id names: 0 names the system framebuffer. -/
def fboOf (id : GLuint) : FboPtr := if id = 0 then .system else .user id

/-- The pipeline `q` has the settings of `p`: every field other than the dirty
bits is the same. -/
def sameSettings (p q : Pipeline) : Prop :=
  q.mVkPipelineColorBlendAttachmentState = p.mVkPipelineColorBlendAttachmentState ∧
  q.blendConstants = p.blendConstants ∧
  q.depthWriteEnable = p.depthWriteEnable ∧
  q.frontFace = p.frontFace ∧
  q.mYInverted = p.mYInverted

/-- The empty context after `CreateProgram` returned 1, `CreateShader` returned
2 (a vertex shader, object 1) and 3 (a fragment shader, object 2), and the
vertex shader was attached to the program. -/
def contextProgramWithVertexShader : Context :=
  { emptyContext with
    mResourceManager :=
      { emptyContext.mResourceManager with
        mShadingObjectCount := 4,
        mShadingObjectPool := fun id =>
          if id = 1 then some { type := .SHADER_PROGRAM_ID, arrayIndex := 1 }
          else if id = 2 then some { type := .SHADER_ID, arrayIndex := 1 }
          else if id = 3 then some { type := .SHADER_ID, arrayIndex := 2 }
          else none,
        mShaderPrograms := (emptyArray ShaderProgram).write 1
          { defaultShaderProgram with mVertexShader := some 1, mStagesIDs := (2, -1) },
        mShaders := ((emptyArray Shader).write 1
          { mShaderType := .SHADER_TYPE_VERTEX, mRefCount := 1, mMarkForDeletion := false }).write 2
          { mShaderType := .SHADER_TYPE_FRAGMENT, mRefCount := 0, mMarkForDeletion := false } } }

/-- The id `shader` resolves to the shader object `sh` stored at `shaderPtr`. -/
def Context.ResolvesToShader (env : Env) (s : Context) (shader : GLuint) (shaderPtr : Nat)
    (sh : Shader) : Prop :=
  (s.GetShaderPtr env shader).1 = some shaderPtr ∧
  s.mResourceManager.mShaders.read shaderPtr = some sh

/-- The program has a shader of the type of `sh` attached, or `sh` itself. -/
def sameTypeAttached (prog : ShaderProgram) (shaderPtr : Nat) (sh : Shader) : Prop :=
  (prog.HasFragmentShader = true ∧ sh.GetShaderType = .SHADER_TYPE_FRAGMENT) ∨
  (prog.HasVertexShader = true ∧ sh.GetShaderType = .SHADER_TYPE_VERTEX) ∨
  prog.IsShaderAttached shaderPtr = true

/-- The write framebuffer of `s` is named by an existing id among `ids`. -/
def Context.writeFramebufferNamedIn (s : Context) (ids : List GLuint) : Prop :=
  ∃ k, s.mWriteFBO = .user k ∧ k ≠ 0 ∧ k ∈ ids ∧ s.mResourceManager.FramebufferExists k = true

/-- The system framebuffer is bound and idle, the active framebuffer id is 0
and the Pipeline and Viewport dirty bits are set. -/
def Context.systemFramebufferBound (s : Context) : Prop :=
  s.mWriteFBO = .system ∧
  (∃ f, s.framebufferAt s.mWriteFBO = some f ∧ f.IsInIdleState = true) ∧
  s.GetActiveObjectsState.mActiveFramebufferObjectID = 0 ∧
  s.mPipeline.GetUpdatePipelineState = true ∧ s.mPipeline.GetUpdateViewportState = true

/-- The write framebuffer pointer, the system framebuffer, the active objects
and the pipeline (its dirty bits among it) of `s1` are those of `s`. -/
def Context.sameBinding (s s1 : Context) : Prop :=
  s1.mWriteFBO = s.mWriteFBO ∧ s1.mSystemFBO = s.mSystemFBO ∧
  s1.mStateManager = s.mStateManager ∧ s1.mPipeline = s.mPipeline

/-- The number of `Allocate()` calls on the texture `t` the trace records. -/
def allocations (tr : List Event) (t : TexPtr) : Nat := tr.count (.TextureAllocate t)

/-- The textures, the renderbuffers, the recorded errors, the write framebuffer
pointer and the recorded `Allocate()` calls of `s1` are those of `s`. -/
def Context.sameImages (s s1 : Context) : Prop :=
  s1.mResourceManager.mTextures = s.mResourceManager.mTextures ∧
  s1.mResourceManager.mRenderbuffers = s.mResourceManager.mRenderbuffers ∧
  s1.mErrors = s.mErrors ∧ s1.mWriteFBO = s.mWriteFBO ∧
  ∀ t, allocations s1.mTrace t = allocations s.mTrace t

/-- The write framebuffer exists and has a colour attachment slot. -/
def Context.hasColorAttachmentSlot (s : Context) : Prop :=
  ∃ f, s.framebufferAt s.mWriteFBO = some f ∧ f.mAttachmentColors ≠ []

/-- The empty context after texture 7 (a 2D texture of 64 x 64, usage SAMPLED)
and renderbuffer 3 (backed by a texture of 32 x 32 with no usage yet) were
created and framebuffer 1 was bound. -/
def contextFramebuffer1Bound : Context :=
  { emptyContext with
    mResourceManager :=
      { emptyContext.mResourceManager with
        mTextures := (emptyArray Texture).write 7
          { mTarget := GL_TEXTURE_2D, mVkImageUsage := 4, mVkImageLayout := 0,
            mWidth := 64, mHeight := 64 },
        mRenderbuffers := (emptyArray Renderbuffer).write 3
          { mTexture := some { mTarget := GL_TEXTURE_2D, mVkImageUsage := 0, mVkImageLayout := 0,
                               mWidth := 32, mHeight := 32 } },
        mFramebuffers := (emptyArray Framebuffer).write 1
          { defaultFramebuffer with mTarget := GL_FRAMEBUFFER } },
    mStateManager :=
      { emptyContext.mStateManager with
        mActiveObjectsState :=
          { emptyContext.mStateManager.mActiveObjectsState with mActiveFramebufferObjectID := 1 } },
    mWriteFBO := .user 1 }

/-- Two references and one unref of resource 5, one reference and one unref
of resource 6. -/
def exampleResourceCalls : List ResourceCall :=
  [.RefResource 5 .RESOURCE_TYPE_SHADER, .RefResource 6 .RESOURCE_TYPE_DESC_SET,
   .RefResource 5 .RESOURCE_TYPE_SHADER, .UnrefResouce 6, .UnrefResouce 5]

/-- The active framebuffer object id names the write framebuffer: the id is 0
exactly when the write framebuffer is the system framebuffer, and a non-zero id
resolves to the write framebuffer. -/
def Context.bindingConsistent (s : Context) : Prop :=
  (s.GetActiveObjectsState.mActiveFramebufferObjectID = 0 ↔ s.mWriteFBO = .system) ∧
  (s.GetActiveObjectsState.mActiveFramebufferObjectID ≠ 0 →
    s.mWriteFBO = .user s.GetActiveObjectsState.mActiveFramebufferObjectID)

/-- The framebuffer `g` has the attachments of `f`. -/
def Framebuffer.sameAttachments (f g : Framebuffer) : Prop :=
  g.mAttachmentColors = f.mAttachmentColors ∧ g.mAttachmentDepth = f.mAttachmentDepth ∧
  g.mAttachmentStencil = f.mAttachmentStencil

/-- A framebuffer object (id 2) was generated in the empty context and never
bound. -/
def contextWithFramebuffer2 : Context :=
  emptyContext.setFramebuffers ((emptyArray Framebuffer).write 2 defaultFramebuffer)

/-- An environment in which the link of a program fails and its shader stages
cannot be set. -/
def envLinkFails : Env :=
  { envCreate with
    LinkProgram := fun p => { p with mLinked := false },
    HasStages := fun _ => false,
    SetPipelineShaderStage := fun _ => false }

/-- The context `contextTwoPrograms` after a state change that is not yet baked
into a pipeline: the Pipeline dirty bit is set. -/
def contextPipelineDirty : Context :=
  contextTwoPrograms.setPipeline (contextTwoPrograms.mPipeline.SetColorBlendAttachmentWriteMask 7)

/-- The empty context after buffer 1 was bound to `GL_ARRAY_BUFFER` and got a
data store of 16 bytes. -/
def contextBuffer16 : Context :=
  contextBuffer1Bound.setBuffers
    (contextBuffer1Bound.mResourceManager.mBuffers.write 1
      { defaultBufferObject with mTarget := GL_ARRAY_BUFFER, mAllocated := true, mSize := 16 })

/-- The context `contextTwoPrograms` with program 2 (linked) in use; it has the
uniforms `lights` (a `GL_FLOAT` array of 4 elements at locations 10 to 13) and
`m` (a `GL_FLOAT_MAT3` array of 2 elements at locations 20 and 21) and `r` (a
`GL_FLOAT_MAT2` at location 30). -/
def contextUniforms : Context :=
  { contextTwoPrograms with
    mResourceManager :=
      { contextTwoPrograms.mResourceManager with
        mShaderPrograms :=
          contextTwoPrograms.mResourceManager.mShaderPrograms.write 2
            { defaultShaderProgram with
              mLinked := true,
              mUniforms :=
                [{ reflectionName := ['l', 'i', 'g', 'h', 't', 's'], location := 10,
                   arraySize := 4, glType := GL_FLOAT },
                 { reflectionName := ['m'], location := 20, arraySize := 2,
                   glType := GL_FLOAT_MAT3 },
                 { reflectionName := ['r'], location := 30, arraySize := 1,
                   glType := GL_FLOAT_MAT2 }] } },
    mStateManager :=
      { contextTwoPrograms.mStateManager with
        mActiveObjectsState :=
          { contextTwoPrograms.mStateManager.mActiveObjectsState with
            mActiveShaderProgram := some 2 } } }

/-- A call of a `UniformMatrix*fv` function with `location` and `count` passes
validation on a uniform of type `type`, and `c` is the effective count: a
program is in use, the location is not -1 and belongs to a uniform of that type,
`count` is not negative and not above 1 for a uniform that is no array, and the
clamped count is `c`. -/
def Context.passesMatrixValidation (s : Context) (type : GLenum) (location : GLint)
    (count c : Int) : Prop :=
  ∃ act prog u, s.GetActiveShaderProgram = some act ∧
    s.mResourceManager.mShaderPrograms.read act = some prog ∧
    prog.GetUniformAtLocation location = some u ∧ u.glType = type ∧
    ¬ (u.arraySize = 1 ∧ count > 1) ∧ 0 ≤ count ∧ location ≠ -1 ∧
    Context.clampCount u location count = some c ∧ 0 ≤ c

/-- The write framebuffer pointer and the state manager (the active objects
among it) of `s1` are those of `s`. -/
def Context.keepsBinding (s s1 : Context) : Prop :=
  s1.mWriteFBO = s.mWriteFBO ∧ s1.mStateManager = s.mStateManager

/-- A full vector of three elements: its capacity is its size. -/
def vectorThree : MVKVectorImpl Nat :=
  { ptr := [some 1, some 2, some 3], num_elements_used := 3 }

/-- As `envCreate`, but `Framebuffer::SetColorAttachment` gives a framebuffer
that has no colour attachment object yet its first one. -/
def envAttachmentCreated : Env :=
  { envCreate with
    SetColorAttachment := fun f w h =>
      { f with mDimsWidth := w, mDimsHeight := h, mUpdated := true,
               mAttachmentColors :=
                 if f.mAttachmentColors = [] then [defaultAttachment] else f.mAttachmentColors },
    SetColorAttachmentTexture := fun f w h _ =>
      { f with mDimsWidth := w, mDimsHeight := h, mUpdated := true,
               mAttachmentColors :=
                 if f.mAttachmentColors = [] then [defaultAttachment] else f.mAttachmentColors } }

/-- As `contextFramebuffer1Bound`, but framebuffer 1 has no colour attachment
object yet. -/
def contextFramebufferWithoutColor : Context :=
  { contextFramebuffer1Bound with
    mResourceManager :=
      { contextFramebuffer1Bound.mResourceManager with
        mFramebuffers := (emptyArray Framebuffer).write 1
          { defaultFramebuffer with mTarget := GL_FRAMEBUFFER, mAttachmentColors := [] } } }

/-- The three dirty bits a blend-state setter must leave alone. -/
def sameOtherDirtyBits (p q : Pipeline) : Prop :=
  q.GetUpdateVertexAttribVBOs = p.GetUpdateVertexAttribVBOs ∧
  q.GetUpdateIndexBuffer = p.GetUpdateIndexBuffer ∧
  q.GetUpdateViewportState = p.GetUpdateViewportState

/-! ## Theorems -/

/-- C4: after each of the nine blend-state setters of `vulkanAPI::Pipeline`
`GetUpdatePipelineState()` is true, for every previous pipeline state and every
argument, and the VertexAttribVBOs, IndexBuffer and Viewport dirty bits keep
their values. -/
theorem blend_setters_set_pipeline_dirty (p : Pipeline) (a : Nat) (color : Nat → GLfloat) :
    ((p.SetColorBlendAttachmentEnable a).GetUpdatePipelineState = true ∧
      sameOtherDirtyBits p (p.SetColorBlendAttachmentEnable a)) ∧
    ((p.SetColorBlendConstants color).GetUpdatePipelineState = true ∧
      sameOtherDirtyBits p (p.SetColorBlendConstants color)) ∧
    ((p.SetColorBlendAttachmentWriteMask a).GetUpdatePipelineState = true ∧
      sameOtherDirtyBits p (p.SetColorBlendAttachmentWriteMask a)) ∧
    ((p.SetColorBlendAttachmentSrcColorFactor a).GetUpdatePipelineState = true ∧
      sameOtherDirtyBits p (p.SetColorBlendAttachmentSrcColorFactor a)) ∧
    ((p.SetColorBlendAttachmentDstColorFactor a).GetUpdatePipelineState = true ∧
      sameOtherDirtyBits p (p.SetColorBlendAttachmentDstColorFactor a)) ∧
    ((p.SetColorBlendAttachmentSrcAlphaFactor a).GetUpdatePipelineState = true ∧
      sameOtherDirtyBits p (p.SetColorBlendAttachmentSrcAlphaFactor a)) ∧
    ((p.SetColorBlendAttachmentDstAlphaFactor a).GetUpdatePipelineState = true ∧
      sameOtherDirtyBits p (p.SetColorBlendAttachmentDstAlphaFactor a)) ∧
    ((p.SetColorBlendAttachmentColorOp a).GetUpdatePipelineState = true ∧
      sameOtherDirtyBits p (p.SetColorBlendAttachmentColorOp a)) ∧
    ((p.SetColorBlendAttachmentAlphaOp a).GetUpdatePipelineState = true ∧
      sameOtherDirtyBits p (p.SetColorBlendAttachmentAlphaOp a)) := by
  refine ⟨⟨rfl, rfl, rfl, rfl⟩, ⟨rfl, rfl, rfl, rfl⟩, ⟨rfl, rfl, rfl, rfl⟩,
    ⟨rfl, rfl, rfl, rfl⟩, ⟨rfl, rfl, rfl, rfl⟩, ⟨rfl, rfl, rfl, rfl⟩,
    ⟨rfl, rfl, rfl, rfl⟩, ⟨rfl, rfl, rfl, rfl⟩, ⟨rfl, rfl, rfl, rfl⟩⟩


/-! ### Buffer objects -/

theorem ObjectArray.GetObject_some {α : Type} (fresh : Option α) (a : ObjectArray α) (index p : Nat)
    (arr : ObjectArray α) (h : a.GetObject fresh index = (some p, arr)) :
    p = index ∧ (arr.read index).isSome = true ∧
      (a.ObjectExists index = true → arr = a) := by
  unfold ObjectArray.GetObject at h
  cases hobj : a.mObjects index with
  | some o =>
    simp only [hobj, Prod.mk.injEq, Option.some.injEq] at h
    obtain ⟨h1, h2⟩ := h
    subst h1 h2
    simp [ObjectArray.read, hobj]
  | none =>
    cases fresh with
    | none => simp [hobj] at h
    | some o =>
      simp only [hobj, Prod.mk.injEq, Option.some.injEq] at h
      obtain ⟨h1, h2⟩ := h
      subst h1 h2
      simp [ObjectArray.read, ObjectArray.write, ObjectArray.ObjectExists, hobj]

theorem ObjectArray.GetObject_isSome {α : Type} (fresh : Option α) (a : ObjectArray α) (index : Nat)
    (h : a.ObjectExists index = true ∨ fresh.isSome = true) :
    ∃ arr, a.GetObject fresh index = (some index, arr) := by
  unfold ObjectArray.GetObject
  cases hobj : a.mObjects index with
  | some o => exact ⟨a, rfl⟩
  | none =>
    cases fresh with
    | none => simp [ObjectArray.ObjectExists, hobj] at h
    | some o => exact ⟨_, rfl⟩

/-- C7 (counterexample): in the empty context buffer 5 does not exist, and
`BindBuffer(GL_ARRAY_BUFFER, 5)` records no error whatever an array lookup at a
free index yields; whenever the call returns, buffer 5 is bound to
`GL_ARRAY_BUFFER`, and it does return when the lookup creates the object. -/
theorem BindBuffer_missing_id_counterexample :
    emptyContext.mResourceManager.BufferExists 5 = false ∧
    emptyContext.GetActiveObjectsState.GetActiveBufferObject GL_ARRAY_BUFFER = none ∧
    (∃ s1, emptyContext.BindBuffer envCreate GL_ARRAY_BUFFER 5 = some s1 ∧ s1.mErrors = [] ∧
      s1.GetActiveObjectsState.GetActiveBufferObject GL_ARRAY_BUFFER = some 5) ∧
    emptyContext.BindBuffer envNull GL_ARRAY_BUFFER 5 = none :=
  ⟨rfl, rfl, ⟨_, rfl, rfl, rfl⟩, rfl⟩

/-- C7 (amended): for a target in {GL_ARRAY_BUFFER, GL_ELEMENT_ARRAY_BUFFER} and
a non-zero id, existing or not, `BindBuffer(target, id)` makes no existence
check and records no error: when the call returns, the object `GetBuffer(id)`
yielded is the binding of `target` and the binding of the other target is
unchanged; and the call returns whenever `GetBuffer(id)` yields an object. -/
theorem BindBuffer_binds_without_check (env : Env) (s : Context) (target : GLenum) (id : GLuint)
    (htarget : target = GL_ARRAY_BUFFER ∨ target = GL_ELEMENT_ARRAY_BUFFER) (hid : id ≠ 0) :
    (∀ s1, s.BindBuffer env target id = some s1 →
      s1.mErrors = s.mErrors ∧
      s1.GetActiveObjectsState.GetActiveBufferObject target = some id ∧
      (∀ other, (other = GL_ARRAY_BUFFER ∨ other = GL_ELEMENT_ARRAY_BUFFER) → other ≠ target →
        s1.GetActiveObjectsState.GetActiveBufferObject other =
          s.GetActiveObjectsState.GetActiveBufferObject other)) ∧
    ((s.mResourceManager.BufferExists id = true ∨ env.newBufferObject.isSome = true) →
      ∃ s1, s.BindBuffer env target id = some s1) := by
  have hvalid : ¬ (target ≠ GL_ARRAY_BUFFER ∧ target ≠ GL_ELEMENT_ARRAY_BUFFER) := by
    rcases htarget with h | h <;> simp [h]
  constructor
  · intro s1 h
    unfold Context.BindBuffer at h
    rw [if_neg hvalid, if_pos hid] at h
    rcases hget : s.mResourceManager.mBuffers.GetObject env.newBufferObject id with ⟨bo, arr⟩
    rw [hget] at h
    cases bo with
    | none => simp at h
    | some bo =>
      obtain ⟨hbo, _, _⟩ := ObjectArray.GetObject_some _ _ _ _ _ hget
      subst hbo
      cases hread : arr.read bo with
      | none => simp [hread] at h
      | some obj =>
        simp only [hread, Option.some.injEq] at h
        subst h
        refine ⟨?_, ?_, ?_⟩
        · unfold Context.updateIndexBufferIf
          split <;> rfl
        · unfold Context.updateIndexBufferIf
          split <;>
            simp [Context.setPipeline, Context.setActiveObjectsState, Context.GetActiveObjectsState,
              Context.setBuffers, StateActiveObjects.SetActiveBufferObject,
              StateActiveObjects.GetActiveBufferObject] <;>
            split <;> simp_all
        · intro other hother hne
          unfold Context.updateIndexBufferIf
          split <;>
            simp [Context.setPipeline, Context.setActiveObjectsState, Context.GetActiveObjectsState,
              Context.setBuffers, StateActiveObjects.SetActiveBufferObject,
              StateActiveObjects.GetActiveBufferObject] <;>
            rcases htarget with h1 | h1 <;> rcases hother with h2 | h2 <;>
            simp_all [GL_ARRAY_BUFFER, GL_ELEMENT_ARRAY_BUFFER]
  · intro h
    obtain ⟨arr, hget⟩ := ObjectArray.GetObject_isSome env.newBufferObject _ id h
    obtain ⟨_, hread, _⟩ := ObjectArray.GetObject_some _ _ _ _ _ hget
    unfold Context.BindBuffer
    rw [if_neg hvalid, if_pos hid, hget]
    cases hr : arr.read id with
    | none => simp [hr] at hread
    | some obj => simp [hr]

/-- C7 (witness): the amended statement at `BindBuffer(GL_ARRAY_BUFFER, 5)` in
the empty context. -/
theorem BindBuffer_binds_without_check_witness :
    ∃ s1, emptyContext.BindBuffer envCreate GL_ARRAY_BUFFER 5 = some s1 :=
  (BindBuffer_binds_without_check envCreate emptyContext GL_ARRAY_BUFFER 5
    (Or.inl rfl) (by decide)).2 (Or.inr rfl)


theorem recordsOnly_RecordError (s : Context) (e : GLenum) :
    recordsOnly (some (s.RecordError e)) s e :=
  ⟨_, rfl, rfl, rfl, rfl, rfl⟩

/-- C8: `BufferData` records exactly one error, chosen by the first failing
check in the order target (GL_INVALID_ENUM), usage (GL_INVALID_ENUM), size < 0
(GL_INVALID_VALUE), no buffer bound to target (GL_INVALID_OPERATION); in each
of the four cases the buffer objects, the bindings and the dirty bits
(IndexBuffer among them) are unchanged. -/
theorem BufferData_first_failing_check (env : Env) (s : Context) (target : GLenum)
    (size : GLsizeiptr) (data : Option (Nat → Nat)) (usage : GLenum) :
    ((target ≠ GL_ARRAY_BUFFER ∧ target ≠ GL_ELEMENT_ARRAY_BUFFER) →
      recordsOnly (s.BufferData env target size data usage) s GL_INVALID_ENUM) ∧
    ((target = GL_ARRAY_BUFFER ∨ target = GL_ELEMENT_ARRAY_BUFFER) →
      (usage ≠ GL_STREAM_DRAW ∧ usage ≠ GL_STATIC_DRAW ∧ usage ≠ GL_DYNAMIC_DRAW) →
      recordsOnly (s.BufferData env target size data usage) s GL_INVALID_ENUM) ∧
    ((target = GL_ARRAY_BUFFER ∨ target = GL_ELEMENT_ARRAY_BUFFER) →
      (usage = GL_STREAM_DRAW ∨ usage = GL_STATIC_DRAW ∨ usage = GL_DYNAMIC_DRAW) →
      size < 0 →
      recordsOnly (s.BufferData env target size data usage) s GL_INVALID_VALUE) ∧
    ((target = GL_ARRAY_BUFFER ∨ target = GL_ELEMENT_ARRAY_BUFFER) →
      (usage = GL_STREAM_DRAW ∨ usage = GL_STATIC_DRAW ∨ usage = GL_DYNAMIC_DRAW) →
      0 ≤ size →
      s.GetActiveObjectsState.GetActiveBufferObject target = none →
      recordsOnly (s.BufferData env target size data usage) s GL_INVALID_OPERATION) := by
  refine ⟨?_, ?_, ?_, ?_⟩
  · intro ht
    unfold Context.BufferData
    rw [if_pos ht]
    exact recordsOnly_RecordError s _
  · intro ht hu
    have ht1 : ¬ (target ≠ GL_ARRAY_BUFFER ∧ target ≠ GL_ELEMENT_ARRAY_BUFFER) := by
      rcases ht with h | h <;> simp [h]
    unfold Context.BufferData
    rw [if_neg ht1, if_pos hu]
    exact recordsOnly_RecordError s _
  · intro ht hu hs
    have ht1 : ¬ (target ≠ GL_ARRAY_BUFFER ∧ target ≠ GL_ELEMENT_ARRAY_BUFFER) := by
      rcases ht with h | h <;> simp [h]
    have hu1 : ¬ (usage ≠ GL_STREAM_DRAW ∧ usage ≠ GL_STATIC_DRAW ∧ usage ≠ GL_DYNAMIC_DRAW) := by
      rcases hu with h | h | h <;> simp [h]
    unfold Context.BufferData
    rw [if_neg ht1, if_neg hu1, if_pos hs]
    exact recordsOnly_RecordError s _
  · intro ht hu hs hb
    have ht1 : ¬ (target ≠ GL_ARRAY_BUFFER ∧ target ≠ GL_ELEMENT_ARRAY_BUFFER) := by
      rcases ht with h | h <;> simp [h]
    have hu1 : ¬ (usage ≠ GL_STREAM_DRAW ∧ usage ≠ GL_STATIC_DRAW ∧ usage ≠ GL_DYNAMIC_DRAW) := by
      rcases hu with h | h | h <;> simp [h]
    unfold Context.BufferData
    rw [if_neg ht1, if_neg hu1, if_neg (not_lt.mpr hs)]
    simp only [hb]
    exact recordsOnly_RecordError s _

/-- C8 (witness): the four error cases, each at a concrete call on a context in
which buffer 1 is bound to `GL_ARRAY_BUFFER` and nothing to
`GL_ELEMENT_ARRAY_BUFFER`. -/
theorem BufferData_first_failing_check_witness :
    recordsOnly (contextBuffer1Bound.BufferData envCreate GL_FRAMEBUFFER (-1) none 0)
      contextBuffer1Bound GL_INVALID_ENUM ∧
    recordsOnly (contextBuffer1Bound.BufferData envCreate GL_ARRAY_BUFFER (-1) none 0)
      contextBuffer1Bound GL_INVALID_ENUM ∧
    recordsOnly (contextBuffer1Bound.BufferData envCreate GL_ARRAY_BUFFER (-1) none GL_STATIC_DRAW)
      contextBuffer1Bound GL_INVALID_VALUE ∧
    recordsOnly (contextBuffer1Bound.BufferData envCreate GL_ELEMENT_ARRAY_BUFFER 64 none GL_STATIC_DRAW)
      contextBuffer1Bound GL_INVALID_OPERATION :=
  ⟨(BufferData_first_failing_check envCreate contextBuffer1Bound GL_FRAMEBUFFER (-1) none 0).1
      (by decide),
   (BufferData_first_failing_check envCreate contextBuffer1Bound GL_ARRAY_BUFFER (-1) none 0).2.1
      (Or.inl rfl) (by decide),
   (BufferData_first_failing_check envCreate contextBuffer1Bound GL_ARRAY_BUFFER (-1) none
      GL_STATIC_DRAW).2.2.1 (Or.inl rfl) (Or.inr (Or.inl rfl)) (by decide),
   (BufferData_first_failing_check envCreate contextBuffer1Bound GL_ELEMENT_ARRAY_BUFFER 64 none
      GL_STATIC_DRAW).2.2.2 (Or.inr rfl) (Or.inr (Or.inl rfl)) (by decide) rfl⟩


theorem toGLint_of_lt (x : Nat) (h : x < 2 ^ 31) : toGLint x = (x : Int) := by
  unfold toGLint
  have h1 : x % 2 ^ 32 = x := Nat.mod_eq_of_lt (by omega)
  rw [h1, if_pos h]

theorem ObjectArray.read_write {α : Type} (a : ObjectArray α) (ptr : Nat) (v : α) :
    (a.write ptr v).read ptr = some v := by
  simp [ObjectArray.read, ObjectArray.write]

/-- C9 (counterexample): with buffer 1 bound to `GL_ARRAY_BUFFER`, a successful
`BufferData(GL_ARRAY_BUFFER, 2^31, data, GL_STATIC_DRAW)` is followed by a
`GL_BUFFER_SIZE` query that writes `-2^31`, not `2^31`. -/
theorem BufferData_size_query_counterexample :
    ∃ s1, contextBuffer1Bound.BufferData envCreate GL_ARRAY_BUFFER 2147483648
        (some fun _ => 0) GL_STATIC_DRAW = some s1 ∧
      s1.mErrors = [] ∧
      s1.GetBufferParameteriv GL_ARRAY_BUFFER GL_BUFFER_SIZE = some (s1, some (-2147483648)) :=
  ⟨_, rfl, rfl, rfl⟩

theorem Context.updateIndexBufferIf_mErrors (s : Context) (target : GLenum) (b : Bool) :
    (s.updateIndexBufferIf target b).mErrors = s.mErrors := by
  unfold Context.updateIndexBufferIf
  split <;> rfl

theorem Context.updateIndexBufferIf_mResourceManager (s : Context) (target : GLenum) (b : Bool) :
    (s.updateIndexBufferIf target b).mResourceManager = s.mResourceManager := by
  unfold Context.updateIndexBufferIf
  split <;> rfl

theorem Context.updateIndexBufferIf_GetActiveObjectsState (s : Context) (target : GLenum) (b : Bool) :
    (s.updateIndexBufferIf target b).GetActiveObjectsState = s.GetActiveObjectsState := by
  unfold Context.updateIndexBufferIf
  split <;> rfl

/-- What `BufferData` does when all checks pass and the allocation succeeds:
the bound buffer object is replaced by one of the requested size and usage. -/
theorem Context.BufferData_success (env : Env) (s : Context) (t : GLenum)
    (n : GLsizeiptr) (data : Option (Nat → Nat)) (u : GLenum) (bo : Nat) (obj : BufferObject)
    (ht : t = GL_ARRAY_BUFFER ∨ t = GL_ELEMENT_ARRAY_BUFFER)
    (hu : u = GL_STREAM_DRAW ∨ u = GL_STATIC_DRAW ∨ u = GL_DYNAMIC_DRAW)
    (hn0 : 0 ≤ n)
    (hbound : s.GetActiveObjectsState.GetActiveBufferObject t = some bo)
    (hobj : s.mResourceManager.mBuffers.read bo = some obj)
    (halloc : env.allocateBuffer n.toNat = true) :
    ∃ obj2 : BufferObject, obj2.GetSize = n.toNat ∧ obj2.GetUsage = u ∧
      s.BufferData env t n data u =
        some ((s.setBuffers (s.mResourceManager.mBuffers.write bo obj2)).updateIndexBufferIf t
          obj2.IsIndexBuffer) := by
  have ht1 : ¬ (t ≠ GL_ARRAY_BUFFER ∧ t ≠ GL_ELEMENT_ARRAY_BUFFER) := by
    rcases ht with h | h <;> simp [h]
  have hu1 : ¬ (u ≠ GL_STREAM_DRAW ∧ u ≠ GL_STATIC_DRAW ∧ u ≠ GL_DYNAMIC_DRAW) := by
    rcases hu with h | h | h <;> simp [h]
  unfold Context.BufferData
  rw [if_neg ht1, if_neg hu1, if_neg (not_lt.mpr hn0)]
  simp only [hbound, hobj, halloc, BufferObject.Allocate, if_true]
  refine ⟨_, ?_, ?_, rfl⟩
  · rfl
  · simp only [BufferObject.GetUsage]
    split <;> rfl

/-- C9 (amended): for a buffer bound to a target `t`, a size `0 <= n < 2^31`,
non-null data and a usage `u` among the three legal ones, if the allocation
made by `BufferData(t, n, data, u)` succeeds then the call returns without
recording an error, and afterwards `GetBufferParameteriv(t, GL_BUFFER_SIZE)`
writes `n`, `GetBufferParameteriv(t, GL_BUFFER_USAGE)` writes `u`, and neither
query changes the context (so neither records an error). -/
theorem BufferData_then_GetBufferParameteriv (env : Env) (s : Context) (t : GLenum)
    (n : GLsizeiptr) (d : Nat → Nat) (u : GLenum) (bo : Nat) (obj : BufferObject)
    (ht : t = GL_ARRAY_BUFFER ∨ t = GL_ELEMENT_ARRAY_BUFFER)
    (hu : u = GL_STREAM_DRAW ∨ u = GL_STATIC_DRAW ∨ u = GL_DYNAMIC_DRAW)
    (hn0 : 0 ≤ n) (hn : n < 2 ^ 31)
    (hbound : s.GetActiveObjectsState.GetActiveBufferObject t = some bo)
    (hobj : s.mResourceManager.mBuffers.read bo = some obj)
    (halloc : env.allocateBuffer n.toNat = true) :
    ∃ s1, s.BufferData env t n (some d) u = some s1 ∧
      s1.mErrors = s.mErrors ∧
      s1.GetBufferParameteriv t GL_BUFFER_SIZE = some (s1, some n) ∧
      s1.GetBufferParameteriv t GL_BUFFER_USAGE = some (s1, some (u : Int)) := by
  have ht1 : ¬ (t ≠ GL_ARRAY_BUFFER ∧ t ≠ GL_ELEMENT_ARRAY_BUFFER) := by
    rcases ht with h | h <;> simp [h]
  have hn1 : n.toNat < 2 ^ 31 := by
    refine (Int.toNat_lt hn0).mpr ?_
    push_cast
    exact hn
  have hsize : toGLint n.toNat = n := by
    rw [toGLint_of_lt _ hn1]
    exact Int.toNat_of_nonneg hn0
  have husage : toGLint u = (u : Int) := by
    apply toGLint_of_lt
    rcases hu with h | h | h <;> rw [h] <;> decide
  have hpn : ¬ (GL_BUFFER_SIZE ≠ GL_BUFFER_SIZE ∧ GL_BUFFER_SIZE ≠ GL_BUFFER_USAGE) := by decide
  have hpu : ¬ (GL_BUFFER_USAGE ≠ GL_BUFFER_SIZE ∧ GL_BUFFER_USAGE ≠ GL_BUFFER_USAGE) := by decide
  have hne : GL_BUFFER_USAGE ≠ GL_BUFFER_SIZE := by decide
  obtain ⟨obj2, hs2, hu2, hrun⟩ :=
    Context.BufferData_success env s t n (some d) u bo obj ht hu hn0 hbound hobj halloc
  refine ⟨_, hrun, ?_, ?_, ?_⟩
  · rw [Context.updateIndexBufferIf_mErrors]
    rfl
  · unfold Context.GetBufferParameteriv
    rw [if_neg ht1, if_neg hpn, Context.updateIndexBufferIf_GetActiveObjectsState,
      Context.updateIndexBufferIf_mResourceManager]
    have hb : (s.setBuffers (s.mResourceManager.mBuffers.write bo obj2)).GetActiveObjectsState
        = s.GetActiveObjectsState := rfl
    have hr : (s.setBuffers (s.mResourceManager.mBuffers.write bo obj2)).mResourceManager.mBuffers.read bo
        = some obj2 := ObjectArray.read_write _ _ _
    rw [hb, hbound]
    simp only [hr, if_true, hs2, hsize]
  · unfold Context.GetBufferParameteriv
    rw [if_neg ht1, if_neg hpu, Context.updateIndexBufferIf_GetActiveObjectsState,
      Context.updateIndexBufferIf_mResourceManager]
    have hb : (s.setBuffers (s.mResourceManager.mBuffers.write bo obj2)).GetActiveObjectsState
        = s.GetActiveObjectsState := rfl
    have hr : (s.setBuffers (s.mResourceManager.mBuffers.write bo obj2)).mResourceManager.mBuffers.read bo
        = some obj2 := ObjectArray.read_write _ _ _
    rw [hb, hbound]
    simp only [hr, if_neg hne, hu2, husage]

/-- C9 (witness): the scenario of the spec, 64 bytes uploaded with
`GL_STATIC_DRAW` to buffer 1 bound to `GL_ARRAY_BUFFER`. -/
theorem BufferData_then_GetBufferParameteriv_witness :
    ∃ s1, contextBuffer1Bound.BufferData envCreate GL_ARRAY_BUFFER 64 (some fun _ => 0)
        GL_STATIC_DRAW = some s1 ∧
      s1.mErrors = contextBuffer1Bound.mErrors ∧
      s1.GetBufferParameteriv GL_ARRAY_BUFFER GL_BUFFER_SIZE = some (s1, some 64) ∧
      s1.GetBufferParameteriv GL_ARRAY_BUFFER GL_BUFFER_USAGE =
        some (s1, some (GL_STATIC_DRAW : Int)) :=
  BufferData_then_GetBufferParameteriv envCreate contextBuffer1Bound GL_ARRAY_BUFFER 64
    (fun _ => 0) GL_STATIC_DRAW 1 (defaultBufferObject.SetTarget GL_ARRAY_BUFFER)
    (Or.inl rfl) (Or.inr (Or.inl rfl)) (by decide) (by decide) rfl rfl rfl


/-- C10 (failing input): buffer 1 exists; after `BindBuffer(GL_ARRAY_BUFFER, 1)`
and `BindBuffer(GL_ELEMENT_ARRAY_BUFFER, 1)` the call `DeleteBuffers(1, {1})`
deallocates buffer 1 and resets the `GL_ELEMENT_ARRAY_BUFFER` binding only:
`GL_ARRAY_BUFFER` still refers to the deallocated buffer. -/
theorem DeleteBuffers_bound_to_both_targets :
    ∃ s1 s2 s3, contextWithBuffer1.BindBuffer envCreate GL_ARRAY_BUFFER 1 = some s1 ∧
      s1.BindBuffer envCreate GL_ELEMENT_ARRAY_BUFFER 1 = some s2 ∧
      s2.mResourceManager.BufferExists 1 = true ∧
      s2.DeleteBuffers envCreate 1 (some [1]) = some s3 ∧
      s3.mResourceManager.BufferExists 1 = false ∧
      s3.GetActiveObjectsState.GetActiveBufferObject GL_ELEMENT_ARRAY_BUFFER = none ∧
      s3.GetActiveObjectsState.GetActiveBufferObject GL_ARRAY_BUFFER = some 1 :=
  ⟨_, _, _, rfl, rfl, rfl, rfl, rfl, rfl, rfl⟩



/-! ### Shader programs -/

theorem Context.Finish_frame (env : Env) (s : Context) :
    s.sameExceptFramebuffers (s.Finish env) ∧ (s.Finish env).mTrace = s.mTrace ++ [.Finish] := by
  unfold Context.Finish Context.sameExceptFramebuffers
  cases s.framebufferAt s.mWriteFBO with
  | none => exact ⟨⟨rfl, rfl, rfl, rfl, rfl, rfl⟩, rfl⟩
  | some fb =>
    cases s.mWriteFBO with
    | system => exact ⟨⟨rfl, rfl, rfl, rfl, rfl, rfl⟩, rfl⟩
    | user i => exact ⟨⟨rfl, rfl, rfl, rfl, rfl, rfl⟩, rfl⟩

theorem Context.finishIfInDrawState_frame (env : Env) (s : Context) (fb : Framebuffer)
    (hfb : s.framebufferAt s.mWriteFBO = some fb) :
    ∃ s1, s.finishIfInDrawState env = some s1 ∧ s.sameExceptFramebuffers s1 ∧
      s1.mTrace = s.mTrace ++ finishEvents fb := by
  unfold Context.finishIfInDrawState finishEvents
  rw [hfb]
  by_cases hd : fb.IsInDrawState = true
  · simp only [hd, if_true]
    exact ⟨_, rfl, (Context.Finish_frame env s).1, (Context.Finish_frame env s).2⟩
  · simp only [hd]
    refine ⟨_, rfl, ⟨rfl, rfl, rfl, rfl, rfl, rfl⟩, ?_⟩
    simp

theorem Context.GetProgramPtr_frame (env : Env) (s : Context) (program : GLuint) :
    (s.GetProgramPtr env program).2.mStateManager = s.mStateManager ∧
    (s.GetProgramPtr env program).2.mPipeline = s.mPipeline ∧
    (s.GetProgramPtr env program).2.mTrace = s.mTrace ∧
    (s.GetProgramPtr env program).2.mResourceManager.mShadingObjectPool =
      s.mResourceManager.mShadingObjectPool ∧
    (s.GetProgramPtr env program).2.mResourceManager.mShadingObjectCount =
      s.mResourceManager.mShadingObjectCount := by
  unfold Context.GetProgramPtr
  split
  · exact ⟨rfl, rfl, rfl, rfl, rfl⟩
  · split
    · exact ⟨rfl, rfl, rfl, rfl, rfl⟩
    · exact ⟨rfl, rfl, rfl, rfl, rfl⟩

/-- A rejected id: `GetProgramPtr` returns null, records one error and changes
nothing else. -/
theorem Context.GetProgramPtr_none (env : Env) (s : Context) (program : GLuint)
    (h : (s.GetProgramPtr env program).1 = none) :
    (∃ e, (s.GetProgramPtr env program).2 = s.RecordError e) ∨
      (s.GetProgramPtr env program).2 = s := by
  unfold Context.GetProgramPtr at h ⊢
  split
  · exact Or.inl ⟨_, rfl⟩
  · split
    · exact Or.inl ⟨_, rfl⟩
    · rename_i h1 h2
      rw [if_neg h1, if_neg h2] at h
      simp only at h
      right
      unfold ObjectArray.GetObject at h ⊢
      cases hobj : s.mResourceManager.mShaderPrograms.mObjects
          (s.mResourceManager.GetShadingObject program).arrayIndex with
      | some o => simp [hobj] at h
      | none =>
        cases hfresh : env.newShaderProgram with
        | some o => simp [hobj, hfresh] at h
        | none => rfl

theorem Context.GetProgramPtr_resolved (env : Env) (s : Context) (program : GLuint)
    (progPtr : Nat) (prog : ShaderProgram) (h : s.ResolvesTo env program progPtr prog) :
    s.GetProgramPtr env program = (some progPtr, s) ∧ program ≠ 0 ∧
      s.mResourceManager.mShadingObjectPool program =
        some { type := .SHADER_PROGRAM_ID, arrayIndex := progPtr } := by
  obtain ⟨h1, hobj⟩ := h
  unfold Context.GetProgramPtr at h1 ⊢
  by_cases hc1 : program = 0 ∨ program ≥ s.mResourceManager.GetShadingObjectCount ∨
      s.mResourceManager.ShadingObjectExists program = false
  · rw [if_pos hc1] at h1
    simp at h1
  · rw [if_neg hc1] at h1 ⊢
    by_cases hc2 : (s.mResourceManager.GetShadingObject program).arrayIndex = 0 ∨
        (s.mResourceManager.GetShadingObject program).type ≠ .SHADER_PROGRAM_ID
    · rw [if_pos hc2] at h1
      simp at h1
    · rw [if_neg hc2] at h1 ⊢
      simp only at h1 ⊢
      rcases hget : s.mResourceManager.mShaderPrograms.GetObject env.newShaderProgram
          (s.mResourceManager.GetShadingObject program).arrayIndex with ⟨o, arr⟩
      rw [hget] at h1
      simp only at h1
      subst h1
      obtain ⟨hp, _, hsame⟩ := ObjectArray.GetObject_some _ _ _ _ _ hget
      have hex : s.mResourceManager.mShaderPrograms.ObjectExists
          (s.mResourceManager.GetShadingObject program).arrayIndex = true := by
        rw [← hp]
        unfold ObjectArray.ObjectExists
        unfold ObjectArray.read at hobj
        rw [hobj]
        rfl
      have harr := hsame hex
      subst harr
      simp only [not_or, not_not, ne_eq] at hc1 hc2
      refine ⟨rfl, hc1.1, ?_⟩
      have hex2 := hc1.2.2
      unfold ResourceManager.ShadingObjectExists at hex2
      unfold ResourceManager.GetShadingObject at hc2 hp
      cases hpool : s.mResourceManager.mShadingObjectPool program with
      | none => simp [hpool] at hex2
      | some ns =>
        rw [hpool] at hc2 hp
        simp only [Option.getD_some] at hc2 hp
        cases ns with
        | mk ty idx =>
          simp only at hc2 hp
          rw [hc2.2, hp]


theorem ObjectArray.read_Deallocate_write {α : Type} (a : ObjectArray α) (ptr : Nat) (v : α) :
    ((a.write ptr v).Deallocate ptr).read ptr = none ∧
    ∀ p, p ≠ ptr → ((a.write ptr v).Deallocate ptr).read p = a.read p := by
  constructor
  · simp [ObjectArray.read, ObjectArray.write, ObjectArray.Deallocate]
  · intro p hp
    simp [ObjectArray.read, ObjectArray.write, ObjectArray.Deallocate, Function.update_noteq hp]

/-- The collection of an active program that is marked for deletion. -/
theorem Context.collect_marked (env : Env) (s : Context) (act : Nat) (prog : ShaderProgram)
    (fb : Framebuffer) (hact : s.GetActiveShaderProgram = some act)
    (hprog : s.mResourceManager.mShaderPrograms.read act = some prog)
    (hmark : prog.GetMarkForDeletion = true)
    (hfb : s.framebufferAt s.mWriteFBO = some fb) :
    ∃ s1, Context.UseProgram.collect env s = some s1 ∧
      s1.mTrace = s.mTrace ++ finishEvents fb ++
        [.DetachAndDeleteShaders act, .EraseShadingObject (s.GetProgramId act),
         .DeallocateShaderProgram act] ∧
      s1.mResourceManager.mShadingObjectPool =
        Function.update s.mResourceManager.mShadingObjectPool (s.GetProgramId act) none ∧
      s1.mResourceManager.mShaderPrograms.read act = none ∧
      (∀ p, p ≠ act → s1.mResourceManager.mShaderPrograms.read p =
        s.mResourceManager.mShaderPrograms.read p) ∧
      s1.mStateManager = s.mStateManager ∧ s1.mErrors = s.mErrors ∧ s1.mPipeline = s.mPipeline := by
  obtain ⟨s1, hfin, ⟨hcount, hpool, hprogs, hsm, herr, hpipe⟩, htrace⟩ :=
    Context.finishIfInDrawState_frame env s fb hfb
  have hread : s1.mResourceManager.mShaderPrograms.read act = some prog := by rw [hprogs, hprog]
  have hid : Context.GetProgramId
      ((s1.setShaderPrograms (s1.mResourceManager.mShaderPrograms.write act
        prog.DetachAndDeleteShaders)).log (Event.DetachAndDeleteShaders act)) act
      = s.GetProgramId act := by
    show ResourceManager.FindShaderProgramID _ act = ResourceManager.FindShaderProgramID _ act
    unfold ResourceManager.FindShaderProgramID
    show ((List.range s1.mResourceManager.mShadingObjectCount).find? fun id =>
      decide (s1.mResourceManager.mShadingObjectPool id = _)).getD 0 = _
    rw [hcount, hpool]
  unfold Context.UseProgram.collect
  rw [hact]
  simp only [hprog, hmark, if_true, hfin, Context.DetachAndDeleteShaders,
    Context.modifyShaderProgram, hread, Option.map_some']
  refine ⟨_, rfl, ?_, ?_, ?_, ?_, ?_, ?_, ?_⟩
  · rw [hid]
    simp [Context.DeallocateShaderProgram, Context.EraseShadingObject, Context.log,
      Context.setShaderPrograms, htrace]
  · rw [hid]
    simp [Context.DeallocateShaderProgram, Context.EraseShadingObject, Context.log,
      Context.setShaderPrograms, ResourceManager.EraseShadingObject,
      ResourceManager.DeallocateShaderProgram, hpool]
  · exact (ObjectArray.read_Deallocate_write _ act _).1
  · intro p hp
    rw [← hprogs]
    exact (ObjectArray.read_Deallocate_write _ act _).2 p hp
  · exact hsm
  · exact herr
  · exact hpipe

/-- Whenever the collection step returns, the active program is the one it was
and every program object other than the active one is untouched. -/
theorem Context.collect_frame (env : Env) (s s1 : Context)
    (h : Context.UseProgram.collect env s = some s1) :
    s1.mStateManager = s.mStateManager ∧
    (∀ p, s.GetActiveShaderProgram ≠ some p →
      s1.mResourceManager.mShaderPrograms.read p = s.mResourceManager.mShaderPrograms.read p) := by
  cases hact : s.GetActiveShaderProgram with
  | none =>
    unfold Context.UseProgram.collect at h
    simp only [hact, Option.some.injEq] at h
    subst h
    exact ⟨rfl, fun _ _ => rfl⟩
  | some act =>
    cases hprog : s.mResourceManager.mShaderPrograms.read act with
    | none =>
      unfold Context.UseProgram.collect at h
      simp [hact, hprog] at h
    | some prog =>
      by_cases hmark : prog.GetMarkForDeletion = true
      · cases hfb : s.framebufferAt s.mWriteFBO with
        | none =>
          unfold Context.UseProgram.collect at h
          simp [hact, hprog, hmark, Context.finishIfInDrawState, hfb] at h
        | some fb =>
          obtain ⟨s2, hrun, _, _, _, hother, hsm, _, _⟩ :=
            Context.collect_marked env s act prog fb hact hprog hmark hfb
          rw [hrun] at h
          simp only [Option.some.injEq] at h
          subst h
          refine ⟨hsm, fun p hp => hother p ?_⟩
          intro hpa
          exact hp (by rw [hpa])
      · unfold Context.UseProgram.collect at h
        simp only [hact, hprog, hmark] at h
        simp only [Bool.false_eq_true, if_false, Option.some.injEq] at h
        subst h
        exact ⟨rfl, fun _ _ => rfl⟩


/-- A program that `UseProgram` newly makes active exists and is linked. -/
theorem Context.UseProgram_active_linked (env : Env) (s s2 : Context) (program : GLuint) (p : Nat)
    (h : s.UseProgram env program = some s2) (hp : s2.GetActiveShaderProgram = some p)
    (hne : s.GetActiveShaderProgram ≠ some p) :
    ∃ pr, s2.mResourceManager.mShaderPrograms.read p = some pr ∧ pr.IsLinked = true := by
  unfold Context.UseProgram at h
  by_cases h0 : program ≠ 0
  · rw [if_pos h0] at h
    have hframe := (Context.GetProgramPtr_frame env s program).1
    rcases hget : s.GetProgramPtr env program with ⟨o, s1⟩
    rw [hget] at h hframe
    simp only at hframe
    have hact1 : s1.GetActiveShaderProgram = s.GetActiveShaderProgram := by
      unfold Context.GetActiveShaderProgram Context.GetActiveObjectsState
      rw [hframe]
    cases o with
    | none =>
      simp only [Option.some.injEq] at h
      subst h
      exact absurd (hact1 ▸ hp) hne
    | some progPtr =>
      simp only at h
      by_cases hsame : s1.GetActiveShaderProgram = some progPtr
      · rw [if_pos hsame] at h
        simp only [Option.some.injEq] at h
        subst h
        exact absurd (hact1 ▸ hp) hne
      · rw [if_neg hsame] at h
        cases hprog : s1.mResourceManager.mShaderPrograms.read progPtr with
        | none => simp [hprog] at h
        | some prog =>
          simp only [hprog] at h
          by_cases hl : prog.IsLinked = false
          · rw [if_pos hl] at h
            simp only [Option.some.injEq] at h
            subst h
            exact absurd (hact1 ▸ hp) hne
          · rw [if_neg hl] at h
            unfold Context.UseProgram.activate at h
            cases hc : Context.UseProgram.collect env s1 with
            | none => simp [hc] at h
            | some s1c =>
              obtain ⟨_, hother⟩ := Context.collect_frame env s1 s1c hc
              have hr : s1c.mResourceManager.mShaderPrograms.read progPtr = some prog := by
                rw [hother progPtr hsame, hprog]
              simp only [hc, Context.modifyShaderProgram] at h
              have hr2 : ((s1c.SetActiveShaderProgram (some progPtr)).setPipeline
                  ((s1c.SetActiveShaderProgram (some progPtr)).mPipeline.SetUpdatePipeline
                    true)).mResourceManager.mShaderPrograms.read progPtr = some prog := hr
              rw [hr2] at h
              simp only [Option.some.injEq] at h
              subst h
              have hpp : p = progPtr := by
                have : some progPtr = some p := hp
                exact (Option.some.inj this).symm
              subst hpp
              refine ⟨prog.EnableUpdateOfDescriptorSets, ObjectArray.read_write _ _ _, ?_⟩
              simpa [ShaderProgram.EnableUpdateOfDescriptorSets, ShaderProgram.IsLinked] using hl
  · rw [if_neg h0] at h
    unfold Context.UseProgram.activate at h
    cases hc : Context.UseProgram.collect env s with
    | none => simp [hc] at h
    | some s1c =>
      simp only [hc, Option.some.injEq] at h
      subst h
      exact absurd hp (by
        show (none : Option Nat) ≠ some p
        simp)

/-- C1: for a non-zero id that resolves to a program object which is not linked
and is not the active program, `UseProgram` returns having recorded
GL_INVALID_OPERATION, with the active shader program, the shading-object table
and the pipeline dirty bits unchanged; and for every id, a program that
`UseProgram` newly makes the active program exists and is linked. -/
theorem UseProgram_rejects_unlinked (env : Env) (s : Context) (program : GLuint) (progPtr : Nat)
    (prog : ShaderProgram) (hres : s.ResolvesTo env program progPtr prog)
    (hunlinked : prog.IsLinked = false)
    (hactive : s.GetActiveShaderProgram ≠ some progPtr) :
    (program ≠ 0 ∧
     ∃ s1, s.UseProgram env program = some s1 ∧
      s1.mErrors = s.mErrors ++ [GL_INVALID_OPERATION] ∧
      s1.GetActiveShaderProgram = s.GetActiveShaderProgram ∧
      s1.mResourceManager.mShadingObjectPool = s.mResourceManager.mShadingObjectPool ∧
      s1.mResourceManager.mShadingObjectCount = s.mResourceManager.mShadingObjectCount ∧
      s1.mPipeline.mUpdateState = s.mPipeline.mUpdateState ∧
      s1.mTrace = s.mTrace) ∧
    (∀ (q : GLuint) (s2 : Context) (p : Nat), s.UseProgram env q = some s2 →
      s2.GetActiveShaderProgram = some p → s.GetActiveShaderProgram ≠ some p →
      ∃ pr, s2.mResourceManager.mShaderPrograms.read p = some pr ∧ pr.IsLinked = true) := by
  obtain ⟨hget, h0, _⟩ := Context.GetProgramPtr_resolved env s program progPtr prog hres
  refine ⟨⟨h0, s.RecordError GL_INVALID_OPERATION, ?_, rfl, rfl, rfl, rfl, rfl, rfl⟩, ?_⟩
  · unfold Context.UseProgram
    rw [if_pos h0, hget]
    simp only [if_neg hactive, hres.2, hunlinked, if_true]
  · intro q s2 p h hp hne
    exact Context.UseProgram_active_linked env s s2 q p h hp hne

/-- C1 (witness): `UseProgram(1)` where id 1 is an unlinked program and no
program is active. -/
theorem UseProgram_rejects_unlinked_witness :
    ∃ s1, contextTwoPrograms.UseProgram envCreate 1 = some s1 ∧
      s1.mErrors = contextTwoPrograms.mErrors ++ [GL_INVALID_OPERATION] ∧
      s1.GetActiveShaderProgram = contextTwoPrograms.GetActiveShaderProgram ∧
      s1.mResourceManager.mShadingObjectPool =
        contextTwoPrograms.mResourceManager.mShadingObjectPool ∧
      s1.mResourceManager.mShadingObjectCount =
        contextTwoPrograms.mResourceManager.mShadingObjectCount ∧
      s1.mPipeline.mUpdateState = contextTwoPrograms.mPipeline.mUpdateState ∧
      s1.mTrace = contextTwoPrograms.mTrace :=
  (UseProgram_rejects_unlinked envCreate contextTwoPrograms 1 1 defaultShaderProgram
    ⟨rfl, rfl⟩ rfl (by decide)).1.2

/-- The id found for a program that is registered under exactly one id below
the count is that id. -/
theorem Context.GetProgramId_eq (s : Context) (progPtr : Nat) (id : GLuint)
    (hlt : id < s.mResourceManager.mShadingObjectCount)
    (hid : s.mResourceManager.mShadingObjectPool id =
      some { type := .SHADER_PROGRAM_ID, arrayIndex := progPtr })
    (huniq : ∀ b, s.mResourceManager.mShadingObjectPool b =
      some { type := .SHADER_PROGRAM_ID, arrayIndex := progPtr } → b = id) :
    s.GetProgramId progPtr = id := by
  unfold Context.GetProgramId ResourceManager.FindShaderProgramID
  cases hf : (List.range s.mResourceManager.mShadingObjectCount).find? fun id =>
      decide (s.mResourceManager.mShadingObjectPool id =
        some { type := .SHADER_PROGRAM_ID, arrayIndex := progPtr }) with
  | none =>
    rw [List.find?_eq_none] at hf
    exact absurd (by simpa using hid) (hf id (List.mem_range.mpr hlt))
  | some b =>
    have hb := List.find?_some hf
    simp only [decide_eq_true_eq] at hb
    simpa using huniq b hb

/-- C5: for an id that resolves to a program object: if the program is the
active one, `DeleteProgram` only marks it (it stays allocated with its attached
shaders, stays active, and the shading-object table is unchanged); if it is not,
`DeleteProgram` detaches its shaders, erases the id from the shading-object
table and deallocates the program in the same call; `DeleteProgram(0)` changes
nothing. -/
theorem DeleteProgram_marks_or_destroys (env : Env) (s : Context) (program : GLuint)
    (progPtr : Nat) (prog : ShaderProgram) (hres : s.ResolvesTo env program progPtr prog) :
    (s.GetActiveShaderProgram = some progPtr →
      ∃ s1, s.DeleteProgram env program = some s1 ∧
        s1.mResourceManager.mShaderPrograms.read progPtr = some prog.MarkForDeletion ∧
        prog.MarkForDeletion.mVertexShader = prog.mVertexShader ∧
        prog.MarkForDeletion.mFragmentShader = prog.mFragmentShader ∧
        prog.MarkForDeletion.GetMarkForDeletion = true ∧
        s1.GetActiveShaderProgram = some progPtr ∧
        s1.mResourceManager.mShadingObjectPool = s.mResourceManager.mShadingObjectPool ∧
        s1.mResourceManager.ShadingObjectExists program = true ∧
        s1.mErrors = s.mErrors ∧
        s1.mTrace = s.mTrace ++ [.MarkForDeletion progPtr]) ∧
    (s.GetActiveShaderProgram ≠ some progPtr →
      ∀ fb, s.framebufferAt s.mWriteFBO = some fb →
      ∃ s1, s.DeleteProgram env program = some s1 ∧
        s1.mTrace = s.mTrace ++ finishEvents fb ++
          [.DetachAndDeleteShaders progPtr, .EraseShadingObject program,
           .DeallocateShaderProgram progPtr] ∧
        s1.mResourceManager.ShadingObjectExists program = false ∧
        s1.mResourceManager.mShaderPrograms.read progPtr = none ∧
        s1.GetActiveShaderProgram = s.GetActiveShaderProgram ∧
        s1.mErrors = s.mErrors) ∧
    (s.DeleteProgram env 0 = some s) := by
  obtain ⟨hget, h0, hpool⟩ := Context.GetProgramPtr_resolved env s program progPtr prog hres
  refine ⟨?_, ?_, ?_⟩
  · intro hact
    unfold Context.DeleteProgram
    rw [if_neg h0, hget]
    simp only [hact, ne_eq, not_true_eq_false, if_false, Context.MarkForDeletion,
      Context.modifyShaderProgram, hres.2, Option.map_some']
    refine ⟨_, rfl, ObjectArray.read_write _ _ _, rfl, rfl, rfl, hact, rfl, ?_, rfl, rfl⟩
    show (s.mResourceManager.mShadingObjectPool program).isSome = true
    rw [hpool]
    rfl
  · intro hact fb hfb
    obtain ⟨s1, hfin, ⟨hcount, hpool1, hprogs, hsm, herr, hpipe⟩, htrace⟩ :=
      Context.finishIfInDrawState_frame env s fb hfb
    have hread : s1.mResourceManager.mShaderPrograms.read progPtr = some prog := by
      rw [hprogs, hres.2]
    have hact2 : some progPtr ≠ s.GetActiveShaderProgram := fun h => hact h.symm
    unfold Context.DeleteProgram
    rw [if_neg h0, hget]
    simp only [if_pos hact2, hfin, Context.DetachAndDeleteShaders, Context.modifyShaderProgram,
      hread, Option.map_some']
    refine ⟨_, rfl, ?_, ?_, ?_, ?_, ?_⟩
    · simp [Context.DeallocateShaderProgram, Context.EraseShadingObject, Context.log,
        Context.setShaderPrograms, htrace]
    · simp [Context.DeallocateShaderProgram, Context.EraseShadingObject, Context.log,
        Context.setShaderPrograms, ResourceManager.EraseShadingObject,
        ResourceManager.DeallocateShaderProgram, ResourceManager.ShadingObjectExists]
    · exact (ObjectArray.read_Deallocate_write _ progPtr _).1
    · show Context.GetActiveShaderProgram _ = _
      unfold Context.GetActiveShaderProgram Context.GetActiveObjectsState
      show s1.mStateManager.mActiveObjectsState.mActiveShaderProgram = _
      rw [hsm]
    · exact herr
  · rfl

/-- C5 (witness): with program 2 active, `DeleteProgram(2)` only marks it and
`DeleteProgram(1)` destroys program 1. -/
theorem DeleteProgram_marks_or_destroys_witness :
    (∃ s1, contextProgram2Active.DeleteProgram envCreate 2 = some s1 ∧
      s1.mResourceManager.mShaderPrograms.read 2 =
        some (ShaderProgram.MarkForDeletion { defaultShaderProgram with mLinked := true }) ∧
      s1.GetActiveShaderProgram = some 2) ∧
    (∃ s1, contextProgram2Active.DeleteProgram envCreate 1 = some s1 ∧
      s1.mResourceManager.ShadingObjectExists 1 = false ∧
      s1.mResourceManager.mShaderPrograms.read 1 = none) := by
  constructor
  · obtain ⟨s1, h1, h2, _, _, _, h3, _⟩ :=
      (DeleteProgram_marks_or_destroys envCreate contextProgram2Active 2 2
        { defaultShaderProgram with mLinked := true } ⟨rfl, rfl⟩).1 rfl
    exact ⟨s1, h1, h2, h3⟩
  · obtain ⟨s1, h1, _, h2, h3, _⟩ :=
      (DeleteProgram_marks_or_destroys envCreate contextProgram2Active 1 1
        defaultShaderProgram ⟨rfl, rfl⟩).2.1 (by decide) _ rfl
    exact ⟨s1, h1, h2, h3⟩


/-- What `UseProgram` does after validation when the active program `act`,
registered under `id`, is marked for deletion. -/
theorem Context.activate_marked (env : Env) (s : Context) (act : Nat) (prog : ShaderProgram)
    (fb : Framebuffer) (new : Option Nat) (hact : s.GetActiveShaderProgram = some act)
    (hprog : s.mResourceManager.mShaderPrograms.read act = some prog)
    (hmark : prog.GetMarkForDeletion = true)
    (hfb : s.framebufferAt s.mWriteFBO = some fb)
    (hnew : ∀ p, new = some p →
      p ≠ act ∧ (s.mResourceManager.mShaderPrograms.read p).isSome = true) :
    ∃ s1, Context.UseProgram.activate env s new = some s1 ∧
      s.destroyedThenActivated s1 act (s.GetProgramId act) fb new := by
  obtain ⟨sc, hc, htrace, hpool, hgone, hother, hsm, herr, hpipe⟩ :=
    Context.collect_marked env s act prog fb hact hprog hmark hfb
  have hex : sc.mResourceManager.ShadingObjectExists (s.GetProgramId act) = false := by
    unfold ResourceManager.ShadingObjectExists
    rw [hpool]
    simp
  unfold Context.UseProgram.activate
  rw [hc]
  cases new with
  | none =>
    refine ⟨_, rfl, ?_, hex, hgone, rfl⟩
    simp [Context.setPipeline, Context.SetActiveShaderProgram, Context.log,
      Context.setActiveObjectsState, htrace]
  | some p =>
    obtain ⟨hpa, hpe⟩ := hnew p rfl
    cases hpr : s.mResourceManager.mShaderPrograms.read p with
    | none => simp [hpr] at hpe
    | some pr =>
      have hr : ((sc.SetActiveShaderProgram (some p)).setPipeline
          ((sc.SetActiveShaderProgram (some p)).mPipeline.SetUpdatePipeline
            true)).mResourceManager.mShaderPrograms.read p = some pr := by
        show sc.mResourceManager.mShaderPrograms.read p = some pr
        rw [hother p hpa, hpr]
      simp only [Context.modifyShaderProgram, hr]
      refine ⟨_, rfl, ?_, hex, ?_, rfl⟩
      · simp [Context.setPipeline, Context.SetActiveShaderProgram, Context.log,
          Context.setActiveObjectsState, Context.setShaderPrograms, htrace]
      · show (sc.mResourceManager.mShaderPrograms.write p _).read act = none
        unfold ObjectArray.write ObjectArray.read
        simp only
        rw [Function.update_noteq (Ne.symm hpa)]
        exact hgone

/-- C6: when the active program `act` (registered under the one id `id`) is
marked for deletion, `UseProgram(0)` and `UseProgram(q)` for a linked program
other than `act` erase `id` from the shading-object table and deallocate `act`
before the new program becomes active, after a `Finish()` when the write
framebuffer is in a draw state; `UseProgram` naming `act` itself, an id that
`GetProgramPtr` rejects, or an unlinked program does not destroy `act`. -/
theorem UseProgram_collects_marked_program (env : Env) (s : Context) (act : Nat)
    (actProg : ShaderProgram) (id : GLuint) (fb : Framebuffer)
    (hact : s.GetActiveShaderProgram = some act)
    (hprog : s.mResourceManager.mShaderPrograms.read act = some actProg)
    (hmark : actProg.GetMarkForDeletion = true)
    (hfb : s.framebufferAt s.mWriteFBO = some fb)
    (hlt : id < s.mResourceManager.mShadingObjectCount)
    (hid : s.mResourceManager.mShadingObjectPool id =
      some { type := .SHADER_PROGRAM_ID, arrayIndex := act })
    (huniq : ∀ b, s.mResourceManager.mShadingObjectPool b =
      some { type := .SHADER_PROGRAM_ID, arrayIndex := act } → b = id) :
    (∃ s1, s.UseProgram env 0 = some s1 ∧ s.destroyedThenActivated s1 act id fb none) ∧
    (∀ q ptr prog, s.ResolvesTo env q ptr prog → ptr ≠ act → prog.IsLinked = true →
      ∃ s1, s.UseProgram env q = some s1 ∧ s.destroyedThenActivated s1 act id fb (some ptr)) ∧
    (∀ q, s.ResolvesTo env q act actProg → s.UseProgram env q = some s) ∧
    (∀ q, q ≠ 0 → (s.GetProgramPtr env q).1 = none →
      ∃ s1, s.UseProgram env q = some s1 ∧ s.notDestroyed s1 act) ∧
    (∀ q ptr prog, s.ResolvesTo env q ptr prog → ptr ≠ act → prog.IsLinked = false →
      ∃ s1, s.UseProgram env q = some s1 ∧ s.notDestroyed s1 act) := by
  have hgid : s.GetProgramId act = id := Context.GetProgramId_eq s act id hlt hid huniq
  refine ⟨?_, ?_, ?_, ?_, ?_⟩
  · obtain ⟨s1, h1, h2⟩ := Context.activate_marked env s act actProg fb none hact hprog hmark hfb
      (fun p hp => by simp at hp)
    rw [hgid] at h2
    exact ⟨s1, by unfold Context.UseProgram; simpa using h1, h2⟩
  · intro q ptr prog hres hne hl
    obtain ⟨hget, h0, _⟩ := Context.GetProgramPtr_resolved env s q ptr prog hres
    obtain ⟨s1, h1, h2⟩ := Context.activate_marked env s act actProg fb (some ptr) hact hprog
      hmark hfb (fun p hp => by
        simp only [Option.some.injEq] at hp
        subst hp
        exact ⟨hne, by rw [hres.2]; rfl⟩)
    rw [hgid] at h2
    refine ⟨s1, ?_, h2⟩
    unfold Context.UseProgram
    rw [if_pos h0, hget]
    have hna : ¬ (s.GetActiveShaderProgram = some ptr) := by
      rw [hact]
      intro h
      exact hne (Option.some.inj h).symm
    simp only [if_neg hna, hres.2, hl, Bool.true_eq_false, if_false]
    exact h1
  · intro q hres
    obtain ⟨hget, h0, _⟩ := Context.GetProgramPtr_resolved env s q act actProg hres
    unfold Context.UseProgram
    rw [if_pos h0, hget]
    simp only [hact, if_true]
  · intro q h0 hnone
    rcases hget : s.GetProgramPtr env q with ⟨o, s1⟩
    rw [hget] at hnone
    simp only at hnone
    subst hnone
    refine ⟨s1, ?_, ?_⟩
    · unfold Context.UseProgram
      rw [if_pos h0, hget]
    · have hn := Context.GetProgramPtr_none env s q (by rw [hget])
      rw [hget] at hn
      simp only at hn
      rcases hn with ⟨e, he⟩ | he
      · subst he
        exact ⟨rfl, rfl, hact, rfl⟩
      · subst he
        exact ⟨rfl, rfl, hact, rfl⟩
  · intro q ptr prog hres hne hl
    obtain ⟨hget, h0, _⟩ := Context.GetProgramPtr_resolved env s q ptr prog hres
    refine ⟨s.RecordError GL_INVALID_OPERATION, ?_, rfl, rfl, hact, rfl⟩
    unfold Context.UseProgram
    rw [if_pos h0, hget]
    have hna : ¬ (s.GetActiveShaderProgram = some ptr) := by
      rw [hact]
      intro h
      exact hne (Option.some.inj h).symm
    simp only [if_neg hna, hres.2, hl, if_true]

/-- C6 (witness): program 2 is active and marked for deletion, the system
framebuffer is idle; `UseProgram(0)` destroys program 2 and leaves no program
active. -/
theorem UseProgram_collects_marked_program_witness :
    ∃ s1, contextProgram2Marked.UseProgram envCreate 0 = some s1 ∧
      contextProgram2Marked.destroyedThenActivated s1 2 2 contextProgram2Marked.mSystemFBO none :=
  (UseProgram_collects_marked_program envCreate contextProgram2Marked 2
    (ShaderProgram.MarkForDeletion { defaultShaderProgram with mLinked := true }) 2
    contextProgram2Marked.mSystemFBO rfl rfl rfl rfl (by decide) rfl
    (by
      intro b hb
      by_contra hne
      have h1 : contextProgram2Marked.mResourceManager.mShadingObjectPool b =
          (if b = 1 then some { type := .SHADER_PROGRAM_ID, arrayIndex := 1 }
           else if b = 2 then some { type := .SHADER_PROGRAM_ID, arrayIndex := 2 }
           else none) := rfl
      rw [h1] at hb
      by_cases hb1 : b = 1
      · rw [if_pos hb1] at hb
        simp at hb
      · rw [if_neg hb1, if_neg hne] at hb
        simp at hb)).1


/-! ### Framebuffers -/

theorem Context.framebufferAt_setFramebufferAt (s : Context) (p : FboPtr) (f : Framebuffer) :
    (s.setFramebufferAt p f).framebufferAt p = some f := by
  cases p with
  | system => rfl
  | user i => simp [Context.setFramebufferAt, Context.framebufferAt, ObjectArray.read,
      ObjectArray.write]

theorem Context.framebufferAt_setFramebufferAt_isSome (s : Context) (p q : FboPtr)
    (f : Framebuffer) (h : (s.framebufferAt q).isSome = true) :
    ((s.setFramebufferAt p f).framebufferAt q).isSome = true := by
  by_cases hpq : q = p
  · subst hpq
    rw [Context.framebufferAt_setFramebufferAt]
    rfl
  · cases p with
    | system =>
      cases q with
      | system => exact absurd rfl hpq
      | user j => exact h
    | user i =>
      cases q with
      | system => exact h
      | user j =>
        have hji : j ≠ i := fun e => hpq (by rw [e])
        simpa [Context.setFramebufferAt, Context.framebufferAt, ObjectArray.read,
          ObjectArray.write, Function.update_noteq hji] using h

theorem Context.setFramebufferAt_frame (s : Context) (p : FboPtr) (f : Framebuffer) :
    (s.setFramebufferAt p f).mWriteFBO = s.mWriteFBO ∧
    (s.setFramebufferAt p f).mIsMaintenanceExtSupported = s.mIsMaintenanceExtSupported := by
  cases p <;> exact ⟨rfl, rfl⟩

theorem Context.Finish_framebufferAt_isSome (env : Env) (s : Context) (q : FboPtr)
    (h : (s.framebufferAt q).isSome = true) :
    ((s.Finish env).framebufferAt q).isSome = true ∧ (s.Finish env).mWriteFBO = s.mWriteFBO ∧
      (s.Finish env).mIsMaintenanceExtSupported = s.mIsMaintenanceExtSupported := by
  unfold Context.Finish
  cases hw : s.framebufferAt s.mWriteFBO with
  | none => exact ⟨h, rfl, rfl⟩
  | some fb =>
    exact ⟨Context.framebufferAt_setFramebufferAt_isSome s _ q _ h,
      (Context.setFramebufferAt_frame s _ _).1, (Context.setFramebufferAt_frame s _ _).2⟩

/-- The lookup of an id that names an existing framebuffer (or is 0) yields
that framebuffer and changes at most the object it yields. -/
theorem Context.lookup_existing (env : Env) (s : Context) (id : GLuint)
    (hres : id = 0 ∨ s.mResourceManager.FramebufferExists id = true) :
    ∃ s1, Context.BindFramebuffer.lookup env s GL_FRAMEBUFFER id = some (fboOf id, s1) ∧
      s1.mWriteFBO = s.mWriteFBO ∧ s1.mTrace = s.mTrace ∧ s1.mErrors = s.mErrors ∧
      s1.mStateManager = s.mStateManager ∧ s1.mPipeline = s.mPipeline ∧
      s1.mIsMaintenanceExtSupported = s.mIsMaintenanceExtSupported ∧
      (s1.framebufferAt (fboOf id)).isSome = true ∧
      (∀ q, q ≠ fboOf id → s1.framebufferAt q = s.framebufferAt q) := by
  unfold Context.BindFramebuffer.lookup fboOf
  by_cases h0 : id = 0
  · subst h0
    exact ⟨s, rfl, rfl, rfl, rfl, rfl, rfl, rfl, rfl, fun _ _ => rfl⟩
  · have hex : s.mResourceManager.mFramebuffers.ObjectExists id = true := by
      rcases hres with h | h
      · exact absurd h h0
      · exact h
    obtain ⟨arr, hget⟩ := ObjectArray.GetObject_isSome env.newFramebuffer _ id (Or.inl hex)
    obtain ⟨_, hsome, hsame⟩ := ObjectArray.GetObject_some _ _ _ _ _ hget
    have harr := hsame hex
    subst harr
    rw [if_pos h0, if_neg h0, hget]
    cases hr : s.mResourceManager.mFramebuffers.read id with
    | none => simp [hr] at hsome
    | some f =>
      simp only [hr]
      by_cases ht : f.GetTarget = GL_INVALID_VALUE
      · rw [if_pos ht]
        refine ⟨_, rfl, rfl, rfl, rfl, rfl, rfl, rfl, ?_, ?_⟩
        · simp [Context.setFramebuffers, Context.framebufferAt, ObjectArray.read,
            ObjectArray.write]
        · intro q hq
          cases q with
          | system => rfl
          | user j =>
            have hji : j ≠ id := fun e => hq (by rw [e])
            simp [Context.setFramebuffers, Context.framebufferAt, ObjectArray.read,
              ObjectArray.write, Function.update_noteq hji]
      · rw [if_neg ht]
        refine ⟨_, rfl, rfl, rfl, rfl, rfl, rfl, rfl, ?_, ?_⟩
        · show (s.mResourceManager.mFramebuffers.read id).isSome = true
          rw [hr]
          rfl
        · intro q hq
          rfl

/-- What the tail of `BindFramebuffer` does once the framebuffer to bind exists. -/
theorem Context.switch_spec (env : Env) (s : Context) (fbo : FboPtr) (id : GLuint)
    (h : (s.framebufferAt fbo).isSome = true) :
    ∃ s1 f, Context.BindFramebuffer.switch env s fbo id = some s1 ∧
      s1.mTrace = s.mTrace ++
        [.SetWriteFBO fbo, .SetStateIdle fbo, .SetActiveFramebufferObjectID id] ∧
      s1.mWriteFBO = fbo ∧ s1.framebufferAt fbo = some f ∧ f.mState = .IDLE ∧
      s1.GetActiveObjectsState.mActiveFramebufferObjectID = id ∧
      s1.mPipeline.GetUpdatePipelineState = true ∧ s1.mPipeline.GetUpdateViewportState = true := by
  unfold Context.BindFramebuffer.switch
  have h1 : (Context.framebufferAt (({ s with mWriteFBO := fbo } : Context).log
      (Event.SetWriteFBO fbo)) fbo) = s.framebufferAt fbo := by
    cases fbo <;> rfl
  cases hf : s.framebufferAt fbo with
  | none => simp [hf] at h
  | some f =>
    simp only [h1, hf]
    refine ⟨_, f.SetStateIdle, rfl, ?_, ?_, ?_, rfl, ?_, ?_, ?_⟩
    · cases fbo <;> simp [Context.setPipeline, Context.log, Context.setActiveObjectsState,
        Context.setFramebufferAt]
    · cases fbo <;> rfl
    · cases fbo with
      | system => rfl
      | user i => simp [Context.setPipeline, Context.log, Context.setActiveObjectsState,
          Context.setFramebufferAt, Context.framebufferAt, ObjectArray.read, ObjectArray.write]
    · cases fbo <;> rfl
    · split <;> rfl
    · split <;> rfl

/-- C2: `BindFramebuffer(GL_FRAMEBUFFER, id)` for an id that names a framebuffer
(0 the system framebuffer). If that framebuffer is not the write framebuffer
and the write framebuffer is in state DRAW or CLEAR_DRAW, `Finish()` is called
exactly once, before `mWriteFBO` and the active framebuffer id are assigned, and
the framebuffer bound on return is in state IDLE. If it is the write
framebuffer already, nothing is added to the trace (no `Finish()`), and the
active framebuffer id and the four dirty bits are unchanged. -/
theorem BindFramebuffer_finishes_before_switch (env : Env) (s : Context) (id : GLuint)
    (hres : id = 0 ∨ s.mResourceManager.FramebufferExists id = true) :
    (∀ fb, s.framebufferAt s.mWriteFBO = some fb → s.mWriteFBO ≠ fboOf id →
      (fb.mState = .DRAW ∨ fb.mState = .CLEAR_DRAW) →
      ∃ s1 f, s.BindFramebuffer env GL_FRAMEBUFFER id = some s1 ∧
        s1.mTrace = s.mTrace ++ [.Finish, .SetWriteFBO (fboOf id), .SetStateIdle (fboOf id),
          .SetActiveFramebufferObjectID id] ∧
        s1.mWriteFBO = fboOf id ∧ s1.framebufferAt (fboOf id) = some f ∧ f.mState = .IDLE ∧
        s1.GetActiveObjectsState.mActiveFramebufferObjectID = id) ∧
    (s.mWriteFBO = fboOf id →
      ∃ s1, s.BindFramebuffer env GL_FRAMEBUFFER id = some s1 ∧ s1.mTrace = s.mTrace ∧
        s1.mWriteFBO = s.mWriteFBO ∧
        s1.GetActiveObjectsState.mActiveFramebufferObjectID =
          s.GetActiveObjectsState.mActiveFramebufferObjectID ∧
        s1.mPipeline.mUpdateState = s.mPipeline.mUpdateState ∧ s1.mErrors = s.mErrors) := by
  obtain ⟨s1, hlook, hw, htr, herr, hsm, hpipe, hext, hsome, hother⟩ :=
    Context.lookup_existing env s id hres
  have htarget : ¬ (GL_FRAMEBUFFER ≠ GL_FRAMEBUFFER) := by simp
  constructor
  · intro fb hfb hne hstate
    have hfb1 : s1.framebufferAt s1.mWriteFBO = some fb := by
      rw [hw, hother _ hne, hfb]
    have hdraw : fb.IsInDrawState = true := by
      unfold Framebuffer.IsInDrawState Framebuffer.IsInIdleState
      rcases hstate with h | h <;> rw [h] <;> rfl
    obtain ⟨hs2, hw2, _⟩ := Context.Finish_framebufferAt_isSome env s1 (fboOf id) hsome
    obtain ⟨s3, f, hrun, htr3, hw3, hf3, hidle, hid3, _, _⟩ :=
      Context.switch_spec env (s1.Finish env) (fboOf id) id hs2
    refine ⟨s3, f, ?_, ?_, hw3, hf3, hidle, hid3⟩
    · unfold Context.BindFramebuffer
      rw [if_neg htarget, hlook]
      have hne1 : ¬ (s1.mWriteFBO = fboOf id) := by
        rw [hw]
        exact hne
      simp only [if_neg hne1, Context.finishIfInDrawState, hfb1, hdraw, if_true]
      exact hrun
    · rw [htr3, (Context.Finish_frame env s1).2, htr]
      simp
  · intro heq
    refine ⟨s1, ?_, htr, hw, ?_, ?_, herr⟩
    · unfold Context.BindFramebuffer
      rw [if_neg htarget, hlook]
      have heq1 : s1.mWriteFBO = fboOf id := by
        rw [hw]
        exact heq
      simp only [if_pos heq1]
    · unfold Context.GetActiveObjectsState
      rw [hsm]
    · rw [hpipe]

/-- C2 (witness): framebuffer 1 is bound and in state DRAW;
`BindFramebuffer(GL_FRAMEBUFFER, 0)` calls `Finish()` and then binds the system
framebuffer. -/
theorem BindFramebuffer_finishes_before_switch_witness :
    ∃ s1 f, contextDrawingToTexture7.BindFramebuffer envCreate GL_FRAMEBUFFER 0 = some s1 ∧
      s1.mTrace = contextDrawingToTexture7.mTrace ++
        [.Finish, .SetWriteFBO (fboOf 0), .SetStateIdle (fboOf 0),
          .SetActiveFramebufferObjectID 0] ∧
      s1.mWriteFBO = fboOf 0 ∧ s1.framebufferAt (fboOf 0) = some f ∧ f.mState = .IDLE ∧
      s1.GetActiveObjectsState.mActiveFramebufferObjectID = 0 :=
  (BindFramebuffer_finishes_before_switch envCreate contextDrawingToTexture7 0 (Or.inl rfl)).1
    _ rfl (by decide) (Or.inl rfl)

/-- C3 (failing input): framebuffer 1 is the write framebuffer, in state DRAW,
with texture 7 at its colour attachment. The detach
`FramebufferTexture2D(GL_FRAMEBUFFER, GL_COLOR_ATTACHMENT0, GL_TEXTURE_2D, 0, 0)`
passes validation and updates the type and name of the attachment without any
`Finish()`, while the detach through `FramebufferRenderbuffer` in the same
context calls `Finish()` first. -/
theorem FramebufferTexture2D_detach_skips_Finish :
    (∃ f, contextDrawingToTexture7.framebufferAt contextDrawingToTexture7.mWriteFBO = some f ∧
      f.IsInDrawState = true ∧ f.GetAttachmentName GL_COLOR_ATTACHMENT0 = 7) ∧
    (∃ s1 f, contextDrawingToTexture7.FramebufferTexture2D envCreate GL_FRAMEBUFFER
        GL_COLOR_ATTACHMENT0 GL_TEXTURE_2D 0 0 = some s1 ∧
      s1.mErrors = [] ∧
      s1.mTrace = [.SetAttachmentType GL_COLOR_ATTACHMENT0 GL_NONE,
        .SetAttachmentName GL_COLOR_ATTACHMENT0 0] ∧
      s1.framebufferAt s1.mWriteFBO = some f ∧ f.GetAttachmentName GL_COLOR_ATTACHMENT0 = 0 ∧
      f.GetColorAttachmentType = GL_NONE) ∧
    (∃ s1, contextDrawingToTexture7.FramebufferRenderbuffer envCreate GL_FRAMEBUFFER
        GL_COLOR_ATTACHMENT0 GL_RENDERBUFFER 0 = some s1 ∧
      s1.mErrors = [] ∧
      s1.mTrace = [.Finish, .SetAttachmentType GL_COLOR_ATTACHMENT0 GL_NONE,
        .SetAttachmentName GL_COLOR_ATTACHMENT0 0]) :=
  ⟨⟨_, rfl, rfl, rfl⟩, ⟨_, _, rfl, rfl, rfl, rfl, rfl, rfl⟩, ⟨_, rfl, rfl, rfl⟩⟩


/-! ### Framebuffer operations and dirty bits -/

/-- C13: `ColorMask(r, g, b, a)` with the colour mask already stored leaves the
pipeline (its `colorWriteMask` and the four dirty bits) exactly as it was; with
a different mask `UpdateColorMask` reports a change, `colorWriteMask` becomes
the conversion of the new mask and the Pipeline dirty bit is true, the other
three dirty bits keeping their values. The same holds for `DepthMask` and
`depthWriteEnable`. -/
theorem ColorMask_DepthMask_write_iff_changed (env : Env) (s : Context)
    (red green blue alpha flag : GLboolean) :
    ((s.mStateManager.mFramebufferOperationsState.UpdateColorMask red green blue alpha).1 = true ↔
      s.mStateManager.mFramebufferOperationsState.GetColorMask ≠ (red, green, blue, alpha)) ∧
    (s.mStateManager.mFramebufferOperationsState.GetColorMask = (red, green, blue, alpha) →
      (s.ColorMask env red green blue alpha).mPipeline = s.mPipeline) ∧
    (s.mStateManager.mFramebufferOperationsState.GetColorMask ≠ (red, green, blue, alpha) →
      (s.ColorMask env red green blue alpha).mPipeline.mVkPipelineColorBlendAttachmentState.colorWriteMask
        = env.GLColorMaskToVkColorComponentFlags (red, green, blue, alpha) ∧
      (s.ColorMask env red green blue alpha).mPipeline.GetUpdatePipelineState = true ∧
      sameOtherDirtyBits s.mPipeline (s.ColorMask env red green blue alpha).mPipeline) ∧
    ((s.mStateManager.mFramebufferOperationsState.UpdateDepthMask flag).1 = true ↔
      s.mStateManager.mFramebufferOperationsState.GetDepthMask ≠ flag) ∧
    (s.mStateManager.mFramebufferOperationsState.GetDepthMask = flag →
      (s.DepthMask env flag).mPipeline = s.mPipeline) ∧
    (s.mStateManager.mFramebufferOperationsState.GetDepthMask ≠ flag →
      (s.DepthMask env flag).mPipeline.depthWriteEnable = env.GlBooleanToVkBool flag ∧
      (s.DepthMask env flag).mPipeline.GetUpdatePipelineState = true ∧
      sameOtherDirtyBits s.mPipeline (s.DepthMask env flag).mPipeline) := by
  refine ⟨?_, ?_, ?_, ?_, ?_, ?_⟩
  · simp [StateFramebufferOperations.UpdateColorMask, StateFramebufferOperations.GetColorMask]
  · intro h
    have hc : (s.mStateManager.mFramebufferOperationsState.UpdateColorMask
        red green blue alpha).1 = false := by
      simp [StateFramebufferOperations.UpdateColorMask,
        show s.mStateManager.mFramebufferOperationsState.mColorMask = (red, green, blue, alpha)
          from h]
    unfold Context.ColorMask
    simp only [hc, Bool.false_eq_true, if_false]
    rfl
  · intro h
    have hc : (s.mStateManager.mFramebufferOperationsState.UpdateColorMask
        red green blue alpha).1 = true := by
      simpa [StateFramebufferOperations.UpdateColorMask] using h
    unfold Context.ColorMask
    simp only [hc, if_true]
    exact ⟨rfl, rfl, rfl, rfl, rfl⟩
  · simp [StateFramebufferOperations.UpdateDepthMask, StateFramebufferOperations.GetDepthMask]
  · intro h
    have hc : (s.mStateManager.mFramebufferOperationsState.UpdateDepthMask flag).1 = false := by
      simp [StateFramebufferOperations.UpdateDepthMask,
        show s.mStateManager.mFramebufferOperationsState.mDepthMask = flag from h]
    unfold Context.DepthMask
    simp only [hc, Bool.false_eq_true, if_false]
    rfl
  · intro h
    have hc : (s.mStateManager.mFramebufferOperationsState.UpdateDepthMask flag).1 = true := by
      simpa [StateFramebufferOperations.UpdateDepthMask] using h
    unfold Context.DepthMask
    simp only [hc, if_true]
    exact ⟨rfl, rfl, rfl, rfl, rfl⟩

/-- C13 (witness): in the empty context, whose colour mask is all true and whose
depth mask is true, `ColorMask(1, 1, 1, 1)` leaves the pipeline alone and
`ColorMask(1, 0, 1, 1)` writes the mask 13 and raises the Pipeline dirty bit;
likewise `DepthMask(1)` and `DepthMask(0)`. -/
theorem ColorMask_DepthMask_write_iff_changed_witness :
    (emptyContext.ColorMask envCreate 1 1 1 1).mPipeline = emptyContext.mPipeline ∧
    ((emptyContext.ColorMask envCreate 1 0 1 1).mPipeline.mVkPipelineColorBlendAttachmentState.colorWriteMask
        = envCreate.GLColorMaskToVkColorComponentFlags (1, 0, 1, 1) ∧
      (emptyContext.ColorMask envCreate 1 0 1 1).mPipeline.GetUpdatePipelineState = true ∧
      sameOtherDirtyBits emptyContext.mPipeline (emptyContext.ColorMask envCreate 1 0 1 1).mPipeline) ∧
    (emptyContext.DepthMask envCreate 1).mPipeline = emptyContext.mPipeline ∧
    ((emptyContext.DepthMask envCreate 0).mPipeline.depthWriteEnable = envCreate.GlBooleanToVkBool 0 ∧
      (emptyContext.DepthMask envCreate 0).mPipeline.GetUpdatePipelineState = true ∧
      sameOtherDirtyBits emptyContext.mPipeline (emptyContext.DepthMask envCreate 0).mPipeline) :=
  ⟨(ColorMask_DepthMask_write_iff_changed envCreate emptyContext 1 1 1 1 1).2.1 rfl,
   (ColorMask_DepthMask_write_iff_changed envCreate emptyContext 1 0 1 1 1).2.2.1 (by decide),
   (ColorMask_DepthMask_write_iff_changed envCreate emptyContext 1 1 1 1 1).2.2.2.2.1 rfl,
   (ColorMask_DepthMask_write_iff_changed envCreate emptyContext 1 1 1 1 0).2.2.2.2.2 (by decide)⟩

/-- C20: each of `SetUpdatePipeline`, `SetUpdateViewportState`,
`SetUpdateVertexAttribVBOs` and `SetUpdateIndexBuffer` is idempotent (applied
twice with the same argument it yields the pipeline state that one application
yields), sets its own dirty bit to the argument and changes neither another
dirty bit nor another field of the pipeline; after `SetUpdatePipeline(true)`,
once or twice, `GetUpdatePipelineState()` is true. -/
theorem SetUpdate_idempotent (p : Pipeline) (b : Bool) :
    ((p.SetUpdatePipeline true).SetUpdatePipeline true = p.SetUpdatePipeline true ∧
      (p.SetUpdatePipeline true).GetUpdatePipelineState = true ∧
      ((p.SetUpdatePipeline true).SetUpdatePipeline true).GetUpdatePipelineState = true) ∧
    ((p.SetUpdatePipeline b).SetUpdatePipeline b = p.SetUpdatePipeline b ∧
      (p.SetUpdatePipeline b).GetUpdatePipelineState = b ∧
      sameOtherDirtyBits p (p.SetUpdatePipeline b) ∧ sameSettings p (p.SetUpdatePipeline b)) ∧
    ((p.SetUpdateViewportState b).SetUpdateViewportState b = p.SetUpdateViewportState b ∧
      (p.SetUpdateViewportState b).GetUpdateViewportState = b ∧
      (p.SetUpdateViewportState b).GetUpdatePipelineState = p.GetUpdatePipelineState ∧
      (p.SetUpdateViewportState b).GetUpdateVertexAttribVBOs = p.GetUpdateVertexAttribVBOs ∧
      (p.SetUpdateViewportState b).GetUpdateIndexBuffer = p.GetUpdateIndexBuffer ∧
      sameSettings p (p.SetUpdateViewportState b)) ∧
    ((p.SetUpdateVertexAttribVBOs b).SetUpdateVertexAttribVBOs b = p.SetUpdateVertexAttribVBOs b ∧
      (p.SetUpdateVertexAttribVBOs b).GetUpdateVertexAttribVBOs = b ∧
      (p.SetUpdateVertexAttribVBOs b).GetUpdatePipelineState = p.GetUpdatePipelineState ∧
      (p.SetUpdateVertexAttribVBOs b).GetUpdateViewportState = p.GetUpdateViewportState ∧
      (p.SetUpdateVertexAttribVBOs b).GetUpdateIndexBuffer = p.GetUpdateIndexBuffer ∧
      sameSettings p (p.SetUpdateVertexAttribVBOs b)) ∧
    ((p.SetUpdateIndexBuffer b).SetUpdateIndexBuffer b = p.SetUpdateIndexBuffer b ∧
      (p.SetUpdateIndexBuffer b).GetUpdateIndexBuffer = b ∧
      (p.SetUpdateIndexBuffer b).GetUpdatePipelineState = p.GetUpdatePipelineState ∧
      (p.SetUpdateIndexBuffer b).GetUpdateViewportState = p.GetUpdateViewportState ∧
      (p.SetUpdateIndexBuffer b).GetUpdateVertexAttribVBOs = p.GetUpdateVertexAttribVBOs ∧
      sameSettings p (p.SetUpdateIndexBuffer b)) :=
  ⟨⟨rfl, rfl, rfl⟩, ⟨rfl, rfl, ⟨rfl, rfl, rfl⟩, ⟨rfl, rfl, rfl, rfl, rfl⟩⟩,
   ⟨rfl, rfl, rfl, rfl, rfl, ⟨rfl, rfl, rfl, rfl, rfl⟩⟩,
   ⟨rfl, rfl, rfl, rfl, rfl, ⟨rfl, rfl, rfl, rfl, rfl⟩⟩,
   ⟨rfl, rfl, rfl, rfl, rfl, ⟨rfl, rfl, rfl, rfl, rfl⟩⟩⟩


/-! ### The EGL window interface -/

/-- C17 (failing input): the native acquire call fails with
`VK_ERROR_DEVICE_LOST` (or `VK_ERROR_SURFACE_LOST_KHR`), yet `AcquireNextImage`
returns `EGL_TRUE` and stores the image index on the surface; `PresentImage`
returns `EGL_TRUE` when the native present fails with `VK_ERROR_DEVICE_LOST`.
Only `VK_ERROR_OUT_OF_DATE_KHR` gives `EGL_FALSE`. -/
theorem AcquireNextImage_device_lost_returns_true :
    VK_ERROR_DEVICE_LOST < 0 ∧ VK_ERROR_SURFACE_LOST_KHR < 0 ∧
    (VulkanWindowInterface.AcquireNextImage VK_ERROR_DEVICE_LOST 1 windowSurface 0).ret = EGL_TRUE ∧
    (VulkanWindowInterface.AcquireNextImage VK_ERROR_DEVICE_LOST 1 windowSurface
      0).surface.mCurrentImageIndex = 1 ∧
    windowSurface.mCurrentImageIndex = 0 ∧
    (VulkanWindowInterface.AcquireNextImage VK_ERROR_SURFACE_LOST_KHR 1 windowSurface 0).ret
      = EGL_TRUE ∧
    (VulkanWindowInterface.PresentImage (fun _ _ => VK_ERROR_DEVICE_LOST)
      { vkDrawSemaphore := 1, vkAcquireSemaphore := 2, acquireSemaphoreFlag := false,
        drawSemaphoreFlag := true } windowSurface).ret = EGL_TRUE ∧
    (VulkanWindowInterface.AcquireNextImage VK_ERROR_OUT_OF_DATE_KHR 1 windowSurface 0).ret
      = EGL_FALSE := by
  decide

/-- C18: `PresentImage` passes exactly one wait semaphore to the native present
call, the draw semaphore when `drawSemaphoreFlag` is set and the acquire
semaphore otherwise: whatever the native call is, the value returned and the
call of `DeviceWaitIdle()` are those that its result on the current image index
and that one semaphore decides, and the list handed over holds that semaphore
only. Whatever the native result, on return `acquireSemaphoreFlag` is true,
`drawSemaphoreFlag` is false and the two semaphores are the same; and these
flags are the values `CreateVkSemaphores` leaves when both semaphores are
created. -/
theorem PresentImage_wait_semaphore (present : Nat → List VkSemaphore → VkResult)
    (sync fresh : vkSyncItems_t) (surface : EGLSurface_t) (asserts : Bool)
    (draw acquire : VkResult × VkSemaphore) :
    (VulkanWindowInterface.PresentImage present sync surface).ret =
      (if present surface.mCurrentImageIndex
            [if sync.drawSemaphoreFlag = true then sync.vkDrawSemaphore
             else sync.vkAcquireSemaphore] = VK_ERROR_OUT_OF_DATE_KHR ∨
          present surface.mCurrentImageIndex
            [if sync.drawSemaphoreFlag = true then sync.vkDrawSemaphore
             else sync.vkAcquireSemaphore] = VK_SUBOPTIMAL_KHR
        then EGL_FALSE else EGL_TRUE) ∧
    (VulkanWindowInterface.PresentImage present sync surface).deviceWaitIdle =
      decide (present surface.mCurrentImageIndex
            [if sync.drawSemaphoreFlag = true then sync.vkDrawSemaphore
             else sync.vkAcquireSemaphore] = VK_ERROR_OUT_OF_DATE_KHR ∨
          present surface.mCurrentImageIndex
            [if sync.drawSemaphoreFlag = true then sync.vkDrawSemaphore
             else sync.vkAcquireSemaphore] = VK_SUBOPTIMAL_KHR) ∧
    (VulkanWindowInterface.PresentImage present sync surface).imageIndex =
      surface.mCurrentImageIndex ∧
    (VulkanWindowInterface.PresentImage present sync surface).pSems =
      [if sync.drawSemaphoreFlag = true then sync.vkDrawSemaphore else sync.vkAcquireSemaphore] ∧
    (VulkanWindowInterface.PresentImage present sync surface).syncItems.acquireSemaphoreFlag = true ∧
    (VulkanWindowInterface.PresentImage present sync surface).syncItems.drawSemaphoreFlag = false ∧
    (VulkanWindowInterface.PresentImage present sync surface).syncItems.vkDrawSemaphore =
      sync.vkDrawSemaphore ∧
    (VulkanWindowInterface.PresentImage present sync surface).syncItems.vkAcquireSemaphore =
      sync.vkAcquireSemaphore ∧
    (draw.1 = VK_SUCCESS → acquire.1 = VK_SUCCESS →
      ∃ items, CreateVkSemaphores asserts fresh draw acquire = some (true, items) ∧
        items.acquireSemaphoreFlag = true ∧ items.drawSemaphoreFlag = false) := by
  have hp : ([] ++ [sync.vkDrawSemaphore] : List VkSemaphore) = [sync.vkDrawSemaphore] := rfl
  have hq : ([] ++ [sync.vkAcquireSemaphore] : List VkSemaphore) = [sync.vkAcquireSemaphore] :=
    rfl
  refine ⟨?_, ?_, ?_, ?_, ?_, ?_, ?_, ?_, ?_⟩
  · unfold VulkanWindowInterface.PresentImage
    simp only [hp, hq]
    by_cases hf : sync.drawSemaphoreFlag = true
    · simp only [if_pos hf]
      split <;> rfl
    · simp only [if_neg hf]
      split <;> rfl
  · unfold VulkanWindowInterface.PresentImage
    simp only [hp, hq]
    by_cases hf : sync.drawSemaphoreFlag = true
    · simp only [if_pos hf]
      split
      · rename_i h
        exact (decide_eq_true h).symm
      · rename_i h
        exact (decide_eq_false h).symm
    · simp only [if_neg hf]
      split
      · rename_i h
        exact (decide_eq_true h).symm
      · rename_i h
        exact (decide_eq_false h).symm
  · unfold VulkanWindowInterface.PresentImage
    simp only [apply_ite VulkanWindowInterface.PresentResult.imageIndex, ite_self]
  · unfold VulkanWindowInterface.PresentImage
    simp only [apply_ite VulkanWindowInterface.PresentResult.pSems, ite_self]
    by_cases hf : sync.drawSemaphoreFlag = true
    · simp [hf]
    · simp [hf]
  · unfold VulkanWindowInterface.PresentImage
    simp only [apply_ite VulkanWindowInterface.PresentResult.syncItems, ite_self]
  · unfold VulkanWindowInterface.PresentImage
    simp only [apply_ite VulkanWindowInterface.PresentResult.syncItems, ite_self]
  · unfold VulkanWindowInterface.PresentImage
    simp only [apply_ite VulkanWindowInterface.PresentResult.syncItems, ite_self]
  · unfold VulkanWindowInterface.PresentImage
    simp only [apply_ite VulkanWindowInterface.PresentResult.syncItems, ite_self]
  · intro hdraw hacquire
    unfold CreateVkSemaphores
    have h1 : draw.1 = 0 := hdraw
    have h2 : acquire.1 = 0 := hacquire
    simp [h1, h2, VK_SUCCESS]

/-- C18 (witness): a native present that answers `VK_ERROR_OUT_OF_DATE_KHR` to
the wait list `[1]` and `VK_SUCCESS` to every other one. After a draw was
submitted the draw semaphore 1 is the one it is given, so `PresentImage`
returns `EGL_FALSE`; with no draw submitted it is given the acquire semaphore 2
and `PresentImage` returns `EGL_TRUE`; and both creations succeeding leave the
two flags at true and false. -/
theorem PresentImage_wait_semaphore_witness :
    (VulkanWindowInterface.PresentImage
      (fun _ sems => if sems = [1] then VK_ERROR_OUT_OF_DATE_KHR else VK_SUCCESS)
      { vkDrawSemaphore := 1, vkAcquireSemaphore := 2, acquireSemaphoreFlag := false,
        drawSemaphoreFlag := true } windowSurface).ret = EGL_FALSE ∧
    (VulkanWindowInterface.PresentImage
      (fun _ sems => if sems = [1] then VK_ERROR_OUT_OF_DATE_KHR else VK_SUCCESS)
      { vkDrawSemaphore := 1, vkAcquireSemaphore := 2, acquireSemaphoreFlag := true,
        drawSemaphoreFlag := false } windowSurface).ret = EGL_TRUE ∧
    ∃ items, CreateVkSemaphores true
        { vkDrawSemaphore := 0, vkAcquireSemaphore := 0, acquireSemaphoreFlag := false,
          drawSemaphoreFlag := true } (VK_SUCCESS, 1) (VK_SUCCESS, 2) = some (true, items) ∧
      items.acquireSemaphoreFlag = true ∧ items.drawSemaphoreFlag = false :=
  ⟨(PresentImage_wait_semaphore
      (fun _ sems => if sems = [1] then VK_ERROR_OUT_OF_DATE_KHR else VK_SUCCESS)
      { vkDrawSemaphore := 1, vkAcquireSemaphore := 2, acquireSemaphoreFlag := false,
        drawSemaphoreFlag := true }
      { vkDrawSemaphore := 0, vkAcquireSemaphore := 0, acquireSemaphoreFlag := false,
        drawSemaphoreFlag := true } windowSurface true (VK_SUCCESS, 1) (VK_SUCCESS, 2)).1.trans
      (by decide),
    (PresentImage_wait_semaphore
      (fun _ sems => if sems = [1] then VK_ERROR_OUT_OF_DATE_KHR else VK_SUCCESS)
      { vkDrawSemaphore := 1, vkAcquireSemaphore := 2, acquireSemaphoreFlag := true,
        drawSemaphoreFlag := false }
      { vkDrawSemaphore := 0, vkAcquireSemaphore := 0, acquireSemaphoreFlag := false,
        drawSemaphoreFlag := true } windowSurface true (VK_SUCCESS, 1) (VK_SUCCESS, 2)).1.trans
      (by decide),
    (PresentImage_wait_semaphore (fun _ _ => VK_SUCCESS)
      { vkDrawSemaphore := 1, vkAcquireSemaphore := 2, acquireSemaphoreFlag := false,
        drawSemaphoreFlag := true }
      { vkDrawSemaphore := 0, vkAcquireSemaphore := 0, acquireSemaphoreFlag := false,
        drawSemaphoreFlag := true } windowSurface true (VK_SUCCESS, 1) (VK_SUCCESS, 2)).2.2.2.2.2.2.2.2
      rfl rfl⟩

theorem VulkanWindowInterface.loop_eq (modes : List Nat) (cur : Nat)
    (hcur : cur = VK_PRESENT_MODE_FIFO_KHR ∨ cur = VK_PRESENT_MODE_IMMEDIATE_KHR) :
    VulkanWindowInterface.SetSwapchainPresentMode.loop cur modes =
      if VK_PRESENT_MODE_MAILBOX_KHR ∈ modes then VK_PRESENT_MODE_MAILBOX_KHR
      else if VK_PRESENT_MODE_IMMEDIATE_KHR ∈ modes then VK_PRESENT_MODE_IMMEDIATE_KHR
      else cur := by
  induction modes generalizing cur with
  | nil => simp [VulkanWindowInterface.SetSwapchainPresentMode.loop]
  | cons m rest ih =>
    unfold VulkanWindowInterface.SetSwapchainPresentMode.loop
    have hne : cur ≠ VK_PRESENT_MODE_MAILBOX_KHR := by
      rcases hcur with h | h <;> rw [h] <;> decide
    by_cases hm : m = VK_PRESENT_MODE_MAILBOX_KHR
    · simp [hm]
    · have hm2 : ¬ (VK_PRESENT_MODE_MAILBOX_KHR = m) := fun h => hm h.symm
      by_cases hi : m = VK_PRESENT_MODE_IMMEDIATE_KHR
      · have hmi : ¬ (VK_PRESENT_MODE_MAILBOX_KHR = VK_PRESENT_MODE_IMMEDIATE_KHR) := by decide
        rw [if_neg hm, if_pos ⟨hi, hne⟩, ih _ (Or.inr rfl)]
        simp [hi, hmi]
      · have hi2 : ¬ (VK_PRESENT_MODE_IMMEDIATE_KHR = m) := fun h => hi h.symm
        rw [if_neg hm, if_neg (fun h => hi h.1), ih _ hcur]
        simp [hm2, hi2]

/-- C19: for a surface with Vulkan resources and a non-empty list of supported
present modes (the query succeeding), `SetSwapchainPresentMode` returns FIFO
when the swap interval is not 0, and for swap interval 0 MAILBOX if the list
contains it, otherwise IMMEDIATE if the list contains it, otherwise FIFO; a
permutation of the list gives the same result. -/
theorem SetSwapchainPresentMode_spec (presentModes : List Nat) (surface : EGLSurface_t)
    (hres : surface.mVulkanResources = true) (hne : presentModes ≠ []) :
    VulkanWindowInterface.SetSwapchainPresentMode presentModes EGL_TRUE surface =
      some (presentModeSpec surface.mSwapInterval presentModes) ∧
    ∀ permuted : List Nat, permuted.Perm presentModes →
      VulkanWindowInterface.SetSwapchainPresentMode permuted EGL_TRUE surface =
        VulkanWindowInterface.SetSwapchainPresentMode presentModes EGL_TRUE surface := by
  have key : ∀ modes : List Nat, modes ≠ [] →
      VulkanWindowInterface.SetSwapchainPresentMode modes EGL_TRUE surface =
        some (presentModeSpec surface.mSwapInterval modes) := by
    intro modes hm
    have hlen : ¬ (modes.length = 0) := by
      intro h
      exact hm (List.length_eq_zero.mp h)
    unfold VulkanWindowInterface.SetSwapchainPresentMode presentModeSpec
    rw [if_neg (by simp [hres]), if_neg hlen, if_neg (by simp)]
    by_cases h0 : surface.mSwapInterval = 0
    · rw [if_pos h0, if_neg (by simp [h0]), VulkanWindowInterface.loop_eq _ _ (Or.inl rfl)]
    · rw [if_neg h0, if_pos h0]
  refine ⟨key presentModes hne, ?_⟩
  intro permuted hp
  have hpne : permuted ≠ [] := by
    intro h
    rw [h] at hp
    exact hne (List.Perm.nil_eq hp).symm
  rw [key permuted hpne, key presentModes hne]
  unfold presentModeSpec
  simp only [hp.mem_iff]

/-- C19 (witness): swap interval 0 and the modes FIFO, IMMEDIATE, MAILBOX give
MAILBOX. -/
theorem SetSwapchainPresentMode_spec_witness :
    VulkanWindowInterface.SetSwapchainPresentMode
      [VK_PRESENT_MODE_FIFO_KHR, VK_PRESENT_MODE_IMMEDIATE_KHR, VK_PRESENT_MODE_MAILBOX_KHR]
      EGL_TRUE windowSurface = some VK_PRESENT_MODE_MAILBOX_KHR :=
  (SetSwapchainPresentMode_spec
    [VK_PRESENT_MODE_FIFO_KHR, VK_PRESENT_MODE_IMMEDIATE_KHR, VK_PRESENT_MODE_MAILBOX_KHR]
    windowSurface rfl (by decide)).1


/-! ### Attached shaders -/

theorem Context.GetShaderPtr_resolved (env : Env) (s : Context) (shader : GLuint)
    (shaderPtr : Nat) (sh : Shader) (h : s.ResolvesToShader env shader shaderPtr sh) :
    s.GetShaderPtr env shader = (some shaderPtr, s) := by
  obtain ⟨h1, hobj⟩ := h
  unfold Context.GetShaderPtr at h1 ⊢
  by_cases hc1 : shader = 0 ∨ shader ≥ s.mResourceManager.GetShadingObjectCount ∨
      s.mResourceManager.ShadingObjectExists shader = false
  · rw [if_pos hc1] at h1
    simp at h1
  · rw [if_neg hc1] at h1 ⊢
    by_cases hc2 : (s.mResourceManager.GetShadingObject shader).arrayIndex = 0 ∨
        (s.mResourceManager.GetShadingObject shader).type ≠ .SHADER_ID
    · rw [if_pos hc2] at h1
      simp at h1
    · rw [if_neg hc2] at h1 ⊢
      simp only at h1 ⊢
      rcases hget : s.mResourceManager.mShaders.GetObject env.newShader
          (s.mResourceManager.GetShadingObject shader).arrayIndex with ⟨o, arr⟩
      rw [hget] at h1
      simp only at h1
      subst h1
      obtain ⟨hp, _, hsame⟩ := ObjectArray.GetObject_some _ _ _ _ _ hget
      have hex : s.mResourceManager.mShaders.ObjectExists
          (s.mResourceManager.GetShadingObject shader).arrayIndex = true := by
        rw [← hp]
        unfold ObjectArray.ObjectExists
        unfold ObjectArray.read at hobj
        rw [hobj]
        rfl
      have harr := hsame hex
      subst harr
      rfl

/-- C15: for a program and a shader that resolve to objects, the shader being a
vertex or a fragment shader: if the program has a shader of that type attached,
or that very shader, `AttachShader` records GL_INVALID_OPERATION and changes
nothing else (the attached shaders and stage ids of the program among it);
otherwise the shader takes the slot of its type, the stage id slot 0 (vertex)
or 1 (fragment) becomes the shader's id, and the other slot and stage id are
unchanged. The program has one vertex and one fragment slot before and after. -/
theorem AttachShader_one_shader_per_type (env : Env) (s : Context) (program shader : GLuint)
    (progPtr shaderPtr : Nat) (prog : ShaderProgram) (sh : Shader)
    (hprog : s.ResolvesTo env program progPtr prog)
    (hsh : s.ResolvesToShader env shader shaderPtr sh)
    (htype : sh.GetShaderType = .SHADER_TYPE_VERTEX ∨ sh.GetShaderType = .SHADER_TYPE_FRAGMENT) :
    (sameTypeAttached prog shaderPtr sh →
      s.AttachShader env program shader = some (s.RecordError GL_INVALID_OPERATION) ∧
      (s.RecordError GL_INVALID_OPERATION).mResourceManager.mShaderPrograms.read progPtr =
        some prog) ∧
    (¬ sameTypeAttached prog shaderPtr sh →
      ∃ s1 prog1, s.AttachShader env program shader = some s1 ∧ s1.mErrors = s.mErrors ∧
        s1.mResourceManager.mShaderPrograms.read progPtr = some prog1 ∧
        prog1.IsShaderAttached shaderPtr = true ∧
        (sh.GetShaderType = .SHADER_TYPE_VERTEX →
          prog1.GetVertexShader = some shaderPtr ∧
          prog1.GetFragmentShader = prog.GetFragmentShader ∧
          prog1.mStagesIDs = ((shader : Int), prog.mStagesIDs.2)) ∧
        (sh.GetShaderType = .SHADER_TYPE_FRAGMENT →
          prog1.GetFragmentShader = some shaderPtr ∧
          prog1.GetVertexShader = prog.GetVertexShader ∧
          prog1.mStagesIDs = (prog.mStagesIDs.1, (shader : Int)))) := by
  obtain ⟨hgetp, _, _⟩ := Context.GetProgramPtr_resolved env s program progPtr prog hprog
  have hgets := Context.GetShaderPtr_resolved env s shader shaderPtr sh hsh
  constructor
  · intro hsame
    refine ⟨?_, hprog.2⟩
    unfold Context.AttachShader
    rw [hgetp]
    simp only [hgets, hprog.2, hsh.2]
    by_cases hc : (prog.HasFragmentShader = true ∧ sh.GetShaderType = .SHADER_TYPE_FRAGMENT) ∨
        (prog.HasVertexShader = true ∧ sh.GetShaderType = .SHADER_TYPE_VERTEX)
    · rw [if_pos hc]
    · rw [if_neg hc]
      have hatt : prog.IsShaderAttached shaderPtr = true := by
        rcases hsame with h | h | h
        · exact absurd (Or.inl h) hc
        · exact absurd (Or.inr h) hc
        · exact h
      rw [if_pos hatt]
  · intro hnot
    have hc : ¬ ((prog.HasFragmentShader = true ∧ sh.GetShaderType = .SHADER_TYPE_FRAGMENT) ∨
        (prog.HasVertexShader = true ∧ sh.GetShaderType = .SHADER_TYPE_VERTEX)) := by
      intro h
      rcases h with h | h
      · exact hnot (Or.inl h)
      · exact hnot (Or.inr (Or.inl h))
    have hatt : ¬ (prog.IsShaderAttached shaderPtr = true) := fun h => hnot (Or.inr (Or.inr h))
    refine ⟨s.setShaderPrograms (s.mResourceManager.mShaderPrograms.write progPtr
        ((prog.AttachShader shaderPtr sh.GetShaderType).SetStagesIDs
          (if sh.GetShaderType = .SHADER_TYPE_VERTEX then 0 else 1) shader)),
      (prog.AttachShader shaderPtr sh.GetShaderType).SetStagesIDs
          (if sh.GetShaderType = .SHADER_TYPE_VERTEX then 0 else 1) shader,
      ?_, ?_, ObjectArray.read_write _ _ _, ?_, ?_, ?_⟩
    · unfold Context.AttachShader
      rw [hgetp]
      simp only [hgets, hprog.2, hsh.2]
      rw [if_neg hc, if_neg hatt]
    · rfl
    · rcases htype with h | h <;>
        simp [h, ShaderProgram.AttachShader, ShaderProgram.SetStagesIDs,
          ShaderProgram.IsShaderAttached]
    · intro h
      simp [h, ShaderProgram.AttachShader, ShaderProgram.SetStagesIDs,
        ShaderProgram.GetVertexShader, ShaderProgram.GetFragmentShader]
    · intro h
      simp [h, ShaderProgram.AttachShader, ShaderProgram.SetStagesIDs,
        ShaderProgram.GetVertexShader, ShaderProgram.GetFragmentShader]

/-- C15 (witness): program 1 has the vertex shader 2 attached; attaching it
again is rejected, attaching the fragment shader 3 fills the fragment slot. -/
theorem AttachShader_one_shader_per_type_witness :
    contextProgramWithVertexShader.AttachShader envCreate 1 2 =
      some (contextProgramWithVertexShader.RecordError GL_INVALID_OPERATION) ∧
    ∃ s1 prog1, contextProgramWithVertexShader.AttachShader envCreate 1 3 = some s1 ∧
      s1.mErrors = contextProgramWithVertexShader.mErrors ∧
      s1.mResourceManager.mShaderPrograms.read 1 = some prog1 ∧
      prog1.IsShaderAttached 2 = true :=
  ⟨((AttachShader_one_shader_per_type envCreate contextProgramWithVertexShader 1 2 1 1
      { defaultShaderProgram with mVertexShader := some 1, mStagesIDs := (2, -1) }
      { mShaderType := .SHADER_TYPE_VERTEX, mRefCount := 1, mMarkForDeletion := false }
      ⟨rfl, rfl⟩ ⟨rfl, rfl⟩ (Or.inl rfl)).1 (Or.inr (Or.inl ⟨rfl, rfl⟩))).1,
   by
    obtain ⟨s1, prog1, h1, h2, h3, h4, _⟩ :=
      (AttachShader_one_shader_per_type envCreate contextProgramWithVertexShader 1 3 1 2
        { defaultShaderProgram with mVertexShader := some 1, mStagesIDs := (2, -1) }
        { mShaderType := .SHADER_TYPE_FRAGMENT, mRefCount := 0, mMarkForDeletion := false }
        ⟨rfl, rfl⟩ ⟨rfl, rfl⟩ (Or.inr rfl)).2 (by unfold sameTypeAttached; decide)
    exact ⟨s1, prog1, h1, h2, h3, h4⟩⟩

/-- C16 (failing input): program 1 has one shader attached (the vertex shader,
id 2). `GetAttachedShaders(1, maxcount = 0, count, shaders)` executes the
`NOT_REACHED()` branch and writes nothing to `*count`; with `maxcount = 1` it
writes 1 and the id 2. -/
theorem GetAttachedShaders_maxcount_zero_not_reached :
    (∃ prog, contextProgramWithVertexShader.mResourceManager.mShaderPrograms.read 1 = some prog ∧
      prog.HasVertexShader = true ∧ prog.HasFragmentShader = false) ∧
    (contextProgramWithVertexShader.GetAttachedShaders envCreate 1 0).map Prod.snd =
      some { count := none, shaders := [], notReached := true } ∧
    (contextProgramWithVertexShader.GetAttachedShaders envCreate 1 1).map Prod.snd =
      some { count := some 1, shaders := [2], notReached := false } :=
  ⟨⟨_, rfl, rfl, rfl⟩, rfl, rfl⟩


/-! ### Deletion of framebuffers -/

/-- Deleting the write framebuffer `k`: the system framebuffer gets bound. -/
theorem Context.DeleteFramebuffers_body_bound (env : Env) (s : Context) (k : GLuint)
    (hk : k ≠ 0) (hex : s.mResourceManager.FramebufferExists k = true)
    (hw : s.mWriteFBO = .user k) :
    ∃ s1, Context.DeleteFramebuffers.body env s k = some s1 ∧ s1.mErrors = s.mErrors ∧
      s1.systemFramebufferBound := by
  obtain ⟨arr, hget⟩ := ObjectArray.GetObject_isSome env.newFramebuffer
    s.mResourceManager.mFramebuffers k (Or.inl hex)
  obtain ⟨_, _, hsame⟩ := ObjectArray.GetObject_some _ _ _ _ _ hget
  have harr := hsame hex
  subst harr
  have hfb : (s.framebufferAt s.mWriteFBO).isSome = true := by
    rw [hw]
    exact hex
  cases hf : s.framebufferAt s.mWriteFBO with
  | none => simp [hf] at hfb
  | some fb =>
    obtain ⟨s1, hfin, ⟨_, _, _, _, herr, _⟩, _⟩ := Context.finishIfInDrawState_frame env s fb hf
    have hset : s.setFramebuffers s.mResourceManager.mFramebuffers = s := rfl
    unfold Context.DeleteFramebuffers.body
    rw [if_pos ⟨hk, hex⟩, hget]
    simp only [hset, hw, if_true, Context.DeleteFramebuffers.unbind, hfin]
    have hsys : Context.framebufferAt (({ s1 with mWriteFBO := FboPtr.system } : Context).log
        (Event.SetWriteFBO FboPtr.system))
        (({ s1 with mWriteFBO := FboPtr.system } : Context).log
          (Event.SetWriteFBO FboPtr.system)).mWriteFBO = some s1.mSystemFBO := rfl
    simp only [hsys]
    exact ⟨_, rfl, herr, rfl, ⟨_, rfl, rfl⟩, rfl, rfl, rfl⟩

/-- Deleting an existing framebuffer that is not the write framebuffer only
deallocates it. -/
theorem Context.DeleteFramebuffers_body_other (env : Env) (s : Context) (k : GLuint)
    (hk : k ≠ 0) (hex : s.mResourceManager.FramebufferExists k = true)
    (hw : s.mWriteFBO ≠ .user k) :
    Context.DeleteFramebuffers.body env s k =
      some { s with mResourceManager := s.mResourceManager.DeallocateFramebuffer k } := by
  obtain ⟨arr, hget⟩ := ObjectArray.GetObject_isSome env.newFramebuffer
    s.mResourceManager.mFramebuffers k (Or.inl hex)
  obtain ⟨_, _, hsame⟩ := ObjectArray.GetObject_some _ _ _ _ _ hget
  have harr := hsame hex
  subst harr
  have hset : s.setFramebuffers s.mResourceManager.mFramebuffers = s := rfl
  unfold Context.DeleteFramebuffers.body
  rw [if_pos ⟨hk, hex⟩, hget]
  simp only [hset, if_neg hw]

/-- An id that is 0 or names no framebuffer is skipped. -/
theorem Context.DeleteFramebuffers_body_skip (env : Env) (s : Context) (k : GLuint)
    (h : k = 0 ∨ s.mResourceManager.FramebufferExists k = false) :
    Context.DeleteFramebuffers.body env s k = some s := by
  unfold Context.DeleteFramebuffers.body
  rw [if_neg]
  rintro ⟨h1, h2⟩
  rcases h with h | h
  · exact h1 h
  · rw [h] at h2
    exact absurd h2 (by decide)

theorem Context.DeleteFramebuffers_loop_spec (env : Env) (ids : List GLuint) :
    ∀ s : Context, ∃ s1, Context.DeleteFramebuffers.loop env s ids = some s1 ∧
      s1.mErrors = s.mErrors ∧
      (s.writeFramebufferNamedIn ids → s1.systemFramebufferBound) ∧
      (¬ s.writeFramebufferNamedIn ids → s.sameBinding s1) := by
  induction ids with
  | nil =>
    intro s
    refine ⟨s, rfl, rfl, ?_, fun _ => ⟨rfl, rfl, rfl, rfl⟩⟩
    rintro ⟨k, _, _, hmem, _⟩
    simp at hmem
  | cons k rest ih =>
    intro s
    unfold Context.DeleteFramebuffers.loop
    by_cases hskip : k = 0 ∨ s.mResourceManager.FramebufferExists k = false
    · rw [Context.DeleteFramebuffers_body_skip env s k hskip]
      obtain ⟨s1, hrun, herr, hyes, hno⟩ := ih s
      have hiff : s.writeFramebufferNamedIn (k :: rest) ↔ s.writeFramebufferNamedIn rest := by
        constructor
        · rintro ⟨j, hw, hj0, hmem, hex⟩
          rcases List.mem_cons.mp hmem with hjk | hjr
          · subst hjk
            rcases hskip with h | h
            · exact absurd h hj0
            · rw [h] at hex
              exact absurd hex (by decide)
          · exact ⟨j, hw, hj0, hjr, hex⟩
        · rintro ⟨j, hw, hj0, hmem, hex⟩
          exact ⟨j, hw, hj0, List.mem_cons_of_mem _ hmem, hex⟩
      exact ⟨s1, hrun, herr, fun h => hyes (hiff.mp h), fun h => hno (fun h2 => h (hiff.mpr h2))⟩
    · have hk : k ≠ 0 := fun h => hskip (Or.inl h)
      have hex : s.mResourceManager.FramebufferExists k = true := by
        cases h : s.mResourceManager.FramebufferExists k with
        | true => rfl
        | false => exact absurd (Or.inr h) hskip
      by_cases hw : s.mWriteFBO = .user k
      · obtain ⟨s0, hbody, herr0, hb1, hb2, hb3, hb4, hb5⟩ :=
          Context.DeleteFramebuffers_body_bound env s k hk hex hw
        rw [hbody]
        obtain ⟨s1, hrun, herr, _, hno⟩ := ih s0
        have hnot : ¬ s0.writeFramebufferNamedIn rest := by
          rintro ⟨j, hwj, _⟩
          rw [hb1] at hwj
          exact absurd hwj (by simp)
        obtain ⟨h1, h2, h3, h4⟩ := hno hnot
        refine ⟨s1, hrun, by rw [herr, herr0], ?_, ?_⟩
        · intro _
          obtain ⟨f, hf, hidle⟩ := hb2
          refine ⟨by rw [h1, hb1], ⟨f, ?_, hidle⟩, ?_, ?_, ?_⟩
          · rw [h1, hb1]
            rw [hb1] at hf
            show some s1.mSystemFBO = some f
            rw [h2]
            exact hf
          · unfold Context.GetActiveObjectsState
            rw [h3]
            exact hb3
          · rw [h4]
            exact hb4
          · rw [h4]
            exact hb5
        · intro hn
          exact absurd ⟨k, hw, hk, List.mem_cons_self _ _, hex⟩ hn
      · rw [Context.DeleteFramebuffers_body_other env s k hk hex hw]
        obtain ⟨s1, hrun, herr, hyes, hno⟩ :=
          ih { s with mResourceManager := s.mResourceManager.DeallocateFramebuffer k }
        have hiff : s.writeFramebufferNamedIn (k :: rest) ↔
            Context.writeFramebufferNamedIn
              { s with mResourceManager := s.mResourceManager.DeallocateFramebuffer k } rest := by
          constructor
          · rintro ⟨j, hwj, hj0, hmem, hexj⟩
            have hjk : j ≠ k := by
              intro h
              subst h
              exact hw hwj
            rcases List.mem_cons.mp hmem with h | hjr
            · exact absurd h hjk
            · refine ⟨j, hwj, hj0, hjr, ?_⟩
              simpa [ResourceManager.FramebufferExists, ResourceManager.DeallocateFramebuffer,
                ObjectArray.ObjectExists, ObjectArray.Deallocate, Function.update_noteq hjk]
                using hexj
          · rintro ⟨j, hwj, hj0, hmem, hexj⟩
            have hwj2 : s.mWriteFBO = .user j := hwj
            have hjk : j ≠ k := by
              intro h
              subst h
              exact hw hwj2
            refine ⟨j, hwj2, hj0, List.mem_cons_of_mem _ hmem, ?_⟩
            simpa [ResourceManager.FramebufferExists, ResourceManager.DeallocateFramebuffer,
              ObjectArray.ObjectExists, ObjectArray.Deallocate, Function.update_noteq hjk]
              using hexj
        refine ⟨s1, hrun, herr, fun h => hyes (hiff.mp h), fun h => ?_⟩
        exact hno (fun h2 => h (hiff.mpr h2))

/-- C11: `DeleteFramebuffers(n, ids)` with `n >= 0` and a non-null array of at
least `n` ids returns without recording an error. If the write framebuffer is
named by an existing id among the `n` ids, then on return the write framebuffer
is the system framebuffer, in state IDLE, the active framebuffer id is 0 and the
Pipeline and Viewport dirty bits are true; otherwise the write framebuffer, the
active objects and the pipeline are unchanged. An id that is 0 or does not
exist is skipped, and `n < 0` records GL_INVALID_VALUE and changes nothing else. -/
theorem DeleteFramebuffers_rebinds_system (env : Env) (s : Context) (n : Int)
    (ids : List GLuint) (hn : 0 ≤ n) (hlen : n.toNat ≤ ids.length) :
    (∃ s1, s.DeleteFramebuffers env n (some ids) = some s1 ∧ s1.mErrors = s.mErrors ∧
      (s.writeFramebufferNamedIn (ids.take n.toNat) → s1.systemFramebufferBound) ∧
      (¬ s.writeFramebufferNamedIn (ids.take n.toNat) → s.sameBinding s1)) ∧
    (∀ k, (k = 0 ∨ s.mResourceManager.FramebufferExists k = false) →
      Context.DeleteFramebuffers.body env s k = some s) ∧
    (∀ m : Int, m < 0 →
      s.DeleteFramebuffers env m (some ids) = some (s.RecordError GL_INVALID_VALUE)) := by
  refine ⟨?_, fun k hk => Context.DeleteFramebuffers_body_skip env s k hk, ?_⟩
  · obtain ⟨s1, hrun, h⟩ := Context.DeleteFramebuffers_loop_spec env (ids.take n.toNat) s
    refine ⟨s1, ?_, h⟩
    unfold Context.DeleteFramebuffers
    rw [if_neg (not_lt.mpr hn)]
    simp only
    rw [if_neg (not_lt.mpr hlen)]
    exact hrun
  · intro m hm
    unfold Context.DeleteFramebuffers
    rw [if_pos hm]

/-- C11 (witness): framebuffer 1 is the write framebuffer, in state DRAW;
`DeleteFramebuffers(2, {0, 1})` binds the system framebuffer. -/
theorem DeleteFramebuffers_rebinds_system_witness :
    ∃ s1, contextDrawingToTexture7.DeleteFramebuffers envCreate 2 (some [0, 1]) = some s1 ∧
      s1.mErrors = contextDrawingToTexture7.mErrors ∧ s1.systemFramebufferBound := by
  obtain ⟨s1, h1, h2, h3, _⟩ :=
    (DeleteFramebuffers_rebinds_system envCreate contextDrawingToTexture7 2 [0, 1]
      (by decide) (by decide)).1
  exact ⟨s1, h1, h2, h3 ⟨1, rfl, by decide, by decide, rfl⟩⟩


/-! ### Colour attachments and image usage -/

theorem usage_or_color_bit (x : Nat) (h : ¬ x &&& VK_IMAGE_USAGE_COLOR_ATTACHMENT_BIT = 0) :
    x ||| VK_IMAGE_USAGE_COLOR_ATTACHMENT_BIT = x := by
  have h16 : VK_IMAGE_USAGE_COLOR_ATTACHMENT_BIT = 2 ^ 4 := rfl
  rw [h16] at h ⊢
  have hb : x.testBit 4 = true := by
    rw [Nat.and_two_pow] at h
    cases hx : x.testBit 4 with
    | true => rfl
    | false =>
      rw [hx] at h
      exact absurd rfl h
  apply Nat.eq_of_testBit_eq
  intro i
  rw [Nat.testBit_or, Nat.testBit_two_pow]
  by_cases hi : 4 = i
  · subst hi
    simp [hb]
  · simp [hi]

theorem Context.prepareColorAttachment_spec (tex : Texture) :
    (Context.prepareColorAttachment tex).1.mVkImageUsage =
      tex.mVkImageUsage ||| VK_IMAGE_USAGE_COLOR_ATTACHMENT_BIT ∧
    ((Context.prepareColorAttachment tex).2 =
      decide (tex.mVkImageUsage &&& VK_IMAGE_USAGE_COLOR_ATTACHMENT_BIT = 0)) := by
  unfold Context.prepareColorAttachment
  by_cases h : tex.GetVkImageUsage &&& VK_IMAGE_USAGE_COLOR_ATTACHMENT_BIT = 0
  · rw [if_pos h]
    exact ⟨rfl, (decide_eq_true h).symm⟩
  · rw [if_neg h]
    exact ⟨(usage_or_color_bit _ h).symm, (decide_eq_false h).symm⟩

theorem Context.sameImages_trans (s s1 s2 : Context) (h1 : s.sameImages s1)
    (h2 : s1.sameImages s2) : s.sameImages s2 := by
  obtain ⟨a1, b1, c1, d1, e1⟩ := h1
  obtain ⟨a2, b2, c2, d2, e2⟩ := h2
  exact ⟨a2.trans a1, b2.trans b1, c2.trans c1, d2.trans d1, fun t => (e2 t).trans (e1 t)⟩

theorem Context.sameImages_setFramebufferAt (s : Context) (p : FboPtr) (f : Framebuffer) :
    s.sameImages (s.setFramebufferAt p f) := by
  cases p <;> exact ⟨rfl, rfl, rfl, rfl, fun _ => rfl⟩

theorem Context.sameImages_log (s : Context) (e : Event) (h : ∀ t, e ≠ .TextureAllocate t) :
    s.sameImages (s.log e) := by
  refine ⟨rfl, rfl, rfl, rfl, fun t => ?_⟩
  have ht : ¬ (e == Event.TextureAllocate t) = true := by
    simpa using h t
  simp [allocations, Context.log, List.count_append, List.count_cons, ht]

theorem Context.framebufferAt_log (s : Context) (e : Event) (p : FboPtr) :
    (s.log e).framebufferAt p = s.framebufferAt p := by
  cases p <;> rfl

theorem Context.modifyWriteFBO_sameImages (s : Context) (g : Framebuffer → Option Framebuffer)
    (f f1 : Framebuffer) (hf : s.framebufferAt s.mWriteFBO = some f) (hg : g f = some f1) :
    ∃ s1, s.modifyWriteFBO g = some s1 ∧ s1.framebufferAt s1.mWriteFBO = some f1 ∧
      s.sameImages s1 := by
  unfold Context.modifyWriteFBO
  rw [hf]
  simp only [hg]
  refine ⟨_, rfl, ?_, Context.sameImages_setFramebufferAt s _ _⟩
  rw [(Context.setFramebufferAt_frame s _ _).1]
  exact Context.framebufferAt_setFramebufferAt s _ _

theorem Framebuffer.modifyColor0_some (f : Framebuffer) (g : Attachment → Attachment)
    (h : f.mAttachmentColors ≠ []) :
    ∃ f1, f.modifyColor0 g = some f1 ∧ f1.mAttachmentColors ≠ [] := by
  unfold Framebuffer.modifyColor0
  cases hc : f.mAttachmentColors with
  | nil => exact absurd hc h
  | cons a rest => exact ⟨_, rfl, by simp⟩

theorem Context.Finish_images (env : Env) (s : Context) : s.sameImages (s.Finish env) := by
  unfold Context.Finish
  cases hf : s.framebufferAt s.mWriteFBO with
  | none => exact Context.sameImages_log _ _ (fun t => by simp)
  | some fb =>
    exact Context.sameImages_trans _ _ _ (Context.sameImages_setFramebufferAt s _ _)
      (Context.sameImages_log _ _ (fun t => by simp))

theorem Context.sameImages_refl (s : Context) : s.sameImages s :=
  ⟨rfl, rfl, rfl, rfl, fun _ => rfl⟩

/-- With a write framebuffer that exists, the guarded `Finish()` returns and the
write framebuffer keeps its colour attachments. -/
theorem Context.finishIfAttachmentChanges_live (env : Env) (s : Context) (guard : Bool)
    (attachment : GLenum) (name : GLuint) (fb : Framebuffer)
    (hf : s.framebufferAt s.mWriteFBO = some fb) :
    ∃ s1 f1, s.finishIfAttachmentChanges env guard attachment name = some s1 ∧
      s1.framebufferAt s1.mWriteFBO = some f1 ∧
      f1.mAttachmentColors = fb.mAttachmentColors ∧ s.sameImages s1 := by
  unfold Context.finishIfAttachmentChanges
  rw [hf]
  simp only
  split
  · refine ⟨_, { fb with mState := env.finishState fb.mState }, rfl, ?_, rfl,
      Context.Finish_images env s⟩
    unfold Context.Finish
    rw [hf]
    simp only
    rw [Context.framebufferAt_log]
    show (s.setFramebufferAt s.mWriteFBO _).framebufferAt (s.setFramebufferAt s.mWriteFBO _).mWriteFBO
      = _
    rw [(Context.setFramebufferAt_frame s _ _).1]
    exact Context.framebufferAt_setFramebufferAt s _ _
  · exact ⟨s, fb, rfl, hf, rfl, Context.sameImages_refl s⟩

/-- The guarded `Finish()`, when it returns, leaves the textures, the
renderbuffers, the errors and the recorded allocations as they are. -/
theorem Context.finishIfAttachmentChanges_images (env : Env) (s s1 : Context) (guard : Bool)
    (attachment : GLenum) (name : GLuint)
    (h : s.finishIfAttachmentChanges env guard attachment name = some s1) : s.sameImages s1 := by
  unfold Context.finishIfAttachmentChanges at h
  split at h
  · exact absurd h (by simp)
  · split at h
    · injection h with h
      subst h
      exact Context.Finish_images env s
    · injection h with h
      subst h
      exact Context.sameImages_refl s

theorem Context.modifyWriteFBO_images (s s1 : Context) (g : Framebuffer → Option Framebuffer)
    (h : s.modifyWriteFBO g = some s1) : s.sameImages s1 := by
  unfold Context.modifyWriteFBO at h
  split at h
  · exact absurd h (by simp)
  · split at h
    · exact absurd h (by simp)
    · injection h with h
      subst h
      exact Context.sameImages_setFramebufferAt s _ _

theorem Context.setAttachmentTypeName_images (s s1 : Context) (attachment type : GLenum)
    (name : GLuint) (setType : Framebuffer → GLenum → Option Framebuffer)
    (setName : Framebuffer → Nat → Option Framebuffer)
    (h : s.setAttachmentTypeName attachment type name setType setName = some s1) :
    s.sameImages s1 := by
  unfold Context.setAttachmentTypeName at h
  split at h
  · exact absurd h (by simp)
  · rename_i sa ha
    split at h
    · exact absurd h (by simp)
    · rename_i sb hb
      injection h with h
      subst h
      exact Context.sameImages_trans _ _ _ (Context.modifyWriteFBO_images _ _ _ ha)
        (Context.sameImages_trans _ _ _ (Context.sameImages_log _ _ (fun t => by simp))
          (Context.sameImages_trans _ _ _ (Context.modifyWriteFBO_images _ _ _ hb)
            (Context.sameImages_log _ _ (fun t => by simp))))

theorem Context.setColorTypeName_sameImages (s : Context) (attachment type : GLenum)
    (name : GLuint) (h : s.hasColorAttachmentSlot) :
    ∃ s1, s.setAttachmentTypeName attachment type name Framebuffer.SetColorAttachmentType
        Framebuffer.SetColorAttachmentName = some s1 ∧
      s1.hasColorAttachmentSlot ∧ s.sameImages s1 := by
  obtain ⟨f, hf, hne⟩ := h
  obtain ⟨f1, hg1, hne1⟩ := Framebuffer.modifyColor0_some f (fun a => { a with mType := type }) hne
  obtain ⟨s1, hs1, hf1, hsame1⟩ := Context.modifyWriteFBO_sameImages s
    (fun f => Framebuffer.SetColorAttachmentType f type) f f1 hf hg1
  obtain ⟨f2, hg2, hne2⟩ := Framebuffer.modifyColor0_some f1 (fun a => { a with mName := name }) hne1
  have hf1b : (s1.log (.SetAttachmentType attachment type)).framebufferAt
      (s1.log (.SetAttachmentType attachment type)).mWriteFBO = some f1 := by
    rw [Context.framebufferAt_log]
    exact hf1
  obtain ⟨s2, hs2, hf2, hsame2⟩ := Context.modifyWriteFBO_sameImages
    (s1.log (.SetAttachmentType attachment type))
    (fun f => Framebuffer.SetColorAttachmentName f name) f1 f2 hf1b hg2
  unfold Context.setAttachmentTypeName
  rw [hs1]
  simp only
  rw [hs2]
  refine ⟨_, rfl, ⟨f2, ?_, hne2⟩, ?_⟩
  · rw [Context.framebufferAt_log]
    exact hf2
  · exact Context.sameImages_trans _ _ _ hsame1 (Context.sameImages_trans _ _ _
      (Context.sameImages_log _ _ (fun t => by simp)) (Context.sameImages_trans _ _ _ hsame2
        (Context.sameImages_log _ _ (fun t => by simp))))


theorem Context.logAllocate_spec (s : Context) (b : Bool) (p : TexPtr) :
    (s.logAllocate b p).mResourceManager = s.mResourceManager ∧
    (s.logAllocate b p).mErrors = s.mErrors ∧
    (s.logAllocate b p).mWriteFBO = s.mWriteFBO ∧
    (s.logAllocate b p).mSystemFBO = s.mSystemFBO ∧
    ∀ t, allocations (s.logAllocate b p).mTrace t =
      allocations s.mTrace t + (if t = p ∧ b = true then 1 else 0) := by
  cases b with
  | false => exact ⟨rfl, rfl, rfl, rfl, fun t => by simp [Context.logAllocate]⟩
  | true =>
    refine ⟨rfl, rfl, rfl, rfl, fun t => ?_⟩
    by_cases ht : t = p
    · subst ht
      simp [Context.logAllocate, Context.log, allocations, List.count_append]
    · have hne : ¬ (Event.TextureAllocate p == Event.TextureAllocate t) = true := by
        simpa using fun h => ht h.symm
      simp [Context.logAllocate, Context.log, allocations, List.count_append, List.count_cons,
        hne, ht]

theorem Context.framebufferAt_congr (s s1 : Context) (h1 : s1.mSystemFBO = s.mSystemFBO)
    (h2 : s1.mResourceManager.mFramebuffers = s.mResourceManager.mFramebuffers) (p : FboPtr) :
    s1.framebufferAt p = s.framebufferAt p := by
  cases p with
  | system => simp [Context.framebufferAt, h1]
  | user i => simp [Context.framebufferAt, h2]

theorem Context.FramebufferTexture2D_attach_color (env : Env) (s : Context)
    (textarget : GLenum) (texture : GLuint) (tex : Texture) (f : Framebuffer)
    (hf : s.framebufferAt s.mWriteFBO = some f)
    (hne : ∀ w h, (env.SetColorAttachment f w h).mAttachmentColors ≠ []) :
    ∃ s1, Context.FramebufferTexture2D.attach env s GL_COLOR_ATTACHMENT0 textarget texture
        (some tex) = some s1 ∧
      s1.mErrors = s.mErrors ∧
      s1.mResourceManager.mTextures =
        s.mResourceManager.mTextures.write texture (Context.prepareColorAttachment tex).1 ∧
      s1.mResourceManager.mRenderbuffers = s.mResourceManager.mRenderbuffers ∧
      ∀ t, allocations s1.mTrace t = allocations s.mTrace t +
        (if t = .texture texture ∧ (Context.prepareColorAttachment tex).2 = true then 1 else 0) := by
  unfold Context.FramebufferTexture2D.attach
  rw [if_pos rfl]
  simp only [Option.map_some']
  obtain ⟨hrm, herr, hw, hsys, halloc⟩ := Context.logAllocate_spec
    (s.setTextures (s.mResourceManager.mTextures.write texture (prepareColorAttachment tex).1))
    (prepareColorAttachment tex).2 (.texture texture)
  generalize (s.setTextures (s.mResourceManager.mTextures.write texture
    (prepareColorAttachment tex).1)).logAllocate (prepareColorAttachment tex).2
    (.texture texture) = s0 at hrm herr hw hsys halloc ⊢
  have hf0 : s0.framebufferAt s0.mWriteFBO = some f := by
    rw [hw, Context.framebufferAt_congr _ s0 hsys (by rw [hrm])]
    exact hf
  obtain ⟨s1, hs1, hf1, hsame1⟩ := Context.modifyWriteFBO_sameImages s0
    (fun f => some (env.SetColorAttachment f (prepareColorAttachment tex).1.GetWidth
      (prepareColorAttachment tex).1.GetHeight)) f _ hf0 rfl
  obtain ⟨s2, hs2, ⟨f2, hf2, hne2⟩, hsame2⟩ := Context.setColorTypeName_sameImages s1
    GL_COLOR_ATTACHMENT0 (if texture ≠ 0 then GL_TEXTURE else GL_NONE) texture
    ⟨_, hf1, hne _ _⟩
  obtain ⟨f3, hg3, hne3⟩ := Framebuffer.modifyColor0_some f2 (fun a => { a with mLayer :=
    (attachmentLayer (some (prepareColorAttachment tex).1) textarget) }) hne2
  obtain ⟨f4, hg4, _⟩ := Framebuffer.modifyColor0_some f3 (fun a => { a with mLevel := 0 }) hne3
  obtain ⟨s3, hs3, _, hsame3⟩ := Context.modifyWriteFBO_sameImages s2
    (fun f => (f.SetColorAttachmentLayer (attachmentLayer (some (prepareColorAttachment tex).1)
      textarget)).bind fun f1 => f1.SetColorAttachmentLevel 0) f2 f4 hf2 (by
      show (f2.modifyColor0 _).bind _ = _
      rw [hg3]
      exact hg4)
  rw [hs1]
  simp only
  rw [hs2]
  simp only
  rw [hs3]
  obtain ⟨a, b, c, _, e⟩ := Context.sameImages_trans _ _ _ hsame1
    (Context.sameImages_trans _ _ _ hsame2 hsame3)
  refine ⟨_, rfl, ?_, ?_, ?_, fun t => ?_⟩
  · exact c.trans herr
  · show s3.mResourceManager.mTextures = _
    rw [a, hrm]
    rfl
  · show s3.mResourceManager.mRenderbuffers = _
    rw [b, hrm]
    rfl
  · show allocations s3.mTrace t = _
    rw [e t, halloc t]
    rfl


theorem ObjectArray.GetObject_existing {α : Type} (fresh : Option α) (a : ObjectArray α)
    (index : Nat) (v : α) (h : a.read index = some v) :
    a.GetObject fresh index = (some index, a) := by
  unfold ObjectArray.GetObject
  rw [show a.mObjects index = some v from h]

theorem Context.FramebufferRenderbuffer_attach_color (env : Env) (s : Context)
    (renderbuffer : GLuint) (rb : Renderbuffer) (tex : Texture) (hrb0 : renderbuffer ≠ 0)
    (hread : s.mResourceManager.mRenderbuffers.read renderbuffer = some rb)
    (htex : rb.mTexture = some tex) (f : Framebuffer)
    (hf : s.framebufferAt s.mWriteFBO = some f)
    (hne : ∀ w h t, (env.SetColorAttachmentTexture f w h t).mAttachmentColors ≠ []) :
    ∃ s1, Context.FramebufferRenderbuffer.attach env s GL_COLOR_ATTACHMENT0 renderbuffer = some s1 ∧
      s1.mErrors = s.mErrors ∧
      s1.mResourceManager.mRenderbuffers = s.mResourceManager.mRenderbuffers.write renderbuffer
        { rb with mTexture := some (Context.prepareColorAttachment tex).1 } ∧
      s1.mResourceManager.mTextures = s.mResourceManager.mTextures ∧
      ∀ t, allocations s1.mTrace t = allocations s.mTrace t +
        (if t = .renderbuffer renderbuffer ∧ (Context.prepareColorAttachment tex).2 = true
          then 1 else 0) := by
  unfold Context.FramebufferRenderbuffer.attach
  rw [if_pos rfl, if_pos hrb0, ObjectArray.GetObject_existing _ _ _ _ hread]
  simp only [hread, htex]
  obtain ⟨hrm, herr, hw, hsys, halloc⟩ := Context.logAllocate_spec
    (s.setRenderbuffers (s.mResourceManager.mRenderbuffers.write renderbuffer
      { rb with mTexture := some (prepareColorAttachment tex).1 }))
    (prepareColorAttachment tex).2 (.renderbuffer renderbuffer)
  generalize (s.setRenderbuffers (s.mResourceManager.mRenderbuffers.write renderbuffer
      { rb with mTexture := some (prepareColorAttachment tex).1 })).logAllocate
    (prepareColorAttachment tex).2 (.renderbuffer renderbuffer) = s0 at hrm herr hw hsys halloc ⊢
  have hf0 : s0.framebufferAt s0.mWriteFBO = some f := by
    rw [hw, Context.framebufferAt_congr _ s0 hsys (by rw [hrm])]
    exact hf
  obtain ⟨s1, hs1, hf1, hsame1⟩ := Context.modifyWriteFBO_sameImages s0
    (fun f => some (env.SetColorAttachmentTexture f (prepareColorAttachment tex).1.GetWidth
      (prepareColorAttachment tex).1.GetHeight (some (prepareColorAttachment tex).1))) f _ hf0 rfl
  obtain ⟨s2, hs2, _, hsame2⟩ := Context.setColorTypeName_sameImages s1
    GL_COLOR_ATTACHMENT0 GL_RENDERBUFFER renderbuffer ⟨_, hf1, hne _ _ _⟩
  rw [hs1]
  simp only
  rw [hs2]
  obtain ⟨a, b, c, _, e⟩ := Context.sameImages_trans _ _ _ hsame1 hsame2
  refine ⟨_, rfl, ?_, ?_, ?_, fun t => ?_⟩
  · exact c.trans herr
  · show s2.mResourceManager.mRenderbuffers = _
    rw [b, hrm]
    rfl
  · show s2.mResourceManager.mTextures = _
    rw [a, hrm]
    rfl
  · show allocations s2.mTrace t = _
    rw [e t, halloc t]
    rfl

/-- A colour attachment of a texture through `FramebufferTexture2D` that passes
validation. -/
theorem Context.FramebufferTexture2D_color (env : Env) (s : Context) (textarget : GLenum)
    (texture : GLuint) (tex : Texture) (htex0 : texture ≠ 0)
    (hread : s.mResourceManager.mTextures.read texture = some tex)
    (htarget : textarget = GL_TEXTURE_2D ∨
      (GL_TEXTURE_CUBE_MAP_POSITIVE_X ≤ textarget ∧ textarget ≤ GL_TEXTURE_CUBE_MAP_NEGATIVE_Z))
    (hcompat : ¬ ((tex.GetTarget = GL_TEXTURE_2D ∧ textarget ≠ GL_TEXTURE_2D) ∨
      (tex.GetTarget = GL_TEXTURE_CUBE_MAP ∧ textarget = GL_TEXTURE_2D)))
    (hact : s.GetActiveObjectsState.IsDefaultFramebufferObjectActive = false)
    (fb : Framebuffer) (hfbo : s.framebufferAt s.mWriteFBO = some fb)
    (henv : ∀ f w h, f.mAttachmentColors = fb.mAttachmentColors →
      (env.SetColorAttachment f w h).mAttachmentColors ≠ []) :
    ∃ s1, s.FramebufferTexture2D env GL_FRAMEBUFFER GL_COLOR_ATTACHMENT0 textarget texture 0 =
        some s1 ∧
      s1.mErrors = s.mErrors ∧
      s1.mResourceManager.mTextures =
        s.mResourceManager.mTextures.write texture (Context.prepareColorAttachment tex).1 ∧
      s1.mResourceManager.mRenderbuffers = s.mResourceManager.mRenderbuffers ∧
      ∀ t, allocations s1.mTrace t = allocations s.mTrace t +
        (if t = .texture texture ∧ (Context.prepareColorAttachment tex).2 = true then 1 else 0) := by
  have hset : s.setTextures s.mResourceManager.mTextures = s := rfl
  have hexists : s.mResourceManager.TextureExists texture = true := by
    show (s.mResourceManager.mTextures.read texture).isSome = true
    rw [hread]
    rfl
  obtain ⟨s2, f2, hs2, hf2, hcol2, a, b, c, _, e⟩ := Context.finishIfAttachmentChanges_live env s
    (decide (texture ≠ 0)) GL_COLOR_ATTACHMENT0 texture fb hfbo
  obtain ⟨s3, hs3, c3, a3, b3, e3⟩ := Context.FramebufferTexture2D_attach_color env s2 textarget
    texture tex f2 hf2 (fun w h => henv f2 w h hcol2)
  unfold Context.FramebufferTexture2D
  rw [if_neg (not_not.mpr rfl), if_neg, if_neg (fun h => h.2 rfl), if_neg (by rw [hact]; decide),
    if_neg (by rw [hexists]; exact fun h => absurd h.2 (by decide)),
    ObjectArray.GetObject_existing _ _ _ _ hread]
  · simp only [hread, hset]
    rw [if_neg hcompat, if_neg (fun h => h.1 rfl), hs2]
    simp only [if_pos htex0]
    rw [hs3]
    refine ⟨s3, rfl, c3.trans c, ?_, ?_, fun t => ?_⟩
    · rw [a3, a]
    · rw [b3, b]
    · rw [e3 t, e t]
  · rintro ⟨_, h1, h2⟩
    rcases htarget with h | ⟨ha, hb⟩
    · exact h1 h
    · rcases h2 with h2 | h2
      · exact absurd h2 (Nat.not_lt.mpr ha)
      · exact absurd h2 (Nat.not_lt.mpr hb)

/-- A colour attachment of a renderbuffer through `FramebufferRenderbuffer` that
passes validation. -/
theorem Context.FramebufferRenderbuffer_color (env : Env) (s : Context)
    (renderbuffer : GLuint) (rb : Renderbuffer) (tex : Texture) (hrb0 : renderbuffer ≠ 0)
    (hread : s.mResourceManager.mRenderbuffers.read renderbuffer = some rb)
    (htex : rb.mTexture = some tex)
    (hact : s.GetActiveObjectsState.IsDefaultFramebufferObjectActive = false)
    (fb : Framebuffer) (hfbo : s.framebufferAt s.mWriteFBO = some fb)
    (henv : ∀ f w h t, f.mAttachmentColors = fb.mAttachmentColors →
      (env.SetColorAttachmentTexture f w h t).mAttachmentColors ≠ []) :
    ∃ s1, s.FramebufferRenderbuffer env GL_FRAMEBUFFER GL_COLOR_ATTACHMENT0 GL_RENDERBUFFER
        renderbuffer = some s1 ∧
      s1.mErrors = s.mErrors ∧
      s1.mResourceManager.mRenderbuffers = s.mResourceManager.mRenderbuffers.write renderbuffer
        { rb with mTexture := some (Context.prepareColorAttachment tex).1 } ∧
      s1.mResourceManager.mTextures = s.mResourceManager.mTextures ∧
      ∀ t, allocations s1.mTrace t = allocations s.mTrace t +
        (if t = .renderbuffer renderbuffer ∧ (Context.prepareColorAttachment tex).2 = true
          then 1 else 0) := by
  have hexists : s.mResourceManager.RenderbufferExists renderbuffer = true := by
    show (s.mResourceManager.mRenderbuffers.read renderbuffer).isSome = true
    rw [hread]
    rfl
  obtain ⟨s2, f2, hs2, hf2, hcol2, a, b, c, _, e⟩ := Context.finishIfAttachmentChanges_live env s
    true GL_COLOR_ATTACHMENT0 renderbuffer fb hfbo
  obtain ⟨s3, hs3, c3, b3, a3, e3⟩ := Context.FramebufferRenderbuffer_attach_color env s2
    renderbuffer rb tex hrb0 (by rw [b]; exact hread) htex f2 hf2
    (fun w h t => henv f2 w h t hcol2)
  unfold Context.FramebufferRenderbuffer
  rw [if_neg (not_not.mpr rfl), if_neg (fun h => h.1 rfl), if_neg (fun h => h.1 rfl), if_neg, hs2]
  · simp only
    rw [hs3]
    refine ⟨s3, rfl, c3.trans c, ?_, ?_, fun t => ?_⟩
    · rw [b3, b]
    · rw [a3, a]
    · rw [e3 t, e t]
  · rw [hact, hexists]
    rintro (h | ⟨_, h⟩)
    · exact absurd h (by decide)
    · exact absurd h (by decide)


/-- The colour case of `FramebufferTexture2D`, when it returns. -/
theorem Context.FramebufferTexture2D_attach_color_images (env : Env) (s s1 : Context)
    (textarget : GLenum) (texture : GLuint) (tex : Texture)
    (h : Context.FramebufferTexture2D.attach env s GL_COLOR_ATTACHMENT0 textarget texture
      (some tex) = some s1) :
    s1.mErrors = s.mErrors ∧
    s1.mResourceManager.mTextures =
      s.mResourceManager.mTextures.write texture (Context.prepareColorAttachment tex).1 ∧
    s1.mResourceManager.mRenderbuffers = s.mResourceManager.mRenderbuffers ∧
    ∀ t, allocations s1.mTrace t = allocations s.mTrace t +
      (if t = .texture texture ∧ (Context.prepareColorAttachment tex).2 = true then 1 else 0) := by
  unfold Context.FramebufferTexture2D.attach at h
  rw [if_pos rfl] at h
  simp only [Option.map_some'] at h
  obtain ⟨hrm, herr, hw, hsys, halloc⟩ := Context.logAllocate_spec
    (s.setTextures (s.mResourceManager.mTextures.write texture (prepareColorAttachment tex).1))
    (prepareColorAttachment tex).2 (.texture texture)
  generalize (s.setTextures (s.mResourceManager.mTextures.write texture
    (prepareColorAttachment tex).1)).logAllocate (prepareColorAttachment tex).2
    (.texture texture) = s0 at hrm herr hw hsys halloc h
  split at h
  · exact absurd h (by simp)
  · rename_i sa ha
    split at h
    · exact absurd h (by simp)
    · rename_i sb hb
      split at h
      · exact absurd h (by simp)
      · rename_i sc hc
        injection h with h
        subst h
        obtain ⟨a, b, c, _, e⟩ := Context.sameImages_trans _ _ _
          (Context.modifyWriteFBO_images _ _ _ ha)
          (Context.sameImages_trans _ _ _ (Context.setAttachmentTypeName_images _ _ _ _ _ _ _ hb)
            (Context.modifyWriteFBO_images _ _ _ hc))
        refine ⟨?_, ?_, ?_, fun t => ?_⟩
        · exact c.trans herr
        · show sc.mResourceManager.mTextures = _
          rw [a, hrm]
          rfl
        · show sc.mResourceManager.mRenderbuffers = _
          rw [b, hrm]
          rfl
        · show allocations sc.mTrace t = _
          rw [e t, halloc t]
          rfl

/-- The colour case of `FramebufferRenderbuffer`, when it returns. -/
theorem Context.FramebufferRenderbuffer_attach_color_images (env : Env) (s s1 : Context)
    (renderbuffer : GLuint) (rb : Renderbuffer) (tex : Texture) (hrb0 : renderbuffer ≠ 0)
    (hread : s.mResourceManager.mRenderbuffers.read renderbuffer = some rb)
    (htex : rb.mTexture = some tex)
    (h : Context.FramebufferRenderbuffer.attach env s GL_COLOR_ATTACHMENT0 renderbuffer = some s1) :
    s1.mErrors = s.mErrors ∧
    s1.mResourceManager.mRenderbuffers = s.mResourceManager.mRenderbuffers.write renderbuffer
      { rb with mTexture := some (Context.prepareColorAttachment tex).1 } ∧
    s1.mResourceManager.mTextures = s.mResourceManager.mTextures ∧
    ∀ t, allocations s1.mTrace t = allocations s.mTrace t +
      (if t = .renderbuffer renderbuffer ∧ (Context.prepareColorAttachment tex).2 = true
        then 1 else 0) := by
  unfold Context.FramebufferRenderbuffer.attach at h
  rw [if_pos rfl, if_pos hrb0, ObjectArray.GetObject_existing _ _ _ _ hread] at h
  simp only [hread, htex] at h
  obtain ⟨hrm, herr, hw, hsys, halloc⟩ := Context.logAllocate_spec
    (s.setRenderbuffers (s.mResourceManager.mRenderbuffers.write renderbuffer
      { rb with mTexture := some (prepareColorAttachment tex).1 }))
    (prepareColorAttachment tex).2 (.renderbuffer renderbuffer)
  generalize (s.setRenderbuffers (s.mResourceManager.mRenderbuffers.write renderbuffer
      { rb with mTexture := some (prepareColorAttachment tex).1 })).logAllocate
    (prepareColorAttachment tex).2 (.renderbuffer renderbuffer) = s0 at hrm herr hw hsys halloc h
  split at h
  · exact absurd h (by simp)
  · rename_i sa ha
    split at h
    · exact absurd h (by simp)
    · rename_i sb hb
      injection h with h
      subst h
      obtain ⟨a, b, c, _, e⟩ := Context.sameImages_trans _ _ _
        (Context.modifyWriteFBO_images _ _ _ ha)
        (Context.setAttachmentTypeName_images _ _ _ _ _ _ _ hb)
      refine ⟨?_, ?_, ?_, fun t => ?_⟩
      · exact c.trans herr
      · show sb.mResourceManager.mRenderbuffers = _
        rw [b, hrm]
        rfl
      · show sb.mResourceManager.mTextures = _
        rw [a, hrm]
        rfl
      · show allocations sb.mTrace t = _
        rw [e t, halloc t]
        rfl

/-- A colour attachment of a texture through `FramebufferTexture2D` that passes
validation, when the call returns. -/
theorem Context.FramebufferTexture2D_color_images (env : Env) (s s1 : Context)
    (textarget : GLenum) (texture : GLuint) (tex : Texture) (htex0 : texture ≠ 0)
    (hread : s.mResourceManager.mTextures.read texture = some tex)
    (htarget : textarget = GL_TEXTURE_2D ∨
      (GL_TEXTURE_CUBE_MAP_POSITIVE_X ≤ textarget ∧ textarget ≤ GL_TEXTURE_CUBE_MAP_NEGATIVE_Z))
    (hcompat : ¬ ((tex.GetTarget = GL_TEXTURE_2D ∧ textarget ≠ GL_TEXTURE_2D) ∨
      (tex.GetTarget = GL_TEXTURE_CUBE_MAP ∧ textarget = GL_TEXTURE_2D)))
    (hact : s.GetActiveObjectsState.IsDefaultFramebufferObjectActive = false)
    (h : s.FramebufferTexture2D env GL_FRAMEBUFFER GL_COLOR_ATTACHMENT0 textarget texture 0 =
      some s1) :
    s1.mErrors = s.mErrors ∧
    s1.mResourceManager.mTextures =
      s.mResourceManager.mTextures.write texture (Context.prepareColorAttachment tex).1 ∧
    s1.mResourceManager.mRenderbuffers = s.mResourceManager.mRenderbuffers ∧
    ∀ t, allocations s1.mTrace t = allocations s.mTrace t +
      (if t = .texture texture ∧ (Context.prepareColorAttachment tex).2 = true then 1 else 0) := by
  have hset : s.setTextures s.mResourceManager.mTextures = s := rfl
  have hexists : s.mResourceManager.TextureExists texture = true := by
    show (s.mResourceManager.mTextures.read texture).isSome = true
    rw [hread]
    rfl
  have hval : ¬ (texture ≠ 0 ∧ (textarget ≠ GL_TEXTURE_2D ∧
      (textarget < GL_TEXTURE_CUBE_MAP_POSITIVE_X ∨
        textarget > GL_TEXTURE_CUBE_MAP_NEGATIVE_Z))) := by
    rintro ⟨_, h1, h2⟩
    rcases htarget with h | ⟨ha, hb⟩
    · exact h1 h
    · rcases h2 with h2 | h2
      · exact absurd h2 (Nat.not_lt.mpr ha)
      · exact absurd h2 (Nat.not_lt.mpr hb)
  unfold Context.FramebufferTexture2D at h
  rw [if_neg (not_not.mpr rfl), if_neg hval, if_neg (fun h => h.2 rfl),
    if_neg (by rw [hact]; decide),
    if_neg (by rw [hexists]; exact fun h => absurd h.2 (by decide)),
    ObjectArray.GetObject_existing _ _ _ _ hread] at h
  simp only [hread, hset] at h
  rw [if_neg hcompat, if_neg (fun h => h.1 rfl)] at h
  split at h
  · exact absurd h (by simp)
  · rename_i s2 hs2
    simp only [if_pos htex0] at h
    obtain ⟨a, b, c, _, e⟩ := Context.finishIfAttachmentChanges_images env s s2 _ _ _ hs2
    obtain ⟨c3, a3, b3, e3⟩ :=
      Context.FramebufferTexture2D_attach_color_images env s2 s1 textarget texture tex h
    refine ⟨c3.trans c, ?_, ?_, fun t => ?_⟩
    · rw [a3, a]
    · rw [b3, b]
    · rw [e3 t, e t]

/-- A colour attachment of a renderbuffer through `FramebufferRenderbuffer` that
passes validation, when the call returns. -/
theorem Context.FramebufferRenderbuffer_color_images (env : Env) (s s1 : Context)
    (renderbuffer : GLuint) (rb : Renderbuffer) (tex : Texture) (hrb0 : renderbuffer ≠ 0)
    (hread : s.mResourceManager.mRenderbuffers.read renderbuffer = some rb)
    (htex : rb.mTexture = some tex)
    (hact : s.GetActiveObjectsState.IsDefaultFramebufferObjectActive = false)
    (h : s.FramebufferRenderbuffer env GL_FRAMEBUFFER GL_COLOR_ATTACHMENT0 GL_RENDERBUFFER
      renderbuffer = some s1) :
    s1.mErrors = s.mErrors ∧
    s1.mResourceManager.mRenderbuffers = s.mResourceManager.mRenderbuffers.write renderbuffer
      { rb with mTexture := some (Context.prepareColorAttachment tex).1 } ∧
    s1.mResourceManager.mTextures = s.mResourceManager.mTextures ∧
    ∀ t, allocations s1.mTrace t = allocations s.mTrace t +
      (if t = .renderbuffer renderbuffer ∧ (Context.prepareColorAttachment tex).2 = true
        then 1 else 0) := by
  have hexists : s.mResourceManager.RenderbufferExists renderbuffer = true := by
    show (s.mResourceManager.mRenderbuffers.read renderbuffer).isSome = true
    rw [hread]
    rfl
  have hval : ¬ (s.GetActiveObjectsState.IsDefaultFramebufferObjectActive = true ∨
      (renderbuffer ≠ 0 ∧ s.mResourceManager.RenderbufferExists renderbuffer = false)) := by
    rw [hact, hexists]
    rintro (h | ⟨_, h⟩)
    · exact absurd h (by decide)
    · exact absurd h (by decide)
  unfold Context.FramebufferRenderbuffer at h
  rw [if_neg (not_not.mpr rfl), if_neg (fun h => h.1 rfl), if_neg (fun h => h.1 rfl),
    if_neg hval] at h
  split at h
  · exact absurd h (by simp)
  · rename_i s2 hs2
    obtain ⟨a, b, c, _, e⟩ := Context.finishIfAttachmentChanges_images env s s2 _ _ _ hs2
    obtain ⟨c3, b3, a3, e3⟩ := Context.FramebufferRenderbuffer_attach_color_images env s2 s1
      renderbuffer rb tex hrb0 (by rw [b]; exact hread) htex h
    refine ⟨c3.trans c, ?_, ?_, fun t => ?_⟩
    · rw [b3, b]
    · rw [a3, a]
    · rw [e3 t, e t]


/-- C12: a call `FramebufferTexture2D(GL_FRAMEBUFFER, GL_COLOR_ATTACHMENT0, textarget, texture, 0)`
with `texture != 0` that passes validation (the texture exists, `textarget` is
valid and fits the texture, a framebuffer object is active), whenever it
returns, has recorded no error, has left the usage flags of the texture at the
previous flags OR-ed with VK_IMAGE_USAGE_COLOR_ATTACHMENT_BIT, and has added
one `Allocate()` of that texture when the bit was absent before and none when
it was present, and no `Allocate()` of any other texture. The call does return
when the write framebuffer exists and `Framebuffer::SetColorAttachment`, which
is not among the sources, leaves it a colour attachment object for the setters
that follow, whether it had one before or not. The same holds, on its own
conditions, for the texture that backs the renderbuffer in
`FramebufferRenderbuffer` with GL_COLOR_ATTACHMENT0. -/
theorem color_attachment_sets_usage_and_allocates (env : Env) (s : Context) (textarget : GLenum)
    (texture renderbuffer : GLuint) (tex rtex : Texture) (rb : Renderbuffer) (fb : Framebuffer) :
    (texture ≠ 0 → s.mResourceManager.mTextures.read texture = some tex →
      (textarget = GL_TEXTURE_2D ∨
        (GL_TEXTURE_CUBE_MAP_POSITIVE_X ≤ textarget ∧
          textarget ≤ GL_TEXTURE_CUBE_MAP_NEGATIVE_Z)) →
      ¬ ((tex.GetTarget = GL_TEXTURE_2D ∧ textarget ≠ GL_TEXTURE_2D) ∨
        (tex.GetTarget = GL_TEXTURE_CUBE_MAP ∧ textarget = GL_TEXTURE_2D)) →
      s.GetActiveObjectsState.IsDefaultFramebufferObjectActive = false →
      (∀ s1, s.FramebufferTexture2D env GL_FRAMEBUFFER GL_COLOR_ATTACHMENT0 textarget texture 0 =
          some s1 →
        s1.mErrors = s.mErrors ∧
        ∃ tex1, s1.mResourceManager.mTextures.read texture = some tex1 ∧
          tex1.GetVkImageUsage = tex.GetVkImageUsage ||| VK_IMAGE_USAGE_COLOR_ATTACHMENT_BIT ∧
          ∀ t, allocations s1.mTrace t = allocations s.mTrace t +
            (if t = .texture texture ∧
                tex.GetVkImageUsage &&& VK_IMAGE_USAGE_COLOR_ATTACHMENT_BIT = 0 then 1 else 0)) ∧
      (s.framebufferAt s.mWriteFBO = some fb →
        (∀ f w h, f.mAttachmentColors = fb.mAttachmentColors →
          (env.SetColorAttachment f w h).mAttachmentColors ≠ []) →
        ∃ s1, s.FramebufferTexture2D env GL_FRAMEBUFFER GL_COLOR_ATTACHMENT0 textarget texture 0 =
          some s1)) ∧
    (renderbuffer ≠ 0 → s.mResourceManager.mRenderbuffers.read renderbuffer = some rb →
      rb.mTexture = some rtex →
      s.GetActiveObjectsState.IsDefaultFramebufferObjectActive = false →
      (∀ s1, s.FramebufferRenderbuffer env GL_FRAMEBUFFER GL_COLOR_ATTACHMENT0 GL_RENDERBUFFER
          renderbuffer = some s1 →
        s1.mErrors = s.mErrors ∧
        ∃ rb1 tex1, s1.mResourceManager.mRenderbuffers.read renderbuffer = some rb1 ∧
          rb1.mTexture = some tex1 ∧
          tex1.GetVkImageUsage = rtex.GetVkImageUsage ||| VK_IMAGE_USAGE_COLOR_ATTACHMENT_BIT ∧
          ∀ t, allocations s1.mTrace t = allocations s.mTrace t +
            (if t = .renderbuffer renderbuffer ∧
                rtex.GetVkImageUsage &&& VK_IMAGE_USAGE_COLOR_ATTACHMENT_BIT = 0 then 1 else 0)) ∧
      (s.framebufferAt s.mWriteFBO = some fb →
        (∀ f w h t, f.mAttachmentColors = fb.mAttachmentColors →
          (env.SetColorAttachmentTexture f w h t).mAttachmentColors ≠ []) →
        ∃ s1, s.FramebufferRenderbuffer env GL_FRAMEBUFFER GL_COLOR_ATTACHMENT0 GL_RENDERBUFFER
          renderbuffer = some s1)) := by
  constructor
  · intro htex0 hread htarget hcompat hact
    constructor
    · intro s1 h1
      obtain ⟨h2, h3, _, h5⟩ := Context.FramebufferTexture2D_color_images env s s1 textarget
        texture tex htex0 hread htarget hcompat hact h1
      refine ⟨h2, _, ?_, (Context.prepareColorAttachment_spec tex).1, fun t => ?_⟩
      · rw [h3]
        exact ObjectArray.read_write _ _ _
      · rw [h5 t, (Context.prepareColorAttachment_spec tex).2]
        simp only [decide_eq_true_eq]
        rfl
    · intro hfbo henv
      obtain ⟨s1, h1, _⟩ := Context.FramebufferTexture2D_color env s textarget texture tex htex0
        hread htarget hcompat hact fb hfbo henv
      exact ⟨s1, h1⟩
  · intro hrb0 hrbread hrtex hact
    constructor
    · intro s1 h1
      obtain ⟨h2, h3, _, h5⟩ := Context.FramebufferRenderbuffer_color_images env s s1
        renderbuffer rb rtex hrb0 hrbread hrtex hact h1
      refine ⟨h2, _, _, ?_, rfl, (Context.prepareColorAttachment_spec rtex).1, fun t => ?_⟩
      · rw [h3]
        exact ObjectArray.read_write _ _ _
      · rw [h5 t, (Context.prepareColorAttachment_spec rtex).2]
        simp only [decide_eq_true_eq]
        rfl
    · intro hfbo henv
      obtain ⟨s1, h1, _⟩ := Context.FramebufferRenderbuffer_color env s renderbuffer rb rtex
        hrb0 hrbread hrtex hact fb hfbo henv
      exact ⟨s1, h1⟩

/-- C12 (witness): framebuffer 1 is bound and has no colour attachment object
yet; texture 7 has usage SAMPLED (4) and the texture behind renderbuffer 3 has
no usage. Attaching either one returns, adds the colour-attachment bit (16) and
allocates it once. -/
theorem color_attachment_sets_usage_and_allocates_witness :
    (∃ s1 tex1, contextFramebufferWithoutColor.FramebufferTexture2D envAttachmentCreated
        GL_FRAMEBUFFER GL_COLOR_ATTACHMENT0 GL_TEXTURE_2D 7 0 = some s1 ∧
      s1.mErrors = [] ∧
      s1.mResourceManager.mTextures.read 7 = some tex1 ∧ tex1.GetVkImageUsage = 20 ∧
      allocations s1.mTrace (.texture 7) = 1 ∧ allocations s1.mTrace (.renderbuffer 3) = 0) ∧
    (∃ s1 rb1 tex1, contextFramebufferWithoutColor.FramebufferRenderbuffer envAttachmentCreated
        GL_FRAMEBUFFER GL_COLOR_ATTACHMENT0 GL_RENDERBUFFER 3 = some s1 ∧
      s1.mErrors = [] ∧
      s1.mResourceManager.mRenderbuffers.read 3 = some rb1 ∧ rb1.mTexture = some tex1 ∧
      tex1.GetVkImageUsage = 16 ∧ allocations s1.mTrace (.renderbuffer 3) = 1) := by
  obtain ⟨ht, hr⟩ := color_attachment_sets_usage_and_allocates envAttachmentCreated
    contextFramebufferWithoutColor GL_TEXTURE_2D 7 3
    { mTarget := GL_TEXTURE_2D, mVkImageUsage := 4, mVkImageLayout := 0, mWidth := 64,
      mHeight := 64 }
    { mTarget := GL_TEXTURE_2D, mVkImageUsage := 0, mVkImageLayout := 0, mWidth := 32,
      mHeight := 32 }
    { mTexture := some { mTarget := GL_TEXTURE_2D, mVkImageUsage := 0, mVkImageLayout := 0,
                         mWidth := 32, mHeight := 32 } }
    { defaultFramebuffer with mTarget := GL_FRAMEBUFFER, mAttachmentColors := [] }
  obtain ⟨hta, htb⟩ := ht (by decide) rfl (Or.inl rfl) (by decide) rfl
  obtain ⟨hra, hrb⟩ := hr (by decide) rfl rfl rfl
  obtain ⟨s1, h1⟩ := htb rfl (fun f w h hf => by
    show (if f.mAttachmentColors = [] then [defaultAttachment] else f.mAttachmentColors) ≠ []
    rw [if_pos hf]
    decide)
  obtain ⟨s2, h2⟩ := hrb rfl (fun f w h t hf => by
    show (if f.mAttachmentColors = [] then [defaultAttachment] else f.mAttachmentColors) ≠ []
    rw [if_pos hf]
    decide)
  obtain ⟨a2, tex1, a3, a4, a5⟩ := hta s1 h1
  obtain ⟨b2, rb1, tex2, b3, b4, b5, b6⟩ := hra s2 h2
  exact ⟨⟨s1, tex1, h1, a2, a3, a4, (a5 _).trans rfl, (a5 _).trans rfl⟩,
    ⟨s2, rb1, tex2, h2, b2, b3, b4, b5, (b6 _).trans rfl⟩⟩


/-! ### Referenced resources -/

theorem CommandBufferManager.loop_not_found (r : Nat) (m : List referencedResource_t) :
    ∀ i, r ∉ (m.map fun res => res.mResourcePtr) → i + m.length < 2 ^ 32 →
      CommandBufferManager.LocateResource.loop r m i = some (-1) := by
  induction m with
  | nil =>
    intro i _ hi
    unfold CommandBufferManager.LocateResource.loop
    rw [if_neg (by simp at hi; omega)]
  | cons res rest ih =>
    intro i hr hi
    simp only [List.map_cons, List.mem_cons, not_or] at hr
    simp only [List.length_cons] at hi
    unfold CommandBufferManager.LocateResource.loop
    rw [if_neg (by omega), if_neg (fun h => hr.1 h.symm)]
    exact ih (i + 1) hr.2 (by omega)

theorem CommandBufferManager.loop_found (r : Nat) (res : referencedResource_t)
    (b : List referencedResource_t) (hres : res.mResourcePtr = r) (a : List referencedResource_t) :
    ∀ i, r ∉ (a.map fun res => res.mResourcePtr) → i + a.length < 2 ^ 31 →
      CommandBufferManager.LocateResource.loop r (a ++ res :: b) i =
        some ((i + a.length : Nat) : Int) := by
  induction a with
  | nil =>
    intro i _ hi
    simp only [List.length_nil, Nat.add_zero] at hi
    simp only [List.nil_append, List.length_nil, Nat.add_zero]
    unfold CommandBufferManager.LocateResource.loop
    rw [if_neg (by omega), if_pos hres, toGLint_of_lt i hi]
  | cons x rest ih =>
    intro i hr hi
    simp only [List.map_cons, List.mem_cons, not_or] at hr
    simp only [List.length_cons] at hi
    simp only [List.cons_append, List.length_cons]
    unfold CommandBufferManager.LocateResource.loop
    rw [if_neg (by omega), if_neg (fun h => hr.1 h.symm), ih (i + 1) hr.2 (by omega)]
    congr 2
    omega

theorem CommandBufferManager.getAt_append (a b : List referencedResource_t)
    (res : referencedResource_t) :
    CommandBufferManager.getAt (a ++ res :: b) ((a.length : Nat) : Int) = some res := by
  unfold CommandBufferManager.getAt
  rw [if_pos (Int.ofNat_nonneg _), Int.toNat_ofNat, List.getElem?_append_right (le_refl _)]
  simp

theorem CommandBufferManager.RefResource_found (r : Nat) (type : resourceType_t)
    (a b : List referencedResource_t) (res : referencedResource_t) (hr : r ≠ 0)
    (hres : res.mResourcePtr = r) (ha : r ∉ (a.map fun res => res.mResourcePtr))
    (hlen : a.length < 2 ^ 31) :
    CommandBufferManager.RefResource (a ++ res :: b) r type =
      some (a ++ { res with mRefCount := (res.mRefCount + 1) % 2 ^ 32 } :: b) := by
  unfold CommandBufferManager.RefResource CommandBufferManager.LocateResource
  rw [if_neg hr, CommandBufferManager.loop_found r res b hres a 0 ha (by omega)]
  simp only [Nat.zero_add]
  rw [if_neg (by omega), CommandBufferManager.getAt_append]
  simp

theorem CommandBufferManager.RefResource_not_found (r : Nat) (type : resourceType_t)
    (m : List referencedResource_t) (hr : r ≠ 0)
    (hm : r ∉ (m.map fun res => res.mResourcePtr)) (hlen : m.length < 2 ^ 32) :
    CommandBufferManager.RefResource m r type =
      some (m ++ [{ mRefCount := 1, mType := type, mResourcePtr := r }]) := by
  unfold CommandBufferManager.RefResource CommandBufferManager.LocateResource
  rw [if_neg hr, CommandBufferManager.loop_not_found r m 0 hm (by omega)]
  simp

theorem CommandBufferManager.UnrefResouce_found (r : Nat)
    (a b : List referencedResource_t) (res : referencedResource_t) (hr : r ≠ 0)
    (hres : res.mResourcePtr = r) (ha : r ∉ (a.map fun res => res.mResourcePtr))
    (hlen : a.length < 2 ^ 31) (hcount : res.mRefCount ≠ 0) (hlt : res.mRefCount < 2 ^ 32) :
    CommandBufferManager.UnrefResouce (a ++ res :: b) r =
      some (a ++ { res with mRefCount := res.mRefCount - 1 } :: b) := by
  unfold CommandBufferManager.UnrefResouce CommandBufferManager.LocateResource
  rw [if_neg hr, CommandBufferManager.loop_found r res b hres a 0 ha (by omega)]
  simp only [Nat.zero_add]
  rw [if_pos (by omega), CommandBufferManager.getAt_append]
  simp only
  rw [if_neg hcount]
  have h1 : (res.mRefCount + 2 ^ 32 - 1) % 2 ^ 32 = res.mRefCount - 1 := by omega
  rw [h1]
  simp


theorem refCalls_append (p : List ResourceCall) (c : ResourceCall) (r : Nat) :
    refCalls (p ++ [c]) r = refCalls p r + (if c.isRefOf r = true then 1 else 0) := by
  simp [refCalls, List.countP_append, List.countP_cons]

theorem unrefCalls_append (p : List ResourceCall) (c : ResourceCall) (r : Nat) :
    unrefCalls (p ++ [c]) r = unrefCalls p r + (if c.isUnrefOf r = true then 1 else 0) := by
  simp [unrefCalls, List.countP_append, List.countP_cons]

theorem ResourceCall.isRefOf_other (c : ResourceCall) (r : Nat) (h : r ≠ c.resource) :
    c.isRefOf r = false := by
  cases c with
  | RefResource x t =>
    simp only [ResourceCall.isRefOf, beq_eq_false_iff_ne]
    exact fun hx => h hx.symm
  | UnrefResouce x => rfl

theorem ResourceCall.isUnrefOf_other (c : ResourceCall) (r : Nat) (h : r ≠ c.resource) :
    c.isUnrefOf r = false := by
  cases c with
  | RefResource x t => rfl
  | UnrefResouce x =>
    simp only [ResourceCall.isUnrefOf, beq_eq_false_iff_ne]
    exact fun hx => h hx.symm

theorem refCalls_append_other (p : List ResourceCall) (c : ResourceCall) (r : Nat)
    (h : r ≠ c.resource) : refCalls (p ++ [c]) r = refCalls p r := by
  rw [refCalls_append, ResourceCall.isRefOf_other c r h]
  simp

theorem unrefCalls_append_other (p : List ResourceCall) (c : ResourceCall) (r : Nat)
    (h : r ≠ c.resource) : unrefCalls (p ++ [c]) r = unrefCalls p r := by
  rw [unrefCalls_append, ResourceCall.isUnrefOf_other c r h]
  simp

/-- Writing a count into the entry of the resource the call `c` names. -/
theorem CommandBufferManager.Consistent_update (p : List ResourceCall) (c : ResourceCall)
    (a b : List referencedResource_t) (res : referencedResource_t) (n : Nat)
    (hinv : CommandBufferManager.Consistent p (a ++ res :: b))
    (hc : c.resource = res.mResourcePtr)
    (hn : n + unrefCalls (p ++ [c]) res.mResourcePtr = refCalls (p ++ [c]) res.mResourcePtr) :
    CommandBufferManager.Consistent (p ++ [c]) (a ++ { res with mRefCount := n } :: b) := by
  obtain ⟨hnd, hmem, hcnt⟩ := hinv
  have hmap : ((a ++ { res with mRefCount := n } :: b).map fun res => res.mResourcePtr) =
      ((a ++ res :: b).map fun res => res.mResourcePtr) := by simp
  have hnot : res.mResourcePtr ∉ (a.map fun res => res.mResourcePtr) ++
      (b.map fun res => res.mResourcePtr) := by
    have h := hnd
    rw [List.map_append, List.map_cons, List.nodup_middle] at h
    exact (List.nodup_cons.mp h).1
  have hother : ∀ x ∈ a ++ b, x.mResourcePtr ≠ c.resource := by
    intro x hx heq
    apply hnot
    rw [← List.map_append, ← hc, ← heq]
    exact List.mem_map_of_mem _ hx
  have hold : ∀ x ∈ a ++ b, x.mRefCount + unrefCalls (p ++ [c]) x.mResourcePtr =
      refCalls (p ++ [c]) x.mResourcePtr := by
    intro x hx
    rw [refCalls_append_other p c _ (hother x hx), unrefCalls_append_other p c _ (hother x hx)]
    apply hcnt
    rcases List.mem_append.mp hx with h | h
    · exact List.mem_append_left _ h
    · exact List.mem_append_right _ (List.mem_cons_of_mem _ h)
  refine ⟨by rw [hmap]; exact hnd, fun r => ?_, fun x hx => ?_⟩
  · rw [hmap, hmem r]
    by_cases hr : r = c.resource
    · have h1 : 0 < refCalls p r := by
        rw [← hmem r, hr, hc]
        exact List.mem_map_of_mem _ (List.mem_append_right _ (List.mem_cons_self _ _))
      have h2 : 0 < refCalls (p ++ [c]) r := by
        rw [refCalls_append]
        omega
      exact ⟨fun _ => h2, fun _ => h1⟩
    · rw [refCalls_append_other p c r hr]
  · rcases List.mem_append.mp hx with h | h
    · exact hold x (List.mem_append_left _ h)
    · rcases List.mem_cons.mp h with h | h
      · subst h
        exact hn
      · exact hold x (List.mem_append_right _ h)

/-- Appending the entry `RefResource` creates for a resource without one. -/
theorem CommandBufferManager.Consistent_push (p : List ResourceCall) (r : Nat)
    (type : resourceType_t) (m : List referencedResource_t)
    (hinv : CommandBufferManager.Consistent p m)
    (hm : r ∉ (m.map fun res => res.mResourcePtr))
    (hbal : unrefCalls p r ≤ refCalls p r) :
    CommandBufferManager.Consistent (p ++ [.RefResource r type])
      (m ++ [{ mRefCount := 1, mType := type, mResourcePtr := r }]) := by
  obtain ⟨hnd, hmem, hcnt⟩ := hinv
  have h0 : refCalls p r = 0 := by
    have h := (hmem r).not.mp hm
    omega
  have hu : unrefCalls p r = 0 := by omega
  refine ⟨?_, fun x => ?_, fun x hx => ?_⟩
  · rw [List.map_append, List.map_cons, List.map_nil, List.nodup_middle, List.append_nil]
    exact List.nodup_cons.mpr ⟨hm, hnd⟩
  · rw [List.map_append, List.mem_append, hmem x]
    by_cases hx : x = r
    · subst hx
      rw [refCalls_append]
      simp [ResourceCall.isRefOf]
    · rw [refCalls_append_other p (.RefResource r type) x hx]
      simp only [List.map_cons, List.map_nil, List.mem_singleton]
      exact ⟨fun h => h.resolve_right hx, fun h => Or.inl h⟩
  · rcases List.mem_append.mp hx with h | h
    · have hne : x.mResourcePtr ≠ r := by
        intro heq
        exact hm (heq ▸ List.mem_map_of_mem _ h)
      rw [refCalls_append_other p (.RefResource r type) _ hne,
        unrefCalls_append_other p (.RefResource r type) _ hne]
      exact hcnt x h
    · rw [List.mem_singleton] at h
      subst h
      simp only
      rw [refCalls_append, unrefCalls_append, h0, hu]
      simp [ResourceCall.isRefOf, ResourceCall.isUnrefOf]

theorem CommandBufferManager.refCountOf_update (a b : List referencedResource_t)
    (res : referencedResource_t) (n r : Nat) (hr : r ≠ res.mResourcePtr) :
    CommandBufferManager.refCountOf (a ++ { res with mRefCount := n } :: b) r =
      CommandBufferManager.refCountOf (a ++ res :: b) r := by
  have h : (res.mResourcePtr == r) = false := by
    rw [beq_eq_false_iff_ne]
    exact fun h => hr h.symm
  simp [CommandBufferManager.refCountOf, List.find?_append, List.find?_cons, h]

theorem CommandBufferManager.refCountOf_push (m : List referencedResource_t)
    (type : resourceType_t) (x r : Nat) (hr : r ≠ x) :
    CommandBufferManager.refCountOf (m ++ [{ mRefCount := 1, mType := type, mResourcePtr := x }])
      r = CommandBufferManager.refCountOf m r := by
  have h : (x == r) = false := by
    rw [beq_eq_false_iff_ne]
    exact fun h => hr h.symm
  simp [CommandBufferManager.refCountOf, List.find?_append, List.find?_cons, h]


/-- One call on a consistent vector: it returns, the vector stays consistent
and the counts of the other resources stay as they were. -/
theorem CommandBufferManager.call_spec (p : List ResourceCall) (c : ResourceCall)
    (m : List referencedResource_t) (hinv : CommandBufferManager.Consistent p m)
    (hc : c.resource ≠ 0) (hlen : m.length ≤ 2 ^ 31)
    (hbalp : unrefCalls p c.resource ≤ refCalls p c.resource)
    (hboundp : refCalls p c.resource - unrefCalls p c.resource < 2 ^ 32)
    (hbal : unrefCalls (p ++ [c]) c.resource ≤ refCalls (p ++ [c]) c.resource)
    (hbound : refCalls (p ++ [c]) c.resource - unrefCalls (p ++ [c]) c.resource < 2 ^ 32) :
    ∃ m1, CommandBufferManager.call m c = some m1 ∧
      CommandBufferManager.Consistent (p ++ [c]) m1 ∧
      ∀ r, r ≠ c.resource →
        CommandBufferManager.refCountOf m1 r = CommandBufferManager.refCountOf m r := by
  rw [refCalls_append, unrefCalls_append] at hbal hbound
  by_cases hmem : c.resource ∈ (m.map fun res => res.mResourcePtr)
  · obtain ⟨res, hresmem, hres⟩ := List.mem_map.mp hmem
    obtain ⟨a, b, hab⟩ := List.append_of_mem hresmem
    subst hab
    have hnot : res.mResourcePtr ∉ (a.map fun res => res.mResourcePtr) ++
        (b.map fun res => res.mResourcePtr) := by
      have h := hinv.1
      rw [List.map_append, List.map_cons, List.nodup_middle] at h
      exact (List.nodup_cons.mp h).1
    have ha : c.resource ∉ (a.map fun res => res.mResourcePtr) := by
      rw [← hres]
      exact fun h => hnot (List.mem_append_left _ h)
    have hla : a.length < 2 ^ 31 := by
      simp only [List.length_append, List.length_cons] at hlen
      omega
    have hcount := hinv.2.2 res hresmem
    have hres : res.mResourcePtr = c.resource := hres
    rw [hres] at hcount
    cases c with
    | RefResource r type =>
      simp only [ResourceCall.resource] at hc hres ha hbal hbound hcount hbalp hboundp ⊢
      simp only [ResourceCall.isRefOf, ResourceCall.isUnrefOf, beq_self_eq_true, if_true,
        Bool.false_eq_true, if_false, Nat.add_zero] at hbal hbound
      have hmod : (res.mRefCount + 1) % 2 ^ 32 = res.mRefCount + 1 :=
        Nat.mod_eq_of_lt (by omega)
      refine ⟨_, CommandBufferManager.RefResource_found r type a b res hc hres ha hla, ?_, ?_⟩
      · rw [hmod]
        refine CommandBufferManager.Consistent_update p _ a b res _ hinv hres.symm ?_
        rw [refCalls_append, unrefCalls_append, hres]
        simp only [ResourceCall.isRefOf, ResourceCall.isUnrefOf, beq_self_eq_true, if_true,
          Bool.false_eq_true, if_false, Nat.add_zero]
        omega
      · intro x hx
        exact CommandBufferManager.refCountOf_update a b res _ x (by rw [hres]; exact hx)
    | UnrefResouce r =>
      simp only [ResourceCall.resource] at hc hres ha hbal hbound hcount hbalp hboundp ⊢
      simp only [ResourceCall.isRefOf, ResourceCall.isUnrefOf, beq_self_eq_true, if_true,
        Bool.false_eq_true, if_false, Nat.add_zero] at hbal hbound
      refine ⟨_, CommandBufferManager.UnrefResouce_found r a b res hc hres ha hla (by omega)
        (by omega), ?_, ?_⟩
      · refine CommandBufferManager.Consistent_update p _ a b res _ hinv hres.symm ?_
        rw [refCalls_append, unrefCalls_append, hres]
        simp only [ResourceCall.isRefOf, ResourceCall.isUnrefOf, beq_self_eq_true, if_true,
          Bool.false_eq_true, if_false, Nat.add_zero]
        omega
      · intro x hx
        exact CommandBufferManager.refCountOf_update a b res _ x (by rw [hres]; exact hx)
  · have h0 : refCalls p c.resource = 0 := by
      have h := (hinv.2.1 c.resource).not.mp hmem
      omega
    cases c with
    | RefResource r type =>
      simp only [ResourceCall.resource] at hc hmem hbalp ⊢
      refine ⟨_, CommandBufferManager.RefResource_not_found r type m hc hmem (by omega),
        CommandBufferManager.Consistent_push p r type m hinv hmem hbalp, ?_⟩
      intro x hx
      exact CommandBufferManager.refCountOf_push m type r x hx
    | UnrefResouce r =>
      simp only [ResourceCall.resource] at h0 hbal
      simp only [ResourceCall.isRefOf, ResourceCall.isUnrefOf, beq_self_eq_true, if_true,
        Bool.false_eq_true, if_false, Nat.add_zero] at hbal
      omega

theorem CommandBufferManager.Consistent_length_le (calls p : List ResourceCall)
    (m : List referencedResource_t) (hinv : CommandBufferManager.Consistent p m)
    (hsub : ∀ c ∈ p, c ∈ calls) : m.length ≤ distinctResources calls := by
  obtain ⟨hnd, hmem, _⟩ := hinv
  have hsubset : (m.map fun res => res.mResourcePtr) ⊆
      (calls.map ResourceCall.resource).dedup := by
    intro r hr
    obtain ⟨c, hcp, hcr⟩ := List.countP_pos_iff.mp ((hmem r).mp hr)
    rw [List.mem_dedup]
    have hcres : c.resource = r := by
      cases c with
      | RefResource x t => simpa [ResourceCall.isRefOf] using hcr
      | UnrefResouce x => simp [ResourceCall.isRefOf] at hcr
    rw [← hcres]
    exact List.mem_map_of_mem _ (hsub c hcp)
  have h := (List.subperm_of_subset hnd hsubset).length_le
  rw [List.length_map] at h
  exact h

theorem CommandBufferManager.run_append (p q : List ResourceCall) :
    ∀ m, CommandBufferManager.run m (p ++ q) =
      (CommandBufferManager.run m p).bind fun m1 => CommandBufferManager.run m1 q := by
  induction p with
  | nil => intro m; rfl
  | cons c rest ih =>
    intro m
    simp only [List.cons_append, CommandBufferManager.run]
    cases CommandBufferManager.call m c with
    | none => rfl
    | some m1 => exact ih m1

/-- Every prefix of a sequence of calls within the bounds runs to a consistent
vector. -/
theorem CommandBufferManager.run_spec (calls : List ResourceCall)
    (hnonnull : ∀ c ∈ calls, c.resource ≠ 0)
    (hbal : ∀ k, k ≤ calls.length → ∀ c ∈ calls,
      unrefCalls (calls.take k) c.resource ≤ refCalls (calls.take k) c.resource)
    (hbound : ∀ k, k ≤ calls.length → ∀ c ∈ calls,
      refCalls (calls.take k) c.resource - unrefCalls (calls.take k) c.resource < 2 ^ 32)
    (hdistinct : distinctResources calls ≤ 2 ^ 31) :
    ∀ k, ∃ m, CommandBufferManager.run [] (calls.take k) = some m ∧
      CommandBufferManager.Consistent (calls.take k) m := by
  intro k
  induction k with
  | zero =>
    refine ⟨[], rfl, List.nodup_nil, fun r => ?_, fun res hres => ?_⟩
    · simp [refCalls]
    · simp at hres
  | succ k ih =>
    obtain ⟨m, hrun, hinv⟩ := ih
    rw [List.take_succ]
    cases hk : calls[k]? with
    | none =>
      simp only [Option.toList, List.append_nil]
      exact ⟨m, hrun, hinv⟩
    | some c =>
      simp only [Option.toList]
      have hklt : k < calls.length := by
        by_contra hge
        rw [List.getElem?_eq_none (Nat.le_of_not_lt hge)] at hk
        exact absurd hk (by simp)
      have hcmem : c ∈ calls := List.getElem?_mem hk
      have htake : calls.take (k + 1) = calls.take k ++ [c] := by
        rw [List.take_succ, hk]
        rfl
      have hlen : m.length ≤ 2 ^ 31 :=
        le_trans (CommandBufferManager.Consistent_length_le calls _ m hinv
          (fun x hx => List.mem_of_mem_take hx)) hdistinct
      obtain ⟨m1, hcall, hinv1, _⟩ := CommandBufferManager.call_spec (calls.take k) c m hinv
        (hnonnull c hcmem) hlen (hbal k (Nat.le_of_lt hklt) c hcmem)
        (hbound k (Nat.le_of_lt hklt) c hcmem)
        (htake ▸ hbal (k + 1) hklt c hcmem) (htake ▸ hbound (k + 1) hklt c hcmem)
      refine ⟨m1, ?_, hinv1⟩
      rw [CommandBufferManager.run_append, hrun]
      simp only [Option.bind, CommandBufferManager.run, hcall]


theorem CommandBufferManager.run_replicate_RefResource (r : Nat) (type : resourceType_t)
    (hr : r ≠ 0) :
    ∀ k c, c < 2 ^ 32 →
      CommandBufferManager.run [{ mRefCount := c, mType := type, mResourcePtr := r }]
        (List.replicate k (.RefResource r type)) =
      some [{ mRefCount := (c + k) % 2 ^ 32, mType := type, mResourcePtr := r }] := by
  intro k
  induction k with
  | zero =>
    intro c hc
    simp only [List.replicate, CommandBufferManager.run, Nat.add_zero, Nat.mod_eq_of_lt hc]
  | succ k ih =>
    intro c hc
    have hcall : CommandBufferManager.call [{ mRefCount := c, mType := type, mResourcePtr := r }]
        (.RefResource r type) =
        some [{ mRefCount := (c + 1) % 2 ^ 32, mType := type, mResourcePtr := r }] :=
      CommandBufferManager.RefResource_found r type [] [] _ hr rfl (by simp) (by decide)
    simp only [List.replicate, CommandBufferManager.run, hcall]
    rw [ih _ (Nat.mod_lt _ (by decide))]
    congr 3
    omega

theorem CommandBufferManager.run_replicate_from_empty (r : Nat) (type : resourceType_t)
    (hr : r ≠ 0) (k : Nat) :
    CommandBufferManager.run [] (List.replicate (k + 1) (.RefResource r type)) =
      some [{ mRefCount := (1 + k) % 2 ^ 32, mType := type, mResourcePtr := r }] := by
  have hcall : CommandBufferManager.call [] (.RefResource r type) =
      some [{ mRefCount := 1, mType := type, mResourcePtr := r }] :=
    CommandBufferManager.RefResource_not_found r type [] hr (by simp) (by decide)
  simp only [List.replicate, CommandBufferManager.run, hcall]
  exact CommandBufferManager.run_replicate_RefResource r type hr k 1 (by decide)

theorem refCalls_replicate (r : Nat) (type : resourceType_t) (n : Nat) :
    refCalls (List.replicate n (.RefResource r type)) r = n := by
  induction n with
  | zero => rfl
  | succ n ih =>
    have h : refCalls (List.replicate (n + 1) (.RefResource r type)) r =
        refCalls (List.replicate n (.RefResource r type)) r + 1 := by
      simp [refCalls, List.replicate, List.countP_cons, ResourceCall.isRefOf]
    rw [h, ih]

theorem unrefCalls_of_all_RefResource (l : List ResourceCall) (x : Nat) (type : resourceType_t)
    (h : ∀ c ∈ l, c = .RefResource x type) (r : Nat) : unrefCalls l r = 0 := by
  unfold unrefCalls
  rw [List.countP_eq_zero]
  intro c hc
  rw [h c hc]
  simp [ResourceCall.isUnrefOf]

/-- C14 (counterexample): the sequence of 2^32 calls
`RefResource(1, RESOURCE_TYPE_SHADER)` on the empty vector has no prefix with
more unrefs than refs, yet the `uint32_t` count of resource 1 ends at 0, not at
2^32 - 0, and a following `UnrefResouce(1)` fails its assertion although the
resource then has 2^32 refs and 1 unref. -/
theorem RefResource_count_wraps_counterexample :
    (∀ k r, unrefCalls ((List.replicate 4294967296
        (ResourceCall.RefResource 1 .RESOURCE_TYPE_SHADER)).take k) r ≤
      refCalls ((List.replicate 4294967296
        (ResourceCall.RefResource 1 .RESOURCE_TYPE_SHADER)).take k) r) ∧
    refCalls (List.replicate 4294967296 (ResourceCall.RefResource 1 .RESOURCE_TYPE_SHADER)) 1 =
      4294967296 ∧
    unrefCalls (List.replicate 4294967296 (ResourceCall.RefResource 1 .RESOURCE_TYPE_SHADER)) 1 =
      0 ∧
    CommandBufferManager.run []
        (List.replicate 4294967296 (ResourceCall.RefResource 1 .RESOURCE_TYPE_SHADER)) =
      some [{ mRefCount := 0, mType := .RESOURCE_TYPE_SHADER, mResourcePtr := 1 }] ∧
    CommandBufferManager.run []
        (List.replicate 4294967296 (ResourceCall.RefResource 1 .RESOURCE_TYPE_SHADER) ++
          [.UnrefResouce 1]) = none := by
  have hrun : CommandBufferManager.run []
      (List.replicate 4294967296 (ResourceCall.RefResource 1 .RESOURCE_TYPE_SHADER)) =
      some [{ mRefCount := 0, mType := .RESOURCE_TYPE_SHADER, mResourcePtr := 1 }] :=
    CommandBufferManager.run_replicate_from_empty 1 .RESOURCE_TYPE_SHADER (by decide) 4294967295
  refine ⟨fun k r => ?_, refCalls_replicate 1 _ _, ?_, hrun, ?_⟩
  · rw [unrefCalls_of_all_RefResource _ 1 .RESOURCE_TYPE_SHADER
      (fun c hc => List.eq_of_mem_replicate (List.mem_of_mem_take hc)) r]
    exact Nat.zero_le _
  · exact unrefCalls_of_all_RefResource _ 1 .RESOURCE_TYPE_SHADER
      (fun c hc => List.eq_of_mem_replicate hc) 1
  · rw [CommandBufferManager.run_append, hrun]
    rfl

/-- C14 (amended): for every sequence of `RefResource` and `UnrefResouce` calls
on non-null resources, starting from an empty vector, in which for each
resource no prefix contains more unrefs than refs, no prefix leaves a resource
with 2^32 or more outstanding references, and at most 2^31 distinct resources
are named: every call returns (no assertion fails), no resource has two
entries, each resource that was referenced has exactly one entry, each stored
`mRefCount` is the number of `RefResource` calls minus the number of
`UnrefResouce` calls on its resource, and a call on one resource leaves the
stored count of every other resource as it was. -/
theorem RefResource_UnrefResouce_counts (calls : List ResourceCall)
    (hnonnull : ∀ c ∈ calls, c.resource ≠ 0)
    (hbal : ∀ k, k ≤ calls.length → ∀ c ∈ calls,
      unrefCalls (calls.take k) c.resource ≤ refCalls (calls.take k) c.resource)
    (hbound : ∀ k, k ≤ calls.length → ∀ c ∈ calls,
      refCalls (calls.take k) c.resource - unrefCalls (calls.take k) c.resource < 2 ^ 32)
    (hdistinct : distinctResources calls ≤ 2 ^ 31) :
    (∃ m, CommandBufferManager.run [] calls = some m ∧
      (m.map fun res => res.mResourcePtr).Nodup ∧
      (∀ r, 0 < refCalls calls r → (m.map fun res => res.mResourcePtr).count r = 1) ∧
      (∀ res ∈ m, (res.mRefCount : Int) =
        (refCalls calls res.mResourcePtr : Int) - (unrefCalls calls res.mResourcePtr : Int))) ∧
    (∀ k m0 c, CommandBufferManager.run [] (calls.take k) = some m0 → calls[k]? = some c →
      ∃ m1, CommandBufferManager.call m0 c = some m1 ∧
        ∀ r, r ≠ c.resource →
          CommandBufferManager.refCountOf m1 r = CommandBufferManager.refCountOf m0 r) := by
  constructor
  · obtain ⟨m, hrun, hnd, hmem, hcnt⟩ :=
      CommandBufferManager.run_spec calls hnonnull hbal hbound hdistinct calls.length
    rw [List.take_length] at hrun hmem hcnt
    refine ⟨m, hrun, hnd, fun r hr => ?_, fun res hres => ?_⟩
    · exact List.count_eq_one_of_mem hnd ((hmem r).mpr hr)
    · have h := hcnt res hres
      omega
  · intro k m0 c hrun0 hk
    obtain ⟨m, hrun, hinv⟩ :=
      CommandBufferManager.run_spec calls hnonnull hbal hbound hdistinct k
    rw [hrun0] at hrun
    have hm : m0 = m := Option.some.inj hrun
    subst hm
    have hklt : k < calls.length := by
      by_contra hge
      rw [List.getElem?_eq_none (Nat.le_of_not_lt hge)] at hk
      exact absurd hk (by simp)
    have hcmem : c ∈ calls := List.getElem?_mem hk
    have htake : calls.take (k + 1) = calls.take k ++ [c] := by
      rw [List.take_succ, hk]
      rfl
    have hlen : m0.length ≤ 2 ^ 31 :=
      le_trans (CommandBufferManager.Consistent_length_le calls _ m0 hinv
        (fun x hx => List.mem_of_mem_take hx)) hdistinct
    obtain ⟨m1, hcall, _, hframe⟩ := CommandBufferManager.call_spec (calls.take k) c m0 hinv
      (hnonnull c hcmem) hlen (hbal k (Nat.le_of_lt hklt) c hcmem)
      (hbound k (Nat.le_of_lt hklt) c hcmem)
      (htake ▸ hbal (k + 1) hklt c hcmem) (htake ▸ hbound (k + 1) hklt c hcmem)
    exact ⟨m1, hcall, hframe⟩

/-- C14 (witness): two references and one unref of resource 5, one reference and
one unref of resource 6. -/
theorem RefResource_UnrefResouce_counts_witness :
    ∃ m, CommandBufferManager.run [] exampleResourceCalls = some m ∧
      (m.map fun res => res.mResourcePtr).Nodup ∧
      (∀ r, 0 < refCalls exampleResourceCalls r →
        (m.map fun res => res.mResourcePtr).count r = 1) ∧
      (∀ res ∈ m, (res.mRefCount : Int) =
        (refCalls exampleResourceCalls res.mResourcePtr : Int) -
          (unrefCalls exampleResourceCalls res.mResourcePtr : Int)) :=
  (RefResource_UnrefResouce_counts exampleResourceCalls (by decide) (by decide) (by decide)
    (by decide)).1


/-! ### Generation and deletion of buffers -/

theorem Context.Finish_mBuffers (env : Env) (s : Context) :
    (s.Finish env).mResourceManager.mBuffers = s.mResourceManager.mBuffers := by
  unfold Context.Finish
  cases s.framebufferAt s.mWriteFBO with
  | none => rfl
  | some fb =>
    cases s.mWriteFBO with
    | system => rfl
    | user i => rfl

theorem Context.GenBuffers_loop_nonzero (o : BufferObject) (ids : List GLuint) :
    ∀ s s1 : Context, Context.GenBuffers.loop o s ids = some s1 → ∀ id ∈ ids, id ≠ 0 := by
  induction ids with
  | nil =>
    intro s s1 _ id hid
    simp at hid
  | cons x rest ih =>
    intro s s1 h id hid
    unfold Context.GenBuffers.loop at h
    unfold ObjectArray.Allocate at h
    by_cases hx : s.mResourceManager.mBuffers.IsFresh x = true
    · rw [if_pos hx] at h
      rcases List.mem_cons.mp hid with hid | hid
      · subst hid
        unfold ObjectArray.IsFresh at hx
        simp only [Bool.and_eq_true, bne_iff_ne, ne_eq] at hx
        exact hx.1
      · exact ih _ s1 h id hid
    · rw [if_neg hx] at h
      exact absurd h (by simp)

/-- C21: if `GenBuffers(1, &id)` yields `id`, then `id` is not 0 and
`DeleteBuffers(1, &id)` returns without an error, after it `IsBuffer(id)` is
GL_FALSE, `BufferExists(id)` is false and `id` is again an id a later
`GenBuffers(1, ..)` may return; every id any `GenBuffers(n, ..)` returns is
non-zero, and `IsBuffer(0)` is GL_FALSE in every context. -/
theorem GenBuffers_DeleteBuffers_round_trip (env : Env) (o : BufferObject) (s s1 : Context)
    (id : GLuint) (fb : Framebuffer)
    (hgen : s.GenBuffers o 1 true [id] = some (s1, [id]))
    (hfb : s.framebufferAt s.mWriteFBO = some fb) :
    id ≠ 0 ∧
    (∃ s2, s1.DeleteBuffers env 1 (some [id]) = some s2 ∧ s2.mErrors = s.mErrors ∧
      s2.IsBuffer id = GL_FALSE ∧ s2.mResourceManager.BufferExists id = false ∧
      ∃ s3, s2.GenBuffers o 1 true [id] = some (s3, [id])) ∧
    (∀ (c c1 : Context) (n : Int) (ids out : List GLuint),
      c.GenBuffers o n true ids = some (c1, out) → ∀ x ∈ out, x ≠ 0) ∧
    (∀ c : Context, c.IsBuffer 0 = GL_FALSE) := by
  have hfresh : s.mResourceManager.mBuffers.IsFresh id = true ∧
      s1 = s.setBuffers (s.mResourceManager.mBuffers.write id o) := by
    unfold Context.GenBuffers at hgen
    rw [if_neg (by decide), if_neg (by decide), if_neg (by simp)] at hgen
    simp only [Context.GenBuffers.loop, ObjectArray.Allocate] at hgen
    by_cases hx : s.mResourceManager.mBuffers.IsFresh id = true
    · rw [if_pos hx] at hgen
      simp only [Option.map_some', Option.some.injEq, Prod.mk.injEq, and_true] at hgen
      exact ⟨hx, hgen.symm⟩
    · rw [if_neg hx] at hgen
      simp at hgen
  obtain ⟨hfr, hs1⟩ := hfresh
  have hid : id ≠ 0 := by
    unfold ObjectArray.IsFresh at hfr
    simp only [Bool.and_eq_true, bne_iff_ne, ne_eq] at hfr
    exact hfr.1
  refine ⟨hid, ?_, ?_, ?_⟩
  · have hfb1 : s1.framebufferAt s1.mWriteFBO = some fb := by
      rw [hs1]
      rw [Context.framebufferAt_congr s (s.setBuffers (s.mResourceManager.mBuffers.write id o))
        rfl rfl]
      exact hfb
    obtain ⟨s1f, hfin, ⟨_, _, _, hact, herr, _⟩, _⟩ := Context.finishIfInDrawState_frame env s1 fb hfb1
    have hbuf : s1f.mResourceManager.mBuffers = s1.mResourceManager.mBuffers := by
      unfold Context.finishIfInDrawState at hfin
      rw [hfb1] at hfin
      simp only at hfin
      split at hfin
      · rw [← Option.some.inj hfin]
        exact Context.Finish_mBuffers env s1
      · rw [← Option.some.inj hfin]
    have hread : s1f.mResourceManager.mBuffers.read id = some o := by
      rw [hbuf, hs1]
      exact ObjectArray.read_write _ _ _
    have hex : s1f.mResourceManager.BufferExists id = true := by
      show (s1f.mResourceManager.mBuffers.read id).isSome = true
      rw [hread]
      rfl
    have hbody : ∃ s2, Context.DeleteBuffers.body env s1f id = some s2 ∧ s2.mErrors = s1f.mErrors ∧
        s2.mResourceManager.mBuffers = s1f.mResourceManager.mBuffers.Deallocate id := by
      unfold Context.DeleteBuffers.body
      rw [if_pos ⟨hid, hex⟩, ObjectArray.GetObject_existing _ _ _ _ hread]
      simp only
      have hset : s1f.setBuffers s1f.mResourceManager.mBuffers = s1f := rfl
      rw [hset, hread]
      simp only
      split
      · exact ⟨_, rfl, rfl, rfl⟩
      · exact ⟨_, rfl, rfl, rfl⟩
    obtain ⟨s2, hb, herr2, hbuf2⟩ := hbody
    have hnone : s2.mResourceManager.mBuffers.mObjects id = none := by
      rw [hbuf2]
      simp [ObjectArray.Deallocate]
    have hex2 : s2.mResourceManager.BufferExists id = false := by
      show (s2.mResourceManager.mBuffers.mObjects id).isSome = false
      rw [hnone]
      rfl
    refine ⟨s2, ?_, ?_, ?_, hex2, ?_⟩
    · unfold Context.DeleteBuffers
      rw [if_neg (by decide)]
      simp only [hfin]
      rw [if_neg (by simp)]
      simp only [Int.toNat_one, List.take_succ_cons, List.take_zero,
        Context.DeleteBuffers.loop, hb]
    · rw [herr2, herr, hs1]
      rfl
    · unfold Context.IsBuffer
      rw [if_neg]
      rw [hex2]
      exact fun h => absurd h.2 (by decide)
    · have hfr2 : s2.mResourceManager.mBuffers.IsFresh id = true := by
        unfold ObjectArray.IsFresh ObjectArray.ObjectExists
        rw [hnone]
        simp [hid]
      refine ⟨s2.setBuffers (s2.mResourceManager.mBuffers.write id o), ?_⟩
      unfold Context.GenBuffers
      rw [if_neg (by decide), if_neg (by decide), if_neg (by simp)]
      simp only [Context.GenBuffers.loop, ObjectArray.Allocate, if_pos hfr2, Option.map_some']
  · intro c c1 n ids out h x hx
    unfold Context.GenBuffers at h
    by_cases hn : n < 0
    · rw [if_pos hn] at h
      simp only [Option.some.injEq, Prod.mk.injEq] at h
      rw [← h.2] at hx
      simp at hx
    · rw [if_neg hn, if_neg (by decide)] at h
      by_cases hl : (ids.length : Int) ≠ n
      · rw [if_pos hl] at h
        simp at h
      · rw [if_neg hl] at h
        cases hloop : Context.GenBuffers.loop o c ids with
        | none =>
          rw [hloop] at h
          simp at h
        | some c2 =>
          rw [hloop] at h
          simp only [Option.map_some', Option.some.injEq, Prod.mk.injEq] at h
          rw [← h.2] at hx
          exact Context.GenBuffers_loop_nonzero o ids c c2 hloop x hx
  · intro c
    unfold Context.IsBuffer
    rw [if_neg (fun h => h.1 rfl)]

/-- C21 (witness): in the empty context `GenBuffers(1, &id)` may yield 1. -/
theorem GenBuffers_DeleteBuffers_round_trip_witness :
    ∃ s2, contextWithBuffer1.DeleteBuffers envCreate 1 (some [1]) = some s2 ∧
      s2.mErrors = emptyContext.mErrors ∧
      s2.IsBuffer 1 = GL_FALSE ∧ s2.mResourceManager.BufferExists 1 = false ∧
      ∃ s3, s2.GenBuffers defaultBufferObject 1 true [1] = some (s3, [1]) :=
  (GenBuffers_DeleteBuffers_round_trip envCreate defaultBufferObject emptyContext
    contextWithBuffer1 1 emptyContext.mSystemFBO rfl rfl).2.1

/-! ### Framebuffer status -/

theorem Context.framebufferAt_setFramebufferAt_other (s : Context) (p q : FboPtr) (f : Framebuffer)
    (h : q ≠ p) : (s.setFramebufferAt p f).framebufferAt q = s.framebufferAt q := by
  cases p with
  | system =>
    cases q with
    | system => exact absurd rfl h
    | user j => rfl
  | user i =>
    cases q with
    | system => rfl
    | user j =>
      have hji : j ≠ i := fun e => h (by rw [e])
      simp [Context.setFramebufferAt, Context.framebufferAt, ObjectArray.read, ObjectArray.write,
        Function.update_noteq hji]

theorem Context.Finish_framebufferAt_other (env : Env) (s : Context) (q : FboPtr)
    (h : q ≠ s.mWriteFBO) : (s.Finish env).framebufferAt q = s.framebufferAt q := by
  unfold Context.Finish
  cases s.framebufferAt s.mWriteFBO with
  | none => exact Context.framebufferAt_log _ _ _
  | some fb =>
    simp only
    rw [Context.framebufferAt_log]
    exact Context.framebufferAt_setFramebufferAt_other s _ q _ h

theorem Context.finishIfInDrawState_other (env : Env) (s s1 : Context) (q : FboPtr)
    (h : q ≠ s.mWriteFBO) (hfin : s.finishIfInDrawState env = some s1) :
    s1.framebufferAt q = s.framebufferAt q ∧ s1.mWriteFBO = s.mWriteFBO ∧
      s1.mStateManager = s.mStateManager ∧ s1.mErrors = s.mErrors := by
  unfold Context.finishIfInDrawState at hfin
  cases hf : s.framebufferAt s.mWriteFBO with
  | none => simp [hf] at hfin
  | some fb =>
    rw [hf] at hfin
    simp only at hfin
    split at hfin
    · rw [← Option.some.inj hfin]
      obtain ⟨⟨_, _, _, h4, h5, _⟩, _⟩ := Context.Finish_frame env s
      exact ⟨Context.Finish_framebufferAt_other env s q h,
        (Context.Finish_framebufferAt_isSome env s s.mWriteFBO (by rw [hf]; rfl)).2.1, h4, h5⟩
    · rw [← Option.some.inj hfin]
      exact ⟨rfl, rfl, rfl, rfl⟩


theorem Context.lookup_existing_attachments (env : Env) (s : Context) (id : GLuint)
    (fb : Framebuffer) (hid : id ≠ 0)
    (hread : s.mResourceManager.mFramebuffers.read id = some fb) :
    ∃ s1 fb1, Context.BindFramebuffer.lookup env s GL_FRAMEBUFFER id = some (.user id, s1) ∧
      s1.mWriteFBO = s.mWriteFBO ∧ s1.mStateManager = s.mStateManager ∧
      s1.mErrors = s.mErrors ∧ s1.framebufferAt (.user id) = some fb1 ∧
      fb.sameAttachments fb1 ∧
      (∀ q, q ≠ .user id → s1.framebufferAt q = s.framebufferAt q) := by
  unfold Context.BindFramebuffer.lookup
  rw [if_pos hid, ObjectArray.GetObject_existing _ _ _ _ hread]
  simp only [hread]
  by_cases ht : fb.GetTarget = GL_INVALID_VALUE
  · rw [if_pos ht]
    refine ⟨_, ((fb.SetTarget GL_FRAMEBUFFER).SetWidth s.mSystemFBO.GetWidth).SetHeight
      s.mSystemFBO.GetHeight, rfl, rfl, rfl, rfl, ?_, ⟨rfl, rfl, rfl⟩, ?_⟩
    · simp [Context.setFramebuffers, Context.framebufferAt, ObjectArray.read, ObjectArray.write]
    · intro q hq
      cases q with
      | system => rfl
      | user j =>
        have hji : j ≠ id := fun e => hq (by rw [e])
        simp [Context.setFramebuffers, Context.framebufferAt, ObjectArray.read,
          ObjectArray.write, Function.update_noteq hji]
  · rw [if_neg ht]
    exact ⟨_, fb, rfl, rfl, rfl, rfl, hread, ⟨rfl, rfl, rfl⟩, fun _ _ => rfl⟩

theorem Context.switch_framebuffer (env : Env) (s : Context) (fbo : FboPtr) (id : GLuint)
    (f : Framebuffer) (h : s.framebufferAt fbo = some f) :
    ∃ s1, Context.BindFramebuffer.switch env s fbo id = some s1 ∧ s1.mWriteFBO = fbo ∧
      s1.framebufferAt fbo = some f.SetStateIdle ∧
      s1.GetActiveObjectsState.mActiveFramebufferObjectID = id ∧ s1.mErrors = s.mErrors := by
  unfold Context.BindFramebuffer.switch
  have h1 : (Context.framebufferAt (({ s with mWriteFBO := fbo } : Context).log
      (Event.SetWriteFBO fbo)) fbo) = s.framebufferAt fbo := by
    cases fbo <;> rfl
  simp only [h1, h]
  refine ⟨_, rfl, ?_, ?_, ?_, ?_⟩
  · cases fbo <;> rfl
  · cases fbo with
    | system => rfl
    | user i => simp [Context.setPipeline, Context.log, Context.setActiveObjectsState,
        Context.setFramebufferAt, Context.framebufferAt, ObjectArray.read, ObjectArray.write]
  · cases fbo <;> rfl
  · cases fbo <;> rfl

/-- Binding an existing framebuffer object: it becomes the write framebuffer
and the active id, with the attachments it had. -/
theorem Context.BindFramebuffer_existing (env : Env) (s : Context) (id : GLuint)
    (fb wfb : Framebuffer) (hid : id ≠ 0)
    (hread : s.mResourceManager.mFramebuffers.read id = some fb)
    (hw : s.framebufferAt s.mWriteFBO = some wfb) (hinv : s.bindingConsistent) :
    ∃ s1 fb1, s.BindFramebuffer env GL_FRAMEBUFFER id = some s1 ∧ s1.mErrors = s.mErrors ∧
      s1.mWriteFBO = .user id ∧ s1.GetActiveObjectsState.mActiveFramebufferObjectID = id ∧
      s1.mResourceManager.mFramebuffers.read id = some fb1 ∧ fb.sameAttachments fb1 := by
  obtain ⟨s0, fb0, hlook, hw0, hst0, herr0, hat0, hsame0, hother0⟩ :=
    Context.lookup_existing_attachments env s id fb hid hread
  unfold Context.BindFramebuffer
  rw [if_neg (not_not.mpr rfl), hlook]
  simp only
  by_cases hbound : s0.mWriteFBO = .user id
  · rw [if_pos hbound]
    refine ⟨s0, fb0, rfl, herr0, hbound, ?_, hat0, hsame0⟩
    have hsw : s.mWriteFBO = .user id := hw0 ▸ hbound
    have hne : s.GetActiveObjectsState.mActiveFramebufferObjectID ≠ 0 := by
      intro h0
      have := hinv.1.mp h0
      rw [hsw] at this
      exact absurd this (by simp)
    have h2 := hinv.2 hne
    rw [hsw] at h2
    show s0.mStateManager.mActiveObjectsState.mActiveFramebufferObjectID = id
    rw [hst0]
    exact (FboPtr.user.inj h2).symm
  · rw [if_neg hbound]
    have hw00 : s0.framebufferAt s0.mWriteFBO = some wfb := by
      rw [hw0, hother0 _ (fun h => hbound (hw0.trans h))]
      exact hw
    obtain ⟨s2, hfin, _, _⟩ := Context.finishIfInDrawState_frame env s0 wfb hw00
    obtain ⟨hq, _, _, herr2⟩ := Context.finishIfInDrawState_other env s0 s2 (.user id)
      (fun h => hbound h.symm) hfin
    rw [hfin]
    simp only
    obtain ⟨s3, hsw, hw3, hat3, hact3, herr3⟩ := Context.switch_framebuffer env s2 (.user id) id fb0
      (hq.trans hat0)
    exact ⟨s3, _, hsw, by rw [herr3, herr2, herr0], hw3, hact3, hat3, hsame0⟩

/-- C22: after `BindFramebuffer(GL_FRAMEBUFFER, f)` for a framebuffer object
`f` that exists and never got an attachment, `CheckFramebufferStatus(GL_FRAMEBUFFER)`
returns `GL_FRAMEBUFFER_INCOMPLETE_MISSING_ATTACHMENT`, not
`GL_FRAMEBUFFER_COMPLETE`. While the default framebuffer is active the call
returns `GL_FRAMEBUFFER_COMPLETE` and leaves the context as it is; while a
framebuffer object is active the value returned is the one `CheckStatus()` gives
for that object; and for a target other than `GL_FRAMEBUFFER` the call records
`GL_INVALID_ENUM` and returns 0. -/
theorem CheckFramebufferStatus_incomplete_without_attachments (env : Env) (s : Context)
    (f : GLuint) (fb wfb : Framebuffer) (hf : f ≠ 0)
    (hread : s.mResourceManager.mFramebuffers.read f = some fb)
    (hnone : fb.HasNoAttachment = true)
    (hw : s.framebufferAt s.mWriteFBO = some wfb) (hinv : s.bindingConsistent) :
    (∃ s1 s2, s.BindFramebuffer env GL_FRAMEBUFFER f = some s1 ∧
      s1.CheckFramebufferStatus env GL_FRAMEBUFFER =
        some (s2, GL_FRAMEBUFFER_INCOMPLETE_MISSING_ATTACHMENT) ∧
      GL_FRAMEBUFFER_INCOMPLETE_MISSING_ATTACHMENT ≠ GL_FRAMEBUFFER_COMPLETE) ∧
    (∀ c : Context, c.GetActiveObjectsState.IsDefaultFramebufferObjectActive = true →
      c.CheckFramebufferStatus env GL_FRAMEBUFFER = some (c, GL_FRAMEBUFFER_COMPLETE)) ∧
    (∀ (c c1 : Context) (status : GLenum),
      c.GetActiveObjectsState.IsDefaultFramebufferObjectActive = false →
      c.CheckFramebufferStatus env GL_FRAMEBUFFER = some (c1, status) →
      ∃ g, c1.mResourceManager.mFramebuffers.read
          c.GetActiveObjectsState.mActiveFramebufferObjectID = some g ∧
        status = g.CheckStatus env) ∧
    (∀ (c : Context) (target : GLenum), target ≠ GL_FRAMEBUFFER →
      c.CheckFramebufferStatus env target = some (c.RecordError GL_INVALID_ENUM, 0)) := by
  refine ⟨?_, ?_, ?_, ?_⟩
  · obtain ⟨s1, fb1, hbind, _, _, hact, hread1, hsame⟩ :=
      Context.BindFramebuffer_existing env s f fb wfb hf hread hw hinv
    have hnone1 : fb1.HasNoAttachment = true := by
      obtain ⟨h1, h2, h3⟩ := hsame
      unfold Framebuffer.HasNoAttachment Framebuffer.GetColorAttachmentType
        Framebuffer.GetDepthAttachmentType Framebuffer.GetStencilAttachmentType at hnone ⊢
      rw [h1, h2, h3]
      exact hnone
    refine ⟨s1, s1, hbind, ?_, by decide⟩
    unfold Context.CheckFramebufferStatus
    have hnd : ¬ s1.GetActiveObjectsState.IsDefaultFramebufferObjectActive = true := by
      unfold StateActiveObjects.IsDefaultFramebufferObjectActive
      rw [hact]
      simpa using hf
    rw [if_neg (not_not.mpr rfl), if_neg hnd, hact,
      ObjectArray.GetObject_existing _ _ _ _ hread1]
    simp only [hread1]
    unfold Framebuffer.CheckStatus
    rw [if_pos hnone1]
    rfl
  · intro c hc
    unfold Context.CheckFramebufferStatus
    rw [if_neg (not_not.mpr rfl), if_pos hc]
  · intro c c1 status hc h
    unfold Context.CheckFramebufferStatus at h
    rw [if_neg (not_not.mpr rfl), if_neg (by rw [hc]; decide)] at h
    cases hget : c.mResourceManager.mFramebuffers.GetObject env.newFramebuffer
        c.GetActiveObjectsState.mActiveFramebufferObjectID with
    | mk p arr =>
      rw [hget] at h
      cases p with
      | none => simp at h
      | some i =>
        simp only at h
        obtain ⟨hi, _, _⟩ := ObjectArray.GetObject_some _ _ _ _ _ hget
        subst hi
        cases hr : arr.read c.GetActiveObjectsState.mActiveFramebufferObjectID with
        | none =>
          rw [hr] at h
          simp at h
        | some g =>
          rw [hr] at h
          simp only [Option.some.injEq, Prod.mk.injEq] at h
          refine ⟨g, ?_, h.2.symm⟩
          rw [← h.1]
          exact hr
  · intro c target ht
    unfold Context.CheckFramebufferStatus
    rw [if_pos ht]

/-- C22 (witness): framebuffer 2 was generated and never bound. -/
theorem CheckFramebufferStatus_incomplete_without_attachments_witness :
    ∃ s1 s2, contextWithFramebuffer2.BindFramebuffer envCreate GL_FRAMEBUFFER 2 = some s1 ∧
      s1.CheckFramebufferStatus envCreate GL_FRAMEBUFFER =
        some (s2, GL_FRAMEBUFFER_INCOMPLETE_MISSING_ATTACHMENT) ∧
      GL_FRAMEBUFFER_INCOMPLETE_MISSING_ATTACHMENT ≠ GL_FRAMEBUFFER_COMPLETE :=
  (CheckFramebufferStatus_incomplete_without_attachments envCreate contextWithFramebuffer2 2
    defaultFramebuffer contextWithFramebuffer2.mSystemFBO (by decide) rfl rfl rfl
    ⟨by decide, fun h => absurd rfl h⟩).1


/-! ### Framebuffer states -/

/-- C28 (counterexample): after `SetStateClear()` both `IsInClearState()` and
`IsInDrawState()` are true, so `IsInClearState` is not the only state predicate
that holds. -/
theorem SetStateClear_two_predicates_counterexample :
    defaultFramebuffer.SetStateClear.IsInClearState = true ∧
    defaultFramebuffer.SetStateClear.IsInDrawState = true := by
  decide

/-- C28 (amended): `IsInDrawState()` is true exactly in the states CLEAR,
CLEAR_DRAW, DRAW and DELETE, it is the negation of `IsInIdleState()`; the state
is exactly one of the five values; each `SetStateX` puts the framebuffer in
state X, so that of `IsInIdleState`, `IsInClearState`, `IsInClearDrawState`,
`IsInDeleteState` only the one for X (none for DRAW) is true, and
`IsInDrawState` is true after every setter but `SetStateIdle`; the setters
change no field other than the state. -/
theorem Framebuffer_state_predicates (f : Framebuffer) :
    (f.IsInDrawState = true ↔
      f.GetState = .CLEAR ∨ f.GetState = .CLEAR_DRAW ∨ f.GetState = .DRAW ∨ f.GetState = .DELETE) ∧
    f.IsInDrawState = !f.IsInIdleState ∧
    (f.IsInIdleState.toNat + f.IsInClearState.toNat + f.IsInClearDrawState.toNat +
      (decide (f.GetState = .DRAW)).toNat + f.IsInDeleteState.toNat = 1) ∧
    (f.SetStateIdle.GetState = .IDLE ∧ f.SetStateIdle.IsInIdleState = true ∧
      f.SetStateIdle.IsInClearState = false ∧ f.SetStateIdle.IsInClearDrawState = false ∧
      f.SetStateIdle.IsInDeleteState = false ∧ f.SetStateIdle.IsInDrawState = false) ∧
    (f.SetStateClear.GetState = .CLEAR ∧ f.SetStateClear.IsInIdleState = false ∧
      f.SetStateClear.IsInClearState = true ∧ f.SetStateClear.IsInClearDrawState = false ∧
      f.SetStateClear.IsInDeleteState = false ∧ f.SetStateClear.IsInDrawState = true) ∧
    (f.SetStateClearDraw.GetState = .CLEAR_DRAW ∧ f.SetStateClearDraw.IsInIdleState = false ∧
      f.SetStateClearDraw.IsInClearState = false ∧ f.SetStateClearDraw.IsInClearDrawState = true ∧
      f.SetStateClearDraw.IsInDeleteState = false ∧ f.SetStateClearDraw.IsInDrawState = true) ∧
    (f.SetStateDraw.GetState = .DRAW ∧ f.SetStateDraw.IsInIdleState = false ∧
      f.SetStateDraw.IsInClearState = false ∧ f.SetStateDraw.IsInClearDrawState = false ∧
      f.SetStateDraw.IsInDeleteState = false ∧ f.SetStateDraw.IsInDrawState = true) ∧
    (f.SetStateDelete.GetState = .DELETE ∧ f.SetStateDelete.IsInIdleState = false ∧
      f.SetStateDelete.IsInClearState = false ∧ f.SetStateDelete.IsInClearDrawState = false ∧
      f.SetStateDelete.IsInDeleteState = true ∧ f.SetStateDelete.IsInDrawState = true) ∧
    ({ f.SetStateIdle with mState := f.mState } = f ∧
      { f.SetStateClear with mState := f.mState } = f ∧
      { f.SetStateClearDraw with mState := f.mState } = f ∧
      { f.SetStateDraw with mState := f.mState } = f ∧
      { f.SetStateDelete with mState := f.mState } = f) := by
  refine ⟨?_, rfl, ?_, ⟨rfl, rfl, rfl, rfl, rfl, rfl⟩, ⟨rfl, rfl, rfl, rfl, rfl, rfl⟩,
    ⟨rfl, rfl, rfl, rfl, rfl, rfl⟩, ⟨rfl, rfl, rfl, rfl, rfl, rfl⟩,
    ⟨rfl, rfl, rfl, rfl, rfl, rfl⟩, ⟨rfl, rfl, rfl, rfl, rfl⟩⟩
  · unfold Framebuffer.IsInDrawState Framebuffer.IsInIdleState Framebuffer.GetState
    cases f.mState <;> decide
  · unfold Framebuffer.IsInIdleState Framebuffer.IsInClearState Framebuffer.IsInClearDrawState
      Framebuffer.IsInDeleteState Framebuffer.GetState
    cases f.mState <;> decide

/-! ### Sub-data of buffers -/

/-- C26 (failing input): buffer 1, bound to `GL_ARRAY_BUFFER`, has a data store
of 16 bytes. `BufferSubData(GL_ARRAY_BUFFER, offset = 0, size = 2^32, data)` has
`offset + size > 16`, yet it records no error and calls `UpdateData(2^32, 0, data)`,
because `(uint32_t)size` is 0; so does `offset = size = 2^31`, where the sum of
the two `uint32_t` wraps to 0. -/
theorem BufferSubData_truncated_bounds_check :
    (∃ obj, contextBuffer16.mResourceManager.mBuffers.read 1 = some obj ∧ obj.GetSize = 16) ∧
    contextBuffer16.GetActiveObjectsState.GetActiveBufferObject GL_ARRAY_BUFFER = some 1 ∧
    (0 : Int) + 4294967296 > 16 ∧
    contextBuffer16.BufferSubData GL_ARRAY_BUFFER 0 4294967296 =
      some (contextBuffer16, some (4294967296, 0)) ∧
    contextBuffer16.BufferSubData GL_ARRAY_BUFFER 2147483648 2147483648 =
      some (contextBuffer16, some (2147483648, 2147483648)) ∧
    contextBuffer16.BufferSubData GL_ARRAY_BUFFER 8 9 =
      some (contextBuffer16.RecordError GL_INVALID_VALUE, none) := by
  refine ⟨⟨_, rfl, rfl⟩, rfl, by decide, ?_, ?_, ?_⟩ <;> rfl

/-! ### Linking of programs -/

/-- C23 (failing input): the Pipeline dirty bit is set (a colour mask change is
pending), program 1 is valid; its link fails and its shader stages cannot be
set. `LinkProgram(1)` returns with the Pipeline dirty bit false. With a link
that succeeds and stages that are set the bit is true on return. -/
theorem LinkProgram_clears_pending_rebuild :
    contextPipelineDirty.mPipeline.GetUpdatePipelineState = true ∧
    (contextPipelineDirty.GetProgramPtr envLinkFails 1).1 = some 1 ∧
    (∃ s1, contextPipelineDirty.LinkProgram envLinkFails 1 = some s1 ∧
      s1.mErrors = [] ∧ s1.mPipeline.GetUpdatePipelineState = false) ∧
    (∃ s1, contextPipelineDirty.LinkProgram envCreate 1 = some s1 ∧
      s1.mPipeline.GetUpdatePipelineState = true) :=
  ⟨rfl, rfl, ⟨_, rfl, rfl, rfl⟩, ⟨_, rfl, rfl⟩⟩


/-! ### Uniforms -/

/-- C24 (failing input): program 2 has the uniform `lights`, an array. With
`bufsize = 4` the call `GetActiveUniform(2, 0, 4, ..)` clamps the length to 3,
then adds 3 for the suffix: it stores 6 in `*length` and writes 7 characters
(`lights` and the terminating null) into the buffer of 4. -/
theorem GetActiveUniform_array_overruns_bufsize :
    ∃ s1 r, contextUniforms.GetActiveUniform envCreate 2 0 4 = some (s1, some r) ∧
      s1.mErrors = [] ∧ r.length = 6 ∧ r.name.length = 7 ∧
      r.name = ['l', 'i', 'g', 'h', 't', 's', Char.ofNat 0] :=
  ⟨_, _, rfl, rfl, rfl, rfl, rfl⟩

/-- C25 (failing input): the uniform `lights` has 4 elements at the locations 10
to 13. `Uniform1fv(12, 3, v)` passes validation and, 3 not being greater than
4, hands 3 elements to `SetUniformData` at location 12, where 2 remain; with
count 5 the clamp gives 2. -/
theorem Uniform1fv_count_below_array_size_not_clamped :
    (∃ prog u, contextUniforms.mResourceManager.mShaderPrograms.read 2 = some prog ∧
      prog.GetUniformAtLocation 12 = some u ∧ u.arraySize = 4 ∧ u.location = 10) ∧
    (∃ d, contextUniforms.Uniform1fv envCreate 12 3 [1, 2, 3] = some (contextUniforms, some d) ∧
      d.location = 12 ∧ Context.SetUniformData.floats d = 3 ∧ (4 : Int) - (12 - 10) = 2) ∧
    (∃ d, contextUniforms.Uniform1fv envCreate 12 5 [1, 2, 3, 4, 5] =
        some (contextUniforms, some d) ∧
      Context.SetUniformData.floats d = 2) :=
  ⟨⟨_, _, rfl, rfl, rfl, rfl⟩, ⟨_, rfl, rfl, by decide, by decide⟩, ⟨_, rfl, by decide⟩⟩


/-! ### Matrix uniforms -/

theorem Context.UniformMatrix.read_eq (n : Nat) :
    ∀ value : List GLfloat, n ≤ value.length →
      Context.UniformMatrix.read n value = some (value.take n, value.drop n) := by
  induction n with
  | zero => intro value _; rfl
  | succ n ih =>
    intro value h
    cases value with
    | nil => simp at h
    | cons x rest =>
      simp only [List.length_cons, Nat.add_le_add_iff_right] at h
      simp only [Context.UniformMatrix.read, ih rest h, Option.map_some', List.take_succ_cons,
        List.drop_succ_cons]

theorem Context.UniformMatrix.column_eq (n : Nat) (value : List GLfloat) (h : n ≤ value.length) :
    Context.UniformMatrix.column n value =
      some (value.take n ++ List.replicate (4 - n) 0, value.drop n) := by
  unfold Context.UniformMatrix.column
  rw [Context.UniformMatrix.read_eq n value h]
  rfl

/-- Element `j` of a column: a float read from `value` below `n`, 0 from `n` on. -/
theorem Context.UniformMatrix.column_getElem (n : Nat) (value : List GLfloat) (hn : n ≤ 4)
    (h : n ≤ value.length) (j : Nat) (hj : j < 4) :
    (value.take n ++ List.replicate (4 - n) (0 : GLfloat))[j]? =
      if j < n then value[j]? else some 0 := by
  by_cases hjn : j < n
  · rw [if_pos hjn, List.getElem?_append_left (by rw [List.length_take_of_le h]; exact hjn),
      List.getElem?_take_of_lt hjn]
  · rw [if_neg hjn, List.getElem?_append_right (by rw [List.length_take_of_le h]; omega),
      List.length_take_of_le h, List.getElem?_replicate_of_lt (by omega)]

theorem Context.UniformMatrix.columns_spec (n : Nat) (hn : n ≤ 4) (i : Nat) :
    ∀ value : List GLfloat, n * i ≤ value.length →
      ∃ out, Context.UniformMatrix.columns n i value = some (out, value.drop (n * i)) ∧
        out.length = 4 * i ∧
        ∀ a, a < i → ∀ j, j < 4 →
          out[4 * a + j]? = if j < n then value[n * a + j]? else some 0 := by
  induction i with
  | zero =>
    intro value _
    exact ⟨[], rfl, rfl, fun a ha => absurd ha (Nat.not_lt_zero a)⟩
  | succ i ih =>
    intro value h
    have hn1 : n ≤ value.length := by
      have : n ≤ n * (i + 1) := Nat.le_mul_of_pos_right n (Nat.succ_pos i)
      omega
    have hrest : n * i ≤ (value.drop n).length := by
      rw [List.length_drop, Nat.mul_succ] at *
      omega
    obtain ⟨out, hout, hlen, hget⟩ := ih (value.drop n) hrest
    have hcol : (value.take n ++ List.replicate (4 - n) (0 : GLfloat)).length = 4 := by
      rw [List.length_append, List.length_take_of_le hn1, List.length_replicate]
      omega
    refine ⟨(value.take n ++ List.replicate (4 - n) 0) ++ out, ?_, ?_, ?_⟩
    · simp only [Context.UniformMatrix.columns, Context.UniformMatrix.column_eq n value hn1, hout,
        Option.map_some', List.drop_drop]
      rw [Nat.mul_succ, Nat.add_comm (n * i) n]
    · rw [List.length_append, hcol, hlen]
      omega
    · intro a ha j hj
      cases a with
      | zero =>
        rw [Nat.mul_zero, Nat.zero_add, Nat.mul_zero, Nat.zero_add,
          List.getElem?_append_left (by rw [hcol]; exact hj)]
        exact Context.UniformMatrix.column_getElem n value hn hn1 j hj
      | succ a =>
        have ha1 : a < i := Nat.lt_of_succ_lt_succ ha
        rw [List.getElem?_append_right (by rw [hcol]; omega), hcol]
        have hidx : 4 * (a + 1) + j - 4 = 4 * a + j := by omega
        rw [hidx, hget a ha1 j hj]
        by_cases hjn : j < n
        · rw [if_pos hjn, if_pos hjn, List.getElem?_drop]
          congr 1
          rw [Nat.mul_succ]
          omega
        · rw [if_neg hjn, if_neg hjn]

theorem Context.UniformMatrix.matrices_spec (n : Nat) (hn : n ≤ 4) (k : Nat) :
    ∀ value : List GLfloat, n * n * k ≤ value.length →
      ∃ out, Context.UniformMatrix.matrices n k value = some out ∧
        out.length = 4 * n * k ∧
        ∀ b, b < k → ∀ a, a < n → ∀ j, j < 4 →
          out[4 * n * b + 4 * a + j]? =
            if j < n then value[n * n * b + n * a + j]? else some 0 := by
  induction k with
  | zero =>
    intro value _
    exact ⟨[], rfl, rfl, fun b hb => absurd hb (Nat.not_lt_zero b)⟩
  | succ k ih =>
    intro value h
    have hfirst : n * n ≤ value.length := by
      have : n * n ≤ n * n * (k + 1) := Nat.le_mul_of_pos_right (n * n) (Nat.succ_pos k)
      omega
    obtain ⟨m, hm, hmlen, hmget⟩ := Context.UniformMatrix.columns_spec n hn n value hfirst
    have hrest : n * n * k ≤ (value.drop (n * n)).length := by
      rw [List.length_drop, Nat.mul_succ] at *
      omega
    obtain ⟨out, hout, hlen, hget⟩ := ih (value.drop (n * n)) hrest
    refine ⟨m ++ out, ?_, ?_, ?_⟩
    · simp only [Context.UniformMatrix.matrices, hm, hout, Option.map_some']
    · rw [List.length_append, hmlen, hlen, Nat.mul_succ, Nat.add_comm]
    · intro b hb a ha j hj
      have hlt : 4 * a + j < 4 * n := by omega
      cases b with
      | zero =>
        rw [Nat.mul_zero, Nat.zero_add, Nat.mul_zero, Nat.zero_add,
          List.getElem?_append_left (by rw [hmlen]; exact hlt)]
        exact hmget a ha j hj
      | succ b =>
        have hb1 : b < k := Nat.lt_of_succ_lt_succ hb
        have hge : m.length ≤ 4 * n * (b + 1) + 4 * a + j := by
          rw [hmlen, Nat.mul_succ]
          omega
        have hidx : 4 * n * (b + 1) + 4 * a + j - m.length = 4 * n * b + 4 * a + j := by
          rw [hmlen, Nat.mul_succ]
          omega
        rw [List.getElem?_append_right hge, hidx, hget b hb1 a ha j hj]
        by_cases hjn : j < n
        · rw [if_pos hjn, if_pos hjn, List.getElem?_drop]
          congr 1
          rw [Nat.mul_succ]
          omega
        · rw [if_neg hjn, if_neg hjn]


/-- C29: a call `UniformMatrix3fv(location, count, GL_FALSE, value)` that passes
validation, with effective count `c` and at least `9 c` floats at `value`, hands
`SetUniformData` a block of `12 c` floats and the byte size `3 * 4 * c * sizeof(float)`;
for every matrix `k < c`, column `i < 3` and component `j < 3` the float at
index `12 k + 4 i + j` is `value[9 k + 3 i + j]` and the float at index
`12 k + 4 i + 3` is 0. `UniformMatrix2fv` hands over `8 c` floats, the float at
`8 k + 4 i + j` being `value[4 k + 2 i + j]` for `i, j < 2` and the floats at
`8 k + 4 i + 2` and `8 k + 4 i + 3` being 0. A transpose other than `GL_FALSE`
records `GL_INVALID_VALUE` and makes no call. Each of the three parts stands
on its own conditions: the one for `UniformMatrix3fv` asks nothing of the mat2
uniforms of the program, and the other way round. -/
theorem UniformMatrix_pads_columns (s : Context) (l3 l2 : GLint) (n3 n2 c3 c2 : Int)
    (value3 value2 : List GLfloat) :
    (s.passesMatrixValidation GL_FLOAT_MAT3 l3 n3 c3 → 9 * c3.toNat ≤ value3.length →
      ∃ d, s.UniformMatrix3fv l3 n3 GL_FALSE value3 = some (s, some d) ∧ d.location = l3 ∧
      d.size = 3 * 4 * c3 * sizeof_float ∧ d.data.length = 12 * c3.toNat ∧
      ∀ k, k < c3.toNat → ∀ i, i < 3 →
        (∀ j, j < 3 → d.data[12 * k + 4 * i + j]? = value3[9 * k + 3 * i + j]?) ∧
        d.data[12 * k + 4 * i + 3]? = some 0) ∧
    (s.passesMatrixValidation GL_FLOAT_MAT2 l2 n2 c2 → 4 * c2.toNat ≤ value2.length →
      ∃ d, s.UniformMatrix2fv l2 n2 GL_FALSE value2 = some (s, some d) ∧ d.location = l2 ∧
      d.size = 2 * 4 * c2 * sizeof_float ∧ d.data.length = 8 * c2.toNat ∧
      ∀ k, k < c2.toNat → ∀ i, i < 2 →
        (∀ j, j < 2 → d.data[8 * k + 4 * i + j]? = value2[4 * k + 2 * i + j]?) ∧
        d.data[8 * k + 4 * i + 2]? = some 0 ∧ d.data[8 * k + 4 * i + 3]? = some 0) ∧
    (∀ (t : GLboolean) (l : GLint) (n : Int) (value : List GLfloat), t ≠ GL_FALSE →
      s.UniformMatrix3fv l n t value = some (s.RecordError GL_INVALID_VALUE, none) ∧
      s.UniformMatrix2fv l n t value = some (s.RecordError GL_INVALID_VALUE, none)) := by
  refine ⟨fun h3 hv3 => ?_, fun h2 hv2 => ?_, ?_⟩
  · obtain ⟨act, prog, u, hact, hprog, hu, htype, hsize, hcount, hloc, hc, hc0⟩ := h3
    obtain ⟨out, hout, hlen, hget⟩ := Context.UniformMatrix.matrices_spec 3 (by decide) c3.toNat
      value3 (by omega)
    refine ⟨{ location := l3, size := 3 * 4 * c3 * sizeof_float, data := out }, ?_, rfl, rfl,
      by rw [hlen], ?_⟩
    · unfold Context.UniformMatrix3fv
      rw [if_neg (not_lt.mpr hcount), if_neg (not_not.mpr rfl)]
      simp only [hact, if_neg hloc, hprog, hu]
      rw [if_neg (by rw [htype]; exact fun h => h.elim (fun h1 => h1 rfl) hsize)]
      simp only [hc, if_neg (not_lt.mpr hc0), hout]
    · intro k hk i hi
      have e : ∀ j, 12 * k + 4 * i + j = 4 * 3 * k + 4 * i + j := fun j => by omega
      have e9 : ∀ j, 9 * k + 3 * i + j = 3 * 3 * k + 3 * i + j := fun j => by omega
      refine ⟨fun j hj => ?_, ?_⟩
      · show out[12 * k + 4 * i + j]? = _
        rw [e, e9, hget k hk i hi j (by omega), if_pos hj]
      · show out[12 * k + 4 * i + 3]? = _
        rw [e, hget k hk i hi 3 (by decide), if_neg (by decide)]
  · obtain ⟨act, prog, u, hact, hprog, hu, htype, hsize, hcount, hloc, hc, hc0⟩ := h2
    obtain ⟨out, hout, hlen, hget⟩ := Context.UniformMatrix.matrices_spec 2 (by decide) c2.toNat
      value2 (by omega)
    refine ⟨{ location := l2, size := 2 * 4 * c2 * sizeof_float, data := out }, ?_, rfl, rfl,
      by rw [hlen], ?_⟩
    · unfold Context.UniformMatrix2fv
      rw [if_neg (not_lt.mpr hcount), if_neg (not_not.mpr rfl)]
      simp only [hact, if_neg hloc, hprog, hu]
      rw [if_neg (by rw [htype]; exact fun h => h.elim (fun h1 => h1 rfl) hsize)]
      simp only [hc, if_neg (not_lt.mpr hc0), hout]
    · intro k hk i hi
      have e : ∀ j, 8 * k + 4 * i + j = 4 * 2 * k + 4 * i + j := fun j => by omega
      have e4 : ∀ j, 4 * k + 2 * i + j = 2 * 2 * k + 2 * i + j := fun j => by omega
      refine ⟨fun j hj => ?_, ?_, ?_⟩
      · show out[8 * k + 4 * i + j]? = _
        rw [e, e4, hget k hk i hi j (by omega), if_pos hj]
      · show out[8 * k + 4 * i + 2]? = _
        rw [e, hget k hk i hi 2 (by decide), if_neg (by decide)]
      · show out[8 * k + 4 * i + 3]? = _
        rw [e, hget k hk i hi 3 (by decide), if_neg (by decide)]
  · intro t l n value ht
    unfold Context.UniformMatrix3fv Context.UniformMatrix2fv
    by_cases hn : n < 0
    · rw [if_pos hn, if_pos hn]
      exact ⟨rfl, rfl⟩
    · rw [if_neg hn, if_pos ht, if_neg hn, if_pos ht]
      exact ⟨rfl, rfl⟩

/-- C29 (witness): the 3 x 3 matrix with the floats 1 to 9 for the element 0 of
`m`, the 2 x 2 matrix with the floats 1 to 4 for `r`. -/
theorem UniformMatrix_pads_columns_witness :
    (∃ d, contextUniforms.UniformMatrix3fv 20 1 GL_FALSE [1, 2, 3, 4, 5, 6, 7, 8, 9] =
        some (contextUniforms, some d) ∧
      d.size = 48 ∧ d.data.length = 12 ∧ d.data[4]? = some 4 ∧ d.data[7]? = some 0) ∧
    (∃ d, contextUniforms.UniformMatrix2fv 30 1 GL_FALSE [1, 2, 3, 4] =
        some (contextUniforms, some d) ∧
      d.size = 32 ∧ d.data.length = 8 ∧ d.data[5]? = some 4 ∧ d.data[6]? = some 0) := by
  obtain ⟨hm3, hm2, -⟩ :=
    UniformMatrix_pads_columns contextUniforms 20 30 1 1 1 1 [1, 2, 3, 4, 5, 6, 7, 8, 9]
      [1, 2, 3, 4]
  obtain ⟨d3, a1, -, a2, a3, a4⟩ := hm3
    ⟨2, _, _, rfl, rfl, rfl, rfl, by decide, by decide, by decide, rfl, by decide⟩ (by decide)
  obtain ⟨d2, b1, -, b2, b3, b4⟩ := hm2
    ⟨2, _, _, rfl, rfl, rfl, rfl, by decide, by decide, by decide, rfl, by decide⟩ (by decide)
  exact ⟨⟨d3, a1, a2.trans (by decide), a3.trans (by decide),
      ((a4 0 (by decide) 1 (by decide)).1 0 (by decide)), (a4 0 (by decide) 1 (by decide)).2⟩,
    ⟨d2, b1, b2.trans (by decide), b3.trans (by decide),
      ((b4 0 (by decide) 1 (by decide)).1 1 (by decide)),
      (b4 0 (by decide) 1 (by decide)).2.1⟩⟩


/-! ### The active framebuffer id and the write framebuffer -/

theorem Context.keepsBinding_trans (s s1 s2 : Context) (h1 : s.keepsBinding s1)
    (h2 : s1.keepsBinding s2) : s.keepsBinding s2 :=
  ⟨h2.1.trans h1.1, h2.2.trans h1.2⟩

theorem Context.keepsBinding_consistent (s s1 : Context) (h : s.keepsBinding s1)
    (hinv : s.bindingConsistent) : s1.bindingConsistent := by
  unfold Context.bindingConsistent Context.GetActiveObjectsState at *
  rw [h.1, h.2]
  exact hinv

theorem Context.keepsBinding_setFramebufferAt (s : Context) (p : FboPtr) (f : Framebuffer) :
    s.keepsBinding (s.setFramebufferAt p f) := by
  cases p <;> exact ⟨rfl, rfl⟩

theorem Context.keepsBinding_Finish (env : Env) (s : Context) : s.keepsBinding (s.Finish env) := by
  unfold Context.Finish
  cases s.framebufferAt s.mWriteFBO with
  | none => exact ⟨rfl, rfl⟩
  | some fb =>
    cases s.mWriteFBO with
    | system => exact ⟨rfl, rfl⟩
    | user i => exact ⟨rfl, rfl⟩

theorem Context.keepsBinding_finishIfInDrawState (env : Env) (s s1 : Context)
    (h : s.finishIfInDrawState env = some s1) : s.keepsBinding s1 := by
  unfold Context.finishIfInDrawState at h
  cases hf : s.framebufferAt s.mWriteFBO with
  | none => simp [hf] at h
  | some fb =>
    rw [hf] at h
    simp only at h
    split at h
    · rw [← Option.some.inj h]
      exact Context.keepsBinding_Finish env s
    · rw [← Option.some.inj h]
      exact ⟨rfl, rfl⟩

theorem Context.keepsBinding_finishIfAttachmentChanges (env : Env) (s s1 : Context)
    (guard : Bool) (attachment : GLenum) (name : GLuint)
    (h : s.finishIfAttachmentChanges env guard attachment name = some s1) :
    s.keepsBinding s1 := by
  unfold Context.finishIfAttachmentChanges at h
  cases hf : s.framebufferAt s.mWriteFBO with
  | none => simp [hf] at h
  | some fb =>
    rw [hf] at h
    simp only at h
    split at h
    · rw [← Option.some.inj h]
      exact Context.keepsBinding_Finish env s
    · rw [← Option.some.inj h]
      exact ⟨rfl, rfl⟩

theorem Context.keepsBinding_modifyWriteFBO (s s1 : Context)
    (g : Framebuffer → Option Framebuffer) (h : s.modifyWriteFBO g = some s1) :
    s.keepsBinding s1 := by
  unfold Context.modifyWriteFBO at h
  cases hf : s.framebufferAt s.mWriteFBO with
  | none => simp [hf] at h
  | some f =>
    rw [hf] at h
    simp only at h
    cases hg : g f with
    | none => simp [hg] at h
    | some f1 =>
      rw [hg] at h
      rw [← Option.some.inj h]
      exact Context.keepsBinding_setFramebufferAt s _ _

theorem Context.keepsBinding_setAttachmentTypeName (s s1 : Context) (attachment type : GLenum)
    (name : GLuint) (setType : Framebuffer → GLenum → Option Framebuffer)
    (setName : Framebuffer → Nat → Option Framebuffer)
    (h : s.setAttachmentTypeName attachment type name setType setName = some s1) :
    s.keepsBinding s1 := by
  unfold Context.setAttachmentTypeName at h
  cases h1 : s.modifyWriteFBO fun f => setType f type with
  | none => simp [h1] at h
  | some s2 =>
    rw [h1] at h
    simp only at h
    cases h2 : (s2.log (.SetAttachmentType attachment type)).modifyWriteFBO
        fun f => setName f name with
    | none => simp [h2] at h
    | some s3 =>
      rw [h2] at h
      rw [← Option.some.inj h]
      have k1 : s.keepsBinding s2 := Context.keepsBinding_modifyWriteFBO s s2 _ h1
      have k2 : s2.keepsBinding (s2.log (.SetAttachmentType attachment type)) := ⟨rfl, rfl⟩
      have k3 : (s2.log (.SetAttachmentType attachment type)).keepsBinding s3 :=
        Context.keepsBinding_modifyWriteFBO _ s3 _ h2
      have k4 : s3.keepsBinding (s3.log (.SetAttachmentName attachment name)) := ⟨rfl, rfl⟩
      exact Context.keepsBinding_trans _ _ _ k1 (Context.keepsBinding_trans _ _ _ k2
        (Context.keepsBinding_trans _ _ _ k3 k4))

theorem Context.keepsBinding_logAllocate (s : Context) (b : Bool) (p : TexPtr) :
    s.keepsBinding (s.logAllocate b p) := by
  cases b <;> exact ⟨rfl, rfl⟩


theorem Context.keepsBinding_FramebufferRenderbuffer_attach (env : Env) (s s1 : Context)
    (attachment : GLenum) (renderbuffer : GLuint)
    (h : Context.FramebufferRenderbuffer.attach env s attachment renderbuffer = some s1) :
    s.keepsBinding s1 := by
  unfold Context.FramebufferRenderbuffer.attach at h
  by_cases hc : attachment = GL_COLOR_ATTACHMENT0
  · rw [if_pos hc] at h
    by_cases hr : renderbuffer ≠ 0
    · rw [if_pos hr] at h
      split at h
      · simp at h
      · split at h
        · simp at h
        · split at h
          · simp at h
          · simp only at h
            split at h
            · simp at h
            · rename_i s2 hm
              split at h
              · simp at h
              · rename_i s3 hn
                rw [← Option.some.inj h]
                have k1 := Context.keepsBinding_modifyWriteFBO _ s2 _ hm
                have k2 := Context.keepsBinding_setAttachmentTypeName s2 s3 _ _ _ _ _ hn
                exact ⟨k2.1.trans (k1.1.trans (Context.keepsBinding_logAllocate _ _ _).1),
                  k2.2.trans (k1.2.trans (Context.keepsBinding_logAllocate _ _ _).2)⟩
    · rw [if_neg hr] at h
      split at h
      · simp at h
      · rename_i s2 hm
        split at h
        · simp at h
        · rename_i s3 hn
          rw [← Option.some.inj h]
          have k1 := Context.keepsBinding_modifyWriteFBO _ s2 _ hm
          have k2 := Context.keepsBinding_setAttachmentTypeName s2 s3 _ _ _ _ _ hn
          exact ⟨k2.1.trans k1.1, k2.2.trans k1.2⟩
  · rw [if_neg hc] at h
    by_cases hd : attachment = GL_DEPTH_ATTACHMENT
    · rw [if_pos hd] at h
      exact Context.keepsBinding_setAttachmentTypeName s s1 _ _ _ _ _ h
    · rw [if_neg hd] at h
      by_cases hs : attachment = GL_STENCIL_ATTACHMENT
      · rw [if_pos hs] at h
        exact Context.keepsBinding_setAttachmentTypeName s s1 _ _ _ _ _ h
      · rw [if_neg hs] at h
        rw [← Option.some.inj h]
        exact ⟨rfl, rfl⟩


theorem Context.keepsBinding_FramebufferRenderbuffer (env : Env) (s s1 : Context)
    (target attachment renderbuffertarget : GLenum) (renderbuffer : GLuint)
    (h : s.FramebufferRenderbuffer env target attachment renderbuffertarget renderbuffer =
      some s1) : s.keepsBinding s1 := by
  unfold Context.FramebufferRenderbuffer at h
  split at h
  · rw [← Option.some.inj h]
    exact ⟨rfl, rfl⟩
  · split at h
    · rw [← Option.some.inj h]
      exact ⟨rfl, rfl⟩
    · split at h
      · rw [← Option.some.inj h]
        exact ⟨rfl, rfl⟩
      · split at h
        · rw [← Option.some.inj h]
          exact ⟨rfl, rfl⟩
        · split at h
          · simp at h
          · rename_i s2 hfin
            exact Context.keepsBinding_trans _ _ _
              (Context.keepsBinding_finishIfAttachmentChanges env s s2 _ _ _ hfin)
              (Context.keepsBinding_FramebufferRenderbuffer_attach env s2 s1 _ _ h)

theorem Context.keepsBinding_FramebufferTexture2D_attach (env : Env) (s s1 : Context)
    (attachment textarget : GLenum) (texture : GLuint) (tex : Option Texture)
    (h : Context.FramebufferTexture2D.attach env s attachment textarget texture tex = some s1) :
    s.keepsBinding s1 := by
  unfold Context.FramebufferTexture2D.attach at h
  by_cases hc : attachment = GL_COLOR_ATTACHMENT0
  · rw [if_pos hc] at h
    cases tex with
    | none =>
      simp only [Option.map_none'] at h
      split at h
      · simp at h
      · rename_i s2 hm
        split at h
        · simp at h
        · rename_i s3 hn
          split at h
          · simp at h
          · rename_i s4 hl
            rw [← Option.some.inj h]
            have k1 := Context.keepsBinding_modifyWriteFBO _ s2 _ hm
            have k2 := Context.keepsBinding_setAttachmentTypeName s2 s3 _ _ _ _ _ hn
            have k3 := Context.keepsBinding_modifyWriteFBO _ s4 _ hl
            exact ⟨k3.1.trans (k2.1.trans k1.1), k3.2.trans (k2.2.trans k1.2)⟩
    | some t =>
      simp only [Option.map_some'] at h
      split at h
      · simp at h
      · rename_i s2 hm
        split at h
        · simp at h
        · rename_i s3 hn
          split at h
          · simp at h
          · rename_i s4 hl
            rw [← Option.some.inj h]
            have k1 := Context.keepsBinding_modifyWriteFBO _ s2 _ hm
            have k2 := Context.keepsBinding_setAttachmentTypeName s2 s3 _ _ _ _ _ hn
            have k3 := Context.keepsBinding_modifyWriteFBO _ s4 _ hl
            exact ⟨k3.1.trans (k2.1.trans (k1.1.trans (Context.keepsBinding_logAllocate _ _ _).1)),
              k3.2.trans (k2.2.trans (k1.2.trans (Context.keepsBinding_logAllocate _ _ _).2))⟩
  · rw [if_neg hc] at h
    by_cases hd : attachment = GL_DEPTH_ATTACHMENT
    · rw [if_pos hd] at h
      split at h
      · simp at h
      · rename_i s2 hn
        exact Context.keepsBinding_trans _ _ _
          (Context.keepsBinding_setAttachmentTypeName s s2 _ _ _ _ _ hn)
          (Context.keepsBinding_modifyWriteFBO s2 s1 _ h)
    · rw [if_neg hd] at h
      by_cases hs : attachment = GL_STENCIL_ATTACHMENT
      · rw [if_pos hs] at h
        split at h
        · simp at h
        · rename_i s2 hn
          exact Context.keepsBinding_trans _ _ _
            (Context.keepsBinding_setAttachmentTypeName s s2 _ _ _ _ _ hn)
            (Context.keepsBinding_modifyWriteFBO s2 s1 _ h)
      · rw [if_neg hs] at h
        rw [← Option.some.inj h]
        exact ⟨rfl, rfl⟩

theorem Context.keepsBinding_FramebufferTexture2D (env : Env) (s s1 : Context)
    (target attachment textarget : GLenum) (texture : GLuint) (level : GLint)
    (h : s.FramebufferTexture2D env target attachment textarget texture level = some s1) :
    s.keepsBinding s1 := by
  unfold Context.FramebufferTexture2D at h
  split at h
  · rw [← Option.some.inj h]
    exact ⟨rfl, rfl⟩
  · split at h
    · rw [← Option.some.inj h]
      exact ⟨rfl, rfl⟩
    · split at h
      · rw [← Option.some.inj h]
        exact ⟨rfl, rfl⟩
      · split at h
        · rw [← Option.some.inj h]
          exact ⟨rfl, rfl⟩
        · split at h
          · rw [← Option.some.inj h]
            exact ⟨rfl, rfl⟩
          · split at h
            · simp at h
            · split at h
              · simp at h
              · simp only at h
                split at h
                · rw [← Option.some.inj h]
                  exact ⟨rfl, rfl⟩
                · split at h
                  · rw [← Option.some.inj h]
                    exact ⟨rfl, rfl⟩
                  · split at h
                    · simp at h
                    · rename_i s2 hfin
                      have k1 := Context.keepsBinding_finishIfAttachmentChanges env _ s2 _ _ _ hfin
                      have k2 := Context.keepsBinding_FramebufferTexture2D_attach env s2 s1 _ _ _
                        _ h
                      exact ⟨k2.1.trans k1.1, k2.2.trans k1.2⟩


theorem Context.lookup_result (env : Env) (s s0 : Context) (target : GLenum) (id : GLuint)
    (p : FboPtr) (h : Context.BindFramebuffer.lookup env s target id = some (p, s0)) :
    p = fboOf id ∧ s.keepsBinding s0 := by
  unfold Context.BindFramebuffer.lookup at h
  unfold fboOf
  by_cases h0 : id ≠ 0
  · rw [if_pos h0] at h
    rw [if_neg h0]
    cases hget : s.mResourceManager.mFramebuffers.GetObject env.newFramebuffer id with
    | mk q arr =>
      rw [hget] at h
      cases q with
      | none => simp at h
      | some i =>
        obtain ⟨hi, _, _⟩ := ObjectArray.GetObject_some _ _ _ _ _ hget
        subst hi
        simp only at h
        split at h
        · simp at h
        · split at h
          · simp only [Option.some.injEq, Prod.mk.injEq] at h
            exact ⟨h.1.symm, by rw [← h.2]; exact ⟨rfl, rfl⟩⟩
          · simp only [Option.some.injEq, Prod.mk.injEq] at h
            exact ⟨h.1.symm, by rw [← h.2]; exact ⟨rfl, rfl⟩⟩
  · rw [if_neg h0] at h
    rw [if_pos (not_not.mp h0)]
    simp only [Option.some.injEq, Prod.mk.injEq] at h
    exact ⟨h.1.symm, by rw [← h.2]; exact ⟨rfl, rfl⟩⟩

theorem Context.switch_result (env : Env) (s s1 : Context) (fbo : FboPtr) (id : GLuint)
    (h : Context.BindFramebuffer.switch env s fbo id = some s1) :
    s1.mWriteFBO = fbo ∧ s1.GetActiveObjectsState.mActiveFramebufferObjectID = id := by
  cases hf : s.framebufferAt fbo with
  | none =>
    unfold Context.BindFramebuffer.switch at h
    have h1 : (Context.framebufferAt (({ s with mWriteFBO := fbo } : Context).log
        (Event.SetWriteFBO fbo)) fbo) = s.framebufferAt fbo := by
      cases fbo <;> rfl
    simp only [h1, hf] at h
    exact absurd h (by simp)
  | some f =>
    obtain ⟨s2, hsw, hw, _, hact, _⟩ := Context.switch_framebuffer env s fbo id f hf
    rw [hsw] at h
    rw [← Option.some.inj h]
    exact ⟨hw, hact⟩

theorem Context.bindingConsistent_of_bound (s : Context) (id : GLuint)
    (hw : s.mWriteFBO = fboOf id)
    (hact : s.GetActiveObjectsState.mActiveFramebufferObjectID = id) : s.bindingConsistent := by
  unfold Context.bindingConsistent
  rw [hact, hw]
  unfold fboOf
  by_cases h0 : id = 0
  · rw [if_pos h0]
    exact ⟨⟨fun _ => rfl, fun _ => h0⟩, fun h => absurd h0 h⟩
  · rw [if_neg h0]
    exact ⟨⟨fun h => absurd h h0, fun h => absurd h (by simp)⟩, fun _ => rfl⟩

theorem Context.BindFramebuffer_consistent (env : Env) (s s1 : Context) (target : GLenum)
    (id : GLuint) (hinv : s.bindingConsistent)
    (h : s.BindFramebuffer env target id = some s1) : s1.bindingConsistent := by
  unfold Context.BindFramebuffer at h
  split at h
  · rw [← Option.some.inj h]
    exact Context.keepsBinding_consistent s _ ⟨rfl, rfl⟩ hinv
  · split at h
    · simp at h
    · rename_i fbo s0 hlook
      obtain ⟨hp, hk⟩ := Context.lookup_result env s s0 target id fbo hlook
      split at h
      · rw [← Option.some.inj h]
        exact Context.keepsBinding_consistent s s0 hk hinv
      · split at h
        · simp at h
        · obtain ⟨hw, hact⟩ := Context.switch_result env _ s1 fbo id h
          exact Context.bindingConsistent_of_bound s1 id (hw.trans hp) hact

theorem Context.DeleteFramebuffers_consistent (env : Env) (s s1 : Context) (n : Int)
    (framebuffers : Option (List GLuint)) (hinv : s.bindingConsistent)
    (h : s.DeleteFramebuffers env n framebuffers = some s1) : s1.bindingConsistent := by
  unfold Context.DeleteFramebuffers at h
  split at h
  · rw [← Option.some.inj h]
    exact Context.keepsBinding_consistent s _ ⟨rfl, rfl⟩ hinv
  · split at h
    · rw [← Option.some.inj h]
      exact hinv
    · rename_i ids
      split at h
      · simp at h
      · obtain ⟨s2, hrun, _, hyes, hno⟩ :=
          Context.DeleteFramebuffers_loop_spec env (ids.take n.toNat) s
        rw [hrun] at h
        rw [← Option.some.inj h]
        by_cases hnamed : s.writeFramebufferNamedIn (ids.take n.toNat)
        · obtain ⟨hw, _, hact, _, _⟩ := hyes hnamed
          exact Context.bindingConsistent_of_bound s2 0 hw hact
        · obtain ⟨hw, _, hst, _⟩ := hno hnamed
          exact Context.keepsBinding_consistent s s2 ⟨hw, hst⟩ hinv

theorem Context.CheckFramebufferStatus_consistent (env : Env) (s s1 : Context)
    (target status : GLenum) (hinv : s.bindingConsistent)
    (h : s.CheckFramebufferStatus env target = some (s1, status)) : s1.bindingConsistent := by
  unfold Context.CheckFramebufferStatus at h
  split at h
  · simp only [Option.some.injEq, Prod.mk.injEq] at h
    rw [← h.1]
    exact Context.keepsBinding_consistent s _ ⟨rfl, rfl⟩ hinv
  · split at h
    · simp only [Option.some.injEq, Prod.mk.injEq] at h
      rw [← h.1]
      exact hinv
    · split at h
      · simp at h
      · split at h
        · simp at h
        · simp only [Option.some.injEq, Prod.mk.injEq] at h
          rw [← h.1]
          exact Context.keepsBinding_consistent s _ ⟨rfl, rfl⟩ hinv

theorem Context.GetFramebufferAttachmentParameteriv_keeps (env : Env) (s s1 : Context)
    (target attachment pname : GLenum) (r : Option GLint)
    (h : s.GetFramebufferAttachmentParameteriv env target attachment pname = some (s1, r)) :
    s.keepsBinding s1 := by
  unfold Context.GetFramebufferAttachmentParameteriv at h
  split at h
  · simp only [Option.some.injEq, Prod.mk.injEq] at h
    rw [← h.1]
    exact ⟨rfl, rfl⟩
  · split at h
    · simp only [Option.some.injEq, Prod.mk.injEq] at h
      rw [← h.1]
      exact ⟨rfl, rfl⟩
    · split at h
      · simp at h
      · split at h
        · simp at h
        · simp only at h
          split at h
          · simp only [Option.some.injEq, Prod.mk.injEq] at h
            rw [← h.1]
            exact ⟨rfl, rfl⟩
          · repeat' split at h
            all_goals
              simp only [Option.some.injEq, Prod.mk.injEq] at h
              rw [← h.1]
              exact ⟨rfl, rfl⟩


/-- C27: in a context where the active framebuffer object id names the write
framebuffer (the id is 0 exactly when the write framebuffer is the system
framebuffer, a non-zero id resolves to the write framebuffer), the same holds
in the context every call of `BindFramebuffer`, `DeleteFramebuffers`,
`FramebufferRenderbuffer`, `FramebufferTexture2D`, `CheckFramebufferStatus` and
`GetFramebufferAttachmentParameteriv` returns with, whatever the arguments: on
the error paths, on the early return of `BindFramebuffer` and on the paths
that rebind. -/
theorem framebuffer_operations_keep_binding (env : Env) (s s1 : Context)
    (hinv : s.bindingConsistent) :
    (∀ (target : GLenum) (framebuffer : GLuint),
      s.BindFramebuffer env target framebuffer = some s1 → s1.bindingConsistent) ∧
    (∀ (n : Int) (framebuffers : Option (List GLuint)),
      s.DeleteFramebuffers env n framebuffers = some s1 → s1.bindingConsistent) ∧
    (∀ (target attachment renderbuffertarget : GLenum) (renderbuffer : GLuint),
      s.FramebufferRenderbuffer env target attachment renderbuffertarget renderbuffer = some s1 →
        s1.bindingConsistent) ∧
    (∀ (target attachment textarget : GLenum) (texture : GLuint) (level : GLint),
      s.FramebufferTexture2D env target attachment textarget texture level = some s1 →
        s1.bindingConsistent) ∧
    (∀ (target status : GLenum),
      s.CheckFramebufferStatus env target = some (s1, status) → s1.bindingConsistent) ∧
    (∀ (target attachment pname : GLenum) (r : Option GLint),
      s.GetFramebufferAttachmentParameteriv env target attachment pname = some (s1, r) →
        s1.bindingConsistent) :=
  ⟨fun target framebuffer h => Context.BindFramebuffer_consistent env s s1 target framebuffer hinv h,
   fun n framebuffers h => Context.DeleteFramebuffers_consistent env s s1 n framebuffers hinv h,
   fun _ _ _ _ h => Context.keepsBinding_consistent s s1
     (Context.keepsBinding_FramebufferRenderbuffer env s s1 _ _ _ _ h) hinv,
   fun _ _ _ _ _ h => Context.keepsBinding_consistent s s1
     (Context.keepsBinding_FramebufferTexture2D env s s1 _ _ _ _ _ h) hinv,
   fun target status h => Context.CheckFramebufferStatus_consistent env s s1 target status hinv h,
   fun _ _ _ r h => Context.keepsBinding_consistent s s1
     (Context.GetFramebufferAttachmentParameteriv_keeps env s s1 _ _ _ r h) hinv⟩

/-- C27 (witness): framebuffer 2 exists and the system framebuffer is bound;
`BindFramebuffer(GL_FRAMEBUFFER, 2)` returns with framebuffer 2 as the write
framebuffer and 2 as the active id. -/
theorem framebuffer_operations_keep_binding_witness :
    ∃ s1, contextWithFramebuffer2.BindFramebuffer envCreate GL_FRAMEBUFFER 2 = some s1 ∧
      s1.GetActiveObjectsState.mActiveFramebufferObjectID = 2 ∧ s1.mWriteFBO = .user 2 ∧
      s1.bindingConsistent :=
  ⟨_, rfl, rfl, rfl,
    (framebuffer_operations_keep_binding envCreate contextWithFramebuffer2 _
      ⟨by decide, fun h => absurd rfl h⟩).1 GL_FRAMEBUFFER 2 rfl⟩


/-! ## `MVKVectorImpl`: insertion and removal -/

namespace MVKVectorImpl

variable {α : Type}

theorem Holds_iff (v : MVKVectorImpl α) (es : List α) :
    v.Holds es ↔ v.num_elements_used = es.length ∧
      ∀ j, j < es.length → v.ptr[j]? = some (es[j]?) := by
  unfold Holds
  constructor
  · rintro ⟨h1, h2⟩
    refine ⟨h1, fun j hj => ?_⟩
    have h3 : (v.ptr.take es.length)[j]? = (es.map some)[j]? := by rw [h2]
    rw [List.getElem?_take_of_lt hj, List.getElem?_map] at h3
    rw [h3, List.getElem?_eq_getElem hj]
    rfl
  · rintro ⟨h1, h2⟩
    refine ⟨h1, List.ext_getElem? fun j => ?_⟩
    by_cases hj : j < es.length
    · rw [List.getElem?_take_of_lt hj, List.getElem?_map, h2 j hj, List.getElem?_eq_getElem hj]
      rfl
    · rw [List.getElem?_eq_none (by rw [List.length_take]; omega),
        List.getElem?_eq_none (by rw [List.length_map]; omega)]

theorem Holds_length_le (v : MVKVectorImpl α) (es : List α) (h : v.Holds es) :
    es.length ≤ v.ptr.length := by
  have h2 := congrArg List.length h.2
  rw [List.length_take, List.length_map] at h2
  omega

theorem getElem?_inserted (es : List α) (t : α) (p j : Nat) (hp : p ≤ es.length) :
    (es.take p ++ t :: es.drop p)[j]? =
      if j < p then es[j]? else if j = p then some t else es[j - 1]? := by
  have hl : (es.take p).length = p := by rw [List.length_take]; omega
  by_cases h1 : j < p
  · rw [if_pos h1, List.getElem?_append_left (by omega), List.getElem?_take_of_lt h1]
  · rw [if_neg h1, List.getElem?_append_right (by omega), hl]
    by_cases h2 : j = p
    · rw [if_pos h2, h2, Nat.sub_self, List.getElem?_cons_zero]
    · rw [if_neg h2]
      obtain ⟨k, hk⟩ : ∃ k, j - p = k + 1 := ⟨j - p - 1, by omega⟩
      rw [hk, List.getElem?_cons_succ, List.getElem?_drop]
      congr 1
      omega

theorem growIfFull_spec (sizeofType : Nat) (v : MVKVectorImpl α) (es : List α)
    (h : v.Holds es) (hcap : v.capacity < 2 ^ 62) :
    (v.growIfFull sizeofType).Holds es ∧ es.length < (v.growIfFull sizeofType).capacity ∧
      v.capacity ≤ (v.growIfFull sizeofType).capacity ∧
      (v.num_elements_used = v.capacity → v.capacity < (v.growIfFull sizeofType).capacity) := by
  have hle := Holds_length_le v es h
  unfold growIfFull
  by_cases hfull : v.num_elements_used = v.capacity
  · rw [if_pos hfull]
    have hn : v.capacity < v.vector_GetNextCapacity sizeofType := by
      unfold vector_GetNextCapacity
      have hm : 64 / sizeofType ≤ 64 := Nat.div_le_self _ _
      generalize 64 / sizeofType = m at hm
      generalize v.capacity = c at hcap
      have h3 : (3 * c) % 2 ^ 64 = 3 * c := Nat.mod_eq_of_lt (by omega)
      rw [h3]
      have h4 : ∀ k, k ≤ 64 → (k + 3 * c / 2) % 2 ^ 64 = k + 3 * c / 2 :=
        fun k hk => Nat.mod_eq_of_lt (by omega)
      split
      · rw [h4 m hm]; omega
      · rw [h4 4 (by omega)]; omega
    have hc : (v.vector_ReAllocate (v.vector_GetNextCapacity sizeofType)).capacity =
        v.vector_GetNextCapacity sizeofType := by
      unfold vector_ReAllocate capacity
      simp only [List.length_append, List.length_take, List.length_replicate]
      unfold capacity at hfull hn
      omega
    rw [hc]
    refine ⟨⟨h.1, ?_⟩, ?_, le_of_lt hn, fun _ => hn⟩
    · unfold vector_ReAllocate
      simp only
      rw [h.1, List.take_append_of_le_length (by rw [List.length_take]; omega),
        List.take_take, Nat.min_self]
      exact h.2
    · have := h.1
      omega
  · rw [if_neg hfull]
    refine ⟨h, ?_, le_refl _, fun hh => absurd hh hfull⟩
    unfold capacity at *
    have := h.1
    omega

theorem get_of_slot (v : MVKVectorImpl α) (i : Nat) (x : α) (h : v.ptr[i]? = some (some x)) :
    v.get i = some x := by
  unfold get
  rw [h]
  rfl

theorem Reads_copyFrom : Reads (copyFrom : MVKVectorImpl α → Nat → Option (α × MVKVectorImpl α)) := by
  intro v i x h
  refine ⟨v, ?_, rfl, rfl, fun _ _ => rfl⟩
  unfold copyFrom
  rw [get_of_slot v i x h]

theorem Reads_moveFrom (movedFrom : α → α) : Reads (moveFrom movedFrom) := by
  intro v i x h
  refine ⟨{ v with ptr := v.ptr.set i (some (movedFrom x)) }, ?_, rfl, ?_, fun j hj => ?_⟩
  · unfold moveFrom
    rw [get_of_slot v i x h]
  · simp only [List.length_set]
  · simp only
    rw [List.getElem?_set_ne (Ne.symm hj)]

theorem put_spec (v : MVKVectorImpl α) (i : Nat) (x : α) (h : i < v.ptr.length) :
    ∃ v1, v.put i x = some v1 ∧ v1.num_elements_used = v.num_elements_used ∧
      v1.ptr.length = v.ptr.length ∧ v1.ptr[i]? = some (some x) ∧
      ∀ j, j ≠ i → v1.ptr[j]? = v.ptr[j]? := by
  refine ⟨{ v with ptr := v.ptr.set i (some x) }, ?_, rfl, ?_, ?_, fun j hj => ?_⟩
  · unfold put
    rw [if_pos h]
  · simp only [List.length_set]
  · simp only
    rw [List.getElem?_set_self h]
  · simp only
    rw [List.getElem?_set_ne (Ne.symm hj)]

theorem insert_shift_spec (rd : MVKVectorImpl α → Nat → Option (α × MVKVectorImpl α))
    (hrd : Reads rd) (p : Nat) :
    ∀ (i : Nat) (v : MVKVectorImpl α), i < v.ptr.length →
      (∀ j, p ≤ j → j < i → ∃ x, v.ptr[j]? = some (some x)) →
      ∃ v1, insert.shift rd p i v = some v1 ∧ v1.num_elements_used = v.num_elements_used ∧
        v1.ptr.length = v.ptr.length ∧
        ∀ j, j ≠ p → v1.ptr[j]? = if p < j ∧ j ≤ i then v.ptr[j - 1]? else v.ptr[j]? := by
  intro i
  induction i with
  | zero =>
    intro v _ _
    refine ⟨v, rfl, rfl, rfl, fun j _ => ?_⟩
    rw [if_neg (by omega)]
  | succ i ih =>
    intro v hlen hsrc
    unfold insert.shift
    by_cases hp : i + 1 > p
    · rw [if_pos hp]
      obtain ⟨x, hx⟩ := hsrc i (by omega) (by omega)
      obtain ⟨va, ha, han, hal, haj⟩ := hrd v i x hx
      obtain ⟨vb, hb, hbn, hbl, hbi, hbj⟩ := put_spec va (i + 1) x (by omega)
      rw [ha]
      simp only
      rw [hb]
      simp only
      obtain ⟨v1, h1, h1n, h1l, h1j⟩ := ih vb (by omega) (fun j hj1 hj2 => by
        rw [hbj j (by omega), haj j (by omega)]
        exact hsrc j hj1 (by omega))
      refine ⟨v1, h1, by omega, by omega, fun j hj => ?_⟩
      rw [h1j j hj]
      by_cases c1 : p < j ∧ j ≤ i
      · rw [if_pos c1, if_pos (by omega), hbj _ (by omega), haj _ (by omega)]
      · rw [if_neg c1]
        by_cases c2 : j = i + 1
        · rw [if_pos (by omega), c2, hbi, Nat.add_sub_cancel, hx]
        · rw [if_neg (by omega), hbj _ c2, haj _ (by omega)]
    · rw [if_neg hp]
      refine ⟨v, rfl, rfl, rfl, fun j _ => ?_⟩
      rw [if_neg (by omega)]

theorem erase_shift_spec (rd : MVKVectorImpl α → Nat → Option (α × MVKVectorImpl α))
    (hrd : Reads rd) :
    ∀ (count i : Nat) (v : MVKVectorImpl α), i + count < v.ptr.length →
      (∀ j, i < j → j ≤ i + count → ∃ x, v.ptr[j]? = some (some x)) →
      ∃ v1, erase.shift rd count i v = some v1 ∧ v1.num_elements_used = v.num_elements_used ∧
        v1.ptr.length = v.ptr.length ∧
        ∀ j, j ≠ i + count →
          v1.ptr[j]? = if i ≤ j ∧ j < i + count then v.ptr[j + 1]? else v.ptr[j]? := by
  intro count
  induction count with
  | zero =>
    intro i v _ _
    refine ⟨v, rfl, rfl, rfl, fun j _ => ?_⟩
    rw [if_neg (by omega)]
  | succ count ih =>
    intro i v hlen hsrc
    unfold erase.shift
    obtain ⟨x, hx⟩ := hsrc (i + 1) (by omega) (by omega)
    obtain ⟨va, ha, han, hal, haj⟩ := hrd v (i + 1) x hx
    obtain ⟨vb, hb, hbn, hbl, hbi, hbj⟩ := put_spec va i x (by omega)
    rw [ha]
    simp only
    rw [hb]
    simp only
    obtain ⟨v1, h1, h1n, h1l, h1j⟩ := ih (i + 1) vb (by omega) (fun j hj1 hj2 => by
      rw [hbj j (by omega), haj j (by omega)]
      exact hsrc j (by omega) (by omega))
    refine ⟨v1, h1, by omega, by omega, fun j hj => ?_⟩
    rw [h1j j (by omega)]
    by_cases c1 : i + 1 ≤ j ∧ j < i + 1 + count
    · rw [if_pos c1, if_pos (by omega), hbj _ (by omega), haj _ (by omega)]
    · rw [if_neg c1]
      by_cases c2 : j = i
      · rw [if_pos (by omega), c2, hbi, hx]
      · rw [if_neg (by omega), hbj _ c2, haj _ (by omega)]

theorem eraseIdx_inserted (es : List α) (t : α) (p : Nat) (hp : p ≤ es.length) :
    (es.take p ++ t :: es.drop p).eraseIdx p = es := by
  refine List.ext_getElem? fun j => ?_
  rw [List.getElem?_eraseIdx]
  by_cases h1 : j < p
  · rw [if_pos h1, getElem?_inserted es t p j hp, if_pos h1]
  · rw [if_neg h1, getElem?_inserted es t p (j + 1) hp, if_neg (by omega), if_neg (by omega),
      Nat.add_sub_cancel]

theorem length_inserted (es : List α) (t : α) (p : Nat) (hp : p ≤ es.length) :
    (es.take p ++ t :: es.drop p).length = es.length + 1 := by
  rw [List.length_append, List.length_cons, List.length_take, List.length_drop]
  omega

theorem insert_core (rd : MVKVectorImpl α → Nat → Option (α × MVKVectorImpl α))
    (hrd : Reads rd) (v : MVKVectorImpl α) (es : List α) (t : α) (p : Nat)
    (h : v.Holds es) (hcap : es.length < v.ptr.length) (hp : p < es.length) :
    ∃ v3 v4, insert.shift rd p es.length v = some v3 ∧ v3.put p t = some v4 ∧
      v4.ptr.length = v.ptr.length ∧
      Holds { v4 with num_elements_used := v4.num_elements_used + 1 }
        (es.take p ++ t :: es.drop p) := by
  obtain ⟨hn, hs⟩ := (Holds_iff v es).1 h
  obtain ⟨v3, h3, h3n, h3l, h3j⟩ := insert_shift_spec rd hrd p es.length v hcap
    (fun j _ hj => by
      rw [hs j hj, List.getElem?_eq_getElem hj]
      exact ⟨_, rfl⟩)
  obtain ⟨v4, h4, h4n, h4l, h4i, h4j⟩ := put_spec v3 p t (by omega)
  refine ⟨v3, v4, h3, h4, by omega, (Holds_iff _ _).2 ⟨?_, fun j hj => ?_⟩⟩
  · rw [length_inserted es t p (le_of_lt hp)]
    simp only
    omega
  · rw [length_inserted es t p (le_of_lt hp)] at hj
    rw [getElem?_inserted es t p j (le_of_lt hp)]
    simp only
    by_cases c1 : j < p
    · rw [if_pos c1, h4j j (by omega), h3j j (by omega), if_neg (by omega), hs j (by omega)]
    · rw [if_neg c1]
      by_cases c2 : j = p
      · rw [if_pos c2, c2, h4i]
      · rw [if_neg c2, h4j j c2, h3j j c2, if_pos (by omega), hs (j - 1) (by omega)]

theorem erase_core (rd : MVKVectorImpl α → Nat → Option (α × MVKVectorImpl α))
    (hrd : Reads rd) (v : MVKVectorImpl α) (es : List α) (p : Nat)
    (h : v.Holds es) (hp : p < es.length) :
    ∃ v2, erase.shift rd (v.num_elements_used - 1 - p) p
        { v with num_elements_used := v.num_elements_used - 1 } = some v2 ∧
      v2.num_elements_used = es.length - 1 ∧ v2.ptr.length = v.ptr.length ∧
      v2.Holds (es.eraseIdx p) := by
  obtain ⟨hn, hs⟩ := (Holds_iff v es).1 h
  have hle := Holds_length_le v es h
  obtain ⟨v2, h2, h2n, h2l, h2j⟩ := erase_shift_spec rd hrd (v.num_elements_used - 1 - p) p
    { v with num_elements_used := v.num_elements_used - 1 } (by simp only; omega)
    (fun j _ hj => by
      have hj2 : j < es.length := by omega
      simp only
      rw [hs j hj2, List.getElem?_eq_getElem hj2]
      exact ⟨_, rfl⟩)
  simp only at h2n h2l h2j
  have hel : (es.eraseIdx p).length = es.length - 1 := List.length_eraseIdx_of_lt hp
  refine ⟨v2, h2, by omega, h2l, (Holds_iff _ _).2 ⟨by omega, fun j hj => ?_⟩⟩
  rw [hel] at hj
  rw [h2j j (by omega), List.getElem?_eraseIdx]
  by_cases c1 : j < p
  · rw [if_neg (by omega), if_pos c1, hs j (by omega)]
  · rw [if_pos (by omega), if_neg c1, hs (j + 1) (by omega)]

theorem destruct_Holds (v : MVKVectorImpl α) (es : List α) (h : v.Holds es) :
    (v.destruct v.num_elements_used).Holds es := by
  obtain ⟨hn, hs⟩ := (Holds_iff v es).1 h
  refine (Holds_iff _ _).2 ⟨hn, fun j hj => ?_⟩
  unfold destruct
  simp only
  rw [List.getElem?_set_ne (by omega)]
  exact hs j hj

theorem push_back_spec (sizeofType : Nat) (v : MVKVectorImpl α) (es : List α) (t : α)
    (h : v.Holds es) (hcap : v.capacity < 2 ^ 62) :
    ∃ v1, v.push_back sizeofType t = some v1 ∧ v1.Holds (es ++ [t]) ∧
      v.capacity ≤ v1.capacity := by
  obtain ⟨hg, hgc, hgle, _⟩ := growIfFull_spec sizeofType v es h hcap
  obtain ⟨hn, hs⟩ := (Holds_iff _ es).1 hg
  unfold capacity at hgc hgle
  obtain ⟨v2, h2, h2n, h2l, h2i, h2j⟩ :=
    put_spec (v.growIfFull sizeofType) (v.growIfFull sizeofType).num_elements_used t (by omega)
  refine ⟨{ v2 with num_elements_used := v2.num_elements_used + 1 }, ?_,
    (Holds_iff _ _).2 ⟨?_, fun j hj => ?_⟩, ?_⟩
  · unfold push_back
    simp only
    rw [h2]
  · simp only [List.length_append, List.length_singleton]
    omega
  · simp only [List.length_append, List.length_singleton] at hj
    simp only
    by_cases c1 : j < es.length
    · rw [h2j j (by omega), hs j c1, List.getElem?_append_left c1]
    · have hj2 : j = es.length := by omega
      rw [hj2, List.getElem?_append_right (le_refl _), Nat.sub_self, ← hn, h2i]
      rfl
  · unfold capacity
    simp only
    omega

theorem is_valid_of_lt (v : MVKVectorImpl α) (es : List α) (p : Nat) (h : v.Holds es)
    (hp : p < es.length) : iterator.is_valid ⟨p⟩ v = true := by
  unfold iterator.is_valid size
  rw [h.1]
  exact decide_eq_true hp

theorem insertPointer_spec (sizeofType : Nat) (v : MVKVectorImpl α) (es : List α) (t : α)
    (p : Nat) (h : v.Holds es) (hcap : v.capacity < 2 ^ 62) (hp : p < es.length) :
    ∃ v1, v.insertPointer sizeofType ⟨p⟩ t = some v1 ∧
      v1.Holds (es.take p ++ t :: es.drop p) ∧ v.capacity ≤ v1.capacity ∧
      (v.num_elements_used = v.capacity → v.capacity < v1.capacity) := by
  obtain ⟨hg, hgc, hgle, hgfull⟩ := growIfFull_spec sizeofType v es h hcap
  simp only [capacity] at hgc hgle hgfull
  obtain ⟨v3, v4, h3, h4, h4l, hH⟩ :=
    insert_core copyFrom Reads_copyFrom (v.growIfFull sizeofType) es t p hg hgc hp
  refine ⟨_, ?_, hH, ?_, ?_⟩
  · unfold insertPointer
    rw [if_neg (by
      rw [is_valid_of_lt v es p h hp, h.1]
      intro hc
      rcases hc with hc | hc
      · exact Bool.noConfusion hc
      · omega)]
    simp only [iterator.get_position]
    rw [hg.1, h3]
    simp only
    rw [h4]
  · simp only [capacity]
    omega
  · simp only [capacity]
    intro hfull
    have := hgfull hfull
    omega

theorem insert_spec (sizeofType : Nat) (movedFrom : α → α) (v : MVKVectorImpl α) (es : List α)
    (t : α) (p : Nat) (h : v.Holds es) (hcap : v.capacity < 2 ^ 62) (hp : p < es.length) :
    ∃ v1, v.insert sizeofType movedFrom ⟨p⟩ t = some v1 ∧
      v1.Holds (es.take p ++ t :: es.drop p) ∧ v.capacity ≤ v1.capacity ∧
      (v.num_elements_used = v.capacity → v.capacity < v1.capacity) := by
  obtain ⟨hg, hgc, hgle, hgfull⟩ := growIfFull_spec sizeofType v es h hcap
  simp only [capacity] at hgc hgle hgfull
  obtain ⟨v3, v4, h3, h4, h4l, hH⟩ :=
    insert_core (moveFrom movedFrom) (Reads_moveFrom movedFrom) (v.growIfFull sizeofType) es t p
      hg hgc hp
  obtain ⟨m, hm⟩ : ∃ m, es.length = m + 1 := ⟨es.length - 1, by omega⟩
  obtain ⟨hn, hs⟩ := (Holds_iff _ es).1 hg
  obtain ⟨x, hx⟩ : ∃ x, (v.growIfFull sizeofType).ptr[m]? = some (some x) := by
    rw [hs m (by omega), List.getElem?_eq_getElem (by omega)]
    exact ⟨_, rfl⟩
  obtain ⟨va, ha, han, hal, _⟩ := Reads_moveFrom movedFrom (v.growIfFull sizeofType) m x hx
  obtain ⟨vb, hb, hbn, hbl, _, _⟩ := put_spec va (m + 1) x (by omega)
  rw [hm] at h3
  unfold insert.shift at h3
  rw [if_pos (by omega), ha] at h3
  simp only at h3
  rw [hb] at h3
  simp only at h3
  refine ⟨_, ?_, hH, ?_, ?_⟩
  · unfold insert
    rw [if_neg (by
      rw [is_valid_of_lt v es p h hp, h.1]
      intro hc
      rcases hc with hc | hc
      · exact Bool.noConfusion hc
      · omega)]
    simp only [iterator.get_position]
    rw [hn, hm, Nat.add_sub_cancel, ha]
    simp only
    rw [han, hn, hm, hb]
    simp only
    rw [hbn, han, hn, hm, Nat.add_sub_cancel, h3]
    simp only
    rw [h4]
  · simp only [capacity]
    omega
  · simp only [capacity]
    intro hfull
    have := hgfull hfull
    omega

theorem erasePointer_spec (v : MVKVectorImpl α) (es : List α) (p : Nat) (h : v.Holds es)
    (hp : p < es.length) :
    ∃ v2, v.erasePointer ⟨p⟩ = some v2 ∧ v2.Holds (es.eraseIdx p) := by
  obtain ⟨v2, h2, _, _, hH⟩ := erase_core copyFrom Reads_copyFrom v es p h hp
  refine ⟨v2, ?_, hH⟩
  unfold erasePointer
  rw [if_pos (is_valid_of_lt v es p h hp)]
  exact h2

theorem erase_spec (movedFrom : α → α) (v : MVKVectorImpl α) (es : List α) (p : Nat)
    (h : v.Holds es) (hp : p < es.length) :
    ∃ v2, v.erase movedFrom ⟨p⟩ = some v2 ∧ v2.Holds (es.eraseIdx p) := by
  obtain ⟨v2, h2, h2n, _, hH⟩ :=
    erase_core (moveFrom movedFrom) (Reads_moveFrom movedFrom) v es p h hp
  refine ⟨v2.destruct v2.num_elements_used, ?_, destruct_Holds v2 _ hH⟩
  unfold erase
  rw [if_pos (is_valid_of_lt v es p h hp)]
  simp only [iterator.get_position]
  rw [h2]

theorem insert_not_valid (sizeofType : Nat) (movedFrom : α → α) (v : MVKVectorImpl α)
    (es : List α) (t : α) (p : Nat) (h : v.Holds es) (hp : es.length ≤ p ∨ es = []) :
    v.insert sizeofType movedFrom ⟨p⟩ t = v.push_back sizeofType t ∧
      v.insertPointer sizeofType ⟨p⟩ t = v.push_back sizeofType t := by
  have hc : iterator.is_valid ⟨p⟩ v = false ∨ v.num_elements_used = 0 := by
    rcases hp with hp | hp
    · left
      unfold iterator.is_valid size
      rw [h.1]
      exact decide_eq_false (by simp only; omega)
    · right
      rw [h.1, hp]
      rfl
  constructor
  · unfold insert
    rw [if_pos hc]
  · unfold insertPointer
    rw [if_pos hc]

end MVKVectorImpl


/-- Claim C30: for a vector that holds the elements `es` and an iterator at a
position `p < es.length`, `insert(it, t)` returns and leaves the vector holding
`es.take p ++ t :: es.drop p` (`t` before position `p`, every element kept, in
order), with a capacity that did not shrink and that grew when the vector was
full, and `erase` at `p` afterwards returns and leaves it holding `es` again;
for `p` at or past the size, or an empty vector, `insert(it, t)` is
`push_back(t)`, which appends `t`. All of it for the generic implementation,
whatever state a move leaves its source in, and for the pointer specialisation;
the capacity is one that fits an address space (`< 2 ^ 62` elements). -/
theorem MVKVector_insert_places_element_and_erase_restores {α : Type} (sizeofType : Nat)
    (movedFrom : α → α) (v : MVKVectorImpl α) (es : List α) (t : α) (p : Nat)
    (hv : v.Holds es) (hcap : v.capacity < 2 ^ 62) :
    (p < es.length →
      (∃ v1 v2, v.insert sizeofType movedFrom ⟨p⟩ t = some v1 ∧
        v1.Holds (es.take p ++ t :: es.drop p) ∧ v.capacity ≤ v1.capacity ∧
        (v.size = v.capacity → v.capacity < v1.capacity) ∧
        v1.erase movedFrom ⟨p⟩ = some v2 ∧ v2.Holds es) ∧
      (∃ v1 v2, v.insertPointer sizeofType ⟨p⟩ t = some v1 ∧
        v1.Holds (es.take p ++ t :: es.drop p) ∧ v.capacity ≤ v1.capacity ∧
        (v.size = v.capacity → v.capacity < v1.capacity) ∧
        v1.erasePointer ⟨p⟩ = some v2 ∧ v2.Holds es)) ∧
    (es.length ≤ p ∨ es = [] →
      v.insert sizeofType movedFrom ⟨p⟩ t = v.push_back sizeofType t ∧
      v.insertPointer sizeofType ⟨p⟩ t = v.push_back sizeofType t ∧
      ∃ v1, v.push_back sizeofType t = some v1 ∧ v1.Holds (es ++ [t])) := by
  refine ⟨fun hp => ⟨?_, ?_⟩, fun hp => ?_⟩
  · obtain ⟨v1, h1, hH, hc1, hc2⟩ :=
      MVKVectorImpl.insert_spec sizeofType movedFrom v es t p hv hcap hp
    obtain ⟨v2, h2, hH2⟩ := MVKVectorImpl.erase_spec movedFrom v1 _ p hH (by
      rw [MVKVectorImpl.length_inserted es t p (le_of_lt hp)]
      omega)
    rw [MVKVectorImpl.eraseIdx_inserted es t p (le_of_lt hp)] at hH2
    exact ⟨v1, v2, h1, hH, hc1, hc2, h2, hH2⟩
  · obtain ⟨v1, h1, hH, hc1, hc2⟩ :=
      MVKVectorImpl.insertPointer_spec sizeofType v es t p hv hcap hp
    obtain ⟨v2, h2, hH2⟩ := MVKVectorImpl.erasePointer_spec v1 _ p hH (by
      rw [MVKVectorImpl.length_inserted es t p (le_of_lt hp)]
      omega)
    rw [MVKVectorImpl.eraseIdx_inserted es t p (le_of_lt hp)] at hH2
    exact ⟨v1, v2, h1, hH, hc1, hc2, h2, hH2⟩
  · obtain ⟨h1, h2⟩ := MVKVectorImpl.insert_not_valid sizeofType movedFrom v es t p hv hp
    obtain ⟨v1, h3, hH, _⟩ := MVKVectorImpl.push_back_spec sizeofType v es t hv hcap
    exact ⟨h1, h2, v1, h3, hH⟩

/-- Claim C30, at an input: the full vector `1, 2, 3` of four-byte elements,
`9` inserted at position 1 by the generic implementation, whose moves leave
`0` behind: the vector then holds `1, 9, 2, 3` in a larger storage, and `erase`
at position 1 restores `1, 2, 3`. -/
theorem MVKVector_insert_places_element_and_erase_restores_witness :
    vectorThree.Holds [1, 2, 3] ∧ vectorThree.capacity < 2 ^ 62 ∧ 1 < [1, 2, 3].length ∧
      ∃ v1 v2, vectorThree.insert 4 (fun _ => 0) ⟨1⟩ 9 = some v1 ∧
        v1.Holds [1, 9, 2, 3] ∧ vectorThree.capacity ≤ v1.capacity ∧
        (vectorThree.size = vectorThree.capacity → vectorThree.capacity < v1.capacity) ∧
        v1.erase (fun _ => 0) ⟨1⟩ = some v2 ∧ v2.Holds [1, 2, 3] :=
  ⟨⟨rfl, rfl⟩, by decide, by decide,
    ((MVKVector_insert_places_element_and_erase_restores 4 (fun _ => 0) vectorThree [1, 2, 3] 9 1
      ⟨rfl, rfl⟩ (by decide)).1 (by decide)).1⟩

end GLOVE
